import Mathlib

/-!
# SU2 EDU: turbulence edge operators and primitive-variable reconstruction

A shallow embedding of `src/numerics_direct_turbulent.cpp` and
`src/variable_direct_mean.cpp`.

* C++ `double` is modelled by an arbitrary linearly ordered field `α` (exact
  arithmetic; instantiate with `ℚ` to compute, with `ℝ` for the reals).
* A C++ array `double*` is a total map `Nat → α`, a `double**` a map
  `Nat → Nat → α`; distinct buffers do not alias.
* A member function is a function from the object (all its data members,
  scratch members included) and the output buffers to the updated object and
  buffers.  A counted `for` loop is `forLoop`.
* Rounding, overflow, infinities and NaN are not modelled, and `x/0 = 0` as in
  any Lean field; statements that matter for a division say which branch runs.
-/

namespace SU2

universe u

/-! ## Buffers and loops -/

/-- The store `a[i] = v` into a one-dimensional buffer. -/
def setAt {α : Type} (a : Nat → α) (i : Nat) (v : α) : Nat → α :=
  fun k => if k = i then v else a k

/-- The store `m[i][j] = v` into a two-dimensional buffer. -/
def setAt2 {α : Type} (m : Nat → Nat → α) (i j : Nat) (v : α) : Nat → Nat → α :=
  fun r c => if r = i ∧ c = j then v else m r c

/-- The loop `for (k = 0; k < n; k++) body`, as a state transformer. -/
def forLoop {σ : Type u} : Nat → (Nat → σ → σ) → σ → σ
  | 0, _, s => s
  | n + 1, body, s => body n (forLoop n body s)

/-- The running sum `0 + f 0 + f 1 + ... + f (n-1)`, in loop order. -/
def sumTo {α : Type} [Zero α] [Add α] (n : Nat) (f : Nat → α) : α :=
  forLoop n (fun k acc => acc + f k) 0

/-- A buffer holding the entries of a list, zero beyond its end. -/
def vec {α : Type} [Zero α] (l : List α) : Nat → α :=
  fun i => l.getD i 0

/-- A two-dimensional buffer holding the rows of a list of lists. -/
def mat {α : Type} [Zero α] (l : List (List α)) : Nat → Nat → α :=
  fun i j => (l.getD i []).getD j 0

/-! ## The numerics object (`CNumerics` and the members of its subclasses) -/

/-- Data members of the numerics classes that the caller sets: configuration
fixed by the constructor and the edge inputs set before `ComputeResidual`. -/
structure CNumericsInputs (α : Type) [LinearOrderedField α] where
  nDim : Nat := 2
  nVar : Nat := 1
  implicit : Bool := false
  grid_movement : Bool := false
  sigma : α := 0
  sigma_k1 : α := 0
  sigma_k2 : α := 0
  sigma_om1 : α := 0
  sigma_om2 : α := 0
  V_i : Nat → α := fun _ => 0
  V_j : Nat → α := fun _ => 0
  GridVel_i : Nat → α := fun _ => 0
  GridVel_j : Nat → α := fun _ => 0
  Normal : Nat → α := fun _ => 0
  Coord_i : Nat → α := fun _ => 0
  Coord_j : Nat → α := fun _ => 0
  TurbVar_i : Nat → α := fun _ => 0
  TurbVar_j : Nat → α := fun _ => 0
  TurbVar_Grad_i : Nat → Nat → α := fun _ _ => 0
  TurbVar_Grad_j : Nat → Nat → α := fun _ _ => 0
  F1_i : α := 0
  F1_j : α := 0

/-- A turbulence numerics object: the inputs, and the scratch members that the
residual routines of the edge operators write while they run. -/
structure CNumerics (α : Type) [LinearOrderedField α] extends CNumericsInputs α where
  q_ij : α := 0
  a0 : α := 0
  a1 : α := 0
  Velocity_i : Nat → α := fun _ => 0
  Velocity_j : Nat → α := fun _ => 0
  Density_i : α := 0
  Density_j : α := 0
  Laminar_Viscosity_i : α := 0
  Laminar_Viscosity_j : α := 0
  Eddy_Viscosity_i : α := 0
  Eddy_Viscosity_j : α := 0
  nu_i : α := 0
  nu_j : α := 0
  nu_e : α := 0
  diff_kine : α := 0
  diff_omega : α := 0
  dist_ij_2 : α := 0
  proj_vector_ij : α := 0
  Edge_Vector : Nat → α := fun _ => 0
  Mean_GradTurbVar : Nat → Nat → α := fun _ _ => 0
  Proj_Mean_GradTurbVar_Kappa : Nat → α := fun _ => 0
  Proj_Mean_GradTurbVar_Normal : Nat → α := fun _ => 0
  Proj_Mean_GradTurbVar_Edge : Nat → α := fun _ => 0
  Proj_Mean_GradTurbVar_Corrected : Nat → α := fun _ => 0

/-- The output buffers handed to `ComputeResidual` by the caller. -/
@[ext]
structure Buffers (α : Type) [LinearOrderedField α] where
  val_residual : Nat → α := fun _ => 0
  val_Jacobian_i : Nat → Nat → α := fun _ _ => 0
  val_Jacobian_j : Nat → Nat → α := fun _ _ => 0

variable {α : Type} [LinearOrderedField α]

/-! ## Convective operators -/

/-- Body of the velocity loop of the convective operators, moving grid. -/
def upwBodyGrid (iDim : Nat) (self : CNumerics α) : CNumerics α :=
  let self := { self with
    Velocity_i := setAt self.Velocity_i iDim (self.V_i (iDim+1) - self.GridVel_i iDim) }
  let self := { self with
    Velocity_j := setAt self.Velocity_j iDim (self.V_j (iDim+1) - self.GridVel_j iDim) }
  { self with
    q_ij := self.q_ij + 0.5*(self.Velocity_i iDim + self.Velocity_j iDim)*self.Normal iDim }

/-- Body of the velocity loop of the convective operators, fixed grid. -/
def upwBodyFixed (iDim : Nat) (self : CNumerics α) : CNumerics α :=
  let self := { self with Velocity_i := setAt self.Velocity_i iDim (self.V_i (iDim+1)) }
  let self := { self with Velocity_j := setAt self.Velocity_j iDim (self.V_j (iDim+1)) }
  { self with
    q_ij := self.q_ij + 0.5*(self.Velocity_i iDim + self.Velocity_j iDim)*self.Normal iDim }

/-- `CUpwSca_TurbSA::ComputeResidual`. -/
def CUpwSca_TurbSA.ComputeResidual (self : CNumerics α) (out : Buffers α) :
    CNumerics α × Buffers α :=
  let self := { self with q_ij := 0.0 }
  let self :=
    if self.grid_movement then forLoop self.nDim upwBodyGrid self
    else forLoop self.nDim upwBodyFixed self
  let self := { self with a0 := 0.5*(self.q_ij + abs self.q_ij) }
  let self := { self with a1 := 0.5*(self.q_ij - abs self.q_ij) }
  let out := { out with
    val_residual := setAt out.val_residual 0
      (self.a0*self.TurbVar_i 0 + self.a1*self.TurbVar_j 0) }
  let out :=
    if self.implicit then
      let out := { out with val_Jacobian_i := setAt2 out.val_Jacobian_i 0 0 self.a0 }
      { out with val_Jacobian_j := setAt2 out.val_Jacobian_j 0 0 self.a1 }
    else out
  (self, out)

/-- `CUpwSca_TurbSST::ComputeResidual`. -/
def CUpwSca_TurbSST.ComputeResidual (self : CNumerics α) (out : Buffers α) :
    CNumerics α × Buffers α :=
  let self := { self with Density_i := self.V_i (self.nDim+2) }
  let self := { self with Density_j := self.V_j (self.nDim+2) }
  let self := { self with q_ij := 0.0 }
  let self :=
    if self.grid_movement then forLoop self.nDim upwBodyGrid self
    else forLoop self.nDim upwBodyFixed self
  let self := { self with a0 := 0.5*(self.q_ij + abs self.q_ij) }
  let self := { self with a1 := 0.5*(self.q_ij - abs self.q_ij) }
  let out := { out with
    val_residual := setAt out.val_residual 0
      (self.a0*self.Density_i*self.TurbVar_i 0 + self.a1*self.Density_j*self.TurbVar_j 0) }
  let out := { out with
    val_residual := setAt out.val_residual 1
      (self.a0*self.Density_i*self.TurbVar_i 1 + self.a1*self.Density_j*self.TurbVar_j 1) }
  let out :=
    if self.implicit then
      let out := { out with val_Jacobian_i := setAt2 out.val_Jacobian_i 0 0 self.a0 }
      let out := { out with val_Jacobian_i := setAt2 out.val_Jacobian_i 0 1 0.0 }
      let out := { out with val_Jacobian_i := setAt2 out.val_Jacobian_i 1 0 0.0 }
      let out := { out with val_Jacobian_i := setAt2 out.val_Jacobian_i 1 1 self.a0 }
      let out := { out with val_Jacobian_j := setAt2 out.val_Jacobian_j 0 0 self.a1 }
      let out := { out with val_Jacobian_j := setAt2 out.val_Jacobian_j 0 1 0.0 }
      let out := { out with val_Jacobian_j := setAt2 out.val_Jacobian_j 1 0 0.0 }
      { out with val_Jacobian_j := setAt2 out.val_Jacobian_j 1 1 self.a1 }
    else out
  (self, out)

/-! ## Viscous operators -/

/-- Body of the edge-vector loop shared by the four viscous operators. -/
def edgeBody (iDim : Nat) (self : CNumerics α) : CNumerics α :=
  let self := { self with
    Edge_Vector := setAt self.Edge_Vector iDim (self.Coord_j iDim - self.Coord_i iDim) }
  let self := { self with
    dist_ij_2 := self.dist_ij_2 + self.Edge_Vector iDim*self.Edge_Vector iDim }
  { self with proj_vector_ij := self.proj_vector_ij + self.Edge_Vector iDim*self.Normal iDim }

/-- The statements from `dist_ij_2 = 0; proj_vector_ij = 0;` to the guarded
division by the squared edge length, identical in the four viscous operators. -/
def edgeProjection (self : CNumerics α) : CNumerics α :=
  let self := { self with dist_ij_2 := 0 }
  let self := { self with proj_vector_ij := 0 }
  let self := forLoop self.nDim edgeBody self
  if self.dist_ij_2 = 0.0 then { self with proj_vector_ij := 0.0 }
  else { self with proj_vector_ij := self.proj_vector_ij/self.dist_ij_2 }

/-- The six loads of endpoint primitives (density, laminar and eddy viscosity)
that open each of the four viscous operators. -/
def loadPrimitives (self : CNumerics α) : CNumerics α :=
  let self := { self with Density_i := self.V_i (self.nDim+2) }
  let self := { self with Density_j := self.V_j (self.nDim+2) }
  let self := { self with Laminar_Viscosity_i := self.V_i (self.nDim+5) }
  let self := { self with Laminar_Viscosity_j := self.V_j (self.nDim+5) }
  let self := { self with Eddy_Viscosity_i := self.V_i (self.nDim+6) }
  { self with Eddy_Viscosity_j := self.V_j (self.nDim+6) }

/-- The mean effective viscosity of both one-equation viscous operators. -/
def meanViscositySA (self : CNumerics α) : CNumerics α :=
  let self := loadPrimitives self
  let self := { self with nu_i := self.Laminar_Viscosity_i/self.Density_i }
  let self := { self with nu_j := self.Laminar_Viscosity_j/self.Density_j }
  { self with nu_e := 0.5*(self.nu_i + self.nu_j + self.TurbVar_i 0 + self.TurbVar_j 0) }

/-- Inner (`iDim`) loop body of the mean-gradient loop of `CAvgGrad_TurbSA`. -/
def avgGradSA_inner (iVar iDim : Nat) (self : CNumerics α) : CNumerics α :=
  let self := { self with
    Mean_GradTurbVar := setAt2 self.Mean_GradTurbVar iVar iDim
      (0.5*(self.TurbVar_Grad_i iVar iDim + self.TurbVar_Grad_j iVar iDim)) }
  { self with
    Proj_Mean_GradTurbVar_Kappa := setAt self.Proj_Mean_GradTurbVar_Kappa iVar
      (self.Proj_Mean_GradTurbVar_Kappa iVar + self.Mean_GradTurbVar iVar iDim*self.Normal iDim) }

/-- Outer (`iVar`) loop body of the mean-gradient loop of `CAvgGrad_TurbSA`. -/
def avgGradSA_outer (iVar : Nat) (self : CNumerics α) : CNumerics α :=
  let self := { self with
    Proj_Mean_GradTurbVar_Kappa := setAt self.Proj_Mean_GradTurbVar_Kappa iVar 0.0 }
  let self := { self with
    Proj_Mean_GradTurbVar_Edge := setAt self.Proj_Mean_GradTurbVar_Edge iVar 0.0 }
  forLoop self.nDim (avgGradSA_inner iVar) self

/-- `CAvgGrad_TurbSA::ComputeResidual`. -/
def CAvgGrad_TurbSA.ComputeResidual (self : CNumerics α) (out : Buffers α) :
    CNumerics α × Buffers α :=
  let self := meanViscositySA self
  let self := edgeProjection self
  let self := forLoop self.nVar avgGradSA_outer self
  let out := { out with
    val_residual := setAt out.val_residual 0
      (self.nu_e*self.Proj_Mean_GradTurbVar_Kappa 0/self.sigma) }
  let out :=
    if self.implicit then
      let out := { out with
        val_Jacobian_i := setAt2 out.val_Jacobian_i 0 0
          ((0.5*self.Proj_Mean_GradTurbVar_Kappa 0 - self.nu_e*self.proj_vector_ij)/self.sigma) }
      { out with
        val_Jacobian_j := setAt2 out.val_Jacobian_j 0 0
          ((0.5*self.Proj_Mean_GradTurbVar_Kappa 0 + self.nu_e*self.proj_vector_ij)/self.sigma) }
    else out
  (self, out)

/-- Inner loop body of the mean-gradient loop of `CAvgGradCorrected_TurbSA`. -/
def avgGradCorrSA_inner (iVar iDim : Nat) (self : CNumerics α) : CNumerics α :=
  let self := { self with
    Mean_GradTurbVar := setAt2 self.Mean_GradTurbVar iVar iDim
      (0.5*(self.TurbVar_Grad_i iVar iDim + self.TurbVar_Grad_j iVar iDim)) }
  let self := { self with
    Proj_Mean_GradTurbVar_Kappa := setAt self.Proj_Mean_GradTurbVar_Kappa iVar
      (self.Proj_Mean_GradTurbVar_Kappa iVar + self.Mean_GradTurbVar iVar iDim*self.Normal iDim) }
  { self with
    Proj_Mean_GradTurbVar_Edge := setAt self.Proj_Mean_GradTurbVar_Edge iVar
      (self.Proj_Mean_GradTurbVar_Edge iVar
        + self.Mean_GradTurbVar iVar iDim*self.Edge_Vector iDim) }

/-- Outer loop body of the mean-gradient loop of `CAvgGradCorrected_TurbSA`. -/
def avgGradCorrSA_outer (iVar : Nat) (self : CNumerics α) : CNumerics α :=
  let self := { self with
    Proj_Mean_GradTurbVar_Kappa := setAt self.Proj_Mean_GradTurbVar_Kappa iVar 0.0 }
  let self := { self with
    Proj_Mean_GradTurbVar_Edge := setAt self.Proj_Mean_GradTurbVar_Edge iVar 0.0 }
  let self := forLoop self.nDim (avgGradCorrSA_inner iVar) self
  let self := { self with
    Proj_Mean_GradTurbVar_Corrected := setAt self.Proj_Mean_GradTurbVar_Corrected iVar
      (self.Proj_Mean_GradTurbVar_Kappa iVar) }
  { self with
    Proj_Mean_GradTurbVar_Corrected := setAt self.Proj_Mean_GradTurbVar_Corrected iVar
      (self.Proj_Mean_GradTurbVar_Corrected iVar
        - (self.Proj_Mean_GradTurbVar_Edge iVar*self.proj_vector_ij
            - (self.TurbVar_j iVar - self.TurbVar_i iVar)*self.proj_vector_ij)) }

/-- `CAvgGradCorrected_TurbSA::ComputeResidual`. -/
def CAvgGradCorrected_TurbSA.ComputeResidual (self : CNumerics α) (out : Buffers α) :
    CNumerics α × Buffers α :=
  let self := meanViscositySA self
  let self := edgeProjection self
  let self := forLoop self.nVar avgGradCorrSA_outer self
  let out := { out with
    val_residual := setAt out.val_residual 0
      (self.nu_e*self.Proj_Mean_GradTurbVar_Corrected 0/self.sigma) }
  let out :=
    if self.implicit then
      let out := { out with
        val_Jacobian_i := setAt2 out.val_Jacobian_i 0 0
          ((0.5*self.Proj_Mean_GradTurbVar_Corrected 0 - self.nu_e*self.proj_vector_ij)
            /self.sigma) }
      { out with
        val_Jacobian_j := setAt2 out.val_Jacobian_j 0 0
          ((0.5*self.Proj_Mean_GradTurbVar_Corrected 0 + self.nu_e*self.proj_vector_ij)
            /self.sigma) }
    else out
  (self, out)

/-- The statements opening both two-equation viscous operators: endpoint
primitives, blended constants (locals of the routine) and mean diffusivities. -/
def meanViscositySST (self : CNumerics α) : CNumerics α :=
  let self := loadPrimitives self
  let sigma_kine_i := self.F1_i*self.sigma_k1 + (1.0 - self.F1_i)*self.sigma_k2
  let sigma_kine_j := self.F1_j*self.sigma_k1 + (1.0 - self.F1_j)*self.sigma_k2
  let sigma_omega_i := self.F1_i*self.sigma_om1 + (1.0 - self.F1_i)*self.sigma_om2
  let sigma_omega_j := self.F1_j*self.sigma_om1 + (1.0 - self.F1_j)*self.sigma_om2
  let diff_i_kine := self.Laminar_Viscosity_i + sigma_kine_i*self.Eddy_Viscosity_i
  let diff_j_kine := self.Laminar_Viscosity_j + sigma_kine_j*self.Eddy_Viscosity_j
  let diff_i_omega := self.Laminar_Viscosity_i + sigma_omega_i*self.Eddy_Viscosity_i
  let diff_j_omega := self.Laminar_Viscosity_j + sigma_omega_j*self.Eddy_Viscosity_j
  let self := { self with diff_kine := 0.5*(diff_i_kine + diff_j_kine) }
  { self with diff_omega := 0.5*(diff_i_omega + diff_j_omega) }

/-- The residual and Jacobian stores closing both two-equation viscous
operators (the same statements in each). -/
def storeSST (self : CNumerics α) (out : Buffers α) : Buffers α :=
  let out := { out with
    val_residual := setAt out.val_residual 0
      (self.diff_kine*self.Proj_Mean_GradTurbVar_Corrected 0) }
  let out := { out with
    val_residual := setAt out.val_residual 1
      (self.diff_omega*self.Proj_Mean_GradTurbVar_Corrected 1) }
  if self.implicit then
    let out := { out with
      val_Jacobian_i := setAt2 out.val_Jacobian_i 0 0
        (-self.diff_kine*self.proj_vector_ij/self.Density_i) }
    let out := { out with val_Jacobian_i := setAt2 out.val_Jacobian_i 0 1 0.0 }
    let out := { out with val_Jacobian_i := setAt2 out.val_Jacobian_i 1 0 0.0 }
    let out := { out with
      val_Jacobian_i := setAt2 out.val_Jacobian_i 1 1
        (-self.diff_omega*self.proj_vector_ij/self.Density_i) }
    let out := { out with
      val_Jacobian_j := setAt2 out.val_Jacobian_j 0 0
        (self.diff_kine*self.proj_vector_ij/self.Density_j) }
    let out := { out with val_Jacobian_j := setAt2 out.val_Jacobian_j 0 1 0.0 }
    let out := { out with val_Jacobian_j := setAt2 out.val_Jacobian_j 1 0 0.0 }
    { out with
      val_Jacobian_j := setAt2 out.val_Jacobian_j 1 1
        (self.diff_omega*self.proj_vector_ij/self.Density_j) }
  else out

/-- Inner loop body of the mean-gradient loop of `CAvgGrad_TurbSST`. -/
def avgGradSST_inner (iVar iDim : Nat) (self : CNumerics α) : CNumerics α :=
  let self := { self with
    Mean_GradTurbVar := setAt2 self.Mean_GradTurbVar iVar iDim
      (0.5*(self.TurbVar_Grad_i iVar iDim + self.TurbVar_Grad_j iVar iDim)) }
  { self with
    Proj_Mean_GradTurbVar_Normal := setAt self.Proj_Mean_GradTurbVar_Normal iVar
      (self.Proj_Mean_GradTurbVar_Normal iVar
        + self.Mean_GradTurbVar iVar iDim*self.Normal iDim) }

/-- Outer loop body of the mean-gradient loop of `CAvgGrad_TurbSST`. -/
def avgGradSST_outer (iVar : Nat) (self : CNumerics α) : CNumerics α :=
  let self := { self with
    Proj_Mean_GradTurbVar_Normal := setAt self.Proj_Mean_GradTurbVar_Normal iVar 0.0 }
  let self := { self with
    Proj_Mean_GradTurbVar_Edge := setAt self.Proj_Mean_GradTurbVar_Edge iVar 0.0 }
  let self := forLoop self.nDim (avgGradSST_inner iVar) self
  { self with
    Proj_Mean_GradTurbVar_Corrected := setAt self.Proj_Mean_GradTurbVar_Corrected iVar
      (self.Proj_Mean_GradTurbVar_Normal iVar) }

/-- `CAvgGrad_TurbSST::ComputeResidual`. -/
def CAvgGrad_TurbSST.ComputeResidual (self : CNumerics α) (out : Buffers α) :
    CNumerics α × Buffers α :=
  let self := meanViscositySST self
  let self := edgeProjection self
  let self := forLoop self.nVar avgGradSST_outer self
  (self, storeSST self out)

/-- Inner loop body of the mean-gradient loop of `CAvgGradCorrected_TurbSST`. -/
def avgGradCorrSST_inner (iVar iDim : Nat) (self : CNumerics α) : CNumerics α :=
  let self := { self with
    Mean_GradTurbVar := setAt2 self.Mean_GradTurbVar iVar iDim
      (0.5*(self.TurbVar_Grad_i iVar iDim + self.TurbVar_Grad_j iVar iDim)) }
  let self := { self with
    Proj_Mean_GradTurbVar_Normal := setAt self.Proj_Mean_GradTurbVar_Normal iVar
      (self.Proj_Mean_GradTurbVar_Normal iVar
        + self.Mean_GradTurbVar iVar iDim*self.Normal iDim) }
  { self with
    Proj_Mean_GradTurbVar_Edge := setAt self.Proj_Mean_GradTurbVar_Edge iVar
      (self.Proj_Mean_GradTurbVar_Edge iVar
        + self.Mean_GradTurbVar iVar iDim*self.Edge_Vector iDim) }

/-- Outer loop body of the mean-gradient loop of `CAvgGradCorrected_TurbSST`. -/
def avgGradCorrSST_outer (iVar : Nat) (self : CNumerics α) : CNumerics α :=
  let self := { self with
    Proj_Mean_GradTurbVar_Normal := setAt self.Proj_Mean_GradTurbVar_Normal iVar 0.0 }
  let self := { self with
    Proj_Mean_GradTurbVar_Edge := setAt self.Proj_Mean_GradTurbVar_Edge iVar 0.0 }
  let self := forLoop self.nDim (avgGradCorrSST_inner iVar) self
  let self := { self with
    Proj_Mean_GradTurbVar_Corrected := setAt self.Proj_Mean_GradTurbVar_Corrected iVar
      (self.Proj_Mean_GradTurbVar_Normal iVar) }
  { self with
    Proj_Mean_GradTurbVar_Corrected := setAt self.Proj_Mean_GradTurbVar_Corrected iVar
      (self.Proj_Mean_GradTurbVar_Corrected iVar
        - (self.Proj_Mean_GradTurbVar_Edge iVar*self.proj_vector_ij
            - (self.TurbVar_j iVar - self.TurbVar_i iVar)*self.proj_vector_ij)) }

/-- `CAvgGradCorrected_TurbSST::ComputeResidual`. -/
def CAvgGradCorrected_TurbSST.ComputeResidual (self : CNumerics α) (out : Buffers α) :
    CNumerics α × Buffers α :=
  let self := meanViscositySST self
  let self := edgeProjection self
  let self := forLoop self.nVar avgGradCorrSST_outer self
  (self, storeSST self out)

/-! ## Flow variables (`CEulerVariable`, `CNSVariable`) -/

/-- Flow regimes tested by the constructors (`config->GetKind_Regime()`); the
enumeration itself is declared in a header outside the sources. -/
inductive Regime where
  | COMPRESSIBLE
  | INCOMPRESSIBLE
  | FREESURFACE
  deriving DecidableEq, Repr

/-- Time-marching modes tested by the constructors
(`config->GetUnsteady_Simulation()`).  The sources name `DT_STEPPING_1ST`,
`DT_STEPPING_2ND` and `TIME_SPECTRAL`; `STEADY` and `TIME_STEPPING` stand for the
other values of the enumeration, which is declared outside the sources. -/
inductive Unsteady where
  | STEADY
  | TIME_STEPPING
  | DT_STEPPING_1ST
  | DT_STEPPING_2ND
  | TIME_SPECTRAL
  deriving DecidableEq, Repr

/-- The part of `CConfig` read by the flow variables.  `LaminarViscosityLaw` is
the temperature-dependent viscosity law applied by `SetLaminarViscosity`. -/
structure CConfig (α : Type) [LinearOrderedField α] where
  Kind_Regime : Regime := Regime.COMPRESSIBLE
  Unsteady_Simulation : Unsteady := Unsteady.STEADY
  Gas_ConstantND : α := 1
  Gamma : α := 1
  Pressure_FreeStreamND : α := 0
  Density_FreeStreamND : α := 0
  Temperature_Ref : α := 0
  Viscosity_Ref : α := 0
  Viscosity_FreeStreamND : α := 0
  Prandtl_Lam : α := 0
  Prandtl_Turb : α := 0
  LaminarViscosityLaw : α → α := fun _ => 0

/-- The conservative state of a point and its companions: sizes, the solution,
its previous iterates, and the residual, limiter and extrema buffers. -/
structure CVariableBase (α : Type) [LinearOrderedField α] where
  nDim : Nat := 2
  nVar : Nat := 4
  Solution : Nat → α := fun _ => 0
  Solution_Old : Nat → α := fun _ => 0
  Solution_time_n : Nat → α := fun _ => 0
  Solution_time_n1 : Nat → α := fun _ => 0
  Res_TruncError : Nat → α := fun _ => 0
  Limiter : Nat → α := fun _ => 0
  Solution_Max : Nat → α := fun _ => 0
  Solution_Min : Nat → α := fun _ => 0

/-- A flow point (`CEulerVariable`, `CNSVariable`): the conservative state and the
primitive state derived from it. -/
structure CVariable (α : Type) [LinearOrderedField α] extends CVariableBase α where
  nPrimVar : Nat := 0
  nPrimVarGrad : Nat := 0
  Limiter_Primitive : Nat → α := fun _ => 0
  TS_Source : Nat → α := fun _ => 0
  Primitive : Nat → α := fun _ => 0
  Gradient_Primitive : Nat → Nat → α := fun _ _ => 0
  Velocity2 : α := 0
  Vorticity : Nat → α := fun _ => 0
  StrainMag : α := 0
  Temperature_Ref : α := 0
  Viscosity_Ref : α := 0
  Viscosity_Inf : α := 0
  Prandtl_Lam : α := 0
  Prandtl_Turb : α := 0

/-- The constructors' choice of `nPrimVar` and `nPrimVarGrad` by regime. -/
def setPrimVarSizes (self : CVariable α) (config : CConfig α) : CVariable α :=
  let compressible := decide (config.Kind_Regime = Regime.COMPRESSIBLE)
  let incompressible := decide (config.Kind_Regime = Regime.INCOMPRESSIBLE)
  let freesurface := decide (config.Kind_Regime = Regime.FREESURFACE)
  let self :=
    if incompressible then
      { self with nPrimVar := self.nDim+5, nPrimVarGrad := self.nDim+3 } else self
  let self :=
    if freesurface then
      { self with nPrimVar := self.nDim+7, nPrimVarGrad := self.nDim+6 } else self
  if compressible then
    { self with nPrimVar := self.nDim+7, nPrimVarGrad := self.nDim+4 } else self

/-- The zero-filling loops for `Res_TruncError`, `Limiter_Primitive`, `Limiter`,
`Solution_Max` and `Solution_Min`, the same in both value constructors. -/
def zeroLimiters (self : CVariable α) : CVariable α :=
  let self := forLoop self.nVar (fun iVar (self : CVariable α) =>
    { self with Res_TruncError := setAt self.Res_TruncError iVar 0.0 }) self
  let self := forLoop self.nPrimVarGrad (fun iVar (self : CVariable α) =>
    { self with Limiter_Primitive := setAt self.Limiter_Primitive iVar 0.0 }) self
  let self := forLoop self.nVar (fun iVar (self : CVariable α) =>
    { self with Limiter := setAt self.Limiter iVar 0.0 }) self
  forLoop self.nPrimVarGrad (fun iVar (self : CVariable α) =>
    let self := { self with Solution_Max := setAt self.Solution_Max iVar 0.0 }
    { self with Solution_Min := setAt self.Solution_Min iVar 0.0 }) self

/-- The closing statements of both value constructors: the time-spectral
source, then `Primitive` and `Gradient_Primitive` allocated and zero-filled. -/
def zeroPrimitives (self : CVariable α) (config : CConfig α) : CVariable α :=
  let self :=
    if config.Unsteady_Simulation = Unsteady.TIME_SPECTRAL then
      forLoop self.nVar (fun iVar (self : CVariable α) =>
        { self with TS_Source := setAt self.TS_Source iVar 0.0 }) self
    else self
  let self := forLoop self.nPrimVar (fun iVar (self : CVariable α) =>
    { self with Primitive := setAt self.Primitive iVar 0.0 }) self
  forLoop self.nPrimVarGrad (fun iVar (self : CVariable α) =>
    forLoop self.nDim (fun iDim (self : CVariable α) =>
      { self with Gradient_Primitive := setAt2 self.Gradient_Primitive iVar iDim 0.0 }) self)
    self

/-- The `if (compressible)` block that initialises `Solution` and
`Solution_Old` in the first value constructor. -/
def initSolutionCompressible (self : CVariable α) (val_density : α)
    (val_velocity : Nat → α) (val_energy : α) : CVariable α :=
  let self := { self with Solution := setAt self.Solution 0 val_density }
  let self := { self with Solution_Old := setAt self.Solution_Old 0 val_density }
  let self := forLoop self.nDim (fun iDim (self : CVariable α) =>
    let self := { self with
      Solution := setAt self.Solution (iDim+1) (val_density*val_velocity iDim) }
    { self with
      Solution_Old := setAt self.Solution_Old (iDim+1) (val_density*val_velocity iDim) })
    self
  let self := { self with
    Solution := setAt self.Solution (self.nVar-1) (val_density*val_energy) }
  { self with
    Solution_Old := setAt self.Solution_Old (self.nVar-1) (val_density*val_energy) }

/-- The `if (incompressible || freesurface)` block that initialises `Solution`
and `Solution_Old` in the first value constructor. -/
def initSolutionIncompressible (self : CVariable α) (val_velocity : Nat → α)
    (config : CConfig α) : CVariable α :=
  let self := { self with Solution := setAt self.Solution 0 config.Pressure_FreeStreamND }
  let self := { self with
    Solution_Old := setAt self.Solution_Old 0 config.Pressure_FreeStreamND }
  forLoop self.nDim (fun iDim (self : CVariable α) =>
    let self := { self with
      Solution := setAt self.Solution (iDim+1)
        (val_velocity iDim*config.Density_FreeStreamND) }
    { self with
      Solution_Old := setAt self.Solution_Old (iDim+1)
        (val_velocity iDim*config.Density_FreeStreamND) }) self

/-- The `if (compressible)` block of the dual-time initialisation in the first
value constructor. -/
def initDualTimeCompressible (self : CVariable α) (val_density : α)
    (val_velocity : Nat → α) (val_energy : α) : CVariable α :=
  let self := { self with Solution_time_n := setAt self.Solution_time_n 0 val_density }
  let self := { self with Solution_time_n1 := setAt self.Solution_time_n1 0 val_density }
  let self := forLoop self.nDim (fun iDim (self : CVariable α) =>
    let self := { self with
      Solution_time_n := setAt self.Solution_time_n (iDim+1)
        (val_density*val_velocity iDim) }
    { self with
      Solution_time_n1 := setAt self.Solution_time_n1 (iDim+1)
        (val_density*val_velocity iDim) }) self
  let self := { self with
    Solution_time_n := setAt self.Solution_time_n (self.nVar-1) (val_density*val_energy) }
  { self with
    Solution_time_n1 := setAt self.Solution_time_n1 (self.nVar-1) (val_density*val_energy) }

/-- The `if (incompressible || freesurface)` block of the dual-time
initialisation in the first value constructor. -/
def initDualTimeIncompressible (self : CVariable α) (val_velocity : Nat → α)
    (config : CConfig α) : CVariable α :=
  let self := { self with
    Solution_time_n := setAt self.Solution_time_n 0 config.Pressure_FreeStreamND }
  let self := { self with
    Solution_time_n1 := setAt self.Solution_time_n1 0 config.Pressure_FreeStreamND }
  forLoop self.nDim (fun iDim (self : CVariable α) =>
    let self := { self with
      Solution_time_n := setAt self.Solution_time_n (iDim+1)
        (val_velocity iDim*config.Density_FreeStreamND) }
    { self with
      Solution_time_n1 := setAt self.Solution_time_n1 (iDim+1)
        (val_velocity iDim*config.Density_FreeStreamND) }) self

/-- `CEulerVariable::CEulerVariable(val_density, val_velocity, val_energy,
val_nDim, val_nvar, config)`.  `self` is the object as the base-class
constructor allocated it; `nDim` and `nVar` are set as that constructor does.
Allocations without initialisation are not modelled. -/
def CEulerVariable.CEulerVariable_values (self : CVariable α) (val_density : α)
    (val_velocity : Nat → α) (val_energy : α) (val_nDim val_nvar : Nat)
    (config : CConfig α) : CVariable α :=
  let self := { self with nDim := val_nDim, nVar := val_nvar }
  let compressible := decide (config.Kind_Regime = Regime.COMPRESSIBLE)
  let incompressible := decide (config.Kind_Regime = Regime.INCOMPRESSIBLE)
  let freesurface := decide (config.Kind_Regime = Regime.FREESURFACE)
  let dual_time := decide (config.Unsteady_Simulation = Unsteady.DT_STEPPING_1ST)
    || decide (config.Unsteady_Simulation = Unsteady.DT_STEPPING_2ND)
  let self := setPrimVarSizes self config
  let self := zeroLimiters self
  let self :=
    if compressible then initSolutionCompressible self val_density val_velocity val_energy
    else self
  let self :=
    if incompressible || freesurface then initSolutionIncompressible self val_velocity config
    else self
  let self :=
    if dual_time then
      let self :=
        if compressible then
          initDualTimeCompressible self val_density val_velocity val_energy
        else self
      if incompressible || freesurface then
        initDualTimeIncompressible self val_velocity config
      else self
    else self
  zeroPrimitives self config

/-- `CEulerVariable::CEulerVariable(val_solution, val_nDim, val_nvar, config)`. -/
def CEulerVariable.CEulerVariable_solution (self : CVariable α) (val_solution : Nat → α)
    (val_nDim val_nvar : Nat) (config : CConfig α) : CVariable α :=
  let self := { self with nDim := val_nDim, nVar := val_nvar }
  let dual_time := decide (config.Unsteady_Simulation = Unsteady.DT_STEPPING_1ST)
    || decide (config.Unsteady_Simulation = Unsteady.DT_STEPPING_2ND)
  let self := setPrimVarSizes self config
  let self := zeroLimiters self
  let self := forLoop self.nVar (fun iVar (self : CVariable α) =>
    let self := { self with Solution := setAt self.Solution iVar (val_solution iVar) }
    { self with Solution_Old := setAt self.Solution_Old iVar (val_solution iVar) }) self
  let self :=
    if dual_time then
      forLoop self.nVar (fun iVar (self : CVariable α) =>
        let self := { self with
          Solution_time_n := setAt self.Solution_time_n iVar (val_solution iVar) }
        { self with
          Solution_time_n1 := setAt self.Solution_time_n1 iVar (val_solution iVar) }) self
    else self
  zeroPrimitives self config

/-- `CEulerVariable::SetGradient_PrimitiveZero`. -/
def CEulerVariable.SetGradient_PrimitiveZero (self : CVariable α) (val_primvar : Nat) :
    CVariable α :=
  forLoop val_primvar (fun iVar (self : CVariable α) =>
    forLoop self.nDim (fun iDim (self : CVariable α) =>
      { self with Gradient_Primitive := setAt2 self.Gradient_Primitive iVar iDim 0.0 }) self)
    self

/-- `CEulerVariable::GetProjVel`. -/
def CEulerVariable.GetProjVel (self : CVariable α) (val_vector : Nat → α) : α :=
  forLoop self.nDim (fun iDim ProjVel => ProjVel + self.Primitive (iDim+1)*val_vector iDim) 0.0

/-! ### Inline helpers of `variable_structure.hpp`

The header is not part of the sources at hand; the helpers below follow the
reconstruction steps (1)-(5) of the specification, on the primitive layout
`(T, vx, vy, vz, P, rho, h, c, mu_lam, mu_eddy)` that the constructor comment and
the numerics classes use. -/

/-- Modelled from the spec: `CEulerVariable::SetVelocity` (inline, in the missing
header).  Step (1): "compute velocity and velocity² from `Solution`". -/
def CEulerVariable.SetVelocity (self : CVariable α) : CVariable α :=
  let self := { self with Velocity2 := 0.0 }
  forLoop self.nDim (fun iDim (self : CVariable α) =>
    let self := { self with
      Primitive := setAt self.Primitive (iDim+1) (self.Solution (iDim+1)/self.Solution 0) }
    { self with
      Velocity2 := self.Velocity2 + self.Primitive (iDim+1)*self.Primitive (iDim+1) }) self

/-- Modelled from the spec: `CEulerVariable::SetDensity` (inline, in the missing
header).  Step (2): "derive density — signals invalid if non-positive". -/
def CEulerVariable.SetDensity (self : CVariable α) : CVariable α × Bool :=
  let self := { self with Primitive := setAt self.Primitive (self.nDim+2) (self.Solution 0) }
  if self.Primitive (self.nDim+2) > 0.0 then (self, false) else (self, true)

/-- Modelled from the spec: `CEulerVariable::SetPressure(Gamma)` (inline, in the
missing header).  Step (3): "derive pressure from the equation of state
(requires velocity²) — signals invalid if non-positive"; the equation of state
is the ideal gas with ratio of specific heats `Gamma`. -/
def CEulerVariable.SetPressure (self : CVariable α) (Gamma : α) : CVariable α × Bool :=
  let self := { self with
    Primitive := setAt self.Primitive (self.nDim+1)
      ((Gamma-1.0)*self.Solution 0
        *(self.Solution (self.nVar-1)/self.Solution 0 - 0.5*self.Velocity2)) }
  if self.Primitive (self.nDim+1) > 0.0 then (self, false) else (self, true)

/-- Modelled from the spec: `CNSVariable::SetPressure(Gamma, turb_ke)` (inline,
in the missing header).  Step (3) "for models with a turbulent kinetic energy
term, subtracts `⅔·ρ·k`". -/
def CNSVariable.SetPressure (self : CVariable α) (Gamma turb_ke : α) : CVariable α × Bool :=
  let self := { self with
    Primitive := setAt self.Primitive (self.nDim+1)
      ((Gamma-1.0)*self.Solution 0
          *(self.Solution (self.nVar-1)/self.Solution 0 - 0.5*self.Velocity2)
        - 2.0/3.0*self.Solution 0*turb_ke) }
  if self.Primitive (self.nDim+1) > 0.0 then (self, false) else (self, true)

/-- Modelled from the spec: `CEulerVariable::SetSoundSpeed` (inline, in the
missing header).  Step (4): "derive speed of sound from pressure and density —
signals invalid if the radicand is non-positive".  `sqrt` is the square root of
the C library. -/
def CEulerVariable.SetSoundSpeed (sqrt : α → α) (self : CVariable α) (Gamma : α) :
    CVariable α × Bool :=
  let radical := Gamma*self.Primitive (self.nDim+1)/self.Primitive (self.nDim+2)
  let self := { self with Primitive := setAt self.Primitive (self.nDim+4) (sqrt radical) }
  if radical > 0.0 then (self, false) else (self, true)

/-- Modelled from the spec: `CEulerVariable::SetTemperature` (inline, in the
missing header).  Step (5): "derive temperature from pressure and density via
the gas law — signals invalid if non-positive". -/
def CEulerVariable.SetTemperature (self : CVariable α) (Gas_Constant : α) :
    CVariable α × Bool :=
  let self := { self with
    Primitive := setAt self.Primitive 0
      (self.Primitive (self.nDim+1)/(Gas_Constant*self.Primitive (self.nDim+2))) }
  if self.Primitive 0 > 0.0 then (self, false) else (self, true)

/-- Modelled from the spec: `CEulerVariable::SetEnthalpy` (inline, in the missing
header).  "After validation, derived fields — enthalpy (always) ..." -/
def CEulerVariable.SetEnthalpy (self : CVariable α) : CVariable α :=
  { self with
    Primitive := setAt self.Primitive (self.nDim+3)
      ((self.Solution (self.nVar-1) + self.Primitive (self.nDim+1))/self.Solution 0) }

/-- Modelled from the spec: `CNSVariable::SetLaminarViscosity` (inline, in the
missing header).  "laminar viscosity (temperature-dependent law)". -/
def CNSVariable.SetLaminarViscosity (self : CVariable α) (config : CConfig α) : CVariable α :=
  { self with
    Primitive := setAt self.Primitive (self.nDim+5)
      (config.LaminarViscosityLaw (self.Primitive 0)) }

/-- Modelled from the spec: `CNSVariable::SetEddyViscosity` (inline, in the
missing header).  "eddy viscosity (set from the externally supplied turbulence
closure)". -/
def CNSVariable.SetEddyViscosity (self : CVariable α) (eddy_visc : α) : CVariable α :=
  { self with Primitive := setAt self.Primitive (self.nDim+6) eddy_visc }

/-- The result of the five statements
`SetVelocity(); check_dens = SetDensity(); check_press = SetPressure(Gamma);
check_sos = SetSoundSpeed(Gamma); check_temp = SetTemperature(Gas_Constant);`. -/
@[ext]
structure Checked (α : Type) [LinearOrderedField α] where
  self : CVariable α
  check_dens : Bool
  check_press : Bool
  check_sos : Bool
  check_temp : Bool

/-- The five statements that `CEulerVariable::SetPrimVar_Compressible` runs
before the realizability test and again after the rollback. -/
def CEulerVariable.primitivePass (sqrt : α → α) (self : CVariable α)
    (Gamma Gas_Constant : α) : Checked α :=
  let self := CEulerVariable.SetVelocity self
  let d := CEulerVariable.SetDensity self
  let p := CEulerVariable.SetPressure d.1 Gamma
  let c := CEulerVariable.SetSoundSpeed sqrt p.1 Gamma
  let t := CEulerVariable.SetTemperature c.1 Gas_Constant
  { self := t.1, check_dens := d.2, check_press := p.2, check_sos := c.2, check_temp := t.2 }

/-- The five statements that `CNSVariable::SetPrimVar_Compressible` runs before
the realizability test and again after the rollback. -/
def CNSVariable.primitivePass (sqrt : α → α) (self : CVariable α)
    (Gamma Gas_Constant turb_ke : α) : Checked α :=
  let self := CEulerVariable.SetVelocity self
  let d := CEulerVariable.SetDensity self
  let p := CNSVariable.SetPressure d.1 Gamma turb_ke
  let c := CEulerVariable.SetSoundSpeed sqrt p.1 Gamma
  let t := CEulerVariable.SetTemperature c.1 Gas_Constant
  { self := t.1, check_dens := d.2, check_press := p.2, check_sos := c.2, check_temp := t.2 }

/-- The rollback loop `for (iVar = 0; iVar < nVar; iVar++)
Solution[iVar] = Solution_Old[iVar];`. -/
def copyOldSolution (self : CVariable α) : CVariable α :=
  forLoop self.nVar (fun iVar (self : CVariable α) =>
    { self with Solution := setAt self.Solution iVar (self.Solution_Old iVar) }) self

/-- `CEulerVariable::SetPrimVar_Compressible`; the second component is the
returned `RightVol`. -/
def CEulerVariable.SetPrimVar_Compressible (sqrt : α → α) (self : CVariable α)
    (config : CConfig α) : CVariable α × Bool :=
  let Gas_Constant := config.Gas_ConstantND
  let Gamma := config.Gamma
  let r := CEulerVariable.primitivePass sqrt self Gamma Gas_Constant
  let st : CVariable α × Bool :=
    if r.check_dens || r.check_press || r.check_sos || r.check_temp then
      let self := copyOldSolution r.self
      let r := CEulerVariable.primitivePass sqrt self Gamma Gas_Constant
      (r.self, false)
    else (r.self, true)
  let self := CEulerVariable.SetEnthalpy st.1
  (self, st.2)

/-- `CNSVariable::SetPrimVar_Compressible`; the second component is the returned
`RightVol`. -/
def CNSVariable.SetPrimVar_Compressible (sqrt : α → α) (self : CVariable α)
    (eddy_visc turb_ke : α) (config : CConfig α) : CVariable α × Bool :=
  let Gas_Constant := config.Gas_ConstantND
  let Gamma := config.Gamma
  let r := CNSVariable.primitivePass sqrt self Gamma Gas_Constant turb_ke
  let st : CVariable α × Bool :=
    if r.check_dens || r.check_press || r.check_sos || r.check_temp then
      let self := copyOldSolution r.self
      let r := CNSVariable.primitivePass sqrt self Gamma Gas_Constant turb_ke
      (r.self, false)
    else (r.self, true)
  let self := CEulerVariable.SetEnthalpy st.1
  let self := CNSVariable.SetLaminarViscosity self config
  let self := CNSVariable.SetEddyViscosity self eddy_visc
  (self, st.2)

/-! ## Closed forms used in the statements -/

/-- Velocity of endpoint `i` relative to the grid, component `d`: the value the
convective operators store in `Velocity_i[d]`. -/
def relVelocity_i (self : CNumerics α) (d : Nat) : α :=
  if self.grid_movement then self.V_i (d+1) - self.GridVel_i d else self.V_i (d+1)

/-- Velocity of endpoint `j` relative to the grid, component `d`. -/
def relVelocity_j (self : CNumerics α) (d : Nat) : α :=
  if self.grid_movement then self.V_j (d+1) - self.GridVel_j d else self.V_j (d+1)

/-- The edge flux speed `q = ½(u_i+u_j)·n`. -/
def fluxSpeed (self : CNumerics α) : α :=
  ∑ d in Finset.range self.nDim, (relVelocity_i self d + relVelocity_j self d)/2*self.Normal d

/-- The dot product `Σ_{d<n} f d * g d` of two `n`-vectors. -/
def dot (n : Nat) (f g : Nat → α) : α :=
  ∑ d in Finset.range n, f d*g d

/-- The quotient `num/len2`, defined as 0 when `len2 = 0`. -/
def projOf (len2 num : α) : α :=
  if len2 = 0 then 0 else num/len2

/-- The edge vector `Coord_j − Coord_i`. -/
def edgeVector (self : CNumerics α) : Nat → α :=
  fun d => self.Coord_j d - self.Coord_i d

/-- The squared edge length `|EdgeVector|²`. -/
def edgeLength2 (self : CNumerics α) : α :=
  dot self.nDim (edgeVector self) (edgeVector self)

/-- The geometric factor `proj = (EdgeVector·Normal)/|EdgeVector|²`, defined as 0
for an edge of zero length. -/
def edgeProj (self : CNumerics α) : α :=
  projOf (edgeLength2 self) (dot self.nDim (edgeVector self) self.Normal)

/-- The arithmetic mean of the two endpoint gradients of turbulence variable `k`. -/
def meanGrad (self : CNumerics α) (k : Nat) : Nat → α :=
  fun d => (self.TurbVar_Grad_i k d + self.TurbVar_Grad_j k d)/2

/-- The mean gradient of turbulence variable `k` dotted with the vector `w`. -/
def meanGradDot (self : CNumerics α) (w : Nat → α) (k : Nat) : α :=
  dot self.nDim (meanGrad self k) w

/-- The corrected projection
`Proj_on_Normal − proj·(Proj_on_Edge − (turb_j − turb_i))` of variable `k`. -/
def correctedProj (self : CNumerics α) (k : Nat) : α :=
  meanGradDot self self.Normal k
    - edgeProj self*(meanGradDot self (edgeVector self) k - (self.TurbVar_j k - self.TurbVar_i k))

/-- The one-equation effective viscosity `ν_e = ½(ν_i+ν_j+turb_i+turb_j)` with
`ν = μ_lam/ρ` at each endpoint. -/
def nuE (self : CNumerics α) : α :=
  (self.V_i (self.nDim+5)/self.V_i (self.nDim+2)
    + self.V_j (self.nDim+5)/self.V_j (self.nDim+2)
    + self.TurbVar_i 0 + self.TurbVar_j 0)/2

/-- The blended constant `σ_k` at blending value `F1`. -/
def sigmaKine (self : CNumerics α) (F1 : α) : α :=
  F1*self.sigma_k1 + (1 - F1)*self.sigma_k2

/-- The blended constant `σ_ω` at blending value `F1`. -/
def sigmaOmega (self : CNumerics α) (F1 : α) : α :=
  F1*self.sigma_om1 + (1 - F1)*self.sigma_om2

/-- The two-equation diffusivity of `k`, averaged between the endpoints. -/
def diffKine (self : CNumerics α) : α :=
  ((self.V_i (self.nDim+5) + sigmaKine self self.F1_i*self.V_i (self.nDim+6))
    + (self.V_j (self.nDim+5) + sigmaKine self self.F1_j*self.V_j (self.nDim+6)))/2

/-- The two-equation diffusivity of `ω`, averaged between the endpoints. -/
def diffOmega (self : CNumerics α) : α :=
  ((self.V_i (self.nDim+5) + sigmaOmega self self.F1_i*self.V_i (self.nDim+6))
    + (self.V_j (self.nDim+5) + sigmaOmega self self.F1_j*self.V_j (self.nDim+6)))/2

/-- Scenario A: uniform flow `ρ = 1, u = (1,0)` at both endpoints,
`Normal = (1,0)`, `turb_i = 2`, `turb_j = 1`, fixed grid, implicit scheme. -/
def scenarioA : CNumerics ℚ :=
  { nDim := 2, nVar := 1, implicit := true, grid_movement := false,
    V_i := vec [1, 1, 0, 1, 1], V_j := vec [1, 1, 0, 1, 1], Normal := vec [1, 0],
    TurbVar_i := vec [2], TurbVar_j := vec [1] }

/-- Scenario A with the face normal turned tangent to the flow, so that the
flux speed vanishes. -/
def scenarioTangent : CNumerics ℚ :=
  { scenarioA with Normal := vec [0, 1] }

/-- Scenario A with the face normal reversed, so that the flow runs from `j` to
`i`; the density at `j` is 3. -/
def scenarioReverse : CNumerics ℚ :=
  { scenarioA with Normal := vec [-1, 0], V_j := vec [1, 1, 0, 1, 3] }

/-- Scenario A with the explicit scheme selected. -/
def scenarioExplicit : CNumerics ℚ :=
  { scenarioA with implicit := false }

/-- Output buffers holding recognisable values before the call. -/
def staleBuffers : Buffers ℚ :=
  { val_residual := fun _ => 5, val_Jacobian_i := fun _ _ => 7, val_Jacobian_j := fun _ _ => 9 }

/-- What an edge operator `op` owes the caller under the explicit scheme: both
Jacobian buffers come back as they were passed, and the residual buffer is the
one the same call writes with the implicit flag set. -/
def explicitFrame (op : CNumerics α → Buffers α → CNumerics α × Buffers α)
    (self : CNumerics α) (out : Buffers α) : Prop :=
  (op self out).2.val_Jacobian_i = out.val_Jacobian_i
  ∧ (op self out).2.val_Jacobian_j = out.val_Jacobian_j
  ∧ (op self out).2.val_residual = (op { self with implicit := true } out).2.val_residual

/-- A degenerate edge: both endpoints at the origin of a two-variable,
two-dimensional problem with non-trivial gradients and normal. -/
def scenarioDegenerate : CNumerics ℚ :=
  { nDim := 2, nVar := 2, implicit := true, sigma := 2/3,
    V_i := vec [1, 1, 0, 1, 1, 0, 0, 1, 1], V_j := vec [1, 1, 0, 1, 2, 0, 0, 1, 1],
    Normal := vec [1, 2], Coord_i := vec [3, 4], Coord_j := vec [3, 4],
    TurbVar_i := vec [2, 5], TurbVar_j := vec [1, 3],
    TurbVar_Grad_i := mat [[1, 2], [3, 4]], TurbVar_Grad_j := mat [[5, 6], [7, 8]] }

/-- Whether any of the four realizability checks of
`CEulerVariable::SetPrimVar_Compressible` fails on the point's current
`Solution`: the value of `check_dens || check_press || check_sos || check_temp`. -/
def CEulerVariable.checksFail (sqrt : α → α) (self : CVariable α) (config : CConfig α) : Bool :=
  let r := CEulerVariable.primitivePass sqrt self config.Gamma config.Gas_ConstantND
  r.check_dens || r.check_press || r.check_sos || r.check_temp

/-- Whether any of the four realizability checks of
`CNSVariable::SetPrimVar_Compressible` fails on the point's current `Solution`. -/
def CNSVariable.checksFail (sqrt : α → α) (self : CVariable α) (turb_ke : α)
    (config : CConfig α) : Bool :=
  let r := CNSVariable.primitivePass sqrt self config.Gamma config.Gas_ConstantND turb_ke
  r.check_dens || r.check_press || r.check_sos || r.check_temp

/-- The point with its `Solution` replaced by `Solution_Old`. -/
def withOldSolution (self : CVariable α) : CVariable α :=
  { self with Solution := self.Solution_Old }

/-- The squared velocity magnitude of a conservative vector. -/
def velocity2Of (nDim : Nat) (sol : Nat → α) : α :=
  ∑ d in Finset.range nDim, sol (d+1)/sol 0*(sol (d+1)/sol 0)

/-- The ideal-gas pressure of a conservative vector. -/
def pressureOf (Gamma : α) (nDim nVar : Nat) (sol : Nat → α) : α :=
  (Gamma-1)*sol 0*(sol (nVar-1)/sol 0 - velocity2Of nDim sol/2)

/-- The pressure with the turbulent-kinetic-energy term `⅔·ρ·k` subtracted. -/
def pressureNSOf (Gamma turb_ke : α) (nDim nVar : Nat) (sol : Nat → α) : α :=
  pressureOf Gamma nDim nVar sol - 2/3*sol 0*turb_ke

/-- The radicand `γ·p/ρ` of the speed of sound. -/
def radicandOf (Gamma p rho : α) : α :=
  Gamma*p/rho

/-- The gas-law temperature `p/(R·ρ)`. -/
def temperatureOf (Gas_Constant p rho : α) : α :=
  p/(Gas_Constant*rho)

/-- The primitive vector after one pass of the five reconstruction statements
over the conservative vector `sol` with pressure `p`, starting from `prim`. -/
def primitiveOf (sqrt : α → α) (nDim : Nat) (Gamma Gas_Constant p : α)
    (sol prim : Nat → α) : Nat → α :=
  fun k =>
    if k = 0 then temperatureOf Gas_Constant p (sol 0)
    else if k = nDim+4 then sqrt (radicandOf Gamma p (sol 0))
    else if k = nDim+1 then p
    else if k = nDim+2 then sol 0
    else if k ≤ nDim then sol k/sol 0
    else prim k

/-- The conservative vector after the rollback loop: `Solution_Old` on the
`nVar` entries of the array. -/
def rolledBack (self : CVariable α) : Nat → α :=
  fun k => if k < self.nVar then self.Solution_Old k else self.Solution k

/-- Physical realizability of a density and pressure: positive density,
positive pressure, positive sound-speed radicand, positive temperature. -/
def Realizable (Gamma Gas_Constant p rho : α) : Prop :=
  0 < rho ∧ 0 < p ∧ 0 < radicandOf Gamma p rho ∧ 0 < temperatureOf Gas_Constant p rho

/-- The point left by the Euler reconstruction when it ends on the conservative
vector `sol`: one pass of the five statements, then the enthalpy. -/
def eulerState (sqrt : α → α) (self : CVariable α) (config : CConfig α) (sol : Nat → α) :
    CVariable α :=
  { self with
    Solution := sol
    Velocity2 := velocity2Of self.nDim sol
    Primitive := setAt
      (primitiveOf sqrt self.nDim config.Gamma config.Gas_ConstantND
        (pressureOf config.Gamma self.nDim self.nVar sol) sol self.Primitive)
      (self.nDim+3)
      ((sol (self.nVar-1) + pressureOf config.Gamma self.nDim self.nVar sol)/sol 0) }

/-- The point left by the Navier-Stokes reconstruction when it ends on the
conservative vector `sol`: one pass, then enthalpy, laminar and eddy viscosity. -/
def nsState (sqrt : α → α) (self : CVariable α) (eddy_visc turb_ke : α) (config : CConfig α)
    (sol : Nat → α) : CVariable α :=
  { self with
    Solution := sol
    Velocity2 := velocity2Of self.nDim sol
    Primitive := setAt (setAt (setAt
      (primitiveOf sqrt self.nDim config.Gamma config.Gas_ConstantND
        (pressureNSOf config.Gamma turb_ke self.nDim self.nVar sol) sol self.Primitive)
      (self.nDim+3)
      ((sol (self.nVar-1) + pressureNSOf config.Gamma turb_ke self.nDim self.nVar sol)/sol 0))
      (self.nDim+5)
      (config.LaminarViscosityLaw
        (temperatureOf config.Gas_ConstantND
          (pressureNSOf config.Gamma turb_ke self.nDim self.nVar sol) (sol 0))))
      (self.nDim+6) eddy_visc }

/-- The primitive state of a point is realizable: positive density and pressure,
positive sound-speed radicand with the sound speed its root, positive temperature. -/
def RealizablePrimitive (sqrt : α → α) (config : CConfig α) (s : CVariable α) : Prop :=
  0 < s.Primitive (s.nDim+2) ∧ 0 < s.Primitive (s.nDim+1)
  ∧ 0 < radicandOf config.Gamma (s.Primitive (s.nDim+1)) (s.Primitive (s.nDim+2))
  ∧ s.Primitive (s.nDim+4)
      = sqrt (radicandOf config.Gamma (s.Primitive (s.nDim+1)) (s.Primitive (s.nDim+2)))
  ∧ 0 < s.Primitive 0

/-- Run-time configuration of the scenarios: `γ = 7/5`, `R = 1`. -/
def scenarioConfig : CConfig ℚ :=
  { Gamma := 7/5, Gas_ConstantND := 1 }

/-- Scenario C: a two-dimensional point whose `Solution` `(ρ, ρu, ρv, ρE) =
(1, 0, 0, -1)` implies a negative pressure, with the last good iterate
`Solution_Old = (1, 0, 0, 1)`. -/
def scenarioC : CVariable ℚ :=
  { nDim := 2, nVar := 4, nPrimVar := 9, nPrimVarGrad := 6,
    Solution := vec [1, 0, 0, -1], Solution_Old := vec [1, 0, 0, 1] }

/-- A point as the first value constructor builds it from a negative density:
`CEulerVariable(-1, (0,0), 1, 2, 4, config)` in the compressible regime. -/
def negativeDensityPoint : CVariable ℚ :=
  CEulerVariable.CEulerVariable_values {} (-1) (vec [0, 0]) 1 2 4 scenarioConfig

/-! ## Constructors of the edge operators -/

/-- Time-integration schemes of the turbulence equations
(`config->GetKind_TimeIntScheme_Turb()`).  The sources name `EULER_IMPLICIT`;
the other two stand for the remaining values of the enumeration, which is
declared outside the sources. -/
inductive TimeIntScheme where
  | RUNGE_KUTTA_EXPLICIT
  | EULER_EXPLICIT
  | EULER_IMPLICIT
  deriving DecidableEq, Repr

/-- The part of `CConfig` read by the constructors of the turbulence numerics. -/
structure CConfigTurb where
  Kind_TimeIntScheme_Turb : TimeIntScheme := TimeIntScheme.EULER_IMPLICIT
  Grid_Movement : Bool := false

/-- Modelled from the spec: the base-class constructor
`CNumerics(val_nDim, val_nVar, config)`, declared outside the sources; it
records the dimension and the number of variables of the operator. -/
def CNumerics.CNumerics_ctor (self : CNumerics α) (val_nDim val_nVar : Nat) : CNumerics α :=
  { self with nDim := val_nDim, nVar := val_nVar }

/-- `CUpwSca_TurbSA::CUpwSca_TurbSA`; `self` is the object as allocated.
Allocations without initialisation are not modelled. -/
def CUpwSca_TurbSA.CUpwSca_TurbSA_ctor (self : CNumerics α) (val_nDim val_nVar : Nat)
    (config : CConfigTurb) : CNumerics α :=
  let self := CNumerics.CNumerics_ctor self val_nDim val_nVar
  let self := { self with
    implicit := decide (config.Kind_TimeIntScheme_Turb = TimeIntScheme.EULER_IMPLICIT) }
  { self with grid_movement := config.Grid_Movement }

/-- `CAvgGrad_TurbSA::CAvgGrad_TurbSA`. -/
def CAvgGrad_TurbSA.CAvgGrad_TurbSA_ctor (self : CNumerics α) (val_nDim val_nVar : Nat)
    (config : CConfigTurb) : CNumerics α :=
  let self := CNumerics.CNumerics_ctor self val_nDim val_nVar
  let self := { self with
    implicit := decide (config.Kind_TimeIntScheme_Turb = TimeIntScheme.EULER_IMPLICIT) }
  { self with sigma := 2.0/3.0 }

/-- `CAvgGradCorrected_TurbSA::CAvgGradCorrected_TurbSA`. -/
def CAvgGradCorrected_TurbSA.CAvgGradCorrected_TurbSA_ctor (self : CNumerics α)
    (val_nDim val_nVar : Nat) (config : CConfigTurb) : CNumerics α :=
  let self := CNumerics.CNumerics_ctor self val_nDim val_nVar
  let self := { self with
    implicit := decide (config.Kind_TimeIntScheme_Turb = TimeIntScheme.EULER_IMPLICIT) }
  { self with sigma := 2.0/3.0 }

/-- `CUpwSca_TurbSST::CUpwSca_TurbSST`. -/
def CUpwSca_TurbSST.CUpwSca_TurbSST_ctor (self : CNumerics α) (val_nDim val_nVar : Nat)
    (config : CConfigTurb) : CNumerics α :=
  let self := CNumerics.CNumerics_ctor self val_nDim val_nVar
  let self := { self with
    implicit := decide (config.Kind_TimeIntScheme_Turb = TimeIntScheme.EULER_IMPLICIT) }
  { self with grid_movement := config.Grid_Movement }

/-- `CAvgGrad_TurbSST::CAvgGrad_TurbSST`. -/
def CAvgGrad_TurbSST.CAvgGrad_TurbSST_ctor (self : CNumerics α) (val_nDim val_nVar : Nat)
    (constants : Nat → α) (config : CConfigTurb) : CNumerics α :=
  let self := CNumerics.CNumerics_ctor self val_nDim val_nVar
  let self := { self with
    implicit := decide (config.Kind_TimeIntScheme_Turb = TimeIntScheme.EULER_IMPLICIT) }
  let self := { self with sigma_k1 := constants 0 }
  let self := { self with sigma_om1 := constants 2 }
  let self := { self with sigma_k2 := constants 1 }
  { self with sigma_om2 := constants 3 }

/-- `CAvgGradCorrected_TurbSST::CAvgGradCorrected_TurbSST`. -/
def CAvgGradCorrected_TurbSST.CAvgGradCorrected_TurbSST_ctor (self : CNumerics α)
    (val_nDim val_nVar : Nat) (constants : Nat → α) (config : CConfigTurb) : CNumerics α :=
  let self := CNumerics.CNumerics_ctor self val_nDim val_nVar
  let self := { self with
    implicit := decide (config.Kind_TimeIntScheme_Turb = TimeIntScheme.EULER_IMPLICIT) }
  let self := { self with sigma_k1 := constants 0 }
  let self := { self with sigma_om1 := constants 2 }
  let self := { self with sigma_k2 := constants 1 }
  { self with sigma_om2 := constants 3 }

/-- Scenario B as the claim states it: `Coord_i = (0,0)`, `Coord_j = (1,0)`,
`Normal = (1,0)`, the gradients of the turbulence variable zero at both
endpoints, `turb_i = 0`, `turb_j = 1`; `ρ = 1` and `μ = 1` at both endpoints,
`σ = 2/3`. -/
def scenarioB : CNumerics ℚ :=
  { nDim := 2, nVar := 1, implicit := true, sigma := 2/3,
    V_i := vec [1, 0, 0, 1, 1, 0, 0, 1, 0], V_j := vec [1, 0, 0, 1, 1, 0, 0, 1, 0],
    Normal := vec [1, 0], Coord_i := vec [0, 0], Coord_j := vec [1, 0],
    TurbVar_i := vec [0], TurbVar_j := vec [1] }

/-- Scenario B with the uniform gradient `(1,0)` of the turbulence variable at
both endpoints, the gradient that a difference of 1 across the edge implies. -/
def scenarioBUniform : CNumerics ℚ :=
  { scenarioB with TurbVar_Grad_i := mat [[1, 0]], TurbVar_Grad_j := mat [[1, 0]] }

/-- A two-equation edge with a non-zero projected gradient: unit edge along `x`,
`Normal = (1,0)`, gradients `(1,0)` of both variables, `ρ_i = 1`, `ρ_j = 2`,
`μ = 1`, `μ_t = 0`. -/
def scenarioSSTEdge : CNumerics ℚ :=
  { nDim := 2, nVar := 2, implicit := true,
    V_i := vec [1, 0, 0, 1, 1, 0, 0, 1, 0], V_j := vec [1, 0, 0, 1, 2, 0, 0, 1, 0],
    Normal := vec [1, 0], Coord_i := vec [0, 0], Coord_j := vec [1, 0],
    TurbVar_i := vec [0, 0], TurbVar_j := vec [1, 1],
    TurbVar_Grad_i := mat [[1, 0], [1, 0]], TurbVar_Grad_j := mat [[1, 0], [1, 0]] }

/-! ## Source operators: the objects -/

/-- Inputs of the source operators: those of every numerics object, and the
point data the caller sets before `ComputeResidual` (the gradient of the
primitive variables, the wall distance, the control-volume size, and the
quantities of the two-equation model). -/
structure CSourceInputs (α : Type) [LinearOrderedField α] extends CNumericsInputs α where
  PrimVar_Grad_i : Nat → Nat → α := fun _ _ => 0
  dist_i : α := 0
  Volume : α := 0
  intermittency : α := 0
  StrainMag : α := 0
  F2_i : α := 0
  CDkw : α := 0

/-- The members of `CSourcePieceWise_TurbSA` that its constructor sets. -/
structure CSourceSAConstants (α : Type) [LinearOrderedField α] extends CSourceInputs α where
  transition : Bool := false
  cv1_3 : α := 0
  k2 : α := 0
  cb1 : α := 0
  cw2 : α := 0
  cw3_6 : α := 0
  cb2 : α := 0
  cb2_sigma : α := 0
  cw1 : α := 0
  beta : α := 0
  s1 : α := 0
  nResidual : Nat := 0
  nJacobian : Nat := 0

/-- The scratch members that `CSourcePieceWise_TurbSA::ComputeResidual` writes up
to the production term. -/
structure CSourceSAProduction (α : Type) [LinearOrderedField α] extends
    CSourceSAConstants α where
  Density_i : α := 0
  Laminar_Viscosity_i : α := 0
  Production : α := 0
  Destruction : α := 0
  CrossProduction : α := 0
  Vorticity : α := 0
  Omega : α := 0
  dist_i_2 : α := 0
  nu : α := 0
  Ji : α := 0
  Ji_2 : α := 0
  Ji_3 : α := 0
  fv1 : α := 0
  fv2 : α := 0
  S : α := 0
  inv_k2_d2 : α := 0
  Shat : α := 0
  inv_Shat : α := 0

/-- A `CSourcePieceWise_TurbSA` object: inputs, constants and scratch members. -/
structure CSourcePieceWise_TurbSA (α : Type) [LinearOrderedField α] extends
    CSourceSAProduction α where
  r : α := 0
  g : α := 0
  g_6 : α := 0
  glim : α := 0
  fw : α := 0
  norm2_Grad : α := 0
  dfv1 : α := 0
  dfv2 : α := 0
  dShat : α := 0
  dr : α := 0
  dg : α := 0
  dfw : α := 0

/-- A `CSourcePieceWise_TurbSST` object: inputs, closure constants and the scratch
members its residual routine writes. -/
structure CSourcePieceWise_TurbSST (α : Type) [LinearOrderedField α] extends
    CSourceInputs α where
  beta_star : α := 0
  sigma_omega_1 : α := 0
  sigma_omega_2 : α := 0
  beta_1 : α := 0
  beta_2 : α := 0
  alfa_1 : α := 0
  alfa_2 : α := 0
  a1 : α := 0
  Density_i : α := 0
  Laminar_Viscosity_i : α := 0
  Eddy_Viscosity_i : α := 0

/-! ## Source operators: constructors -/

/-- The Spalart-Allmaras closure constants as the constructor assigns them. -/
def sourceSA_closureConstants (self : CSourcePieceWise_TurbSA α) : CSourcePieceWise_TurbSA α :=
  let self := { self with cv1_3 := 357.911 }
  let self := { self with k2 := 0.1681 }
  let self := { self with cb1 := 0.1355 }
  let self := { self with cw2 := 0.3 }
  let self := { self with cw3_6 := 64.0 }
  let self := { self with sigma := 2.0/3.0 }
  let self := { self with cb2 := 0.622 }
  let self := { self with cb2_sigma := self.cb2/self.sigma }
  { self with cw1 := self.cb1/self.k2 + (1 + self.cb2)/self.sigma }

/-- `CSourcePieceWise_TurbSA::CSourcePieceWise_TurbSA`; `self` is the object as
allocated.  The first line is the base-class constructor, which records the
dimension and the number of variables (see `CNumerics.CNumerics_ctor`); the
`config` argument is only handed to it and is left out, and the allocations of
the test buffers are not modelled. -/
def CSourcePieceWise_TurbSA.CSourcePieceWise_TurbSA_ctor (self : CSourcePieceWise_TurbSA α)
    (val_nDim val_nVar : Nat) : CSourcePieceWise_TurbSA α :=
  let self := { self with nDim := val_nDim, nVar := val_nVar }
  let self := { self with transition := false }
  let self := sourceSA_closureConstants self
  let self := { self with beta := 0.5 }
  let self := { self with s1 := 2.0 }
  let self := { self with nResidual := 4 }
  { self with nJacobian := 1 }

/-- `CSourcePieceWise_TurbSST::CSourcePieceWise_TurbSST`; the `config` argument
is only handed to the base-class constructor and is left out. -/
def CSourcePieceWise_TurbSST.CSourcePieceWise_TurbSST_ctor (self : CSourcePieceWise_TurbSST α)
    (val_nDim val_nVar : Nat) (constants : Nat → α) : CSourcePieceWise_TurbSST α :=
  let self := { self with nDim := val_nDim, nVar := val_nVar }
  let self := { self with beta_star := constants 6 }
  let self := { self with sigma_omega_1 := constants 2 }
  let self := { self with sigma_omega_2 := constants 3 }
  let self := { self with beta_1 := constants 4 }
  let self := { self with beta_2 := constants 5 }
  let self := { self with alfa_1 := constants 8 }
  let self := { self with alfa_2 := constants 9 }
  { self with a1 := constants 7 }

/-! ## Source operators: the residual routines -/

/-- The vorticity statements of `CSourcePieceWise_TurbSA::ComputeResidual`. -/
def sourceSA_vorticity (sqrt : α → α) (self : CSourcePieceWise_TurbSA α) :
    CSourcePieceWise_TurbSA α :=
  let self := { self with
    Vorticity := (self.PrimVar_Grad_i 2 0 - self.PrimVar_Grad_i 1 1)
      *(self.PrimVar_Grad_i 2 0 - self.PrimVar_Grad_i 1 1) }
  let self :=
    if self.nDim = 3 then
      { self with
        Vorticity := self.Vorticity
          + ((self.PrimVar_Grad_i 3 1 - self.PrimVar_Grad_i 2 2)
                *(self.PrimVar_Grad_i 3 1 - self.PrimVar_Grad_i 2 2)
              + (self.PrimVar_Grad_i 1 2 - self.PrimVar_Grad_i 3 0)
                *(self.PrimVar_Grad_i 1 2 - self.PrimVar_Grad_i 3 0)) }
    else self
  { self with Omega := sqrt self.Vorticity }

/-- The statements from `dist_i_2 = dist_i*dist_i;` to `fv2`. -/
def sourceSA_fv (self : CSourcePieceWise_TurbSA α) : CSourcePieceWise_TurbSA α :=
  let self := { self with dist_i_2 := self.dist_i*self.dist_i }
  let self := { self with nu := self.Laminar_Viscosity_i/self.Density_i }
  let self := { self with Ji := self.TurbVar_i 0/self.nu }
  let self := { self with Ji_2 := self.Ji*self.Ji }
  let self := { self with Ji_3 := self.Ji_2*self.Ji }
  let self := { self with fv1 := self.Ji_3/(self.Ji_3 + self.cv1_3) }
  { self with fv2 := 1.0 - self.Ji/(1.0 + self.Ji*self.fv1) }

/-- The statements from `S = Omega;` to the production term. -/
def sourceSA_production (self : CSourcePieceWise_TurbSA α) : CSourcePieceWise_TurbSA α :=
  let self := { self with S := self.Omega }
  let self := { self with inv_k2_d2 := 1.0/(self.k2*self.dist_i_2) }
  let self := { self with Shat := self.S + self.TurbVar_i 0*self.fv2*self.inv_k2_d2 }
  let self := { self with inv_Shat := 1.0/max self.Shat 1.0e-10 }
  if !self.transition then
    { self with Production := self.cb1*self.Shat*self.TurbVar_i 0*self.Volume }
  else
    { self with
      Production := self.cb1*self.Shat*self.TurbVar_i 0*self.Volume*self.intermittency }

/-- The destruction term. -/
def sourceSA_destruction (pow : α → α → α) (self : CSourcePieceWise_TurbSA α) :
    CSourcePieceWise_TurbSA α :=
  let self := { self with r := min (self.TurbVar_i 0*self.inv_Shat*self.inv_k2_d2) 10.0 }
  let self := { self with
    g := self.r + self.cw2*(self.r*self.r*self.r*self.r*self.r*self.r - self.r) }
  let self := { self with g_6 := self.g*self.g*self.g*self.g*self.g*self.g }
  let self := { self with glim := pow ((1.0 + self.cw3_6)/(self.g_6 + self.cw3_6)) (1.0/6.0) }
  let self := { self with fw := self.g*self.glim }
  if !self.transition then
    { self with
      Destruction := self.cw1*self.fw*self.TurbVar_i 0*self.TurbVar_i 0/self.dist_i_2
        *self.Volume }
  else
    { self with
      Destruction := self.cw1*self.fw*self.TurbVar_i 0*self.TurbVar_i 0/self.dist_i_2
        *self.Volume*min (max self.intermittency 0.1) 1.0 }

/-- Body of the loop over the gradient of the turbulence variable. -/
def sourceSA_gradBody (iDim : Nat) (self : CSourcePieceWise_TurbSA α) :
    CSourcePieceWise_TurbSA α :=
  { self with
    norm2_Grad := self.norm2_Grad + self.TurbVar_Grad_i 0 iDim*self.TurbVar_Grad_i 0 iDim }

/-- The diffusion term. -/
def sourceSA_diffusion (self : CSourcePieceWise_TurbSA α) : CSourcePieceWise_TurbSA α :=
  let self := { self with norm2_Grad := 0.0 }
  let self := forLoop self.nDim sourceSA_gradBody self
  { self with CrossProduction := self.cb2_sigma*self.norm2_Grad*self.Volume }

/-- The implicit part of the production term. -/
def sourceSA_jacobianProduction (self : CSourcePieceWise_TurbSA α) (out : Buffers α) :
    CSourcePieceWise_TurbSA α × Buffers α :=
  let Ji_3_cv1_3 := self.Ji_3 + self.cv1_3
  let self := { self with dfv1 := 3.0*self.Ji_2*self.cv1_3/(self.nu*Ji_3_cv1_3*Ji_3_cv1_3) }
  let Ji_fv1 := 1.0 + self.Ji*self.fv1
  let self := { self with dfv2 := -(1/self.nu - self.Ji_2*self.dfv1)/(Ji_fv1*Ji_fv1) }
  let self :=
    if self.Shat ≤ 1.0e-10 then { self with dShat := 0.0 }
    else { self with dShat := (self.fv2 + self.TurbVar_i 0*self.dfv2)*self.inv_k2_d2 }
  let out := { out with
    val_Jacobian_i := setAt2 out.val_Jacobian_i 0 0
      (out.val_Jacobian_i 0 0 + self.cb1*(self.TurbVar_i 0*self.dShat + self.Shat)*self.Volume) }
  (self, out)

/-- The implicit part of the destruction term. -/
def sourceSA_jacobianDestruction (self : CSourcePieceWise_TurbSA α) (out : Buffers α) :
    CSourcePieceWise_TurbSA α × Buffers α :=
  let self := { self with
    dr := (self.Shat - self.TurbVar_i 0*self.dShat)*self.inv_Shat*self.inv_Shat*self.inv_k2_d2 }
  let self := if self.r = 10.0 then { self with dr := 0.0 } else self
  let self := { self with
    dg := self.dr*(1.0 + self.cw2*(6.0*(self.r*self.r*self.r*self.r*self.r) - 1.0)) }
  let self := { self with dfw := self.dg*self.glim*(1.0 - self.g_6/(self.g_6 + self.cw3_6)) }
  let out := { out with
    val_Jacobian_i := setAt2 out.val_Jacobian_i 0 0
      (out.val_Jacobian_i 0 0
        - self.cw1*(self.dfw*self.TurbVar_i 0 + 2.0*self.fw)*self.TurbVar_i 0/self.dist_i_2
          *self.Volume) }
  (self, out)

/-- The statements of `CSourcePieceWise_TurbSA::ComputeResidual` before the
vorticity: loads of the primitives and zeroing of terms and outputs. -/
def sourceSA_reset (self : CSourcePieceWise_TurbSA α) (out : Buffers α) :
    CSourcePieceWise_TurbSA α × Buffers α :=
  let self := { self with Density_i := self.V_i (self.nDim+2) }
  let self := { self with Laminar_Viscosity_i := self.V_i (self.nDim+5) }
  let out := { out with val_residual := setAt out.val_residual 0 0.0 }
  let self := { self with Production := 0 }
  let self := { self with Destruction := 0 }
  let self := { self with CrossProduction := 0 }
  let out := { out with val_Jacobian_i := setAt2 out.val_Jacobian_i 0 0 0.0 }
  (self, out)

/-- `CSourcePieceWise_TurbSA::ComputeResidual`; `sqrt` and `pow` stand for the
library functions of `<cmath>`. -/
def CSourcePieceWise_TurbSA.ComputeResidual (sqrt : α → α) (pow : α → α → α)
    (self : CSourcePieceWise_TurbSA α) (out : Buffers α) :
    CSourcePieceWise_TurbSA α × Buffers α :=
  let (self, out) := sourceSA_reset self out
  let self := sourceSA_vorticity sqrt self
  if self.dist_i > 1e-10 then
    let self := sourceSA_fv self
    let self := sourceSA_production self
    let self := sourceSA_destruction pow self
    let self := sourceSA_diffusion self
    let out := { out with
      val_residual := setAt out.val_residual 0
        (self.Production - self.Destruction + self.CrossProduction) }
    let (self, out) := sourceSA_jacobianProduction self out
    sourceSA_jacobianDestruction self out
  else (self, out)

/-- The production term `pk` of the `k` equation, from the divergence `diverg`
of the velocity: the three assignments to `pk`. -/
def sourceSST_pk (self : CSourcePieceWise_TurbSST α) (diverg : α) : α :=
  let pk := self.Eddy_Viscosity_i*self.StrainMag*self.StrainMag
    - 2.0/3.0*self.Density_i*self.TurbVar_i 0*diverg
  let pk := min pk (20.0*self.beta_star*self.Density_i*self.TurbVar_i 1*self.TurbVar_i 0)
  max pk 0.0

/-- The production term `pw` of the `ω` equation: the assignments to `zeta` and
`pw`. -/
def sourceSST_pw (self : CSourcePieceWise_TurbSST α) (diverg : α) : α :=
  let zeta := max (self.TurbVar_i 1) (self.StrainMag*self.F2_i/self.a1)
  let pw := self.StrainMag*self.StrainMag - 2.0/3.0*zeta*diverg
  max pw 0.0

/-- The statements of `CSourcePieceWise_TurbSST::ComputeResidual` before the
blended constants: loads of the primitives and zeroing of the outputs. -/
def sourceSST_reset (self : CSourcePieceWise_TurbSST α) (out : Buffers α) :
    CSourcePieceWise_TurbSST α × Buffers α :=
  let self := { self with Density_i := self.V_i (self.nDim+2) }
  let self := { self with Laminar_Viscosity_i := self.V_i (self.nDim+5) }
  let self := { self with Eddy_Viscosity_i := self.V_i (self.nDim+6) }
  let out := { out with val_residual := setAt out.val_residual 0 0.0 }
  let out := { out with val_residual := setAt out.val_residual 1 0.0 }
  let out := { out with val_Jacobian_i := setAt2 out.val_Jacobian_i 0 0 0.0 }
  let out := { out with val_Jacobian_i := setAt2 out.val_Jacobian_i 0 1 0.0 }
  let out := { out with val_Jacobian_i := setAt2 out.val_Jacobian_i 1 0 0.0 }
  let out := { out with val_Jacobian_i := setAt2 out.val_Jacobian_i 1 1 0.0 }
  (self, out)

/-- The residual updates of `CSourcePieceWise_TurbSST::ComputeResidual`:
production, dissipation and cross diffusion. -/
def sourceSST_residual (self : CSourcePieceWise_TurbSST α) (alfa_blended beta_blended pk pw : α)
    (out : Buffers α) : Buffers α :=
  let out := { out with
    val_residual := setAt out.val_residual 0 (out.val_residual 0 + pk*self.Volume) }
  let out := { out with
    val_residual := setAt out.val_residual 1
      (out.val_residual 1 + alfa_blended*self.Density_i*pw*self.Volume) }
  let out := { out with
    val_residual := setAt out.val_residual 0
      (out.val_residual 0
        - self.beta_star*self.Density_i*self.TurbVar_i 1*self.TurbVar_i 0*self.Volume) }
  let out := { out with
    val_residual := setAt out.val_residual 1
      (out.val_residual 1
        - beta_blended*self.Density_i*self.TurbVar_i 1*self.TurbVar_i 1*self.Volume) }
  { out with
    val_residual := setAt out.val_residual 1
      (out.val_residual 1 + (1.0 - self.F1_i)*self.CDkw*self.Volume) }

/-- The implicit part of `CSourcePieceWise_TurbSST::ComputeResidual`. -/
def sourceSST_jacobian (self : CSourcePieceWise_TurbSST α) (beta_blended : α)
    (out : Buffers α) : Buffers α :=
  let out := { out with
    val_Jacobian_i := setAt2 out.val_Jacobian_i 0 0
      (-self.beta_star*self.TurbVar_i 1*self.Volume) }
  let out := { out with val_Jacobian_i := setAt2 out.val_Jacobian_i 0 1 0.0 }
  let out := { out with val_Jacobian_i := setAt2 out.val_Jacobian_i 1 0 0.0 }
  { out with
    val_Jacobian_i := setAt2 out.val_Jacobian_i 1 1
      (-2.0*beta_blended*self.TurbVar_i 1*self.Volume) }

/-- `CSourcePieceWise_TurbSST::ComputeResidual`. -/
def CSourcePieceWise_TurbSST.ComputeResidual (self : CSourcePieceWise_TurbSST α)
    (out : Buffers α) : CSourcePieceWise_TurbSST α × Buffers α :=
  let (self, out) := sourceSST_reset self out
  let alfa_blended := self.F1_i*self.alfa_1 + (1.0 - self.F1_i)*self.alfa_2
  let beta_blended := self.F1_i*self.beta_1 + (1.0 - self.F1_i)*self.beta_2
  if self.dist_i > 1e-10 then
    let diverg := sumTo self.nDim (fun iDim => self.PrimVar_Grad_i (iDim+1) iDim)
    let pk := sourceSST_pk self diverg
    let pw := sourceSST_pw self diverg
    let out := sourceSST_residual self alfa_blended beta_blended pk pw out
    let out := sourceSST_jacobian self beta_blended out
    (self, out)
  else (self, out)

/-! ## Closed forms of the one-equation source terms -/

/-- The squared vorticity magnitude read from the gradient of the primitive
variables: `(∂v/∂x − ∂u/∂y)²`, plus the two other components in three dimensions. -/
def saVorticity (self : CSourcePieceWise_TurbSA α) : α :=
  (self.PrimVar_Grad_i 2 0 - self.PrimVar_Grad_i 1 1)
      *(self.PrimVar_Grad_i 2 0 - self.PrimVar_Grad_i 1 1)
    + (if self.nDim = 3 then
        (self.PrimVar_Grad_i 3 1 - self.PrimVar_Grad_i 2 2)
            *(self.PrimVar_Grad_i 3 1 - self.PrimVar_Grad_i 2 2)
          + (self.PrimVar_Grad_i 1 2 - self.PrimVar_Grad_i 3 0)
            *(self.PrimVar_Grad_i 1 2 - self.PrimVar_Grad_i 3 0)
      else 0)

/-- The kinematic viscosity `ν = μ_lam/ρ` of the point. -/
def saNu (self : CSourcePieceWise_TurbSA α) : α :=
  self.V_i (self.nDim+5)/self.V_i (self.nDim+2)

/-- The ratio `J = turb/ν`. -/
def saJ (self : CSourcePieceWise_TurbSA α) : α :=
  self.TurbVar_i 0/saNu self

/-- The cube `J³`. -/
def saJ3 (self : CSourcePieceWise_TurbSA α) : α :=
  saJ self*saJ self*saJ self

/-- The function `fv1 = J³/(J³ + c_v1³)`. -/
def saFv1 (self : CSourcePieceWise_TurbSA α) : α :=
  saJ3 self/(saJ3 self + self.cv1_3)

/-- The function `fv2 = 1 − J/(1 + J·fv1)`. -/
def saFv2 (self : CSourcePieceWise_TurbSA α) : α :=
  1 - saJ self/(1 + saJ self*saFv1 self)

/-- The factor `1/(κ²d²)`. -/
def saInvK2D2 (self : CSourcePieceWise_TurbSA α) : α :=
  1/(self.k2*(self.dist_i*self.dist_i))

/-- The modified strain `Ŝ = S + turb·fv2/(κ²d²)`, not floored; `S` is the
vorticity magnitude. -/
def saShat (sqrt : α → α) (self : CSourcePieceWise_TurbSA α) : α :=
  sqrt (saVorticity self) + self.TurbVar_i 0*saFv2 self*saInvK2D2 self

/-- The reciprocal `1/max(Ŝ, 1e-10)` of the floored modified strain. -/
def saInvShat (sqrt : α → α) (self : CSourcePieceWise_TurbSA α) : α :=
  1/max (saShat sqrt self) 1e-10

/-- The production term `c_b1·Ŝ·turb·Volume`. -/
def saProduction (sqrt : α → α) (self : CSourcePieceWise_TurbSA α) : α :=
  self.cb1*saShat sqrt self*self.TurbVar_i 0*self.Volume

/-- The clipped ratio `r = min(turb/(max(Ŝ, 1e-10)·κ²d²), 10)`. -/
def saR (sqrt : α → α) (self : CSourcePieceWise_TurbSA α) : α :=
  min (self.TurbVar_i 0*saInvShat sqrt self*saInvK2D2 self) 10

/-- The function `g = r + c_w2·(r⁶ − r)`. -/
def saG (sqrt : α → α) (self : CSourcePieceWise_TurbSA α) : α :=
  saR sqrt self + self.cw2*(saR sqrt self*saR sqrt self*saR sqrt self*saR sqrt self
    *saR sqrt self*saR sqrt self - saR sqrt self)

/-- The power `g⁶`. -/
def saG6 (sqrt : α → α) (self : CSourcePieceWise_TurbSA α) : α :=
  saG sqrt self*saG sqrt self*saG sqrt self*saG sqrt self*saG sqrt self*saG sqrt self

/-- The limiter `((1 + c_w3⁶)/(g⁶ + c_w3⁶))^(1/6)`. -/
def saGlim (sqrt : α → α) (pow : α → α → α) (self : CSourcePieceWise_TurbSA α) : α :=
  pow ((1 + self.cw3_6)/(saG6 sqrt self + self.cw3_6)) (1/6)

/-- The function `fw = g·((1 + c_w3⁶)/(g⁶ + c_w3⁶))^(1/6)`. -/
def saFw (sqrt : α → α) (pow : α → α → α) (self : CSourcePieceWise_TurbSA α) : α :=
  saG sqrt self*saGlim sqrt pow self

/-- The destruction term `c_w1·fw·turb²/d²·Volume`. -/
def saDestruction (sqrt : α → α) (pow : α → α → α) (self : CSourcePieceWise_TurbSA α) : α :=
  self.cw1*saFw sqrt pow self*self.TurbVar_i 0*self.TurbVar_i 0/(self.dist_i*self.dist_i)
    *self.Volume

/-- The squared norm of the gradient of the turbulence variable. -/
def saNorm2Grad (self : CSourcePieceWise_TurbSA α) : α :=
  ∑ d in Finset.range self.nDim, self.TurbVar_Grad_i 0 d*self.TurbVar_Grad_i 0 d

/-- The cross-diffusion term `(c_b2/σ)·|∇turb|²·Volume`. -/
def saCrossProduction (self : CSourcePieceWise_TurbSA α) : α :=
  self.cb2_sigma*saNorm2Grad self*self.Volume

/-- The value the routine stores in `dfv1`. -/
def saDfv1 (self : CSourcePieceWise_TurbSA α) : α :=
  3*(saJ self*saJ self)*self.cv1_3
    /(saNu self*(saJ3 self + self.cv1_3)*(saJ3 self + self.cv1_3))

/-- The value the routine stores in `dfv2`. -/
def saDfv2 (self : CSourcePieceWise_TurbSA α) : α :=
  -(1/saNu self - saJ self*saJ self*saDfv1 self)
    /((1 + saJ self*saFv1 self)*(1 + saJ self*saFv1 self))

/-- The value the routine stores in `dShat`. -/
def saDShat (sqrt : α → α) (self : CSourcePieceWise_TurbSA α) : α :=
  if saShat sqrt self ≤ 1e-10 then 0
  else (saFv2 self + self.TurbVar_i 0*saDfv2 self)*saInvK2D2 self

/-- The value the routine stores in `dr`. -/
def saDr (sqrt : α → α) (self : CSourcePieceWise_TurbSA α) : α :=
  if saR sqrt self = 10 then 0
  else (saShat sqrt self - self.TurbVar_i 0*saDShat sqrt self)*saInvShat sqrt self
    *saInvShat sqrt self*saInvK2D2 self

/-- The value the routine stores in `dg`. -/
def saDg (sqrt : α → α) (self : CSourcePieceWise_TurbSA α) : α :=
  saDr sqrt self*(1 + self.cw2*(6*(saR sqrt self*saR sqrt self*saR sqrt self*saR sqrt self
    *saR sqrt self) - 1))

/-- The value the routine stores in `dfw`. -/
def saDfw (sqrt : α → α) (pow : α → α → α) (self : CSourcePieceWise_TurbSA α) : α :=
  saDg sqrt self*saGlim sqrt pow self*(1 - saG6 sqrt self/(saG6 sqrt self + self.cw3_6))

/-- The value the routine accumulates in `val_Jacobian_i[0][0]`. -/
def saJacobian (sqrt : α → α) (pow : α → α → α) (self : CSourcePieceWise_TurbSA α) : α :=
  self.cb1*(self.TurbVar_i 0*saDShat sqrt self + saShat sqrt self)*self.Volume
    - self.cw1*(saDfw sqrt pow self*self.TurbVar_i 0 + 2*saFw sqrt pow self)*self.TurbVar_i 0
        /(self.dist_i*self.dist_i)*self.Volume

/-- The object with the local turbulence variable `TurbVar_i[0]` set to `t`. -/
def withTurb (self : CSourcePieceWise_TurbSA α) (t : α) : CSourcePieceWise_TurbSA α :=
  { self with TurbVar_i := setAt self.TurbVar_i 0 t }

/-- The object after the loads and resets that open the routine. -/
def saStateReset (self : CSourcePieceWise_TurbSA α) : CSourcePieceWise_TurbSA α :=
  { self with
    Density_i := self.V_i (self.nDim+2)
    Laminar_Viscosity_i := self.V_i (self.nDim+5)
    Production := 0
    Destruction := 0
    CrossProduction := 0 }

/-- The object after the vorticity statements. -/
def saStateVorticity (sqrt : α → α) (self : CSourcePieceWise_TurbSA α) :
    CSourcePieceWise_TurbSA α :=
  { saStateReset self with
    Vorticity := saVorticity self
    Omega := sqrt (saVorticity self) }

/-- The object after the production term. -/
def saStateProduction (sqrt : α → α) (self : CSourcePieceWise_TurbSA α) :
    CSourcePieceWise_TurbSA α :=
  { saStateVorticity sqrt self with
    dist_i_2 := self.dist_i*self.dist_i
    nu := saNu self
    Ji := saJ self
    Ji_2 := saJ self*saJ self
    Ji_3 := saJ3 self
    fv1 := saFv1 self
    fv2 := saFv2 self
    S := sqrt (saVorticity self)
    inv_k2_d2 := saInvK2D2 self
    Shat := saShat sqrt self
    inv_Shat := saInvShat sqrt self
    Production := saProduction sqrt self }

/-- The object after the destruction and diffusion terms. -/
def saStateResidual (sqrt : α → α) (pow : α → α → α) (self : CSourcePieceWise_TurbSA α) :
    CSourcePieceWise_TurbSA α :=
  { saStateProduction sqrt self with
    r := saR sqrt self
    g := saG sqrt self
    g_6 := saG6 sqrt self
    glim := saGlim sqrt pow self
    fw := saFw sqrt pow self
    Destruction := saDestruction sqrt pow self
    norm2_Grad := saNorm2Grad self
    CrossProduction := saCrossProduction self }

/-- The object when the routine returns, for a point away from the wall. -/
def saStateFinal (sqrt : α → α) (pow : α → α → α) (self : CSourcePieceWise_TurbSA α) :
    CSourcePieceWise_TurbSA α :=
  { saStateResidual sqrt pow self with
    dfv1 := saDfv1 self
    dfv2 := saDfv2 self
    dShat := saDShat sqrt self
    dr := saDr sqrt self
    dg := saDg sqrt self
    dfw := saDfw sqrt pow self }

/-! ## Closed forms of the two-equation source terms -/

/-- The divergence of the velocity read from the gradient of the primitive
variables. -/
def sstDiverg (self : CSourcePieceWise_TurbSST α) : α :=
  ∑ d in Finset.range self.nDim, self.PrimVar_Grad_i (d+1) d

/-- The cap `20·β*·ρ·ω·k` on the production of `k`. -/
def sstCap (self : CSourcePieceWise_TurbSST α) : α :=
  20*self.beta_star*self.V_i (self.nDim+2)*self.TurbVar_i 1*self.TurbVar_i 0

/-- The unclipped production `μ_t·S² − ⅔·ρ·k·div(u)` of `k`. -/
def sstPkRaw (self : CSourcePieceWise_TurbSST α) : α :=
  self.V_i (self.nDim+6)*self.StrainMag*self.StrainMag
    - 2/3*self.V_i (self.nDim+2)*self.TurbVar_i 0*sstDiverg self

/-- The production term `pk = max(min(raw, cap), 0)` of the `k` equation. -/
def sstPk (self : CSourcePieceWise_TurbSST α) : α :=
  max (min (sstPkRaw self) (sstCap self)) 0

/-- The object after the loads that open
`CSourcePieceWise_TurbSST::ComputeResidual`. -/
def sstStateReset (self : CSourcePieceWise_TurbSST α) : CSourcePieceWise_TurbSST α :=
  { self with
    Density_i := self.V_i (self.nDim+2)
    Laminar_Viscosity_i := self.V_i (self.nDim+5)
    Eddy_Viscosity_i := self.V_i (self.nDim+6) }

/-! ## Scenarios of the source operators -/

/-- The closure constants of the two-equation model in the order of the
`constants` array: `σ_k1, σ_k2, σ_ω1, σ_ω2, β_1, β_2, β*, a_1, α_1, α_2`. -/
def scenarioConstants (α : Type) [LinearOrderedField α] : Nat → α :=
  vec [17/20, 1, 1/2, 107/125, 3/40, 207/2500, 9/100, 31/100, 5/9, 11/25]

/-- Inputs of a point away from the wall with a large turbulence variable and no
vorticity: `ρ = 1`, `μ = 1`, `turb = 10`, `d = 1`, `Volume = 1`, zero gradients. -/
def scenarioSource (α : Type) [LinearOrderedField α] : CSourcePieceWise_TurbSA α :=
  { V_i := vec [1, 0, 0, 1, 1, 0, 0, 1, 0], TurbVar_i := vec [10], dist_i := 1, Volume := 1 }

/-- Inputs of a point away from the wall in a unit shear `∂v/∂x = 1` with the turbulence
variable at zero: `ρ = 1`, `μ = 1`, `d = 1`, `Volume = 1`. -/
def scenarioShear (α : Type) [LinearOrderedField α] : CSourcePieceWise_TurbSA α :=
  { V_i := vec [1, 0, 0, 1, 1, 0, 0, 1, 0], TurbVar_i := vec [0], dist_i := 1, Volume := 1,
    PrimVar_Grad_i := mat [[0, 0], [0, 0], [1, 0]] }

/-- Inputs of a point on the wall (`dist_i = 0`) of the one-equation model, in an
object whose scratch members hold values of an earlier call. -/
def scenarioWallSA (α : Type) [LinearOrderedField α] : CSourcePieceWise_TurbSA α :=
  { V_i := vec [1, 0, 0, 1, 1, 0, 0, 1, 0], TurbVar_i := vec [10], dist_i := 0, Volume := 1,
    Production := 3, Destruction := 4, CrossProduction := 5 }

/-- Inputs of a point on the wall (`dist_i = 0`) of the two-equation model. -/
def scenarioWallSST (α : Type) [LinearOrderedField α] : CSourcePieceWise_TurbSST α :=
  { V_i := vec [1, 0, 0, 1, 1, 0, 0, 1, 1], TurbVar_i := vec [1, 1], dist_i := 0, Volume := 1,
    StrainMag := 1 }

/-- Inputs of a point of the two-equation model away from the wall with a
negative turbulent kinetic energy: `k = −1`, `ω = 1`, `ρ = 1`, no strain. -/
def scenarioNegativeK (α : Type) [LinearOrderedField α] : CSourcePieceWise_TurbSST α :=
  { V_i := vec [1, 0, 0, 1, 1, 0, 0, 1, 0], TurbVar_i := vec [-1, 1], dist_i := 1, Volume := 1 }

/-- Inputs of a point of the two-equation model away from the wall in a unit
strain: `k = 1`, `ω = 1`, `ρ = 1`, `μ_t = 1`, `S = 1`. -/
def scenarioStrain (α : Type) [LinearOrderedField α] : CSourcePieceWise_TurbSST α :=
  { V_i := vec [1, 0, 0, 1, 1, 0, 0, 1, 1], TurbVar_i := vec [1, 1], dist_i := 1, Volume := 1,
    StrainMag := 1 }

/-- Output buffers holding recognisable values before the call, over any field. -/
def staleOutputs (α : Type) [LinearOrderedField α] : Buffers α :=
  { val_residual := fun _ => 5, val_Jacobian_i := fun _ _ => 7, val_Jacobian_j := fun _ _ => 9 }

/-! ## Closed forms of the two-equation source terms, second equation -/

/-- The blended constant `α_b = F1·α_1 + (1 − F1)·α_2`. -/
def sstAlfaBlended (self : CSourcePieceWise_TurbSST α) : α :=
  self.F1_i*self.alfa_1 + (1 - self.F1_i)*self.alfa_2

/-- The blended constant `β_b = F1·β_1 + (1 − F1)·β_2`. -/
def sstBetaBlended (self : CSourcePieceWise_TurbSST α) : α :=
  self.F1_i*self.beta_1 + (1 - self.F1_i)*self.beta_2

/-- The limiter `ζ = max(ω, S·F2/a1)`. -/
def sstZeta (self : CSourcePieceWise_TurbSST α) : α :=
  max (self.TurbVar_i 1) (self.StrainMag*self.F2_i/self.a1)

/-- The production term `pw = max(S² − ⅔·ζ·div(u), 0)` of the `ω` equation. -/
def sstPw (self : CSourcePieceWise_TurbSST α) : α :=
  max (self.StrainMag*self.StrainMag - 2/3*sstZeta self*sstDiverg self) 0

/-! ## Scenarios and input transformations of the edge operators -/

/-- Scenario A on a grid that moves with the fluid at both endpoints. -/
def scenarioComoving : CNumerics ℚ :=
  { scenarioA with grid_movement := true, GridVel_i := vec [1, 0], GridVel_j := vec [1, 0] }

/-- The edge seen from the other side: all data of the endpoints `i` and `j`
exchanged (primitives, grid velocities, coordinates, turbulence variables and
their gradients, blending functions) and the normal negated. -/
def swapEndpoints (self : CNumerics α) : CNumerics α :=
  { self with
    V_i := self.V_j
    V_j := self.V_i
    GridVel_i := self.GridVel_j
    GridVel_j := self.GridVel_i
    Coord_i := self.Coord_j
    Coord_j := self.Coord_i
    TurbVar_i := self.TurbVar_j
    TurbVar_j := self.TurbVar_i
    TurbVar_Grad_i := self.TurbVar_Grad_j
    TurbVar_Grad_j := self.TurbVar_Grad_i
    F1_i := self.F1_j
    F1_j := self.F1_i
    Normal := fun d => -self.Normal d }

/-- The edge object with entry `k` of `TurbVar_i` set to `t`. -/
def withTurbVar_i (self : CNumerics α) (k : Nat) (t : α) : CNumerics α :=
  { self with TurbVar_i := setAt self.TurbVar_i k t }

/-- The edge object with entry `k` of `TurbVar_j` set to `t`. -/
def withTurbVar_j (self : CNumerics α) (k : Nat) (t : α) : CNumerics α :=
  { self with TurbVar_j := setAt self.TurbVar_j k t }

/-- A generic edge of a two-variable problem: skewed normal, different
endpoint states, gradients and blending values. -/
def scenarioSkew (α : Type) [LinearOrderedField α] : CNumerics α :=
  { nDim := 2, nVar := 2, implicit := true, sigma := 2/3,
    sigma_k1 := 17/20, sigma_k2 := 1, sigma_om1 := 1/2, sigma_om2 := 107/125,
    V_i := vec [1, 1, 2, 1, 1, 0, 0, 1, 3], V_j := vec [1, -1, 1, 1, 2, 0, 0, 2, 1],
    Normal := vec [1, 2], Coord_i := vec [0, 0], Coord_j := vec [2, 1],
    TurbVar_i := vec [2, 5], TurbVar_j := vec [1, 3],
    TurbVar_Grad_i := mat [[1, 2], [3, 4]], TurbVar_Grad_j := mat [[5, 6], [7, 8]],
    F1_i := 1/4, F1_j := 3/4 }

/-- The diffusivity of residual `k` of the two-equation viscous operators. -/
def diffOf (self : CNumerics α) (k : Nat) : α :=
  if k = 0 then diffKine self else diffOmega self

/-! ## Closed forms of the one-equation source terms with the transition model -/

/-- The production term in either setting of the transition flag: the
intermittency multiplies it when the flag is set. -/
def saProductionT (sqrt : α → α) (self : CSourcePieceWise_TurbSA α) : α :=
  if self.transition then saProduction sqrt self*self.intermittency
  else saProduction sqrt self

/-- The destruction term in either setting of the transition flag: the
intermittency clipped to `[0.1, 1]` multiplies it when the flag is set. -/
def saDestructionT (sqrt : α → α) (pow : α → α → α) (self : CSourcePieceWise_TurbSA α) : α :=
  if self.transition then
    saDestruction sqrt pow self*min (max self.intermittency (1/10)) 1
  else saDestruction sqrt pow self

/-- The object when the routine returns, for a point away from the wall, in
either setting of the transition flag. -/
def saStateFinalT (sqrt : α → α) (pow : α → α → α) (self : CSourcePieceWise_TurbSA α) :
    CSourcePieceWise_TurbSA α :=
  { saStateFinal sqrt pow self with
    Production := saProductionT sqrt self
    Destruction := saDestructionT sqrt pow self }

/-- An edge object holding the inputs `c` with every scratch member at zero. -/
def CNumerics.ofInputs (c : CNumericsInputs α) : CNumerics α :=
  { toCNumericsInputs := c }

/-- A one-equation source object holding the inputs and constants `c` with every
scratch member at zero. -/
def CSourcePieceWise_TurbSA.ofInputs (c : CSourceSAConstants α) : CSourcePieceWise_TurbSA α :=
  { toCSourceSAConstants := c }

/-- The two-equation source object `self` with its scratch members replaced. -/
def CSourcePieceWise_TurbSST.withScratch (self : CSourcePieceWise_TurbSST α)
    (density laminar eddy : α) : CSourcePieceWise_TurbSST α :=
  { self with Density_i := density, Laminar_Viscosity_i := laminar, Eddy_Viscosity_i := eddy }

/-- The edge of `scenarioSkew` in an object whose scratch members hold values of
an earlier call. -/
def scenarioSkewStale (α : Type) [LinearOrderedField α] : CNumerics α :=
  { scenarioSkew α with
    q_ij := 3, a0 := 4, a1 := 5, nu_e := 7, proj_vector_ij := 2,
    Edge_Vector := fun _ => 1,
    Proj_Mean_GradTurbVar_Kappa := fun _ => 13,
    Proj_Mean_GradTurbVar_Corrected := fun _ => 11 }

/-! ## Navier-Stokes point: constructors and vorticity -/

/-- The five assignments in the body of both `CNSVariable` value constructors. -/
def setReferenceValues (self : CVariable α) (config : CConfig α) : CVariable α :=
  let self := { self with Temperature_Ref := config.Temperature_Ref }
  let self := { self with Viscosity_Ref := config.Viscosity_Ref }
  let self := { self with Viscosity_Inf := config.Viscosity_FreeStreamND }
  let self := { self with Prandtl_Lam := config.Prandtl_Lam }
  { self with Prandtl_Turb := config.Prandtl_Turb }

/-- `CNSVariable::CNSVariable(val_density, val_velocity, val_energy, val_nDim,
val_nvar, config)`: the `CEulerVariable` constructor of the same arguments, then
the reference values. -/
def CNSVariable.CNSVariable_values (self : CVariable α) (val_density : α)
    (val_velocity : Nat → α) (val_energy : α) (val_nDim val_nvar : Nat)
    (config : CConfig α) : CVariable α :=
  let self := CEulerVariable.CEulerVariable_values self val_density val_velocity val_energy
    val_nDim val_nvar config
  setReferenceValues self config

/-- `CNSVariable::CNSVariable(val_solution, val_nDim, val_nvar, config)`. -/
def CNSVariable.CNSVariable_solution (self : CVariable α) (val_solution : Nat → α)
    (val_nDim val_nvar : Nat) (config : CConfig α) : CVariable α :=
  let self := CEulerVariable.CEulerVariable_solution self val_solution val_nDim val_nvar config
  setReferenceValues self config

/-- `CNSVariable::SetVorticity`. -/
def CNSVariable.SetVorticity (self : CVariable α) : CVariable α :=
  let u_y := self.Gradient_Primitive 1 1
  let v_x := self.Gradient_Primitive 2 0
  let u_z : α := 0.0
  let v_z : α := 0.0
  let w_x : α := 0.0
  let w_y : α := 0.0
  let u_z := if self.nDim = 3 then self.Gradient_Primitive 1 2 else u_z
  let v_z := if self.nDim = 3 then self.Gradient_Primitive 2 2 else v_z
  let w_x := if self.nDim = 3 then self.Gradient_Primitive 3 0 else w_x
  let w_y := if self.nDim = 3 then self.Gradient_Primitive 3 1 else w_y
  let self := { self with Vorticity := setAt self.Vorticity 0 (w_y-v_z) }
  let self := { self with Vorticity := setAt self.Vorticity 1 (-(w_x-u_z)) }
  { self with Vorticity := setAt self.Vorticity 2 (v_x-u_y) }

/-- The primitive storage of a point is zero on its declared extent. -/
def ZeroPrimitiveStorage (s : CVariable α) : Prop :=
  (∀ k, k < s.nPrimVar → s.Primitive k = 0)
  ∧ (∀ r c, r < s.nPrimVarGrad → c < s.nDim → s.Gradient_Primitive r c = 0)

/-- A point with stale primitive storage: every entry of `Primitive` and of
`Gradient_Primitive` is 1, in two dimensions with six gradient rows. -/
def stalePoint : CVariable ℚ :=
  { nDim := 2, nVar := 4, nPrimVar := 9, nPrimVarGrad := 6,
    Primitive := fun _ => 1, Gradient_Primitive := fun _ _ => 1 }

/-- A three-dimensional point with the velocity gradient
`∇u = (1, 2, 3)`, `∇v = (4, 5, 6)`, `∇w = (7, 8, 10)` in rows 1 to 3 of
`Gradient_Primitive`. -/
def scenarioCurl (α : Type) [LinearOrderedField α] : CVariable α :=
  { nDim := 3, nVar := 5, nPrimVar := 10, nPrimVarGrad := 7,
    Gradient_Primitive := mat [[0, 0, 0], [1, 2, 3], [4, 5, 6], [7, 8, 10]] }

/-- Inputs of the one-equation source term at the point of `scenarioCurl`: the
same gradient of the primitive variables, `ρ = 1`, `μ = 1`, `turb = 10`, `d = 1`. -/
def scenarioCurlSource (α : Type) [LinearOrderedField α] : CSourcePieceWise_TurbSA α :=
  { nDim := 3, nVar := 1, V_i := vec [1, 0, 0, 0, 1, 1, 0, 0, 1, 0], TurbVar_i := vec [10],
    dist_i := 1, Volume := 1,
    PrimVar_Grad_i := mat [[0, 0, 0], [1, 2, 3], [4, 5, 6], [7, 8, 10]] }

/-! ## The one-equation source term with checked divisions

A second embedding of `CSourcePieceWise_TurbSA::ComputeResidual`, statement by
statement the same as the first, in which every division first tests its
denominator: `none` is the error branch. -/

/-- Division that reports a zero denominator. -/
def checkedDiv (a b : α) : Option α :=
  if b = 0 then none else some (a/b)

/-- The statements of `sourceSA_fv` with the divisions checked. -/
def sourceSA_fv_checked (self : CSourcePieceWise_TurbSA α) :
    Option (CSourcePieceWise_TurbSA α) := do
  let self := { self with dist_i_2 := self.dist_i*self.dist_i }
  let q ← checkedDiv self.Laminar_Viscosity_i self.Density_i
  let self := { self with nu := q }
  let q ← checkedDiv (self.TurbVar_i 0) self.nu
  let self := { self with Ji := q }
  let self := { self with Ji_2 := self.Ji*self.Ji }
  let self := { self with Ji_3 := self.Ji_2*self.Ji }
  let q ← checkedDiv self.Ji_3 (self.Ji_3 + self.cv1_3)
  let self := { self with fv1 := q }
  let q ← checkedDiv self.Ji (1.0 + self.Ji*self.fv1)
  pure { self with fv2 := 1.0 - q }

/-- The statements of `sourceSA_production` with the divisions checked. -/
def sourceSA_production_checked (self : CSourcePieceWise_TurbSA α) :
    Option (CSourcePieceWise_TurbSA α) := do
  let self := { self with S := self.Omega }
  let q ← checkedDiv 1.0 (self.k2*self.dist_i_2)
  let self := { self with inv_k2_d2 := q }
  let self := { self with Shat := self.S + self.TurbVar_i 0*self.fv2*self.inv_k2_d2 }
  let q ← checkedDiv 1.0 (max self.Shat 1.0e-10)
  let self := { self with inv_Shat := q }
  if !self.transition then
    pure { self with Production := self.cb1*self.Shat*self.TurbVar_i 0*self.Volume }
  else
    pure { self with
      Production := self.cb1*self.Shat*self.TurbVar_i 0*self.Volume*self.intermittency }

/-- The statements of `sourceSA_destruction` with the divisions checked. -/
def sourceSA_destruction_checked (pow : α → α → α) (self : CSourcePieceWise_TurbSA α) :
    Option (CSourcePieceWise_TurbSA α) := do
  let self := { self with r := min (self.TurbVar_i 0*self.inv_Shat*self.inv_k2_d2) 10.0 }
  let self := { self with
    g := self.r + self.cw2*(self.r*self.r*self.r*self.r*self.r*self.r - self.r) }
  let self := { self with g_6 := self.g*self.g*self.g*self.g*self.g*self.g }
  let q ← checkedDiv (1.0 + self.cw3_6) (self.g_6 + self.cw3_6)
  let e ← checkedDiv 1.0 6.0
  let self := { self with glim := pow q e }
  let self := { self with fw := self.g*self.glim }
  let q ← checkedDiv (self.cw1*self.fw*self.TurbVar_i 0*self.TurbVar_i 0) self.dist_i_2
  if !self.transition then
    pure { self with Destruction := q*self.Volume }
  else
    pure { self with Destruction := q*self.Volume*min (max self.intermittency 0.1) 1.0 }

/-- The statements of `sourceSA_jacobianProduction` with the divisions checked. -/
def sourceSA_jacobianProduction_checked (self : CSourcePieceWise_TurbSA α) (out : Buffers α) :
    Option (CSourcePieceWise_TurbSA α × Buffers α) := do
  let Ji_3_cv1_3 := self.Ji_3 + self.cv1_3
  let q ← checkedDiv (3.0*self.Ji_2*self.cv1_3) (self.nu*Ji_3_cv1_3*Ji_3_cv1_3)
  let self := { self with dfv1 := q }
  let Ji_fv1 := 1.0 + self.Ji*self.fv1
  let q ← checkedDiv 1 self.nu
  let q ← checkedDiv (-(q - self.Ji_2*self.dfv1)) (Ji_fv1*Ji_fv1)
  let self := { self with dfv2 := q }
  let self :=
    if self.Shat ≤ 1.0e-10 then { self with dShat := 0.0 }
    else { self with dShat := (self.fv2 + self.TurbVar_i 0*self.dfv2)*self.inv_k2_d2 }
  let out := { out with
    val_Jacobian_i := setAt2 out.val_Jacobian_i 0 0
      (out.val_Jacobian_i 0 0 + self.cb1*(self.TurbVar_i 0*self.dShat + self.Shat)*self.Volume) }
  pure (self, out)

/-- The statements of `sourceSA_jacobianDestruction` with the divisions checked. -/
def sourceSA_jacobianDestruction_checked (self : CSourcePieceWise_TurbSA α) (out : Buffers α) :
    Option (CSourcePieceWise_TurbSA α × Buffers α) := do
  let self := { self with
    dr := (self.Shat - self.TurbVar_i 0*self.dShat)*self.inv_Shat*self.inv_Shat*self.inv_k2_d2 }
  let self := if self.r = 10.0 then { self with dr := 0.0 } else self
  let self := { self with
    dg := self.dr*(1.0 + self.cw2*(6.0*(self.r*self.r*self.r*self.r*self.r) - 1.0)) }
  let q ← checkedDiv self.g_6 (self.g_6 + self.cw3_6)
  let self := { self with dfw := self.dg*self.glim*(1.0 - q) }
  let q ← checkedDiv (self.cw1*(self.dfw*self.TurbVar_i 0 + 2.0*self.fw)*self.TurbVar_i 0)
    self.dist_i_2
  let out := { out with
    val_Jacobian_i := setAt2 out.val_Jacobian_i 0 0 (out.val_Jacobian_i 0 0 - q*self.Volume) }
  pure (self, out)

/-- `CSourcePieceWise_TurbSA::ComputeResidual` with every division checked: `none`
when some denominator is zero, otherwise the object and the buffers on return. -/
def CSourcePieceWise_TurbSA.ComputeResidual_checked (sqrt : α → α) (pow : α → α → α)
    (self : CSourcePieceWise_TurbSA α) (out : Buffers α) :
    Option (CSourcePieceWise_TurbSA α × Buffers α) :=
  let (self, out) := sourceSA_reset self out
  let self := sourceSA_vorticity sqrt self
  if self.dist_i > 1e-10 then do
    let self ← sourceSA_fv_checked self
    let self ← sourceSA_production_checked self
    let self ← sourceSA_destruction_checked pow self
    let self := sourceSA_diffusion self
    let out := { out with
      val_residual := setAt out.val_residual 0
        (self.Production - self.Destruction + self.CrossProduction) }
    let (self, out) ← sourceSA_jacobianProduction_checked self out
    sourceSA_jacobianDestruction_checked self out
  else some (self, out)

/-- Inputs of a point away from the wall whose density is zero: the kinematic
viscosity `μ_lam/ρ` divides by zero. -/
def scenarioVacuum (α : Type) [LinearOrderedField α] : CSourcePieceWise_TurbSA α :=
  { V_i := vec [1, 0, 0, 1, 0, 0, 0, 1, 0], TurbVar_i := vec [10], dist_i := 1, Volume := 1 }

/-! ## Extent of the primitive storage -/

/-- The dimension and the two extents of the primitive storage of a point. -/
def storageExtent (s : CVariable α) : Nat × Nat × Nat :=
  (s.nDim, s.nPrimVar, s.nPrimVarGrad)

/-- A configuration of the incompressible regime. -/
def scenarioIncompressible : CConfig ℚ :=
  { Kind_Regime := Regime.INCOMPRESSIBLE, Gamma := 7/5, Gas_ConstantND := 1 }

/-! ## Strain-rate magnitude of the point -/

/-- The `nDim == 2` branch of `CNSVariable::SetStrainMag`; `sqrt` is the square
root of the C library. -/
def strainMag_nDim2 (sqrt : α → α) (self : CVariable α) : CVariable α :=
  let div13 := 1.0/3.0*(self.Gradient_Primitive 1 0 + self.Gradient_Primitive 2 1)
  let self := { self with StrainMag := 0.0 }
  let aux := self.Gradient_Primitive 1 0 - div13
  let self := { self with StrainMag := self.StrainMag + aux*aux }
  let aux := self.Gradient_Primitive 2 1 - div13
  let self := { self with StrainMag := self.StrainMag + aux*aux }
  let aux := self.Gradient_Primitive 1 1 + self.Gradient_Primitive 2 0
  let self := { self with StrainMag := self.StrainMag + 2.0*aux*aux }
  { self with StrainMag := sqrt (2.0*self.StrainMag) }

/-- The diagonal terms of the `else` branch of `CNSVariable::SetStrainMag`. -/
def strainMag_diagonal (self : CVariable α) : CVariable α :=
  let div13 := 1.0/3.0*(self.Gradient_Primitive 1 0 + self.Gradient_Primitive 2 1
    + self.Gradient_Primitive 3 2)
  let self := { self with StrainMag := 0.0 }
  let aux := self.Gradient_Primitive 1 0 - div13
  let self := { self with StrainMag := self.StrainMag + aux*aux }
  let aux := self.Gradient_Primitive 2 1 - div13
  let self := { self with StrainMag := self.StrainMag + aux*aux }
  let aux := self.Gradient_Primitive 3 2 - div13
  { self with StrainMag := self.StrainMag + aux*aux }

/-- The off-diagonal terms of the `else` branch of `CNSVariable::SetStrainMag`
and its closing square root. -/
def strainMag_offDiagonal (sqrt : α → α) (self : CVariable α) : CVariable α :=
  let aux := 0.5*(self.Gradient_Primitive 1 1 + self.Gradient_Primitive 2 0)
  let self := { self with StrainMag := self.StrainMag + 2.0*aux*aux }
  let aux := 0.5*(self.Gradient_Primitive 1 2 + self.Gradient_Primitive 3 0)
  let self := { self with StrainMag := self.StrainMag + 2.0*aux*aux }
  let aux := 0.5*(self.Gradient_Primitive 2 2 + self.Gradient_Primitive 3 1)
  let self := { self with StrainMag := self.StrainMag + 2.0*aux*aux }
  { self with StrainMag := sqrt (2.0*self.StrainMag) }

/-- `CNSVariable::SetStrainMag`. -/
def CNSVariable.SetStrainMag (sqrt : α → α) (self : CVariable α) : CVariable α :=
  if self.nDim = 2 then strainMag_nDim2 sqrt self
  else strainMag_offDiagonal sqrt (strainMag_diagonal self)

/-- The velocity gradient `∂u_i/∂x_j` of the specification, components counted
from 0: rows `1 .. nDim` of `Gradient_Primitive`, and 0 for a component outside
the `nDim` dimensions (a planar field seen in space). -/
def specVelocityGradient (nDim : Nat) (G : Nat → Nat → α) (i j : Nat) : α :=
  if i < nDim ∧ j < nDim then G (i+1) j else 0

/-- The deviatoric strain-rate tensor of the specification,
`D = (∇u + ∇uᵀ)/2 − (div u/3)·I`. -/
def specDeviatoricStrain (nDim : Nat) (G : Nat → Nat → α) (i j : Nat) : α :=
  (specVelocityGradient nDim G i j + specVelocityGradient nDim G j i)/2
    - (if i = j then (∑ k in Finset.range nDim, specVelocityGradient nDim G k k)/3 else 0)

/-- The strain-rate magnitude of the specification, `sqrt(2·Σ D_ij²)`, the sum
taken over `i, j < m`: `m = nDim` for the tensor of the `nDim` dimensions, `m = 3`
for the tensor of a planar field seen in space. -/
def specStrainMag (sqrt : α → α) (nDim m : Nat) (G : Nat → Nat → α) : α :=
  sqrt (2*∑ i in Finset.range m, ∑ j in Finset.range m,
    specDeviatoricStrain nDim G i j*specDeviatoricStrain nDim G i j)

/-- A two-dimensional point in a pure shear `∂u/∂y = 1`. -/
def scenarioPlanarShear (α : Type) [LinearOrderedField α] : CVariable α :=
  { nDim := 2, nVar := 4, nPrimVar := 9, nPrimVarGrad := 6,
    Gradient_Primitive := mat [[0, 0], [0, 1], [0, 0]] }

/-- A two-dimensional point in a pure dilatation `∂u/∂x = 3`. -/
def scenarioDilatation (α : Type) [LinearOrderedField α] : CVariable α :=
  { nDim := 2, nVar := 4, nPrimVar := 9, nPrimVarGrad := 6,
    Gradient_Primitive := mat [[0, 0], [3, 0], [0, 0]] }

/-- The point `self` with the same gradient seen in three dimensions. -/
def inSpace (self : CVariable α) : CVariable α :=
  { self with nDim := 3, nVar := 5, nPrimVar := 10, nPrimVarGrad := 7 }

/-! ## Basic lemmas -/

@[ext]
theorem CNumerics.ext_numerics {a b : CNumerics α}
    (h_parent : a.toCNumericsInputs = b.toCNumericsInputs) (h_q_ij : a.q_ij = b.q_ij) (h_a0 :
    a.a0 = b.a0) (h_a1 : a.a1 = b.a1) (h_Velocity_i : a.Velocity_i = b.Velocity_i) (h_Velocity_j
    : a.Velocity_j = b.Velocity_j) (h_Density_i : a.Density_i = b.Density_i) (h_Density_j :
    a.Density_j = b.Density_j) (h_Laminar_Viscosity_i : a.Laminar_Viscosity_i =
    b.Laminar_Viscosity_i) (h_Laminar_Viscosity_j : a.Laminar_Viscosity_j =
    b.Laminar_Viscosity_j) (h_Eddy_Viscosity_i : a.Eddy_Viscosity_i = b.Eddy_Viscosity_i)
    (h_Eddy_Viscosity_j : a.Eddy_Viscosity_j = b.Eddy_Viscosity_j) (h_nu_i : a.nu_i = b.nu_i)
    (h_nu_j : a.nu_j = b.nu_j) (h_nu_e : a.nu_e = b.nu_e) (h_diff_kine : a.diff_kine =
    b.diff_kine) (h_diff_omega : a.diff_omega = b.diff_omega) (h_dist_ij_2 : a.dist_ij_2 =
    b.dist_ij_2) (h_proj_vector_ij : a.proj_vector_ij = b.proj_vector_ij) (h_Edge_Vector :
    a.Edge_Vector = b.Edge_Vector) (h_Mean_GradTurbVar : a.Mean_GradTurbVar =
    b.Mean_GradTurbVar) (h_Proj_Mean_GradTurbVar_Kappa : a.Proj_Mean_GradTurbVar_Kappa =
    b.Proj_Mean_GradTurbVar_Kappa) (h_Proj_Mean_GradTurbVar_Normal :
    a.Proj_Mean_GradTurbVar_Normal = b.Proj_Mean_GradTurbVar_Normal)
    (h_Proj_Mean_GradTurbVar_Edge : a.Proj_Mean_GradTurbVar_Edge = b.Proj_Mean_GradTurbVar_Edge)
    (h_Proj_Mean_GradTurbVar_Corrected : a.Proj_Mean_GradTurbVar_Corrected =
    b.Proj_Mean_GradTurbVar_Corrected) :
    a = b := by
  cases a
  cases b
  simp only [CNumerics.mk.injEq]
  exact ⟨
    h_parent, h_q_ij, h_a0, h_a1, h_Velocity_i, h_Velocity_j, h_Density_i, h_Density_j,
    h_Laminar_Viscosity_i, h_Laminar_Viscosity_j, h_Eddy_Viscosity_i, h_Eddy_Viscosity_j,
    h_nu_i, h_nu_j, h_nu_e, h_diff_kine, h_diff_omega, h_dist_ij_2, h_proj_vector_ij,
    h_Edge_Vector, h_Mean_GradTurbVar, h_Proj_Mean_GradTurbVar_Kappa,
    h_Proj_Mean_GradTurbVar_Normal, h_Proj_Mean_GradTurbVar_Edge,
    h_Proj_Mean_GradTurbVar_Corrected⟩

@[ext]
theorem CVariableBase.ext_base {a b : CVariableBase α}
    (h_nDim : a.nDim = b.nDim) (h_nVar : a.nVar = b.nVar) (h_Solution : a.Solution = b.Solution)
    (h_Solution_Old : a.Solution_Old = b.Solution_Old) (h_Solution_time_n : a.Solution_time_n =
    b.Solution_time_n) (h_Solution_time_n1 : a.Solution_time_n1 = b.Solution_time_n1)
    (h_Res_TruncError : a.Res_TruncError = b.Res_TruncError) (h_Limiter : a.Limiter = b.Limiter)
    (h_Solution_Max : a.Solution_Max = b.Solution_Max) (h_Solution_Min : a.Solution_Min =
    b.Solution_Min) :
    a = b := by
  cases a
  cases b
  simp only [CVariableBase.mk.injEq]
  exact ⟨
    h_nDim, h_nVar, h_Solution, h_Solution_Old, h_Solution_time_n, h_Solution_time_n1,
    h_Res_TruncError, h_Limiter, h_Solution_Max, h_Solution_Min⟩

@[ext]
theorem CVariable.ext_variable {a b : CVariable α}
    (h_parent : a.toCVariableBase = b.toCVariableBase) (h_nPrimVar : a.nPrimVar = b.nPrimVar)
    (h_nPrimVarGrad : a.nPrimVarGrad = b.nPrimVarGrad) (h_Limiter_Primitive :
    a.Limiter_Primitive = b.Limiter_Primitive) (h_TS_Source : a.TS_Source = b.TS_Source)
    (h_Primitive : a.Primitive = b.Primitive) (h_Gradient_Primitive : a.Gradient_Primitive =
    b.Gradient_Primitive) (h_Velocity2 : a.Velocity2 = b.Velocity2) (h_Vorticity : a.Vorticity =
    b.Vorticity) (h_StrainMag : a.StrainMag = b.StrainMag) (h_Temperature_Ref :
    a.Temperature_Ref = b.Temperature_Ref) (h_Viscosity_Ref : a.Viscosity_Ref = b.Viscosity_Ref)
    (h_Viscosity_Inf : a.Viscosity_Inf = b.Viscosity_Inf) (h_Prandtl_Lam : a.Prandtl_Lam =
    b.Prandtl_Lam) (h_Prandtl_Turb : a.Prandtl_Turb = b.Prandtl_Turb) :
    a = b := by
  cases a
  cases b
  simp only [CVariable.mk.injEq]
  exact ⟨
    h_parent, h_nPrimVar, h_nPrimVarGrad, h_Limiter_Primitive, h_TS_Source, h_Primitive,
    h_Gradient_Primitive, h_Velocity2, h_Vorticity, h_StrainMag, h_Temperature_Ref,
    h_Viscosity_Ref, h_Viscosity_Inf, h_Prandtl_Lam, h_Prandtl_Turb⟩

@[simp] theorem forLoop_zero {σ : Type u} (body : Nat → σ → σ) (s : σ) :
    forLoop 0 body s = s := rfl

@[simp] theorem forLoop_succ {σ : Type u} (n : Nat) (body : Nat → σ → σ) (s : σ) :
    forLoop (n+1) body s = body n (forLoop n body s) := rfl

@[simp] theorem setAt_same {β : Type} (a : Nat → β) (i : Nat) (v : β) :
    setAt a i v i = v := by simp [setAt]

theorem setAt_ne {β : Type} (a : Nat → β) {i k : Nat} (v : β) (h : k ≠ i) :
    setAt a i v k = a k := by simp [setAt, h]

theorem half_lit : (0.5 : α) = 1/2 := by norm_num

@[simp] theorem zero_lit : (0.0 : α) = 0 := by norm_num

@[simp] theorem one_lit : (1.0 : α) = 1 := by norm_num

/-! ## Convective operators: loops and closed forms -/

theorem sumTo_zero (f : Nat → α) : sumTo 0 f = 0 := rfl

theorem sumTo_succ (n : Nat) (f : Nat → α) : sumTo (n+1) f = sumTo n f + f n := rfl

theorem sumTo_eq_sum (n : Nat) (f : Nat → α) : sumTo n f = ∑ d in Finset.range n, f d := by
  induction n with
  | zero => simp [sumTo_zero]
  | succ n ih => rw [sumTo_succ, ih, Finset.sum_range_succ]

theorem ite_last {β : Type} (k n : Nat) (a : Nat → β) (b : β) :
    (if k = n then a n else if k < n then a k else b) = if k < n + 1 then a k else b := by
  by_cases h : k = n
  · subst h; simp
  · by_cases h2 : k < n
    · have : k < n + 1 := by omega
      simp [h, h2, this]
    · have : ¬ k < n + 1 := by omega
      simp [h, h2, this]

theorem forLoop_upwBodyFixed (n : Nat) (s : CNumerics α) :
    forLoop n upwBodyFixed s = { s with
      Velocity_i := fun k => if k < n then s.V_i (k+1) else s.Velocity_i k
      Velocity_j := fun k => if k < n then s.V_j (k+1) else s.Velocity_j k
      q_ij := s.q_ij + sumTo n (fun d => 0.5*(s.V_i (d+1) + s.V_j (d+1))*s.Normal d) } := by
  induction n with
  | zero => simp [sumTo_zero]
  | succ n ih =>
    rw [forLoop_succ, ih]
    ext <;> simp [upwBodyFixed, sumTo_succ, setAt, add_assoc]
    · exact ite_last _ n (fun k => s.V_i (k+1)) _
    · exact ite_last _ n (fun k => s.V_j (k+1)) _

theorem forLoop_upwBodyGrid (n : Nat) (s : CNumerics α) :
    forLoop n upwBodyGrid s = { s with
      Velocity_i := fun k => if k < n then s.V_i (k+1) - s.GridVel_i k else s.Velocity_i k
      Velocity_j := fun k => if k < n then s.V_j (k+1) - s.GridVel_j k else s.Velocity_j k
      q_ij := s.q_ij + sumTo n (fun d =>
        0.5*((s.V_i (d+1) - s.GridVel_i d) + (s.V_j (d+1) - s.GridVel_j d))*s.Normal d) } := by
  induction n with
  | zero => simp [sumTo_zero]
  | succ n ih =>
    rw [forLoop_succ, ih]
    ext <;> simp [upwBodyGrid, sumTo_succ, setAt, add_assoc]
    · exact ite_last _ n (fun k => s.V_i (k+1) - s.GridVel_i k) _
    · exact ite_last _ n (fun k => s.V_j (k+1) - s.GridVel_j k) _

/-- The velocity loop of the convective operators, in either branch. -/
theorem upw_loop (s : CNumerics α) :
    (if s.grid_movement then forLoop s.nDim upwBodyGrid s else forLoop s.nDim upwBodyFixed s)
      = { s with
          Velocity_i := fun k => if k < s.nDim then relVelocity_i s k else s.Velocity_i k
          Velocity_j := fun k => if k < s.nDim then relVelocity_j s k else s.Velocity_j k
          q_ij := s.q_ij + fluxSpeed s } := by
  cases hg : s.grid_movement
  · simp only [Bool.false_eq_true, if_false, forLoop_upwBodyFixed, sumTo_eq_sum, fluxSpeed,
      relVelocity_i, relVelocity_j, hg]
    congr 2
    apply Finset.sum_congr rfl
    intro d _
    rw [half_lit]; ring
  · simp only [if_true, forLoop_upwBodyGrid, sumTo_eq_sum, fluxSpeed,
      relVelocity_i, relVelocity_j, hg]
    congr 2
    apply Finset.sum_congr rfl
    intro d _
    rw [half_lit]; ring

/-- Closed form of `CUpwSca_TurbSA::ComputeResidual`. -/
theorem CUpwSca_TurbSA_run (self : CNumerics α) (out : Buffers α) :
    CUpwSca_TurbSA.ComputeResidual self out =
      ({ self with
          Velocity_i := fun k => if k < self.nDim then relVelocity_i self k else self.Velocity_i k
          Velocity_j := fun k => if k < self.nDim then relVelocity_j self k else self.Velocity_j k
          q_ij := fluxSpeed self
          a0 := 0.5*(fluxSpeed self + |fluxSpeed self|)
          a1 := 0.5*(fluxSpeed self - |fluxSpeed self|) },
       { val_residual := setAt out.val_residual 0
            (0.5*(fluxSpeed self + |fluxSpeed self|)*self.TurbVar_i 0
              + 0.5*(fluxSpeed self - |fluxSpeed self|)*self.TurbVar_j 0)
         val_Jacobian_i :=
            if self.implicit then
              setAt2 out.val_Jacobian_i 0 0 (0.5*(fluxSpeed self + |fluxSpeed self|))
            else out.val_Jacobian_i
         val_Jacobian_j :=
            if self.implicit then
              setAt2 out.val_Jacobian_j 0 0 (0.5*(fluxSpeed self - |fluxSpeed self|))
            else out.val_Jacobian_j }) := by
  unfold CUpwSca_TurbSA.ComputeResidual
  simp only []
  have h := upw_loop { self with q_ij := 0.0 }
  simp only [] at h
  rw [h]
  cases hi : self.implicit <;> simp [fluxSpeed, relVelocity_i, relVelocity_j, hi]


/-- Closed form of `CUpwSca_TurbSST::ComputeResidual`. -/
theorem CUpwSca_TurbSST_run (self : CNumerics α) (out : Buffers α) :
    CUpwSca_TurbSST.ComputeResidual self out =
      ({ self with
          Density_i := self.V_i (self.nDim+2)
          Density_j := self.V_j (self.nDim+2)
          Velocity_i := fun k => if k < self.nDim then relVelocity_i self k else self.Velocity_i k
          Velocity_j := fun k => if k < self.nDim then relVelocity_j self k else self.Velocity_j k
          q_ij := fluxSpeed self
          a0 := 0.5*(fluxSpeed self + |fluxSpeed self|)
          a1 := 0.5*(fluxSpeed self - |fluxSpeed self|) },
       { val_residual := setAt (setAt out.val_residual 0
            (0.5*(fluxSpeed self + |fluxSpeed self|)*self.V_i (self.nDim+2)*self.TurbVar_i 0
              + 0.5*(fluxSpeed self - |fluxSpeed self|)*self.V_j (self.nDim+2)*self.TurbVar_j 0))
            1
            (0.5*(fluxSpeed self + |fluxSpeed self|)*self.V_i (self.nDim+2)*self.TurbVar_i 1
              + 0.5*(fluxSpeed self - |fluxSpeed self|)*self.V_j (self.nDim+2)*self.TurbVar_j 1)
         val_Jacobian_i :=
            if self.implicit then
              setAt2 (setAt2 (setAt2 (setAt2 out.val_Jacobian_i 0 0
                (0.5*(fluxSpeed self + |fluxSpeed self|))) 0 1 0) 1 0 0) 1 1
                (0.5*(fluxSpeed self + |fluxSpeed self|))
            else out.val_Jacobian_i
         val_Jacobian_j :=
            if self.implicit then
              setAt2 (setAt2 (setAt2 (setAt2 out.val_Jacobian_j 0 0
                (0.5*(fluxSpeed self - |fluxSpeed self|))) 0 1 0) 1 0 0) 1 1
                (0.5*(fluxSpeed self - |fluxSpeed self|))
            else out.val_Jacobian_j }) := by
  unfold CUpwSca_TurbSST.ComputeResidual
  simp only []
  have h := upw_loop { self with
    Density_i := self.V_i (self.nDim+2), Density_j := self.V_j (self.nDim+2), q_ij := 0.0 }
  simp only [] at h
  rw [h]
  cases hi : self.implicit <;> simp [fluxSpeed, relVelocity_i, relVelocity_j, hi]

theorem upw_split (q : α) :
    0.5*(q + |q|) + 0.5*(q - |q|) = q
    ∧ (q ≠ 0 → (0.5*(q + |q|) ≠ 0 ∧ 0.5*(q - |q|) = 0) ∨ (0.5*(q + |q|) = 0 ∧ 0.5*(q - |q|) ≠ 0))
    ∧ (q = 0 → 0.5*(q + |q|) = 0 ∧ 0.5*(q - |q|) = 0) := by
  refine ⟨by rw [half_lit]; ring, ?_, ?_⟩
  · intro hq
    rcases lt_or_gt_of_ne hq with h | h
    · right
      rw [abs_of_neg h, half_lit]
      constructor
      · ring
      · intro h0
        apply hq
        linarith
    · left
      rw [abs_of_pos h, half_lit]
      constructor
      · intro h0
        apply hq
        linarith
      · ring
  · intro hq
    subst hq
    simp

theorem upw_max (q : α) : 0.5*(q + |q|) = max q 0 := by
  rw [half_lit]
  rcases le_total 0 q with h | h
  · rw [abs_of_nonneg h, max_eq_left h]; ring
  · rw [abs_of_nonpos h, max_eq_right h]; ring

theorem upw_min (q : α) : 0.5*(q - |q|) = min q 0 := by
  rw [half_lit]
  rcases le_total 0 q with h | h
  · rw [abs_of_nonneg h, min_eq_right h]; ring
  · rw [abs_of_nonpos h, min_eq_left h]; ring

/-! ## Viscous operators: loops and closed forms -/

theorem ite_last2 {β : Type} (r c i n : Nat) (a : Nat → β) (b : Nat → Nat → β) :
    (if r = i ∧ c = n then a n else if r = i ∧ c < n then a c else b r c)
      = if r = i ∧ c < n + 1 then a c else b r c := by
  by_cases hr : r = i
  · simp only [hr, true_and]; exact ite_last c n a (b i c)
  · simp [hr]

theorem forLoop_edgeBody (n : Nat) (s : CNumerics α) :
    forLoop n edgeBody s = { s with
      Edge_Vector := fun k => if k < n then s.Coord_j k - s.Coord_i k else s.Edge_Vector k
      dist_ij_2 := s.dist_ij_2 + sumTo n (fun d =>
        (s.Coord_j d - s.Coord_i d)*(s.Coord_j d - s.Coord_i d))
      proj_vector_ij := s.proj_vector_ij + sumTo n (fun d =>
        (s.Coord_j d - s.Coord_i d)*s.Normal d) } := by
  induction n with
  | zero => simp [sumTo_zero]
  | succ n ih =>
    rw [forLoop_succ, ih]
    ext <;> simp [edgeBody, sumTo_succ, setAt, add_assoc]
    · exact ite_last _ n (fun k => s.Coord_j k - s.Coord_i k) _

theorem edgeVector_def (s : CNumerics α) :
    edgeVector s = fun d => s.Coord_j d - s.Coord_i d := rfl

theorem meanGrad_def (s : CNumerics α) (k : Nat) :
    meanGrad s k = fun d => (s.TurbVar_Grad_i k d + s.TurbVar_Grad_j k d)/2 := rfl

theorem sumTo_eq_dot (n : Nat) (f g : Nat → α) : sumTo n (fun d => f d*g d) = dot n f g := by
  rw [sumTo_eq_sum]; rfl

theorem sumTo_half_eq_dot (n : Nat) (a b w : Nat → α) :
    sumTo n (fun d => 0.5*(a d + b d)*w d) = dot n (fun d => (a d + b d)/2) w := by
  rw [sumTo_eq_sum]
  unfold dot
  apply Finset.sum_congr rfl
  intro d _
  rw [half_lit]; ring

theorem dot_guard (n : Nat) (f E E0 : Nat → α) :
    dot n f (fun d => if d < n then E d else E0 d) = dot n f E := by
  unfold dot
  apply Finset.sum_congr rfl
  intro d hd
  simp only [if_pos (Finset.mem_range.mp hd)]

/-- Closed form of the edge-projection block. -/
theorem edgeProjection_run (s : CNumerics α) :
    edgeProjection s = { s with
      Edge_Vector := fun k => if k < s.nDim then edgeVector s k else s.Edge_Vector k
      dist_ij_2 := edgeLength2 s
      proj_vector_ij := edgeProj s } := by
  unfold edgeProjection
  simp only [forLoop_edgeBody, sumTo_eq_dot, zero_add, zero_lit]
  by_cases h : dot s.nDim (fun d => s.Coord_j d - s.Coord_i d)
      (fun d => s.Coord_j d - s.Coord_i d) = 0
  · simp [h, edgeProj, edgeLength2, edgeVector_def, projOf]
  · simp [h, edgeProj, edgeLength2, edgeVector_def, projOf]

theorem forLoop_avgGradSA_inner (iVar n : Nat) (s : CNumerics α) :
    forLoop n (avgGradSA_inner iVar) s = { s with
      Mean_GradTurbVar := fun r c =>
        if r = iVar ∧ c < n then 0.5*(s.TurbVar_Grad_i iVar c + s.TurbVar_Grad_j iVar c)
        else s.Mean_GradTurbVar r c
      Proj_Mean_GradTurbVar_Kappa := fun r =>
        if r = iVar then
          s.Proj_Mean_GradTurbVar_Kappa iVar + sumTo n (fun d =>
            0.5*(s.TurbVar_Grad_i iVar d + s.TurbVar_Grad_j iVar d)*s.Normal d)
        else s.Proj_Mean_GradTurbVar_Kappa r } := by
  induction n with
  | zero =>
    ext <;> simp [sumTo_zero]
    split_ifs with h
    · rw [h]
    · rfl
  | succ n ih =>
    rw [forLoop_succ, ih]
    ext <;> simp [avgGradSA_inner, sumTo_succ, setAt, setAt2, add_assoc]
    · exact ite_last2 _ _ iVar n
        (fun c => 0.5*(s.TurbVar_Grad_i iVar c + s.TurbVar_Grad_j iVar c)) _
    · split_ifs <;> rfl

theorem forLoop_avgGradSA_outer (m : Nat) (s : CNumerics α) :
    forLoop m avgGradSA_outer s = { s with
      Mean_GradTurbVar := fun r c =>
        if r < m ∧ c < s.nDim then 0.5*(s.TurbVar_Grad_i r c + s.TurbVar_Grad_j r c)
        else s.Mean_GradTurbVar r c
      Proj_Mean_GradTurbVar_Kappa := fun r =>
        if r < m then meanGradDot s s.Normal r else s.Proj_Mean_GradTurbVar_Kappa r
      Proj_Mean_GradTurbVar_Edge := fun r =>
        if r < m then 0 else s.Proj_Mean_GradTurbVar_Edge r } := by
  induction m with
  | zero => simp
  | succ m ih =>
    rw [forLoop_succ, ih]
    unfold avgGradSA_outer
    simp only [forLoop_avgGradSA_inner, sumTo_half_eq_dot]
    ext <;> simp [setAt, meanGradDot, meanGrad_def]
    all_goals
      split_ifs <;> first | rfl | (exfalso; omega) | simp_all


theorem meanViscositySA_run (s : CNumerics α) :
    meanViscositySA s = { s with
      Density_i := s.V_i (s.nDim+2)
      Density_j := s.V_j (s.nDim+2)
      Laminar_Viscosity_i := s.V_i (s.nDim+5)
      Laminar_Viscosity_j := s.V_j (s.nDim+5)
      Eddy_Viscosity_i := s.V_i (s.nDim+6)
      Eddy_Viscosity_j := s.V_j (s.nDim+6)
      nu_i := s.V_i (s.nDim+5)/s.V_i (s.nDim+2)
      nu_j := s.V_j (s.nDim+5)/s.V_j (s.nDim+2)
      nu_e := nuE s } := by
  unfold meanViscositySA loadPrimitives nuE
  ext <;> simp
  rw [half_lit]; ring

/-- Closed form of `CAvgGrad_TurbSA::ComputeResidual`. -/
theorem CAvgGrad_TurbSA_run (self : CNumerics α) (out : Buffers α) :
    CAvgGrad_TurbSA.ComputeResidual self out =
      ({ self with
          Density_i := self.V_i (self.nDim+2)
          Density_j := self.V_j (self.nDim+2)
          Laminar_Viscosity_i := self.V_i (self.nDim+5)
          Laminar_Viscosity_j := self.V_j (self.nDim+5)
          Eddy_Viscosity_i := self.V_i (self.nDim+6)
          Eddy_Viscosity_j := self.V_j (self.nDim+6)
          nu_i := self.V_i (self.nDim+5)/self.V_i (self.nDim+2)
          nu_j := self.V_j (self.nDim+5)/self.V_j (self.nDim+2)
          nu_e := nuE self
          Edge_Vector := fun k => if k < self.nDim then edgeVector self k else self.Edge_Vector k
          dist_ij_2 := edgeLength2 self
          proj_vector_ij := edgeProj self
          Mean_GradTurbVar := fun r c =>
            if r < self.nVar ∧ c < self.nDim then
              0.5*(self.TurbVar_Grad_i r c + self.TurbVar_Grad_j r c)
            else self.Mean_GradTurbVar r c
          Proj_Mean_GradTurbVar_Kappa := fun r =>
            if r < self.nVar then meanGradDot self self.Normal r
            else self.Proj_Mean_GradTurbVar_Kappa r
          Proj_Mean_GradTurbVar_Edge := fun r =>
            if r < self.nVar then 0 else self.Proj_Mean_GradTurbVar_Edge r },
       { val_residual := setAt out.val_residual 0
            (nuE self*(if 0 < self.nVar then meanGradDot self self.Normal 0
              else self.Proj_Mean_GradTurbVar_Kappa 0)/self.sigma)
         val_Jacobian_i :=
            if self.implicit then
              setAt2 out.val_Jacobian_i 0 0
                ((0.5*(if 0 < self.nVar then meanGradDot self self.Normal 0
                    else self.Proj_Mean_GradTurbVar_Kappa 0) - nuE self*edgeProj self)/self.sigma)
            else out.val_Jacobian_i
         val_Jacobian_j :=
            if self.implicit then
              setAt2 out.val_Jacobian_j 0 0
                ((0.5*(if 0 < self.nVar then meanGradDot self self.Normal 0
                    else self.Proj_Mean_GradTurbVar_Kappa 0) + nuE self*edgeProj self)/self.sigma)
            else out.val_Jacobian_j }) := by
  unfold CAvgGrad_TurbSA.ComputeResidual
  simp only [meanViscositySA_run, edgeProjection_run, forLoop_avgGradSA_outer]
  cases hi : self.implicit <;>
    simp [hi, nuE, edgeProj, edgeLength2, edgeVector_def, meanGradDot, meanGrad_def]


theorem forLoop_avgGradCorrSA_inner (iVar n : Nat) (s : CNumerics α) :
    forLoop n (avgGradCorrSA_inner iVar) s = { s with
      Mean_GradTurbVar := fun r c =>
        if r = iVar ∧ c < n then 0.5*(s.TurbVar_Grad_i iVar c + s.TurbVar_Grad_j iVar c)
        else s.Mean_GradTurbVar r c
      Proj_Mean_GradTurbVar_Kappa := fun r =>
        if r = iVar then
          s.Proj_Mean_GradTurbVar_Kappa iVar + sumTo n (fun d =>
            0.5*(s.TurbVar_Grad_i iVar d + s.TurbVar_Grad_j iVar d)*s.Normal d)
        else s.Proj_Mean_GradTurbVar_Kappa r
      Proj_Mean_GradTurbVar_Edge := fun r =>
        if r = iVar then
          s.Proj_Mean_GradTurbVar_Edge iVar + sumTo n (fun d =>
            0.5*(s.TurbVar_Grad_i iVar d + s.TurbVar_Grad_j iVar d)*s.Edge_Vector d)
        else s.Proj_Mean_GradTurbVar_Edge r } := by
  induction n with
  | zero =>
    ext <;> simp [sumTo_zero]
    all_goals
      split_ifs with h
      · rw [h]
      · rfl
  | succ n ih =>
    rw [forLoop_succ, ih]
    ext <;> simp [avgGradCorrSA_inner, sumTo_succ, setAt, setAt2, add_assoc]
    · exact ite_last2 _ _ iVar n
        (fun c => 0.5*(s.TurbVar_Grad_i iVar c + s.TurbVar_Grad_j iVar c)) _
    · split_ifs <;> rfl
    · split_ifs <;> rfl

theorem forLoop_avgGradCorrSA_outer (m : Nat) (s : CNumerics α) :
    forLoop m avgGradCorrSA_outer s = { s with
      Mean_GradTurbVar := fun r c =>
        if r < m ∧ c < s.nDim then 0.5*(s.TurbVar_Grad_i r c + s.TurbVar_Grad_j r c)
        else s.Mean_GradTurbVar r c
      Proj_Mean_GradTurbVar_Kappa := fun r =>
        if r < m then meanGradDot s s.Normal r else s.Proj_Mean_GradTurbVar_Kappa r
      Proj_Mean_GradTurbVar_Edge := fun r =>
        if r < m then meanGradDot s s.Edge_Vector r else s.Proj_Mean_GradTurbVar_Edge r
      Proj_Mean_GradTurbVar_Corrected := fun r =>
        if r < m then
          meanGradDot s s.Normal r
            - (meanGradDot s s.Edge_Vector r*s.proj_vector_ij
                - (s.TurbVar_j r - s.TurbVar_i r)*s.proj_vector_ij)
        else s.Proj_Mean_GradTurbVar_Corrected r } := by
  induction m with
  | zero => simp
  | succ m ih =>
    rw [forLoop_succ, ih]
    unfold avgGradCorrSA_outer
    simp only [forLoop_avgGradCorrSA_inner, sumTo_half_eq_dot]
    ext <;> simp [setAt, meanGradDot, meanGrad_def]
    all_goals
      split_ifs <;> first | rfl | (exfalso; omega) | simp_all

theorem forLoop_avgGradSST_inner (iVar n : Nat) (s : CNumerics α) :
    forLoop n (avgGradSST_inner iVar) s = { s with
      Mean_GradTurbVar := fun r c =>
        if r = iVar ∧ c < n then 0.5*(s.TurbVar_Grad_i iVar c + s.TurbVar_Grad_j iVar c)
        else s.Mean_GradTurbVar r c
      Proj_Mean_GradTurbVar_Normal := fun r =>
        if r = iVar then
          s.Proj_Mean_GradTurbVar_Normal iVar + sumTo n (fun d =>
            0.5*(s.TurbVar_Grad_i iVar d + s.TurbVar_Grad_j iVar d)*s.Normal d)
        else s.Proj_Mean_GradTurbVar_Normal r } := by
  induction n with
  | zero =>
    ext <;> simp [sumTo_zero]
    split_ifs with h
    · rw [h]
    · rfl
  | succ n ih =>
    rw [forLoop_succ, ih]
    ext <;> simp [avgGradSST_inner, sumTo_succ, setAt, setAt2, add_assoc]
    · exact ite_last2 _ _ iVar n
        (fun c => 0.5*(s.TurbVar_Grad_i iVar c + s.TurbVar_Grad_j iVar c)) _
    · split_ifs <;> rfl

theorem forLoop_avgGradSST_outer (m : Nat) (s : CNumerics α) :
    forLoop m avgGradSST_outer s = { s with
      Mean_GradTurbVar := fun r c =>
        if r < m ∧ c < s.nDim then 0.5*(s.TurbVar_Grad_i r c + s.TurbVar_Grad_j r c)
        else s.Mean_GradTurbVar r c
      Proj_Mean_GradTurbVar_Normal := fun r =>
        if r < m then meanGradDot s s.Normal r else s.Proj_Mean_GradTurbVar_Normal r
      Proj_Mean_GradTurbVar_Edge := fun r =>
        if r < m then 0 else s.Proj_Mean_GradTurbVar_Edge r
      Proj_Mean_GradTurbVar_Corrected := fun r =>
        if r < m then meanGradDot s s.Normal r else s.Proj_Mean_GradTurbVar_Corrected r } := by
  induction m with
  | zero => simp
  | succ m ih =>
    rw [forLoop_succ, ih]
    unfold avgGradSST_outer
    simp only [forLoop_avgGradSST_inner, sumTo_half_eq_dot]
    ext <;> simp [setAt, meanGradDot, meanGrad_def]
    all_goals
      split_ifs <;> first | rfl | (exfalso; omega) | simp_all

theorem forLoop_avgGradCorrSST_inner (iVar n : Nat) (s : CNumerics α) :
    forLoop n (avgGradCorrSST_inner iVar) s = { s with
      Mean_GradTurbVar := fun r c =>
        if r = iVar ∧ c < n then 0.5*(s.TurbVar_Grad_i iVar c + s.TurbVar_Grad_j iVar c)
        else s.Mean_GradTurbVar r c
      Proj_Mean_GradTurbVar_Normal := fun r =>
        if r = iVar then
          s.Proj_Mean_GradTurbVar_Normal iVar + sumTo n (fun d =>
            0.5*(s.TurbVar_Grad_i iVar d + s.TurbVar_Grad_j iVar d)*s.Normal d)
        else s.Proj_Mean_GradTurbVar_Normal r
      Proj_Mean_GradTurbVar_Edge := fun r =>
        if r = iVar then
          s.Proj_Mean_GradTurbVar_Edge iVar + sumTo n (fun d =>
            0.5*(s.TurbVar_Grad_i iVar d + s.TurbVar_Grad_j iVar d)*s.Edge_Vector d)
        else s.Proj_Mean_GradTurbVar_Edge r } := by
  induction n with
  | zero =>
    ext <;> simp [sumTo_zero]
    all_goals
      split_ifs with h
      · rw [h]
      · rfl
  | succ n ih =>
    rw [forLoop_succ, ih]
    ext <;> simp [avgGradCorrSST_inner, sumTo_succ, setAt, setAt2, add_assoc]
    · exact ite_last2 _ _ iVar n
        (fun c => 0.5*(s.TurbVar_Grad_i iVar c + s.TurbVar_Grad_j iVar c)) _
    · split_ifs <;> rfl
    · split_ifs <;> rfl

theorem forLoop_avgGradCorrSST_outer (m : Nat) (s : CNumerics α) :
    forLoop m avgGradCorrSST_outer s = { s with
      Mean_GradTurbVar := fun r c =>
        if r < m ∧ c < s.nDim then 0.5*(s.TurbVar_Grad_i r c + s.TurbVar_Grad_j r c)
        else s.Mean_GradTurbVar r c
      Proj_Mean_GradTurbVar_Normal := fun r =>
        if r < m then meanGradDot s s.Normal r else s.Proj_Mean_GradTurbVar_Normal r
      Proj_Mean_GradTurbVar_Edge := fun r =>
        if r < m then meanGradDot s s.Edge_Vector r else s.Proj_Mean_GradTurbVar_Edge r
      Proj_Mean_GradTurbVar_Corrected := fun r =>
        if r < m then
          meanGradDot s s.Normal r
            - (meanGradDot s s.Edge_Vector r*s.proj_vector_ij
                - (s.TurbVar_j r - s.TurbVar_i r)*s.proj_vector_ij)
        else s.Proj_Mean_GradTurbVar_Corrected r } := by
  induction m with
  | zero => simp
  | succ m ih =>
    rw [forLoop_succ, ih]
    unfold avgGradCorrSST_outer
    simp only [forLoop_avgGradCorrSST_inner, sumTo_half_eq_dot]
    ext <;> simp [setAt, meanGradDot, meanGrad_def]
    all_goals
      split_ifs <;> first | rfl | (exfalso; omega) | simp_all

theorem meanViscositySST_run (s : CNumerics α) :
    meanViscositySST s = { s with
      Density_i := s.V_i (s.nDim+2)
      Density_j := s.V_j (s.nDim+2)
      Laminar_Viscosity_i := s.V_i (s.nDim+5)
      Laminar_Viscosity_j := s.V_j (s.nDim+5)
      Eddy_Viscosity_i := s.V_i (s.nDim+6)
      Eddy_Viscosity_j := s.V_j (s.nDim+6)
      diff_kine := diffKine s
      diff_omega := diffOmega s } := by
  unfold meanViscositySST loadPrimitives diffKine diffOmega sigmaKine sigmaOmega
  ext <;> simp
  · rw [half_lit]; ring
  · rw [half_lit]; ring


/-- Closed form of `CAvgGradCorrected_TurbSA::ComputeResidual`. -/
theorem CAvgGradCorrected_TurbSA_run (self : CNumerics α) (out : Buffers α) :
    CAvgGradCorrected_TurbSA.ComputeResidual self out =
      ({ self with
          Density_i := self.V_i (self.nDim+2)
          Density_j := self.V_j (self.nDim+2)
          Laminar_Viscosity_i := self.V_i (self.nDim+5)
          Laminar_Viscosity_j := self.V_j (self.nDim+5)
          Eddy_Viscosity_i := self.V_i (self.nDim+6)
          Eddy_Viscosity_j := self.V_j (self.nDim+6)
          nu_i := self.V_i (self.nDim+5)/self.V_i (self.nDim+2)
          nu_j := self.V_j (self.nDim+5)/self.V_j (self.nDim+2)
          nu_e := nuE self
          Edge_Vector := fun k => if k < self.nDim then edgeVector self k else self.Edge_Vector k
          dist_ij_2 := edgeLength2 self
          proj_vector_ij := edgeProj self
          Mean_GradTurbVar := fun r c =>
            if r < self.nVar ∧ c < self.nDim then
              0.5*(self.TurbVar_Grad_i r c + self.TurbVar_Grad_j r c)
            else self.Mean_GradTurbVar r c
          Proj_Mean_GradTurbVar_Kappa := fun r =>
            if r < self.nVar then meanGradDot self self.Normal r
            else self.Proj_Mean_GradTurbVar_Kappa r
          Proj_Mean_GradTurbVar_Edge := fun r =>
            if r < self.nVar then meanGradDot self (edgeVector self) r
            else self.Proj_Mean_GradTurbVar_Edge r
          Proj_Mean_GradTurbVar_Corrected := fun r =>
            if r < self.nVar then correctedProj self r
            else self.Proj_Mean_GradTurbVar_Corrected r },
       { val_residual := setAt out.val_residual 0
            (nuE self*(if 0 < self.nVar then correctedProj self 0
              else self.Proj_Mean_GradTurbVar_Corrected 0)/self.sigma)
         val_Jacobian_i :=
            if self.implicit then
              setAt2 out.val_Jacobian_i 0 0
                ((0.5*(if 0 < self.nVar then correctedProj self 0
                    else self.Proj_Mean_GradTurbVar_Corrected 0) - nuE self*edgeProj self)
                  /self.sigma)
            else out.val_Jacobian_i
         val_Jacobian_j :=
            if self.implicit then
              setAt2 out.val_Jacobian_j 0 0
                ((0.5*(if 0 < self.nVar then correctedProj self 0
                    else self.Proj_Mean_GradTurbVar_Corrected 0) + nuE self*edgeProj self)
                  /self.sigma)
            else out.val_Jacobian_j }) := by
  have hc : ∀ r, meanGradDot self self.Normal r
      - (meanGradDot self (edgeVector self) r*edgeProj self
          - (self.TurbVar_j r - self.TurbVar_i r)*edgeProj self) = correctedProj self r := by
    intro r; unfold correctedProj; ring
  unfold CAvgGradCorrected_TurbSA.ComputeResidual
  simp only [meanViscositySA_run, edgeProjection_run, forLoop_avgGradCorrSA_outer]
  simp only [meanGradDot, meanGrad_def, dot_guard, edgeVector_def, edgeProj, edgeLength2,
    correctedProj, nuE] at hc ⊢
  simp only [hc]
  cases hi : self.implicit <;> simp [hi]


/-- Closed form of `CAvgGrad_TurbSST::ComputeResidual`. -/
theorem CAvgGrad_TurbSST_run (self : CNumerics α) (out : Buffers α) :
    CAvgGrad_TurbSST.ComputeResidual self out =
      ({ self with
          Density_i := self.V_i (self.nDim+2)
          Density_j := self.V_j (self.nDim+2)
          Laminar_Viscosity_i := self.V_i (self.nDim+5)
          Laminar_Viscosity_j := self.V_j (self.nDim+5)
          Eddy_Viscosity_i := self.V_i (self.nDim+6)
          Eddy_Viscosity_j := self.V_j (self.nDim+6)
          diff_kine := diffKine self
          diff_omega := diffOmega self
          Edge_Vector := fun k => if k < self.nDim then edgeVector self k else self.Edge_Vector k
          dist_ij_2 := edgeLength2 self
          proj_vector_ij := edgeProj self
          Mean_GradTurbVar := fun r c =>
            if r < self.nVar ∧ c < self.nDim then
              0.5*(self.TurbVar_Grad_i r c + self.TurbVar_Grad_j r c)
            else self.Mean_GradTurbVar r c
          Proj_Mean_GradTurbVar_Normal := fun r =>
            if r < self.nVar then meanGradDot self self.Normal r
            else self.Proj_Mean_GradTurbVar_Normal r
          Proj_Mean_GradTurbVar_Edge := fun r =>
            if r < self.nVar then 0
            else self.Proj_Mean_GradTurbVar_Edge r
          Proj_Mean_GradTurbVar_Corrected := fun r =>
            if r < self.nVar then meanGradDot self self.Normal r
            else self.Proj_Mean_GradTurbVar_Corrected r },
       { val_residual := setAt (setAt out.val_residual 0
            (diffKine self*(if 0 < self.nVar then meanGradDot self self.Normal 0
              else self.Proj_Mean_GradTurbVar_Corrected 0))) 1
            (diffOmega self*(if 1 < self.nVar then meanGradDot self self.Normal 1
              else self.Proj_Mean_GradTurbVar_Corrected 1))
         val_Jacobian_i :=
            if self.implicit then
              setAt2 (setAt2 (setAt2 (setAt2 out.val_Jacobian_i 0 0
                (-diffKine self*edgeProj self/self.V_i (self.nDim+2))) 0 1 0) 1 0 0) 1 1
                (-diffOmega self*edgeProj self/self.V_i (self.nDim+2))
            else out.val_Jacobian_i
         val_Jacobian_j :=
            if self.implicit then
              setAt2 (setAt2 (setAt2 (setAt2 out.val_Jacobian_j 0 0
                (diffKine self*edgeProj self/self.V_j (self.nDim+2))) 0 1 0) 1 0 0) 1 1
                (diffOmega self*edgeProj self/self.V_j (self.nDim+2))
            else out.val_Jacobian_j }) := by
  unfold CAvgGrad_TurbSST.ComputeResidual storeSST
  simp only [meanViscositySST_run, edgeProjection_run, forLoop_avgGradSST_outer]
  simp only [meanGradDot, meanGrad_def, dot_guard, edgeVector_def, edgeProj, edgeLength2,
    correctedProj, diffKine, diffOmega, sigmaKine, sigmaOmega]
  cases hi : self.implicit <;> simp [hi]

/-- Closed form of `CAvgGradCorrected_TurbSST::ComputeResidual`. -/
theorem CAvgGradCorrected_TurbSST_run (self : CNumerics α) (out : Buffers α) :
    CAvgGradCorrected_TurbSST.ComputeResidual self out =
      ({ self with
          Density_i := self.V_i (self.nDim+2)
          Density_j := self.V_j (self.nDim+2)
          Laminar_Viscosity_i := self.V_i (self.nDim+5)
          Laminar_Viscosity_j := self.V_j (self.nDim+5)
          Eddy_Viscosity_i := self.V_i (self.nDim+6)
          Eddy_Viscosity_j := self.V_j (self.nDim+6)
          diff_kine := diffKine self
          diff_omega := diffOmega self
          Edge_Vector := fun k => if k < self.nDim then edgeVector self k else self.Edge_Vector k
          dist_ij_2 := edgeLength2 self
          proj_vector_ij := edgeProj self
          Mean_GradTurbVar := fun r c =>
            if r < self.nVar ∧ c < self.nDim then
              0.5*(self.TurbVar_Grad_i r c + self.TurbVar_Grad_j r c)
            else self.Mean_GradTurbVar r c
          Proj_Mean_GradTurbVar_Normal := fun r =>
            if r < self.nVar then meanGradDot self self.Normal r
            else self.Proj_Mean_GradTurbVar_Normal r
          Proj_Mean_GradTurbVar_Edge := fun r =>
            if r < self.nVar then meanGradDot self (edgeVector self) r
            else self.Proj_Mean_GradTurbVar_Edge r
          Proj_Mean_GradTurbVar_Corrected := fun r =>
            if r < self.nVar then correctedProj self r
            else self.Proj_Mean_GradTurbVar_Corrected r },
       { val_residual := setAt (setAt out.val_residual 0
            (diffKine self*(if 0 < self.nVar then correctedProj self 0
              else self.Proj_Mean_GradTurbVar_Corrected 0))) 1
            (diffOmega self*(if 1 < self.nVar then correctedProj self 1
              else self.Proj_Mean_GradTurbVar_Corrected 1))
         val_Jacobian_i :=
            if self.implicit then
              setAt2 (setAt2 (setAt2 (setAt2 out.val_Jacobian_i 0 0
                (-diffKine self*edgeProj self/self.V_i (self.nDim+2))) 0 1 0) 1 0 0) 1 1
                (-diffOmega self*edgeProj self/self.V_i (self.nDim+2))
            else out.val_Jacobian_i
         val_Jacobian_j :=
            if self.implicit then
              setAt2 (setAt2 (setAt2 (setAt2 out.val_Jacobian_j 0 0
                (diffKine self*edgeProj self/self.V_j (self.nDim+2))) 0 1 0) 1 0 0) 1 1
                (diffOmega self*edgeProj self/self.V_j (self.nDim+2))
            else out.val_Jacobian_j }) := by
  have hc : ∀ r, meanGradDot self self.Normal r
      - (meanGradDot self (edgeVector self) r*edgeProj self
          - (self.TurbVar_j r - self.TurbVar_i r)*edgeProj self) = correctedProj self r := by
    intro r; unfold correctedProj; ring
  unfold CAvgGradCorrected_TurbSST.ComputeResidual storeSST
  simp only [meanViscositySST_run, edgeProjection_run, forLoop_avgGradCorrSST_outer]
  simp only [meanGradDot, meanGrad_def, dot_guard, edgeVector_def, edgeProj, edgeLength2,
    correctedProj, diffKine, diffOmega, sigmaKine, sigmaOmega] at hc ⊢
  simp only [hc]
  cases hi : self.implicit <;> simp [hi]

/-! ## Flow variables: closed forms of the reconstruction -/

theorem forLoop_velocity (n : Nat) (s : CVariable α) :
    forLoop n (fun iDim (self : CVariable α) =>
      let self := { self with
        Primitive := setAt self.Primitive (iDim+1) (self.Solution (iDim+1)/self.Solution 0) }
      { self with
        Velocity2 := self.Velocity2 + self.Primitive (iDim+1)*self.Primitive (iDim+1) }) s
    = { s with
        Primitive := fun k => if 1 ≤ k ∧ k ≤ n then s.Solution k/s.Solution 0 else s.Primitive k
        Velocity2 := s.Velocity2 + velocity2Of n s.Solution } := by
  induction n with
  | zero =>
    ext <;> simp [velocity2Of]
    split_ifs with h
    · exfalso; omega
    · rfl
  | succ n ih =>
    rw [forLoop_succ, ih]
    ext <;> simp [velocity2Of, Finset.sum_range_succ, setAt, add_assoc]
    split_ifs <;> first | rfl | (exfalso; omega) | (subst_vars; rfl)

theorem SetVelocity_run (s : CVariable α) :
    CEulerVariable.SetVelocity s = { s with
      Primitive := fun k =>
        if 1 ≤ k ∧ k ≤ s.nDim then s.Solution k/s.Solution 0 else s.Primitive k
      Velocity2 := velocity2Of s.nDim s.Solution } := by
  unfold CEulerVariable.SetVelocity
  simp only [forLoop_velocity]
  simp

theorem pair_ite {β : Type} (c : Prop) [Decidable c] (x : β) :
    (if c then (x, false) else (x, true)) = (x, !decide c) := by
  by_cases h : c <;> simp [h]

theorem SetDensity_run (s : CVariable α) :
    CEulerVariable.SetDensity s =
      ({ s with
          Primitive := setAt s.Primitive (s.nDim+2) (s.Solution 0) },
        !decide (0 < s.Solution 0)) := by
  unfold CEulerVariable.SetDensity
  simp only [pair_ite, gt_iff_lt, zero_lit, setAt_same]

theorem SetPressure_run (s : CVariable α) (Gamma : α) :
    CEulerVariable.SetPressure s Gamma =
      ({ s with
          Primitive := setAt s.Primitive (s.nDim+1)
                ((Gamma-1)*s.Solution 0*(s.Solution (s.nVar-1)/s.Solution 0 - s.Velocity2/2)) },
        !decide (0 < (Gamma-1)*s.Solution 0
          *(s.Solution (s.nVar-1)/s.Solution 0 - s.Velocity2/2))) := by
  have h : (0.5 : α)*s.Velocity2 = s.Velocity2/2 := by rw [half_lit]; ring
  unfold CEulerVariable.SetPressure
  simp only [pair_ite, gt_iff_lt, zero_lit, one_lit, setAt_same, h]

theorem NS_SetPressure_run (s : CVariable α) (Gamma turb_ke : α) :
    CNSVariable.SetPressure s Gamma turb_ke =
      ({ s with
          Primitive := setAt s.Primitive (s.nDim+1)
                ((Gamma-1)*s.Solution 0*(s.Solution (s.nVar-1)/s.Solution 0 - s.Velocity2/2)
                  - 2/3*s.Solution 0*turb_ke) },
        !decide (0 < (Gamma-1)*s.Solution 0
            *(s.Solution (s.nVar-1)/s.Solution 0 - s.Velocity2/2)
          - 2/3*s.Solution 0*turb_ke)) := by
  have h : (0.5 : α)*s.Velocity2 = s.Velocity2/2 := by rw [half_lit]; ring
  have h2 : (2.0 : α)/3.0 = 2/3 := by norm_num
  unfold CNSVariable.SetPressure
  simp only [pair_ite, gt_iff_lt, zero_lit, one_lit, setAt_same, h, h2]

theorem SetSoundSpeed_run (sqrt : α → α) (s : CVariable α) (Gamma : α) :
    CEulerVariable.SetSoundSpeed sqrt s Gamma =
      ({ s with
          Primitive := setAt s.Primitive (s.nDim+4)
                (sqrt (radicandOf Gamma (s.Primitive (s.nDim+1)) (s.Primitive (s.nDim+2)))) },
        !decide (0 < radicandOf Gamma (s.Primitive (s.nDim+1)) (s.Primitive (s.nDim+2)))) := by
  unfold CEulerVariable.SetSoundSpeed radicandOf
  simp only [pair_ite, gt_iff_lt, zero_lit]

theorem SetTemperature_run (s : CVariable α) (R : α) :
    CEulerVariable.SetTemperature s R =
      ({ s with
          Primitive := setAt s.Primitive 0
                (temperatureOf R (s.Primitive (s.nDim+1)) (s.Primitive (s.nDim+2))) },
        !decide (0 < temperatureOf R (s.Primitive (s.nDim+1)) (s.Primitive (s.nDim+2)))) := by
  unfold CEulerVariable.SetTemperature temperatureOf
  simp only [pair_ite, gt_iff_lt, zero_lit, setAt_same]

/-- Closed form of the five reconstruction statements of the Euler variant. -/
theorem CEulerVariable_primitivePass_run (sqrt : α → α) (s : CVariable α) (Gamma R : α) :
    CEulerVariable.primitivePass sqrt s Gamma R =
      { self := { s with
          Primitive := primitiveOf sqrt s.nDim Gamma R (pressureOf Gamma s.nDim s.nVar s.Solution)
            s.Solution s.Primitive
          Velocity2 := velocity2Of s.nDim s.Solution }
        check_dens := !decide (0 < s.Solution 0)
        check_press := !decide (0 < pressureOf Gamma s.nDim s.nVar s.Solution)
        check_sos :=
          !decide (0 < radicandOf Gamma (pressureOf Gamma s.nDim s.nVar s.Solution) (s.Solution 0))
        check_temp :=
          !decide (0 < temperatureOf R (pressureOf Gamma s.nDim s.nVar s.Solution)
            (s.Solution 0)) } := by
  unfold CEulerVariable.primitivePass
  simp only [SetVelocity_run, SetDensity_run, SetPressure_run, SetSoundSpeed_run,
    SetTemperature_run]
  ext k <;> simp [setAt, pressureOf, primitiveOf]
  split_ifs <;> first | rfl | (exfalso; omega)

/-- Closed form of the five reconstruction statements of the Navier-Stokes variant. -/
theorem CNSVariable_primitivePass_run (sqrt : α → α) (s : CVariable α) (Gamma R turb_ke : α) :
    CNSVariable.primitivePass sqrt s Gamma R turb_ke =
      { self := { s with
          Primitive := primitiveOf sqrt s.nDim Gamma R
            (pressureNSOf Gamma turb_ke s.nDim s.nVar s.Solution) s.Solution s.Primitive
          Velocity2 := velocity2Of s.nDim s.Solution }
        check_dens := !decide (0 < s.Solution 0)
        check_press := !decide (0 < pressureNSOf Gamma turb_ke s.nDim s.nVar s.Solution)
        check_sos :=
          !decide (0 < radicandOf Gamma (pressureNSOf Gamma turb_ke s.nDim s.nVar s.Solution)
            (s.Solution 0))
        check_temp :=
          !decide (0 < temperatureOf R (pressureNSOf Gamma turb_ke s.nDim s.nVar s.Solution)
            (s.Solution 0)) } := by
  unfold CNSVariable.primitivePass
  simp only [SetVelocity_run, SetDensity_run, NS_SetPressure_run, SetSoundSpeed_run,
    SetTemperature_run]
  ext k <;> simp [setAt, pressureOf, pressureNSOf, primitiveOf]
  split_ifs <;> first | rfl | (exfalso; omega)

theorem primitiveOf_overwrite (sqrt : α → α) (nDim : Nat) (Gamma R p p2 : α)
    (sol sol2 prim : Nat → α) :
    primitiveOf sqrt nDim Gamma R p sol (primitiveOf sqrt nDim Gamma R p2 sol2 prim)
      = primitiveOf sqrt nDim Gamma R p sol prim := by
  funext k
  unfold primitiveOf
  split_ifs <;> rfl

theorem primitiveOf_congr (sqrt : α → α) (nDim : Nat) (Gamma R p : α)
    (sol sol2 prim : Nat → α) (h : ∀ k, k ≤ nDim → sol k = sol2 k) :
    primitiveOf sqrt nDim Gamma R p sol prim = primitiveOf sqrt nDim Gamma R p sol2 prim := by
  funext k
  unfold primitiveOf
  rw [h 0 (Nat.zero_le _)]
  split_ifs with h1 h2 h3 h4 h5 <;> first | rfl | rw [h k h5]

theorem velocity2Of_congr (nDim : Nat) (sol sol2 : Nat → α)
    (h : ∀ k, k ≤ nDim → sol k = sol2 k) : velocity2Of nDim sol = velocity2Of nDim sol2 := by
  unfold velocity2Of
  rw [h 0 (Nat.zero_le _)]
  apply Finset.sum_congr rfl
  intro d hd
  have := Finset.mem_range.mp hd
  rw [h (d+1) (by omega)]

theorem pressureOf_congr (Gamma : α) (nDim nVar : Nat) (sol sol2 : Nat → α)
    (h : ∀ k, k ≤ nDim → sol k = sol2 k) (hE : sol (nVar-1) = sol2 (nVar-1)) :
    pressureOf Gamma nDim nVar sol = pressureOf Gamma nDim nVar sol2 := by
  unfold pressureOf
  rw [velocity2Of_congr nDim sol sol2 h, h 0 (Nat.zero_le _), hE]

theorem copyOldSolution_run (s : CVariable α) :
    copyOldSolution s = { s with
      Solution := fun k => if k < s.nVar then s.Solution_Old k else s.Solution k } := by
  have h : ∀ n, forLoop n (fun iVar (self : CVariable α) =>
      { self with Solution := setAt self.Solution iVar (self.Solution_Old iVar) }) s
      = { s with Solution := fun k => if k < n then s.Solution_Old k else s.Solution k } := by
    intro n
    induction n with
    | zero => simp
    | succ n ih =>
      rw [forLoop_succ, ih]
      ext <;> simp [setAt]
      exact ite_last _ n s.Solution_Old _
  unfold copyOldSolution
  rw [h]


theorem CEulerVariable_checksFail_run (sqrt : α → α) (s : CVariable α) (config : CConfig α) :
    CEulerVariable.checksFail sqrt s config =
      (!decide (0 < s.Solution 0)
        || !decide (0 < pressureOf config.Gamma s.nDim s.nVar s.Solution)
        || !decide (0 < radicandOf config.Gamma
              (pressureOf config.Gamma s.nDim s.nVar s.Solution) (s.Solution 0))
        || !decide (0 < temperatureOf config.Gas_ConstantND
              (pressureOf config.Gamma s.nDim s.nVar s.Solution) (s.Solution 0))) := by
  unfold CEulerVariable.checksFail
  simp only [CEulerVariable_primitivePass_run]

theorem CNSVariable_checksFail_run (sqrt : α → α) (s : CVariable α) (turb_ke : α)
    (config : CConfig α) :
    CNSVariable.checksFail sqrt s turb_ke config =
      (!decide (0 < s.Solution 0)
        || !decide (0 < pressureNSOf config.Gamma turb_ke s.nDim s.nVar s.Solution)
        || !decide (0 < radicandOf config.Gamma
              (pressureNSOf config.Gamma turb_ke s.nDim s.nVar s.Solution) (s.Solution 0))
        || !decide (0 < temperatureOf config.Gas_ConstantND
              (pressureNSOf config.Gamma turb_ke s.nDim s.nVar s.Solution) (s.Solution 0))) := by
  unfold CNSVariable.checksFail
  simp only [CNSVariable_primitivePass_run]

theorem CEulerVariable_checksFail_false (sqrt : α → α) (s : CVariable α) (config : CConfig α) :
    CEulerVariable.checksFail sqrt s config = false ↔
      Realizable config.Gamma config.Gas_ConstantND
        (pressureOf config.Gamma s.nDim s.nVar s.Solution) (s.Solution 0) := by
  rw [CEulerVariable_checksFail_run]
  simp [Realizable, and_assoc]

theorem CNSVariable_checksFail_false (sqrt : α → α) (s : CVariable α) (turb_ke : α)
    (config : CConfig α) :
    CNSVariable.checksFail sqrt s turb_ke config = false ↔
      Realizable config.Gamma config.Gas_ConstantND
        (pressureNSOf config.Gamma turb_ke s.nDim s.nVar s.Solution) (s.Solution 0) := by
  rw [CNSVariable_checksFail_run]
  simp [Realizable, and_assoc]

/-- Closed form of `CEulerVariable::SetPrimVar_Compressible`. -/
theorem CEulerVariable_SetPrimVar_run (sqrt : α → α) (s : CVariable α) (config : CConfig α) :
    CEulerVariable.SetPrimVar_Compressible sqrt s config =
      if CEulerVariable.checksFail sqrt s config then
        (eulerState sqrt s config (rolledBack s), false)
      else (eulerState sqrt s config s.Solution, true) := by
  have hrb : rolledBack s = fun k => if k < s.nVar then s.Solution_Old k else s.Solution k := rfl
  unfold CEulerVariable.SetPrimVar_Compressible CEulerVariable.checksFail
  simp only [CEulerVariable_primitivePass_run, copyOldSolution_run, primitiveOf_overwrite]
  split_ifs <;>
    simp [CEulerVariable.SetEnthalpy, eulerState, hrb, primitiveOf, setAt]

/-- Closed form of `CNSVariable::SetPrimVar_Compressible`. -/
theorem CNSVariable_SetPrimVar_run (sqrt : α → α) (s : CVariable α) (eddy_visc turb_ke : α)
    (config : CConfig α) :
    CNSVariable.SetPrimVar_Compressible sqrt s eddy_visc turb_ke config =
      if CNSVariable.checksFail sqrt s turb_ke config then
        (nsState sqrt s eddy_visc turb_ke config (rolledBack s), false)
      else (nsState sqrt s eddy_visc turb_ke config s.Solution, true) := by
  have hrb : rolledBack s = fun k => if k < s.nVar then s.Solution_Old k else s.Solution k := rfl
  unfold CNSVariable.SetPrimVar_Compressible CNSVariable.checksFail
  simp only [CNSVariable_primitivePass_run, copyOldSolution_run, primitiveOf_overwrite]
  split_ifs <;>
    simp [CEulerVariable.SetEnthalpy, CNSVariable.SetLaminarViscosity,
      CNSVariable.SetEddyViscosity, nsState, hrb, primitiveOf, setAt]


theorem rolledBack_withOld (s : CVariable α) :
    rolledBack (withOldSolution s) = s.Solution_Old := by
  funext k
  simp [rolledBack, withOldSolution]

theorem rolledBack_lt (s : CVariable α) {k : Nat} (h : k < s.nVar) :
    rolledBack s k = s.Solution_Old k := by
  simp [rolledBack, h]

theorem eulerState_primitive_congr (sqrt : α → α) (s s2 : CVariable α) (config : CConfig α)
    (sol sol2 : Nat → α) (hd : s2.nDim = s.nDim) (hv : s2.nVar = s.nVar)
    (hp : s2.Primitive = s.Primitive) (hwf : s.nDim + 2 ≤ s.nVar)
    (h : ∀ k, k < s.nVar → sol k = sol2 k) :
    (eulerState sqrt s config sol).Primitive = (eulerState sqrt s2 config sol2).Primitive := by
  have h1 : ∀ k, k ≤ s.nDim → sol k = sol2 k := fun k hk => h k (by omega)
  have h2 : sol (s.nVar-1) = sol2 (s.nVar-1) := h _ (by omega)
  simp only [eulerState, hd, hv, hp]
  rw [pressureOf_congr _ _ _ sol sol2 h1 h2, primitiveOf_congr _ _ _ _ _ sol sol2 _ h1, h2,
    h1 0 (Nat.zero_le _)]

theorem pressureNSOf_congr (Gamma turb_ke : α) (nDim nVar : Nat) (sol sol2 : Nat → α)
    (h : ∀ k, k ≤ nDim → sol k = sol2 k) (hE : sol (nVar-1) = sol2 (nVar-1)) :
    pressureNSOf Gamma turb_ke nDim nVar sol = pressureNSOf Gamma turb_ke nDim nVar sol2 := by
  unfold pressureNSOf
  rw [pressureOf_congr Gamma nDim nVar sol sol2 h hE, h 0 (Nat.zero_le _)]

theorem nsState_primitive_congr (sqrt : α → α) (s s2 : CVariable α) (eddy_visc turb_ke : α)
    (config : CConfig α) (sol sol2 : Nat → α) (hd : s2.nDim = s.nDim) (hv : s2.nVar = s.nVar)
    (hp : s2.Primitive = s.Primitive) (hwf : s.nDim + 2 ≤ s.nVar)
    (h : ∀ k, k < s.nVar → sol k = sol2 k) :
    (nsState sqrt s eddy_visc turb_ke config sol).Primitive
      = (nsState sqrt s2 eddy_visc turb_ke config sol2).Primitive := by
  have h1 : ∀ k, k ≤ s.nDim → sol k = sol2 k := fun k hk => h k (by omega)
  have h2 : sol (s.nVar-1) = sol2 (s.nVar-1) := h _ (by omega)
  simp only [nsState, hd, hv, hp]
  rw [pressureNSOf_congr _ _ _ _ sol sol2 h1 h2, primitiveOf_congr _ _ _ _ _ sol sol2 _ h1, h2,
    h1 0 (Nat.zero_le _)]

theorem eulerState_entries (sqrt : α → α) (s : CVariable α) (config : CConfig α)
    (sol : Nat → α) :
    (eulerState sqrt s config sol).Primitive (s.nDim+2) = sol 0
    ∧ (eulerState sqrt s config sol).Primitive (s.nDim+1)
        = pressureOf config.Gamma s.nDim s.nVar sol
    ∧ (eulerState sqrt s config sol).Primitive (s.nDim+4)
        = sqrt (radicandOf config.Gamma (pressureOf config.Gamma s.nDim s.nVar sol) (sol 0))
    ∧ (eulerState sqrt s config sol).Primitive 0
        = temperatureOf config.Gas_ConstantND (pressureOf config.Gamma s.nDim s.nVar sol)
            (sol 0) := by
  simp [eulerState, setAt, primitiveOf]

theorem nsState_entries (sqrt : α → α) (s : CVariable α) (eddy_visc turb_ke : α)
    (config : CConfig α) (sol : Nat → α) :
    (nsState sqrt s eddy_visc turb_ke config sol).Primitive (s.nDim+2) = sol 0
    ∧ (nsState sqrt s eddy_visc turb_ke config sol).Primitive (s.nDim+1)
        = pressureNSOf config.Gamma turb_ke s.nDim s.nVar sol
    ∧ (nsState sqrt s eddy_visc turb_ke config sol).Primitive (s.nDim+4)
        = sqrt (radicandOf config.Gamma
            (pressureNSOf config.Gamma turb_ke s.nDim s.nVar sol) (sol 0))
    ∧ (nsState sqrt s eddy_visc turb_ke config sol).Primitive 0
        = temperatureOf config.Gas_ConstantND
            (pressureNSOf config.Gamma turb_ke s.nDim s.nVar sol) (sol 0) := by
  simp [nsState, setAt, primitiveOf]

theorem eulerState_realizable (sqrt : α → α) (s : CVariable α) (config : CConfig α)
    (sol : Nat → α)
    (h : Realizable config.Gamma config.Gas_ConstantND
      (pressureOf config.Gamma s.nDim s.nVar sol) (sol 0)) :
    RealizablePrimitive sqrt config (eulerState sqrt s config sol) := by
  obtain ⟨e1, e2, e3, e4⟩ := eulerState_entries sqrt s config sol
  obtain ⟨h1, h2, h3, h4⟩ := h
  have hn : (eulerState sqrt s config sol).nDim = s.nDim := rfl
  unfold RealizablePrimitive
  rw [hn, e1, e2, e3, e4]
  exact ⟨h1, h2, h3, rfl, h4⟩

theorem nsState_realizable (sqrt : α → α) (s : CVariable α) (eddy_visc turb_ke : α)
    (config : CConfig α) (sol : Nat → α)
    (h : Realizable config.Gamma config.Gas_ConstantND
      (pressureNSOf config.Gamma turb_ke s.nDim s.nVar sol) (sol 0)) :
    RealizablePrimitive sqrt config (nsState sqrt s eddy_visc turb_ke config sol) := by
  obtain ⟨e1, e2, e3, e4⟩ := nsState_entries sqrt s eddy_visc turb_ke config sol
  obtain ⟨h1, h2, h3, h4⟩ := h
  have hn : (nsState sqrt s eddy_visc turb_ke config sol).nDim = s.nDim := rfl
  unfold RealizablePrimitive
  rw [hn, e1, e2, e3, e4]
  exact ⟨h1, h2, h3, rfl, h4⟩

theorem realizable_rolledBack (s : CVariable α) (config : CConfig α)
    (hwf : s.nDim + 2 ≤ s.nVar) :
    pressureOf config.Gamma s.nDim s.nVar (rolledBack s)
        = pressureOf config.Gamma s.nDim s.nVar s.Solution_Old
    ∧ rolledBack s 0 = s.Solution_Old 0 := by
  have h1 : ∀ k, k ≤ s.nDim → rolledBack s k = s.Solution_Old k :=
    fun k hk => rolledBack_lt s (by omega)
  exact ⟨pressureOf_congr _ _ _ _ _ h1 (rolledBack_lt s (by omega)), h1 0 (Nat.zero_le _)⟩

theorem realizableNS_rolledBack (s : CVariable α) (turb_ke : α) (config : CConfig α)
    (hwf : s.nDim + 2 ≤ s.nVar) :
    pressureNSOf config.Gamma turb_ke s.nDim s.nVar (rolledBack s)
        = pressureNSOf config.Gamma turb_ke s.nDim s.nVar s.Solution_Old
    ∧ rolledBack s 0 = s.Solution_Old 0 := by
  have h1 : ∀ k, k ≤ s.nDim → rolledBack s k = s.Solution_Old k :=
    fun k hk => rolledBack_lt s (by omega)
  exact ⟨pressureNSOf_congr _ _ _ _ _ _ h1 (rolledBack_lt s (by omega)), h1 0 (Nat.zero_le _)⟩

/-- The Euler reconstruction ends on a conservative vector that passes the four
checks as soon as the incoming or the old solution does. -/
theorem euler_final_realizable (sqrt : α → α) (self : CVariable α) (config : CConfig α)
    (hwf : self.nDim + 2 ≤ self.nVar)
    (h : CEulerVariable.checksFail sqrt self config = false
      ∨ CEulerVariable.checksFail sqrt (withOldSolution self) config = false) :
    ∃ sol, (CEulerVariable.SetPrimVar_Compressible sqrt self config).1
        = eulerState sqrt self config sol
      ∧ Realizable config.Gamma config.Gas_ConstantND
          (pressureOf config.Gamma self.nDim self.nVar sol) (sol 0) := by
  rw [CEulerVariable_SetPrimVar_run]
  cases hf : CEulerVariable.checksFail sqrt self config
  · refine ⟨self.Solution, by simp, ?_⟩
    exact (CEulerVariable_checksFail_false sqrt self config).mp hf
  · refine ⟨rolledBack self, by simp, ?_⟩
    rcases h with h | h
    · rw [hf] at h; cases h
    · have h2 := (CEulerVariable_checksFail_false sqrt (withOldSolution self) config).mp h
      obtain ⟨e1, e2⟩ := realizable_rolledBack self config hwf
      rw [e1, e2]
      exact h2

theorem ns_final_realizable (sqrt : α → α) (self : CVariable α) (eddy_visc turb_ke : α)
    (config : CConfig α) (hwf : self.nDim + 2 ≤ self.nVar)
    (h : CNSVariable.checksFail sqrt self turb_ke config = false
      ∨ CNSVariable.checksFail sqrt (withOldSolution self) turb_ke config = false) :
    ∃ sol, (CNSVariable.SetPrimVar_Compressible sqrt self eddy_visc turb_ke config).1
        = nsState sqrt self eddy_visc turb_ke config sol
      ∧ Realizable config.Gamma config.Gas_ConstantND
          (pressureNSOf config.Gamma turb_ke self.nDim self.nVar sol) (sol 0) := by
  rw [CNSVariable_SetPrimVar_run]
  cases hf : CNSVariable.checksFail sqrt self turb_ke config
  · refine ⟨self.Solution, by simp, ?_⟩
    exact (CNSVariable_checksFail_false sqrt self turb_ke config).mp hf
  · refine ⟨rolledBack self, by simp, ?_⟩
    rcases h with h | h
    · rw [hf] at h; cases h
    · have h2 := (CNSVariable_checksFail_false sqrt (withOldSolution self) turb_ke config).mp h
      obtain ⟨e1, e2⟩ := realizableNS_rolledBack self turb_ke config hwf
      rw [e1, e2]
      exact h2

/-! ## Lemmas on the closed forms -/

theorem fluxSpeed_density (self : CNumerics α) (rho_i rho_j : α) :
    fluxSpeed { self with
      V_i := setAt self.V_i (self.nDim+2) rho_i, V_j := setAt self.V_j (self.nDim+2) rho_j }
      = fluxSpeed self := by
  unfold fluxSpeed relVelocity_i relVelocity_j
  apply Finset.sum_congr rfl
  intro d hd
  have h : d + 1 ≠ self.nDim + 2 := by
    have := Finset.mem_range.mp hd
    simp only [] at this
    omega
  simp [setAt, h]

theorem dot_zero_left (n : Nat) (f g : Nat → α) (h : ∀ d, d < n → f d = 0) : dot n f g = 0 := by
  unfold dot
  apply Finset.sum_eq_zero
  intro d hd
  rw [h d (Finset.mem_range.mp hd), zero_mul]

theorem edgeLength2_degenerate (self : CNumerics α)
    (h : ∀ d, d < self.nDim → self.Coord_i d = self.Coord_j d) : edgeLength2 self = 0 := by
  unfold edgeLength2
  apply dot_zero_left
  intro d hd
  simp [edgeVector_def, h d hd]

theorem edgeProj_degenerate (self : CNumerics α)
    (h : ∀ d, d < self.nDim → self.Coord_i d = self.Coord_j d) : edgeProj self = 0 := by
  unfold edgeProj projOf
  rw [if_pos (edgeLength2_degenerate self h)]

theorem correctedProj_degenerate (self : CNumerics α)
    (h : ∀ d, d < self.nDim → self.Coord_i d = self.Coord_j d) (k : Nat) :
    correctedProj self k = meanGradDot self self.Normal k := by
  unfold correctedProj
  rw [edgeProj_degenerate self h]
  ring

/-! ## Evaluation of the scenarios -/

theorem CUpwSca_TurbSA_q (self : CNumerics α) (out : Buffers α) :
    (CUpwSca_TurbSA.ComputeResidual self out).1.q_ij = fluxSpeed self := by
  rw [CUpwSca_TurbSA_run]

theorem CUpwSca_TurbSST_q (self : CNumerics α) (out : Buffers α) :
    (CUpwSca_TurbSST.ComputeResidual self out).1.q_ij = fluxSpeed self := by
  rw [CUpwSca_TurbSST_run]

theorem fluxSpeed_scenarioA : fluxSpeed scenarioA = 1 := by
  simp [fluxSpeed, relVelocity_i, relVelocity_j, scenarioA, Finset.sum_range_succ, vec]

theorem fluxSpeed_scenarioTangent : fluxSpeed scenarioTangent = 0 := by
  simp [fluxSpeed, relVelocity_i, relVelocity_j, scenarioTangent, scenarioA,
    Finset.sum_range_succ, vec]

theorem fluxSpeed_scenarioReverse : fluxSpeed scenarioReverse = -1 := by
  simp [fluxSpeed, relVelocity_i, relVelocity_j, scenarioReverse, scenarioA,
    Finset.sum_range_succ, vec]

theorem scenarioC_fails :
    CEulerVariable.checksFail Rat.sqrt scenarioC scenarioConfig = true := by
  rw [CEulerVariable_checksFail_run]
  norm_num [pressureOf, velocity2Of, radicandOf, temperatureOf, scenarioC, scenarioConfig, vec,
    Finset.sum_range_succ]

theorem scenarioC_fails_NS :
    CNSVariable.checksFail Rat.sqrt scenarioC 0 scenarioConfig = true := by
  rw [CNSVariable_checksFail_run]
  norm_num [pressureNSOf, pressureOf, velocity2Of, radicandOf, temperatureOf, scenarioC,
    scenarioConfig, vec, Finset.sum_range_succ]

theorem scenarioC_old_passes :
    CEulerVariable.checksFail Rat.sqrt (withOldSolution scenarioC) scenarioConfig = false := by
  rw [CEulerVariable_checksFail_run]
  norm_num [pressureOf, velocity2Of, radicandOf, temperatureOf, scenarioC, scenarioConfig, vec,
    Finset.sum_range_succ, withOldSolution]

theorem negativeDensityPoint_facts :
    negativeDensityPoint.nDim = 2 ∧ negativeDensityPoint.nVar = 4
    ∧ negativeDensityPoint.Solution 0 = -1 ∧ negativeDensityPoint.Solution_Old 0 = -1 := by
  refine ⟨rfl, rfl, by decide, by decide⟩

/-! ## The claims -/

/-- C1 (upwind consistency). In `CUpwSca_TurbSA::ComputeResidual` and
`CUpwSca_TurbSST::ComputeResidual`, with `q` the flux speed the routine leaves in
`q_ij`, the split coefficients are `a0 = (q+|q|)/2` and `a1 = (q-|q|)/2`, they
satisfy `a0 + a1 = q`; when `q ≠ 0` exactly one of them is nonzero; when `q = 0`
both vanish and every residual component written is 0, whatever the turbulence
values, the densities and the previous content of the buffers. -/
theorem C1_upwind_consistency (self : CNumerics α) (out : Buffers α) :
    let sa := CUpwSca_TurbSA.ComputeResidual self out
    let sst := CUpwSca_TurbSST.ComputeResidual self out
    (sa.1.a0 = (sa.1.q_ij + |sa.1.q_ij|)/2 ∧ sa.1.a1 = (sa.1.q_ij - |sa.1.q_ij|)/2
      ∧ sa.1.a0 + sa.1.a1 = sa.1.q_ij
      ∧ (sa.1.q_ij ≠ 0 → (sa.1.a0 ≠ 0 ∧ sa.1.a1 = 0) ∨ (sa.1.a0 = 0 ∧ sa.1.a1 ≠ 0))
      ∧ (sa.1.q_ij = 0 → sa.1.a0 = 0 ∧ sa.1.a1 = 0 ∧ sa.2.val_residual 0 = 0))
    ∧ (sst.1.a0 = (sst.1.q_ij + |sst.1.q_ij|)/2 ∧ sst.1.a1 = (sst.1.q_ij - |sst.1.q_ij|)/2
      ∧ sst.1.a0 + sst.1.a1 = sst.1.q_ij
      ∧ (sst.1.q_ij ≠ 0 → (sst.1.a0 ≠ 0 ∧ sst.1.a1 = 0) ∨ (sst.1.a0 = 0 ∧ sst.1.a1 ≠ 0))
      ∧ (sst.1.q_ij = 0 → sst.1.a0 = 0 ∧ sst.1.a1 = 0
          ∧ sst.2.val_residual 0 = 0 ∧ sst.2.val_residual 1 = 0)) := by
  intro sa sst
  have hsa : sa = CUpwSca_TurbSA.ComputeResidual self out := rfl
  have hsst : sst = CUpwSca_TurbSST.ComputeResidual self out := rfl
  rw [CUpwSca_TurbSA_run] at hsa
  rw [CUpwSca_TurbSST_run] at hsst
  obtain ⟨h1, h2, h3⟩ := upw_split (fluxSpeed self)
  constructor
  · rw [hsa]
    simp only []
    refine ⟨by rw [half_lit]; ring, by rw [half_lit]; ring, h1, h2, ?_⟩
    intro hq
    obtain ⟨ha0, ha1⟩ := h3 hq
    refine ⟨ha0, ha1, ?_⟩
    rw [ha0, ha1]; simp
  · rw [hsst]
    simp only []
    refine ⟨by rw [half_lit]; ring, by rw [half_lit]; ring, h1, h2, ?_⟩
    intro hq
    obtain ⟨ha0, ha1⟩ := h3 hq
    refine ⟨ha0, ha1, ?_⟩
    rw [ha0, ha1]; simp [setAt]

theorem C1_upwind_consistency_witness :
    (CUpwSca_TurbSA.ComputeResidual scenarioA staleBuffers).1.q_ij ≠ 0
    ∧ (((CUpwSca_TurbSA.ComputeResidual scenarioA staleBuffers).1.a0 ≠ 0
          ∧ (CUpwSca_TurbSA.ComputeResidual scenarioA staleBuffers).1.a1 = 0)
        ∨ ((CUpwSca_TurbSA.ComputeResidual scenarioA staleBuffers).1.a0 = 0
          ∧ (CUpwSca_TurbSA.ComputeResidual scenarioA staleBuffers).1.a1 ≠ 0))
    ∧ (CUpwSca_TurbSST.ComputeResidual scenarioTangent staleBuffers).1.q_ij = 0
    ∧ (CUpwSca_TurbSST.ComputeResidual scenarioTangent staleBuffers).2.val_residual 1 = 0 :=
  have hq : (CUpwSca_TurbSA.ComputeResidual scenarioA staleBuffers).1.q_ij ≠ 0 := by
    rw [CUpwSca_TurbSA_q, fluxSpeed_scenarioA]; exact one_ne_zero
  have h0 : (CUpwSca_TurbSST.ComputeResidual scenarioTangent staleBuffers).1.q_ij = 0 := by
    rw [CUpwSca_TurbSST_q, fluxSpeed_scenarioTangent]
  ⟨hq, (C1_upwind_consistency scenarioA staleBuffers).1.2.2.2.1 hq, h0,
    ((C1_upwind_consistency scenarioTangent staleBuffers).2.2.2.2.2 h0).2.2.2⟩

/-- C2 (one-equation convective residual). For every input of
`CUpwSca_TurbSA::ComputeResidual`, the velocities stored are the primitive
velocities (minus the grid velocities on a moving grid), the flux speed is
`q = Σ_d (vel_i[d]+vel_j[d])/2 · Normal[d]`, the residual is
`a0·turb_i + a1·turb_j = max(q,0)·turb_i + min(q,0)·turb_j`, and the output buffers
do not change when the two endpoint densities `V[nDim+2]` are replaced by any
other values.  On Scenario A: `q = 1`, `a0 = 1`, `a1 = 0`, residual `2`,
`Jacobian_i = 1`, `Jacobian_j = 0`. -/
theorem C2_SA_convective_residual (self : CNumerics α) (out : Buffers α) :
    let r := CUpwSca_TurbSA.ComputeResidual self out
    let q := ∑ d in Finset.range self.nDim,
      (r.1.Velocity_i d + r.1.Velocity_j d)/2*self.Normal d
    (∀ d, d < self.nDim →
        r.1.Velocity_i d = self.V_i (d+1) - (if self.grid_movement then self.GridVel_i d else 0)
        ∧ r.1.Velocity_j d
            = self.V_j (d+1) - (if self.grid_movement then self.GridVel_j d else 0))
    ∧ r.1.q_ij = q
    ∧ r.2.val_residual 0 = r.1.a0*self.TurbVar_i 0 + r.1.a1*self.TurbVar_j 0
    ∧ r.2.val_residual 0 = max q 0*self.TurbVar_i 0 + min q 0*self.TurbVar_j 0
    ∧ (∀ rho_i rho_j : α,
        (CUpwSca_TurbSA.ComputeResidual { self with
            V_i := setAt self.V_i (self.nDim+2) rho_i
            V_j := setAt self.V_j (self.nDim+2) rho_j } out).2 = r.2)
    ∧ (let a := CUpwSca_TurbSA.ComputeResidual scenarioA {}
       a.1.q_ij = 1 ∧ a.1.a0 = 1 ∧ a.1.a1 = 0 ∧ a.2.val_residual 0 = 2
        ∧ a.2.val_Jacobian_i 0 0 = 1 ∧ a.2.val_Jacobian_j 0 0 = 0) := by
  intro r q
  have hr : r = CUpwSca_TurbSA.ComputeResidual self out := rfl
  rw [CUpwSca_TurbSA_run] at hr
  have hq : q = fluxSpeed self := by
    show (∑ d in Finset.range self.nDim,
      (r.1.Velocity_i d + r.1.Velocity_j d)/2*self.Normal d) = fluxSpeed self
    unfold fluxSpeed
    apply Finset.sum_congr rfl
    intro d hd
    have hd2 := Finset.mem_range.mp hd
    rw [hr]
    simp [hd2]
  refine ⟨?_, ?_, ?_, ?_, ?_, ?_⟩
  · intro d hd
    rw [hr]
    cases hg : self.grid_movement <;> simp [hd, relVelocity_i, relVelocity_j, hg]
  · rw [hq, hr]
  · rw [hr]; simp
  · rw [hq, hr]; simp [upw_max, upw_min]
  · intro rho_i rho_j
    rw [CUpwSca_TurbSA_run, hr]
    simp only [fluxSpeed_density]
  · rw [CUpwSca_TurbSA_run]
    have hf : fluxSpeed scenarioA = 1 := by
      simp [fluxSpeed, relVelocity_i, relVelocity_j, scenarioA, Finset.sum_range_succ, vec]
    simp only [hf]
    simp [scenarioA, half_lit, vec, setAt, setAt2]
    norm_num


/-- C3 (two-equation convective residual). For every input of
`CUpwSca_TurbSST::ComputeResidual` and `k = 0, 1`: `residual[k] = q·ρ_i·turb_i[k]`
when `q ≥ 0` and `residual[k] = q·ρ_j·turb_j[k]` when `q < 0`, with
`ρ_x = V_x[nDim+2]` and `q` the flux speed: each variable is weighted by the
density of the upwind endpoint only. -/
theorem C3_SST_upwind_density (self : CNumerics α) (out : Buffers α) :
    let r := CUpwSca_TurbSST.ComputeResidual self out
    let q := r.1.q_ij
    let rho_i := self.V_i (self.nDim+2)
    let rho_j := self.V_j (self.nDim+2)
    q = fluxSpeed self ∧ r.1.Density_i = rho_i ∧ r.1.Density_j = rho_j
    ∧ (0 ≤ q → r.2.val_residual 0 = q*rho_i*self.TurbVar_i 0
        ∧ r.2.val_residual 1 = q*rho_i*self.TurbVar_i 1)
    ∧ (q < 0 → r.2.val_residual 0 = q*rho_j*self.TurbVar_j 0
        ∧ r.2.val_residual 1 = q*rho_j*self.TurbVar_j 1) := by
  intro r q rho_i rho_j
  have hr : r = CUpwSca_TurbSST.ComputeResidual self out := rfl
  rw [CUpwSca_TurbSST_run] at hr
  have hq : q = fluxSpeed self := by
    show r.1.q_ij = fluxSpeed self
    rw [hr]
  refine ⟨hq, by rw [hr], by rw [hr], ?_, ?_⟩
  · intro h0
    rw [hq] at h0
    rw [hq, hr]
    simp only [upw_max, upw_min, max_eq_left h0, min_eq_right h0]
    simp [setAt]
  · intro h0
    rw [hq] at h0
    rw [hq, hr]
    simp only [upw_max, upw_min, max_eq_right h0.le, min_eq_left h0.le]
    simp [setAt]

theorem C3_SST_upwind_density_witness :
    0 ≤ (CUpwSca_TurbSST.ComputeResidual scenarioA staleBuffers).1.q_ij
    ∧ (CUpwSca_TurbSST.ComputeResidual scenarioA staleBuffers).2.val_residual 0
        = (CUpwSca_TurbSST.ComputeResidual scenarioA staleBuffers).1.q_ij
            *scenarioA.V_i (scenarioA.nDim+2)*scenarioA.TurbVar_i 0
    ∧ (CUpwSca_TurbSST.ComputeResidual scenarioReverse staleBuffers).1.q_ij < 0
    ∧ (CUpwSca_TurbSST.ComputeResidual scenarioReverse staleBuffers).2.val_residual 0
        = (CUpwSca_TurbSST.ComputeResidual scenarioReverse staleBuffers).1.q_ij
            *scenarioReverse.V_j (scenarioReverse.nDim+2)*scenarioReverse.TurbVar_j 0 :=
  have hp : 0 ≤ (CUpwSca_TurbSST.ComputeResidual scenarioA staleBuffers).1.q_ij := by
    rw [CUpwSca_TurbSST_q, fluxSpeed_scenarioA]; exact zero_le_one
  have hn : (CUpwSca_TurbSST.ComputeResidual scenarioReverse staleBuffers).1.q_ij < 0 := by
    rw [CUpwSca_TurbSST_q, fluxSpeed_scenarioReverse]; norm_num
  ⟨hp, ((C3_SST_upwind_density scenarioA staleBuffers).2.2.2.1 hp).1, hn,
    ((C3_SST_upwind_density scenarioReverse staleBuffers).2.2.2.2 hn).1⟩

/-- C4 (implicit convective Jacobians). With the implicit flag set,
`CUpwSca_TurbSA` writes `Jacobian_i[0][0] = a0` and `Jacobian_j[0][0] = a1`;
`CUpwSca_TurbSST` writes `a0` on the diagonal of `Jacobian_i`, `a1` on the diagonal
of `Jacobian_j`, and exactly 0 in both off-diagonal entries of each block. -/
theorem C4_convective_jacobians (self : CNumerics α) (out : Buffers α)
    (h : self.implicit = true) :
    let sa := CUpwSca_TurbSA.ComputeResidual self out
    let sst := CUpwSca_TurbSST.ComputeResidual self out
    (sa.2.val_Jacobian_i 0 0 = sa.1.a0 ∧ sa.2.val_Jacobian_j 0 0 = sa.1.a1)
    ∧ (sst.2.val_Jacobian_i 0 0 = sst.1.a0 ∧ sst.2.val_Jacobian_i 1 1 = sst.1.a0
        ∧ sst.2.val_Jacobian_i 0 1 = 0 ∧ sst.2.val_Jacobian_i 1 0 = 0)
    ∧ (sst.2.val_Jacobian_j 0 0 = sst.1.a1 ∧ sst.2.val_Jacobian_j 1 1 = sst.1.a1
        ∧ sst.2.val_Jacobian_j 0 1 = 0 ∧ sst.2.val_Jacobian_j 1 0 = 0) := by
  intro sa sst
  have hsa : sa = CUpwSca_TurbSA.ComputeResidual self out := rfl
  have hsst : sst = CUpwSca_TurbSST.ComputeResidual self out := rfl
  rw [CUpwSca_TurbSA_run] at hsa
  rw [CUpwSca_TurbSST_run] at hsst
  rw [hsa, hsst]
  simp [h, setAt2]

theorem C4_convective_jacobians_witness :
    scenarioA.implicit = true
    ∧ (CUpwSca_TurbSA.ComputeResidual scenarioA staleBuffers).2.val_Jacobian_i 0 0
        = (CUpwSca_TurbSA.ComputeResidual scenarioA staleBuffers).1.a0
    ∧ (CUpwSca_TurbSST.ComputeResidual scenarioA staleBuffers).2.val_Jacobian_j 0 1 = 0 :=
  ⟨rfl, (C4_convective_jacobians scenarioA staleBuffers rfl).1.1,
    (C4_convective_jacobians scenarioA staleBuffers rfl).2.2.2.2.1⟩

/-- C5 (explicit scheme). When the implicit flag is false, each of the six edge
operators (two convective, four viscous) returns both Jacobian buffers exactly
as the caller passed them, and the residual buffer it returns is the one it
writes with the flag set; the residual entries are the values the routine
computes from its scratch members. -/
theorem C5_explicit_skips_jacobians (self : CNumerics α) (out : Buffers α)
    (h : self.implicit = false) :
    (explicitFrame CUpwSca_TurbSA.ComputeResidual self out
      ∧ explicitFrame CUpwSca_TurbSST.ComputeResidual self out
      ∧ explicitFrame CAvgGrad_TurbSA.ComputeResidual self out
      ∧ explicitFrame CAvgGradCorrected_TurbSA.ComputeResidual self out
      ∧ explicitFrame CAvgGrad_TurbSST.ComputeResidual self out
      ∧ explicitFrame CAvgGradCorrected_TurbSST.ComputeResidual self out)
    ∧ (let r := CUpwSca_TurbSA.ComputeResidual self out
       r.2.val_residual 0 = r.1.a0*self.TurbVar_i 0 + r.1.a1*self.TurbVar_j 0)
    ∧ (let r := CUpwSca_TurbSST.ComputeResidual self out
       r.2.val_residual 0
          = r.1.a0*r.1.Density_i*self.TurbVar_i 0 + r.1.a1*r.1.Density_j*self.TurbVar_j 0
       ∧ r.2.val_residual 1
          = r.1.a0*r.1.Density_i*self.TurbVar_i 1 + r.1.a1*r.1.Density_j*self.TurbVar_j 1)
    ∧ (let r := CAvgGrad_TurbSA.ComputeResidual self out
       r.2.val_residual 0 = r.1.nu_e*r.1.Proj_Mean_GradTurbVar_Kappa 0/self.sigma)
    ∧ (let r := CAvgGradCorrected_TurbSA.ComputeResidual self out
       r.2.val_residual 0 = r.1.nu_e*r.1.Proj_Mean_GradTurbVar_Corrected 0/self.sigma)
    ∧ (let r := CAvgGrad_TurbSST.ComputeResidual self out
       r.2.val_residual 0 = r.1.diff_kine*r.1.Proj_Mean_GradTurbVar_Corrected 0
       ∧ r.2.val_residual 1 = r.1.diff_omega*r.1.Proj_Mean_GradTurbVar_Corrected 1)
    ∧ (let r := CAvgGradCorrected_TurbSST.ComputeResidual self out
       r.2.val_residual 0 = r.1.diff_kine*r.1.Proj_Mean_GradTurbVar_Corrected 0
       ∧ r.2.val_residual 1 = r.1.diff_omega*r.1.Proj_Mean_GradTurbVar_Corrected 1) := by
  refine ⟨⟨?_, ?_, ?_, ?_, ?_, ?_⟩, ?_, ?_, ?_, ?_, ?_, ?_⟩
  · unfold explicitFrame
    simp only [CUpwSca_TurbSA_run]
    simp [h, fluxSpeed, relVelocity_i, relVelocity_j]
  · unfold explicitFrame
    simp only [CUpwSca_TurbSST_run]
    simp [h, fluxSpeed, relVelocity_i, relVelocity_j]
  · unfold explicitFrame
    simp only [CAvgGrad_TurbSA_run]
    simp [h, nuE, meanGradDot, meanGrad_def]
  · unfold explicitFrame
    simp only [CAvgGradCorrected_TurbSA_run]
    simp [h, nuE, meanGradDot, meanGrad_def, correctedProj, edgeProj, edgeLength2, edgeVector_def]
  · unfold explicitFrame
    simp only [CAvgGrad_TurbSST_run]
    simp [h, diffKine, diffOmega, sigmaKine, sigmaOmega, meanGradDot, meanGrad_def]
  · unfold explicitFrame
    simp only [CAvgGradCorrected_TurbSST_run]
    simp [h, diffKine, diffOmega, sigmaKine, sigmaOmega, meanGradDot, meanGrad_def,
      correctedProj, edgeProj, edgeLength2, edgeVector_def]
  · simp [CUpwSca_TurbSA_run]
  · simp [CUpwSca_TurbSST_run, setAt]
  · simp only [CAvgGrad_TurbSA_run]; simp
  · simp only [CAvgGradCorrected_TurbSA_run]; simp
  · simp only [CAvgGrad_TurbSST_run]; simp [setAt]
  · simp only [CAvgGradCorrected_TurbSST_run]; simp [setAt]

theorem C5_explicit_skips_jacobians_witness :
    scenarioExplicit.implicit = false
    ∧ (CUpwSca_TurbSST.ComputeResidual scenarioExplicit staleBuffers).2.val_Jacobian_i
        = staleBuffers.val_Jacobian_i
    ∧ (CAvgGradCorrected_TurbSA.ComputeResidual scenarioExplicit staleBuffers).2.val_Jacobian_j
        = staleBuffers.val_Jacobian_j :=
  ⟨rfl, (C5_explicit_skips_jacobians scenarioExplicit staleBuffers rfl).1.2.1.1,
    (C5_explicit_skips_jacobians scenarioExplicit staleBuffers rfl).1.2.2.2.1.2.1⟩

/-- C6 (realizability rollback). If any of the four checks fails on the
incoming `Solution`, `SetPrimVar_Compressible` (Euler and Navier-Stokes variant)
returns `RightVol = false`, leaves `Solution[k] = Solution_Old[k]` for every
`k < nVar`, and, on a point that stores density, `nDim` momenta and energy
(`nDim + 2 ≤ nVar`), leaves the primitive vector that the same routine produces on
the point whose `Solution` already is `Solution_Old`. -/
theorem C6_rollback_on_failed_check (sqrt : α → α) (self : CVariable α) (eddy_visc turb_ke : α)
    (config : CConfig α) :
    (CEulerVariable.checksFail sqrt self config = true →
      let r := CEulerVariable.SetPrimVar_Compressible sqrt self config
      r.2 = false
      ∧ (∀ k, k < self.nVar → r.1.Solution k = self.Solution_Old k)
      ∧ (self.nDim + 2 ≤ self.nVar →
          r.1.Primitive
            = (CEulerVariable.SetPrimVar_Compressible sqrt (withOldSolution self)
                config).1.Primitive))
    ∧ (CNSVariable.checksFail sqrt self turb_ke config = true →
      let r := CNSVariable.SetPrimVar_Compressible sqrt self eddy_visc turb_ke config
      r.2 = false
      ∧ (∀ k, k < self.nVar → r.1.Solution k = self.Solution_Old k)
      ∧ (self.nDim + 2 ≤ self.nVar →
          r.1.Primitive
            = (CNSVariable.SetPrimVar_Compressible sqrt (withOldSolution self) eddy_visc
                turb_ke config).1.Primitive)) := by
  constructor
  · intro hf
    simp only [CEulerVariable_SetPrimVar_run, hf, if_true]
    refine ⟨trivial, ?_, ?_⟩
    · intro k hk
      simp [eulerState, rolledBack, hk]
    · intro hwf
      have hc := eulerState_primitive_congr sqrt self (withOldSolution self) config
        (rolledBack self) self.Solution_Old rfl rfl rfl hwf (fun k hk => rolledBack_lt self hk)
      rw [hc]
      split_ifs
      · simp only [rolledBack_withOld]
      · rfl
  · intro hf
    simp only [CNSVariable_SetPrimVar_run, hf, if_true]
    refine ⟨trivial, ?_, ?_⟩
    · intro k hk
      simp [nsState, rolledBack, hk]
    · intro hwf
      have hc := nsState_primitive_congr sqrt self (withOldSolution self) eddy_visc turb_ke config
        (rolledBack self) self.Solution_Old rfl rfl rfl hwf (fun k hk => rolledBack_lt self hk)
      rw [hc]
      split_ifs
      · simp only [rolledBack_withOld]
      · rfl

theorem C6_rollback_on_failed_check_witness :
    CEulerVariable.checksFail Rat.sqrt scenarioC scenarioConfig = true
    ∧ scenarioC.nDim + 2 ≤ scenarioC.nVar
    ∧ (CEulerVariable.SetPrimVar_Compressible Rat.sqrt scenarioC scenarioConfig).2 = false
    ∧ (CEulerVariable.SetPrimVar_Compressible Rat.sqrt scenarioC scenarioConfig).1.Primitive
        = (CEulerVariable.SetPrimVar_Compressible Rat.sqrt (withOldSolution scenarioC)
            scenarioConfig).1.Primitive
    ∧ CNSVariable.checksFail Rat.sqrt scenarioC 0 scenarioConfig = true
    ∧ (CNSVariable.SetPrimVar_Compressible Rat.sqrt scenarioC 1 0 scenarioConfig).2 = false :=
  ⟨scenarioC_fails, by decide,
    ((C6_rollback_on_failed_check Rat.sqrt scenarioC 1 0 scenarioConfig).1 scenarioC_fails).1,
    ((C6_rollback_on_failed_check Rat.sqrt scenarioC 1 0 scenarioConfig).1
      scenarioC_fails).2.2 (by decide),
    scenarioC_fails_NS,
    ((C6_rollback_on_failed_check Rat.sqrt scenarioC 1 0 scenarioConfig).2
      scenarioC_fails_NS).1⟩

/-- C7 (returned flag). `SetPrimVar_Compressible` (both variants) returns
`RightVol = true` exactly when none of the four checks fails on the incoming
`Solution`; when it returns true `Solution` is unchanged; when it returns false
`Solution` is `Solution_Old` on the `nVar` entries of the array; `Solution_Old` is
unchanged in every case. -/
theorem C7_rightvol_iff_checks_pass (sqrt : α → α) (self : CVariable α) (eddy_visc turb_ke : α)
    (config : CConfig α) :
    (let r := CEulerVariable.SetPrimVar_Compressible sqrt self config
     (r.2 = true ↔ CEulerVariable.checksFail sqrt self config = false)
     ∧ (r.2 = true → r.1.Solution = self.Solution)
     ∧ (r.2 = false → r.1.Solution = rolledBack self)
     ∧ r.1.Solution_Old = self.Solution_Old)
    ∧ (let r := CNSVariable.SetPrimVar_Compressible sqrt self eddy_visc turb_ke config
     (r.2 = true ↔ CNSVariable.checksFail sqrt self turb_ke config = false)
     ∧ (r.2 = true → r.1.Solution = self.Solution)
     ∧ (r.2 = false → r.1.Solution = rolledBack self)
     ∧ r.1.Solution_Old = self.Solution_Old) := by
  constructor
  · simp only [CEulerVariable_SetPrimVar_run]
    cases hf : CEulerVariable.checksFail sqrt self config <;> simp [eulerState]
  · simp only [CNSVariable_SetPrimVar_run]
    cases hf : CNSVariable.checksFail sqrt self turb_ke config <;> simp [nsState]


/-- C8 (realizability invariant). On a point with `nDim + 2 ≤ nVar` whose
`Solution_Old` passes the four checks, and for every incoming `Solution`, the
state left by `SetPrimVar_Compressible` (both variants) has density > 0,
pressure > 0, a positive sound-speed radicand whose root is the stored sound
speed, and temperature > 0; the four checks report no failure on the resulting
`Solution`, and a second call returns `RightVol = true`. -/
theorem C8_realizability_invariant (sqrt : α → α) (self : CVariable α) (eddy_visc turb_ke : α)
    (config : CConfig α) (hwf : self.nDim + 2 ≤ self.nVar) :
    (CEulerVariable.checksFail sqrt (withOldSolution self) config = false →
      let r := CEulerVariable.SetPrimVar_Compressible sqrt self config
      RealizablePrimitive sqrt config r.1
      ∧ CEulerVariable.checksFail sqrt r.1 config = false
      ∧ (CEulerVariable.SetPrimVar_Compressible sqrt r.1 config).2 = true)
    ∧ (CNSVariable.checksFail sqrt (withOldSolution self) turb_ke config = false →
      let r := CNSVariable.SetPrimVar_Compressible sqrt self eddy_visc turb_ke config
      RealizablePrimitive sqrt config r.1
      ∧ CNSVariable.checksFail sqrt r.1 turb_ke config = false
      ∧ (CNSVariable.SetPrimVar_Compressible sqrt r.1 eddy_visc turb_ke config).2 = true) := by
  constructor
  · intro hold
    obtain ⟨sol, hs, hr⟩ := euler_final_realizable sqrt self config hwf (Or.inr hold)
    have hc : CEulerVariable.checksFail sqrt (eulerState sqrt self config sol) config = false :=
      (CEulerVariable_checksFail_false sqrt _ config).mpr hr
    simp only [hs]
    refine ⟨eulerState_realizable sqrt self config sol hr, hc, ?_⟩
    rw [CEulerVariable_SetPrimVar_run, hc]
    simp
  · intro hold
    obtain ⟨sol, hs, hr⟩ :=
      ns_final_realizable sqrt self eddy_visc turb_ke config hwf (Or.inr hold)
    have hc : CNSVariable.checksFail sqrt (nsState sqrt self eddy_visc turb_ke config sol)
        turb_ke config = false :=
      (CNSVariable_checksFail_false sqrt _ turb_ke config).mpr hr
    simp only [hs]
    refine ⟨nsState_realizable sqrt self eddy_visc turb_ke config sol hr, hc, ?_⟩
    rw [CNSVariable_SetPrimVar_run, hc]
    simp

theorem C8_realizability_invariant_witness :
    scenarioC.nDim + 2 ≤ scenarioC.nVar
    ∧ CEulerVariable.checksFail Rat.sqrt (withOldSolution scenarioC) scenarioConfig = false
    ∧ RealizablePrimitive Rat.sqrt scenarioConfig
        (CEulerVariable.SetPrimVar_Compressible Rat.sqrt scenarioC scenarioConfig).1
    ∧ (CEulerVariable.SetPrimVar_Compressible Rat.sqrt
        (CEulerVariable.SetPrimVar_Compressible Rat.sqrt scenarioC scenarioConfig).1
        scenarioConfig).2 = true :=
  ⟨by decide, scenarioC_old_passes,
    ((C8_realizability_invariant Rat.sqrt scenarioC 1 0 scenarioConfig (by decide)).1
      scenarioC_old_passes).1,
    ((C8_realizability_invariant Rat.sqrt scenarioC 1 0 scenarioConfig (by decide)).1
      scenarioC_old_passes).2.2⟩

/-- C9, as amended. On a point with `nDim + 2 ≤ nVar` whose incoming `Solution`
or whose `Solution_Old` passes the four checks, the primitive state left by
`SetPrimVar_Compressible` (both variants) is physically realizable: density > 0,
pressure > 0, sound-speed radicand > 0 and temperature > 0. -/
theorem C9_realizable_when_some_solution_valid (sqrt : α → α) (self : CVariable α)
    (eddy_visc turb_ke : α) (config : CConfig α) (hwf : self.nDim + 2 ≤ self.nVar) :
    (CEulerVariable.checksFail sqrt self config = false
        ∨ CEulerVariable.checksFail sqrt (withOldSolution self) config = false →
      RealizablePrimitive sqrt config
        (CEulerVariable.SetPrimVar_Compressible sqrt self config).1)
    ∧ (CNSVariable.checksFail sqrt self turb_ke config = false
        ∨ CNSVariable.checksFail sqrt (withOldSolution self) turb_ke config = false →
      RealizablePrimitive sqrt config
        (CNSVariable.SetPrimVar_Compressible sqrt self eddy_visc turb_ke config).1) := by
  constructor
  · intro h
    obtain ⟨sol, hs, hr⟩ := euler_final_realizable sqrt self config hwf h
    rw [hs]
    exact eulerState_realizable sqrt self config sol hr
  · intro h
    obtain ⟨sol, hs, hr⟩ := ns_final_realizable sqrt self eddy_visc turb_ke config hwf h
    rw [hs]
    exact nsState_realizable sqrt self eddy_visc turb_ke config sol hr


theorem C9_realizable_when_some_solution_valid_witness :
    scenarioC.nDim + 2 ≤ scenarioC.nVar
    ∧ CEulerVariable.checksFail Rat.sqrt (withOldSolution scenarioC) scenarioConfig = false
    ∧ RealizablePrimitive Rat.sqrt scenarioConfig
        (CEulerVariable.SetPrimVar_Compressible Rat.sqrt scenarioC scenarioConfig).1 :=
  ⟨by decide, scenarioC_old_passes,
    (C9_realizable_when_some_solution_valid Rat.sqrt scenarioC 1 0 scenarioConfig
      (by decide)).1 (Or.inr scenarioC_old_passes)⟩

/-- C9, counterexample to the claim as stated. The point that the constructor
`CEulerVariable(-1, (0,0), 1, 2, 4, config)` builds stores its `nDim + 2`
conservative entries with the density `-1` in `Solution` and in `Solution_Old`;
`SetPrimVar_Compressible` leaves it with the density `-1`, a primitive state
that is not realizable. -/
theorem C9_unvalidated_old_solution :
    negativeDensityPoint.nDim + 2 ≤ negativeDensityPoint.nVar
    ∧ (CEulerVariable.SetPrimVar_Compressible Rat.sqrt negativeDensityPoint
        scenarioConfig).1.Primitive (negativeDensityPoint.nDim+2) = -1
    ∧ ¬ RealizablePrimitive Rat.sqrt scenarioConfig
        (CEulerVariable.SetPrimVar_Compressible Rat.sqrt negativeDensityPoint
          scenarioConfig).1 := by
  obtain ⟨hd, hv, hs, ho⟩ := negativeDensityPoint_facts
  have hr : rolledBack negativeDensityPoint 0 = -1 := by
    rw [rolledBack_lt negativeDensityPoint (by rw [hv]; decide), ho]
  have hden : (CEulerVariable.SetPrimVar_Compressible Rat.sqrt negativeDensityPoint
      scenarioConfig).1.Primitive (negativeDensityPoint.nDim+2) = -1 := by
    rw [CEulerVariable_SetPrimVar_run]
    split_ifs
    · rw [(eulerState_entries Rat.sqrt negativeDensityPoint scenarioConfig _).1, hr]
    · rw [(eulerState_entries Rat.sqrt negativeDensityPoint scenarioConfig _).1, hs]
  have hn : (CEulerVariable.SetPrimVar_Compressible Rat.sqrt negativeDensityPoint
      scenarioConfig).1.nDim = negativeDensityPoint.nDim := by
    rw [CEulerVariable_SetPrimVar_run]
    split_ifs <;> rfl
  refine ⟨by rw [hd, hv], hden, ?_⟩
  intro h
  have hpos := h.1
  rw [hn, hden] at hpos
  norm_num at hpos

/-- C10 (degenerate edge). When `Coord_i = Coord_j`, each of the four viscous
operators finds `dist_ij_2 = 0`, so it takes the branch that sets
`proj_vector_ij = 0` and not the one that divides by the squared edge length;
and the corrected operators return the same output buffers as the plain ones
(one-equation with `nVar ≥ 1`, two-equation with `nVar ≥ 2`). -/
theorem C10_degenerate_edge (self : CNumerics α) (out : Buffers α)
    (h : ∀ d, d < self.nDim → self.Coord_i d = self.Coord_j d) :
    ((CAvgGrad_TurbSA.ComputeResidual self out).1.dist_ij_2 = 0
      ∧ (CAvgGrad_TurbSA.ComputeResidual self out).1.proj_vector_ij = 0)
    ∧ ((CAvgGradCorrected_TurbSA.ComputeResidual self out).1.dist_ij_2 = 0
      ∧ (CAvgGradCorrected_TurbSA.ComputeResidual self out).1.proj_vector_ij = 0)
    ∧ ((CAvgGrad_TurbSST.ComputeResidual self out).1.dist_ij_2 = 0
      ∧ (CAvgGrad_TurbSST.ComputeResidual self out).1.proj_vector_ij = 0)
    ∧ ((CAvgGradCorrected_TurbSST.ComputeResidual self out).1.dist_ij_2 = 0
      ∧ (CAvgGradCorrected_TurbSST.ComputeResidual self out).1.proj_vector_ij = 0)
    ∧ (1 ≤ self.nVar →
        (CAvgGradCorrected_TurbSA.ComputeResidual self out).2
          = (CAvgGrad_TurbSA.ComputeResidual self out).2)
    ∧ (2 ≤ self.nVar →
        (CAvgGradCorrected_TurbSST.ComputeResidual self out).2
          = (CAvgGrad_TurbSST.ComputeResidual self out).2) := by
  have hl := edgeLength2_degenerate self h
  have hp := edgeProj_degenerate self h
  have hc := correctedProj_degenerate self h
  simp only [CAvgGrad_TurbSA_run, CAvgGradCorrected_TurbSA_run, CAvgGrad_TurbSST_run,
    CAvgGradCorrected_TurbSST_run, hl, hp, hc]
  refine ⟨⟨trivial, trivial⟩, ⟨trivial, trivial⟩, ⟨trivial, trivial⟩, ⟨trivial, trivial⟩, ?_, ?_⟩
  · intro h1
    have : 0 < self.nVar := h1
    simp [this]
  · intro h2
    have h0 : 0 < self.nVar := by omega
    have h1 : 1 < self.nVar := h2
    simp [h0, h1]

theorem C10_degenerate_edge_witness :
    (∀ d, d < scenarioDegenerate.nDim →
        scenarioDegenerate.Coord_i d = scenarioDegenerate.Coord_j d)
    ∧ 2 ≤ scenarioDegenerate.nVar
    ∧ (CAvgGradCorrected_TurbSA.ComputeResidual scenarioDegenerate staleBuffers).1.proj_vector_ij
        = 0
    ∧ (CAvgGradCorrected_TurbSST.ComputeResidual scenarioDegenerate staleBuffers).2
        = (CAvgGrad_TurbSST.ComputeResidual scenarioDegenerate staleBuffers).2 :=
  ⟨fun _ _ => rfl, by decide,
    (C10_degenerate_edge scenarioDegenerate staleBuffers (fun _ _ => rfl)).2.1.2,
    (C10_degenerate_edge scenarioDegenerate staleBuffers (fun _ _ => rfl)).2.2.2.2.2
      (by decide)⟩

/-! ## One-equation viscous operators on aligned edges -/

/-- On an aligned edge the mean gradient dotted with the normal is the geometric
factor times the mean gradient dotted with the edge vector. -/
theorem meanGradDot_aligned (self : CNumerics α) (c : α) (k : Nat)
    (ha : ∀ d, d < self.nDim → self.Normal d = c*edgeVector self d) :
    meanGradDot self self.Normal k = edgeProj self*meanGradDot self (edgeVector self) k := by
  have h1 : ∀ f : Nat → α, dot self.nDim f self.Normal = c*dot self.nDim f (edgeVector self) := by
    intro f
    unfold dot
    rw [Finset.mul_sum]
    refine Finset.sum_congr rfl (fun d hd => ?_)
    rw [ha d (Finset.mem_range.mp hd)]; ring
  unfold meanGradDot edgeProj projOf
  rw [h1, h1]
  by_cases h0 : edgeLength2 self = 0
  · have hz : ∀ d, d < self.nDim → edgeVector self d = 0 := by
      intro d hd
      unfold edgeLength2 dot at h0
      have := (Finset.sum_eq_zero_iff_of_nonneg
        (fun i _ => mul_self_nonneg (edgeVector self i))).mp h0 d (Finset.mem_range.mpr hd)
      exact mul_self_eq_zero.mp this
    have hd0 : dot self.nDim (meanGrad self k) (edgeVector self) = 0 := by
      unfold dot
      refine Finset.sum_eq_zero (fun d hd => ?_)
      rw [hz d (Finset.mem_range.mp hd)]; ring
    simp [h0, hd0]
  · simp only [h0, if_false]
    have : dot self.nDim (edgeVector self) (edgeVector self) = edgeLength2 self := rfl
    rw [this]
    field_simp

theorem correctedProj_consistent (self : CNumerics α) (k : Nat)
    (h : meanGradDot self (edgeVector self) k = self.TurbVar_j k - self.TurbVar_i k) :
    correctedProj self k = meanGradDot self self.Normal k := by
  unfold correctedProj; rw [h]; ring

theorem scenarioB_eval :
    nuE scenarioB = 3/2 ∧ edgeProj scenarioB = 1
    ∧ meanGradDot scenarioB scenarioB.Normal 0 = 0
    ∧ meanGradDot scenarioB (edgeVector scenarioB) 0 = 0
    ∧ correctedProj scenarioB 0 = 1 := by
  norm_num [nuE, edgeProj, projOf, edgeLength2, dot, edgeVector_def, meanGradDot, meanGrad_def,
    correctedProj, scenarioB, vec, Finset.sum_range_succ]

theorem scenarioB_aligned (s : CNumerics ℚ) (hd : s.nDim = 2) (hn : s.Normal = vec [1, 0])
    (hi : s.Coord_i = vec [0, 0]) (hj : s.Coord_j = vec [1, 0]) :
    ∀ d, d < s.nDim → s.Normal d = 1*edgeVector s d := by
  intro d h
  rw [hd] at h
  rw [edgeVector_def, hn, hi, hj]
  interval_cases d <;> norm_num [vec]

theorem scenarioBUniform_consistent :
    meanGradDot scenarioBUniform (edgeVector scenarioBUniform) 0
      = scenarioBUniform.TurbVar_j 0 - scenarioBUniform.TurbVar_i 0 := by
  norm_num [dot, edgeVector_def, meanGradDot, meanGrad_def,
    scenarioBUniform, scenarioB, vec, mat, Finset.sum_range_succ]

/-- C11, as amended.  On every edge whose face normal is a multiple `c` of the
edge vector, `CAvgGrad_TurbSA` returns the residual `(ν_e/σ)·proj·E` and
`CAvgGradCorrected_TurbSA` returns `(ν_e/σ)·proj·(turb_j − turb_i)`, `E` being
the mean gradient dotted with the edge vector; the two operators return the same
residual and Jacobians whenever `E = turb_j − turb_i`. -/
theorem C11_aligned_edge_residuals (self : CNumerics α) (out : Buffers α) (c : α)
    (hn : 1 ≤ self.nVar)
    (ha : ∀ d, d < self.nDim → self.Normal d = c*edgeVector self d) :
    (CAvgGrad_TurbSA.ComputeResidual self out).2.val_residual 0
        = nuE self*(edgeProj self*meanGradDot self (edgeVector self) 0)/self.sigma
    ∧ (CAvgGradCorrected_TurbSA.ComputeResidual self out).2.val_residual 0
        = nuE self*(edgeProj self*(self.TurbVar_j 0 - self.TurbVar_i 0))/self.sigma
    ∧ (meanGradDot self (edgeVector self) 0 = self.TurbVar_j 0 - self.TurbVar_i 0 →
        (CAvgGradCorrected_TurbSA.ComputeResidual self out).2
          = (CAvgGrad_TurbSA.ComputeResidual self out).2) := by
  have h0 : 0 < self.nVar := hn
  have hk := meanGradDot_aligned self c 0 ha
  have hc : correctedProj self 0 = edgeProj self*(self.TurbVar_j 0 - self.TurbVar_i 0) := by
    unfold correctedProj; rw [hk]; ring
  simp only [CAvgGrad_TurbSA_run, CAvgGradCorrected_TurbSA_run, h0, if_true, setAt_same]
  refine ⟨by rw [hk], by rw [hc], ?_⟩
  intro he
  rw [correctedProj_consistent self 0 he]

/-- Scenario B with the uniform gradient `(1,0)` is an aligned edge on which the
mean gradient along the edge equals the difference of the turbulence variable,
and there the two operators return the same buffers. -/
theorem C11_aligned_edge_residuals_witness :
    1 ≤ scenarioBUniform.nVar
    ∧ (∀ d, d < scenarioBUniform.nDim →
        scenarioBUniform.Normal d = 1*edgeVector scenarioBUniform d)
    ∧ (CAvgGradCorrected_TurbSA.ComputeResidual scenarioBUniform staleBuffers).2
          = (CAvgGrad_TurbSA.ComputeResidual scenarioBUniform staleBuffers).2 :=
  ⟨by decide, scenarioB_aligned _ rfl rfl rfl rfl,
    (C11_aligned_edge_residuals scenarioBUniform staleBuffers 1 (by decide)
      (scenarioB_aligned _ rfl rfl rfl rfl)).2.2 scenarioBUniform_consistent⟩

/-- C11 fails as stated at its own Scenario B: the edge `(0,0) → (1,0)` is
aligned with `Normal = (1,0)`, the gradients are zero and `turb_j − turb_i = 1`,
yet `CAvgGrad_TurbSA` returns residual 0 and `CAvgGradCorrected_TurbSA` returns
`ν_e/σ = 9/4`. -/
theorem C11_scenarioB_residuals_differ :
    (∀ d, d < scenarioB.nDim → scenarioB.Normal d = 1*edgeVector scenarioB d)
    ∧ (∀ k d, scenarioB.TurbVar_Grad_i k d = 0 ∧ scenarioB.TurbVar_Grad_j k d = 0)
    ∧ scenarioB.TurbVar_j 0 - scenarioB.TurbVar_i 0 = 1
    ∧ (CAvgGrad_TurbSA.ComputeResidual scenarioB staleBuffers).2.val_residual 0 = 0
    ∧ (CAvgGradCorrected_TurbSA.ComputeResidual scenarioB staleBuffers).2.val_residual 0 = 9/4 := by
  refine ⟨scenarioB_aligned _ rfl rfl rfl rfl, fun _ _ => ⟨rfl, rfl⟩, ?_, ?_, ?_⟩
  · norm_num [scenarioB, vec]
  · rw [CAvgGrad_TurbSA_run]
    obtain ⟨h1, h2, h3, h4, h5⟩ := scenarioB_eval
    simp only [setAt_same, h1, h3]
    norm_num [scenarioB]
  · rw [CAvgGradCorrected_TurbSA_run]
    obtain ⟨h1, h2, h3, h4, h5⟩ := scenarioB_eval
    simp only [setAt_same, h1, h5]
    norm_num [scenarioB]

/-! ## Viscous residuals and Jacobians -/

theorem two_thirds_lit : (2.0 : α)/3.0 = 2/3 := by norm_num

theorem CAvgGrad_TurbSA_ctor_run (self : CNumerics α) (val_nDim val_nVar : Nat)
    (config : CConfigTurb) :
    CAvgGrad_TurbSA.CAvgGrad_TurbSA_ctor self val_nDim val_nVar config
      = { self with
          nDim := val_nDim, nVar := val_nVar
          implicit := decide (config.Kind_TimeIntScheme_Turb = TimeIntScheme.EULER_IMPLICIT)
          sigma := 2/3 } := by
  unfold CAvgGrad_TurbSA.CAvgGrad_TurbSA_ctor CNumerics.CNumerics_ctor
  simp only [two_thirds_lit]

theorem CAvgGradCorrected_TurbSA_ctor_run (self : CNumerics α) (val_nDim val_nVar : Nat)
    (config : CConfigTurb) :
    CAvgGradCorrected_TurbSA.CAvgGradCorrected_TurbSA_ctor self val_nDim val_nVar config
      = { self with
          nDim := val_nDim, nVar := val_nVar
          implicit := decide (config.Kind_TimeIntScheme_Turb = TimeIntScheme.EULER_IMPLICIT)
          sigma := 2/3 } := by
  unfold CAvgGradCorrected_TurbSA.CAvgGradCorrected_TurbSA_ctor CNumerics.CNumerics_ctor
  simp only [two_thirds_lit]

theorem CAvgGrad_TurbSST_ctor_run (self : CNumerics α) (val_nDim val_nVar : Nat)
    (constants : Nat → α) (config : CConfigTurb) :
    CAvgGrad_TurbSST.CAvgGrad_TurbSST_ctor self val_nDim val_nVar constants config
      = { self with
          nDim := val_nDim, nVar := val_nVar
          implicit := decide (config.Kind_TimeIntScheme_Turb = TimeIntScheme.EULER_IMPLICIT)
          sigma_k1 := constants 0, sigma_k2 := constants 1
          sigma_om1 := constants 2, sigma_om2 := constants 3 } := rfl

theorem CAvgGradCorrected_TurbSST_ctor_run (self : CNumerics α) (val_nDim val_nVar : Nat)
    (constants : Nat → α) (config : CConfigTurb) :
    CAvgGradCorrected_TurbSST.CAvgGradCorrected_TurbSST_ctor self val_nDim val_nVar constants config
      = { self with
          nDim := val_nDim, nVar := val_nVar
          implicit := decide (config.Kind_TimeIntScheme_Turb = TimeIntScheme.EULER_IMPLICIT)
          sigma_k1 := constants 0, sigma_k2 := constants 1
          sigma_om1 := constants 2, sigma_om2 := constants 3 } := rfl

/-- C12.  For every input with non-zero endpoint densities, the one-equation
viscous operators as constructed have `σ = 2/3` and write the residual
`(ν_e/σ)·P` with `ν_e = (μ_i/ρ_i + μ_j/ρ_j + turb_i + turb_j)/2`, where `P = K`
for `CAvgGrad_TurbSA` and `P = K − proj·(E − (turb_j − turb_i))` for
`CAvgGradCorrected_TurbSA`; `K` is the mean gradient dotted with `Normal`, `E`
the mean gradient dotted with the edge vector, and `proj` the quotient
`(EdgeVector·Normal)/|EdgeVector|²`, 0 for an edge of zero length. -/
theorem C12_SA_viscous_residual (self : CNumerics α) (out : Buffers α)
    (val_nDim val_nVar : Nat) (config : CConfigTurb)
    (hn : 1 ≤ val_nVar)
    (_hi : self.V_i (val_nDim+2) ≠ 0) (_hj : self.V_j (val_nDim+2) ≠ 0) :
    (CAvgGrad_TurbSA.CAvgGrad_TurbSA_ctor self val_nDim val_nVar config).sigma = 2/3
    ∧ (CAvgGradCorrected_TurbSA.CAvgGradCorrected_TurbSA_ctor self val_nDim val_nVar config).sigma
        = 2/3
    ∧ (CAvgGrad_TurbSA.ComputeResidual
          (CAvgGrad_TurbSA.CAvgGrad_TurbSA_ctor self val_nDim val_nVar config) out).2.val_residual 0
        = ((self.V_i (val_nDim+5)/self.V_i (val_nDim+2)
              + self.V_j (val_nDim+5)/self.V_j (val_nDim+2)
              + self.TurbVar_i 0 + self.TurbVar_j 0)/2)/(2/3)
          *dot val_nDim (meanGrad self 0) self.Normal
    ∧ (CAvgGradCorrected_TurbSA.ComputeResidual
          (CAvgGradCorrected_TurbSA.CAvgGradCorrected_TurbSA_ctor self val_nDim val_nVar config)
          out).2.val_residual 0
        = ((self.V_i (val_nDim+5)/self.V_i (val_nDim+2)
              + self.V_j (val_nDim+5)/self.V_j (val_nDim+2)
              + self.TurbVar_i 0 + self.TurbVar_j 0)/2)/(2/3)
          *(dot val_nDim (meanGrad self 0) self.Normal
            - projOf (dot val_nDim (edgeVector self) (edgeVector self))
                (dot val_nDim (edgeVector self) self.Normal)
              *(dot val_nDim (meanGrad self 0) (edgeVector self)
                - (self.TurbVar_j 0 - self.TurbVar_i 0))) := by
  have h0 : 0 < val_nVar := hn
  rw [CAvgGrad_TurbSA_ctor_run, CAvgGradCorrected_TurbSA_ctor_run,
    CAvgGrad_TurbSA_run, CAvgGradCorrected_TurbSA_run]
  simp only [setAt_same, h0, if_true]
  refine ⟨trivial, trivial, ?_, ?_⟩
  · simp only [nuE, meanGradDot, meanGrad_def]
    ring
  · simp only [nuE, meanGradDot, meanGrad_def, correctedProj, edgeProj, edgeLength2,
      edgeVector_def]
    ring

theorem C12_SA_viscous_residual_witness :
    1 ≤ 1 ∧ scenarioB.V_i (2+2) ≠ 0 ∧ scenarioB.V_j (2+2) ≠ 0
    ∧ (CAvgGrad_TurbSA.CAvgGrad_TurbSA_ctor scenarioB 2 1 {}).sigma = 2/3
    ∧ (CAvgGradCorrected_TurbSA.CAvgGradCorrected_TurbSA_ctor scenarioB 2 1 {}).sigma = 2/3 :=
  ⟨le_refl 1, by norm_num [scenarioB, vec], by norm_num [scenarioB, vec],
    (C12_SA_viscous_residual scenarioB staleBuffers 2 1 {} (le_refl 1)
      (by norm_num [scenarioB, vec]) (by norm_num [scenarioB, vec])).1,
    (C12_SA_viscous_residual scenarioB staleBuffers 2 1 {} (le_refl 1)
      (by norm_num [scenarioB, vec]) (by norm_num [scenarioB, vec])).2.1⟩

/-- C13.  With the implicit flag set, both one-equation viscous operators write
`Jacobian_i[0][0] = (P/2 − ν_e·proj)/σ` and `Jacobian_j[0][0] = (P/2 + ν_e·proj)/σ`,
`P` being the projected gradient of that operator's residual `ν_e·P/σ` (the mean
gradient dotted with `Normal` for the plain operator, the corrected projection
for the corrected one); hence `Jacobian_i + Jacobian_j = P/σ` and
`Jacobian_j − Jacobian_i = 2·ν_e·proj/σ`. -/
theorem C13_SA_viscous_jacobians (self : CNumerics α) (out : Buffers α)
    (hi : self.implicit = true) (hn : 1 ≤ self.nVar) :
    ((CAvgGrad_TurbSA.ComputeResidual self out).2.val_residual 0
        = nuE self*meanGradDot self self.Normal 0/self.sigma
      ∧ (CAvgGrad_TurbSA.ComputeResidual self out).2.val_Jacobian_i 0 0
        = (meanGradDot self self.Normal 0/2 - nuE self*edgeProj self)/self.sigma
      ∧ (CAvgGrad_TurbSA.ComputeResidual self out).2.val_Jacobian_j 0 0
        = (meanGradDot self self.Normal 0/2 + nuE self*edgeProj self)/self.sigma
      ∧ (CAvgGrad_TurbSA.ComputeResidual self out).2.val_Jacobian_i 0 0
          + (CAvgGrad_TurbSA.ComputeResidual self out).2.val_Jacobian_j 0 0
        = meanGradDot self self.Normal 0/self.sigma
      ∧ (CAvgGrad_TurbSA.ComputeResidual self out).2.val_Jacobian_j 0 0
          - (CAvgGrad_TurbSA.ComputeResidual self out).2.val_Jacobian_i 0 0
        = 2*nuE self*edgeProj self/self.sigma)
    ∧ ((CAvgGradCorrected_TurbSA.ComputeResidual self out).2.val_residual 0
        = nuE self*correctedProj self 0/self.sigma
      ∧ (CAvgGradCorrected_TurbSA.ComputeResidual self out).2.val_Jacobian_i 0 0
        = (correctedProj self 0/2 - nuE self*edgeProj self)/self.sigma
      ∧ (CAvgGradCorrected_TurbSA.ComputeResidual self out).2.val_Jacobian_j 0 0
        = (correctedProj self 0/2 + nuE self*edgeProj self)/self.sigma
      ∧ (CAvgGradCorrected_TurbSA.ComputeResidual self out).2.val_Jacobian_i 0 0
          + (CAvgGradCorrected_TurbSA.ComputeResidual self out).2.val_Jacobian_j 0 0
        = correctedProj self 0/self.sigma
      ∧ (CAvgGradCorrected_TurbSA.ComputeResidual self out).2.val_Jacobian_j 0 0
          - (CAvgGradCorrected_TurbSA.ComputeResidual self out).2.val_Jacobian_i 0 0
        = 2*nuE self*edgeProj self/self.sigma) := by
  have h0 : 0 < self.nVar := hn
  simp only [CAvgGrad_TurbSA_run, CAvgGradCorrected_TurbSA_run, hi, h0, if_true, setAt_same,
    setAt2, half_lit, and_self]
  refine ⟨⟨trivial, ?_, ?_, ?_, ?_⟩, ⟨trivial, ?_, ?_, ?_, ?_⟩⟩ <;> ring

theorem C13_SA_viscous_jacobians_witness :
    scenarioBUniform.implicit = true ∧ 1 ≤ scenarioBUniform.nVar
    ∧ (CAvgGrad_TurbSA.ComputeResidual scenarioBUniform staleBuffers).2.val_Jacobian_i 0 0
          + (CAvgGrad_TurbSA.ComputeResidual scenarioBUniform staleBuffers).2.val_Jacobian_j 0 0
        = meanGradDot scenarioBUniform scenarioBUniform.Normal 0/scenarioBUniform.sigma
    ∧ (CAvgGradCorrected_TurbSA.ComputeResidual scenarioBUniform staleBuffers).2.val_Jacobian_j 0 0
          - (CAvgGradCorrected_TurbSA.ComputeResidual scenarioBUniform
              staleBuffers).2.val_Jacobian_i 0 0
        = 2*nuE scenarioBUniform*edgeProj scenarioBUniform/scenarioBUniform.sigma :=
  ⟨rfl, by decide,
    (C13_SA_viscous_jacobians scenarioBUniform staleBuffers rfl (by decide)).1.2.2.2.1,
    (C13_SA_viscous_jacobians scenarioBUniform staleBuffers rfl (by decide)).2.2.2.2.2⟩

/-- C14.  For every input of `CAvgGrad_TurbSST` and `CAvgGradCorrected_TurbSST`
as constructed from `constants`, `residual[0] = ((μ_i + sk_i·μt_i) + (μ_j +
sk_j·μt_j))/2·P[0]` and `residual[1] = ((μ_i + so_i·μt_i) + (μ_j +
so_j·μt_j))/2·P[1]`, with `sk_x = F1_x·constants[0] + (1−F1_x)·constants[1]`,
`so_x = F1_x·constants[2] + (1−F1_x)·constants[3]`, and `P[k]` the mean gradient
dotted with `Normal` (plain) or the corrected projection
`K − proj·(E − (turb_j[k] − turb_i[k]))` (corrected). -/
theorem C14_SST_viscous_residual (self : CNumerics α) (out : Buffers α)
    (val_nDim val_nVar : Nat) (constants : Nat → α) (config : CConfigTurb)
    (hn : 2 ≤ val_nVar) :
    ((CAvgGrad_TurbSST.ComputeResidual
          (CAvgGrad_TurbSST.CAvgGrad_TurbSST_ctor self val_nDim val_nVar constants config)
          out).2.val_residual 0
        = ((self.V_i (val_nDim+5)
              + (self.F1_i*constants 0 + (1 - self.F1_i)*constants 1)*self.V_i (val_nDim+6))
            + (self.V_j (val_nDim+5)
              + (self.F1_j*constants 0 + (1 - self.F1_j)*constants 1)*self.V_j (val_nDim+6)))/2
          *dot val_nDim (meanGrad self 0) self.Normal
      ∧ (CAvgGrad_TurbSST.ComputeResidual
          (CAvgGrad_TurbSST.CAvgGrad_TurbSST_ctor self val_nDim val_nVar constants config)
          out).2.val_residual 1
        = ((self.V_i (val_nDim+5)
              + (self.F1_i*constants 2 + (1 - self.F1_i)*constants 3)*self.V_i (val_nDim+6))
            + (self.V_j (val_nDim+5)
              + (self.F1_j*constants 2 + (1 - self.F1_j)*constants 3)*self.V_j (val_nDim+6)))/2
          *dot val_nDim (meanGrad self 1) self.Normal)
    ∧ ((CAvgGradCorrected_TurbSST.ComputeResidual
          (CAvgGradCorrected_TurbSST.CAvgGradCorrected_TurbSST_ctor self val_nDim val_nVar
            constants config) out).2.val_residual 0
        = ((self.V_i (val_nDim+5)
              + (self.F1_i*constants 0 + (1 - self.F1_i)*constants 1)*self.V_i (val_nDim+6))
            + (self.V_j (val_nDim+5)
              + (self.F1_j*constants 0 + (1 - self.F1_j)*constants 1)*self.V_j (val_nDim+6)))/2
          *(dot val_nDim (meanGrad self 0) self.Normal
            - projOf (dot val_nDim (edgeVector self) (edgeVector self))
                (dot val_nDim (edgeVector self) self.Normal)
              *(dot val_nDim (meanGrad self 0) (edgeVector self)
                - (self.TurbVar_j 0 - self.TurbVar_i 0)))
      ∧ (CAvgGradCorrected_TurbSST.ComputeResidual
          (CAvgGradCorrected_TurbSST.CAvgGradCorrected_TurbSST_ctor self val_nDim val_nVar
            constants config) out).2.val_residual 1
        = ((self.V_i (val_nDim+5)
              + (self.F1_i*constants 2 + (1 - self.F1_i)*constants 3)*self.V_i (val_nDim+6))
            + (self.V_j (val_nDim+5)
              + (self.F1_j*constants 2 + (1 - self.F1_j)*constants 3)*self.V_j (val_nDim+6)))/2
          *(dot val_nDim (meanGrad self 1) self.Normal
            - projOf (dot val_nDim (edgeVector self) (edgeVector self))
                (dot val_nDim (edgeVector self) self.Normal)
              *(dot val_nDim (meanGrad self 1) (edgeVector self)
                - (self.TurbVar_j 1 - self.TurbVar_i 1)))) := by
  have h0 : 0 < val_nVar := by omega
  have h1 : 1 < val_nVar := hn
  have h10 : (1 : Nat) ≠ 0 := by decide
  rw [CAvgGrad_TurbSST_ctor_run, CAvgGradCorrected_TurbSST_ctor_run,
    CAvgGrad_TurbSST_run, CAvgGradCorrected_TurbSST_run]
  simp only [setAt, h0, h1, if_true, h10, if_false, Nat.zero_ne_one]
  refine ⟨⟨rfl, rfl⟩, ⟨rfl, rfl⟩⟩

theorem C14_SST_viscous_residual_witness :
    2 ≤ 2
    ∧ (CAvgGrad_TurbSST.ComputeResidual
          (CAvgGrad_TurbSST.CAvgGrad_TurbSST_ctor scenarioSSTEdge 2 2
            (vec [17/20, 1, 1/2, 107/125]) {}) staleBuffers).2.val_residual 0
        = ((scenarioSSTEdge.V_i (2+5)
              + (scenarioSSTEdge.F1_i*vec [17/20, 1, 1/2, 107/125] 0
                  + (1 - scenarioSSTEdge.F1_i)*vec [17/20, 1, 1/2, 107/125] 1)
                *scenarioSSTEdge.V_i (2+6))
            + (scenarioSSTEdge.V_j (2+5)
              + (scenarioSSTEdge.F1_j*vec [17/20, 1, 1/2, 107/125] 0
                  + (1 - scenarioSSTEdge.F1_j)*vec [17/20, 1, 1/2, 107/125] 1)
                *scenarioSSTEdge.V_j (2+6)))/2
          *dot 2 (meanGrad scenarioSSTEdge 0) scenarioSSTEdge.Normal :=
  ⟨le_refl 2,
    (C14_SST_viscous_residual scenarioSSTEdge staleBuffers 2 2 (vec [17/20, 1, 1/2, 107/125]) {}
      (le_refl 2)).1.1⟩

/-- C15, as amended.  With the implicit flag set, both two-equation viscous
operators write `Jacobian_i[k][k] = −diff_k·proj/ρ_i` and
`Jacobian_j[k][k] = +diff_k·proj/ρ_j` for `k = 0, 1`, with `diff_k` the
endpoint-averaged diffusivity of residual `k` and each block divided by the
density of its own endpoint; no term in the projected gradient enters, and the
off-diagonal entries are 0. -/
theorem C15_SST_viscous_jacobians (self : CNumerics α) (out : Buffers α)
    (hi : self.implicit = true) :
    ((CAvgGrad_TurbSST.ComputeResidual self out).2.val_Jacobian_i 0 0
        = -diffKine self*edgeProj self/self.V_i (self.nDim+2)
      ∧ (CAvgGrad_TurbSST.ComputeResidual self out).2.val_Jacobian_i 1 1
        = -diffOmega self*edgeProj self/self.V_i (self.nDim+2)
      ∧ (CAvgGrad_TurbSST.ComputeResidual self out).2.val_Jacobian_j 0 0
        = diffKine self*edgeProj self/self.V_j (self.nDim+2)
      ∧ (CAvgGrad_TurbSST.ComputeResidual self out).2.val_Jacobian_j 1 1
        = diffOmega self*edgeProj self/self.V_j (self.nDim+2)
      ∧ (CAvgGrad_TurbSST.ComputeResidual self out).2.val_Jacobian_i 0 1 = 0
      ∧ (CAvgGrad_TurbSST.ComputeResidual self out).2.val_Jacobian_i 1 0 = 0
      ∧ (CAvgGrad_TurbSST.ComputeResidual self out).2.val_Jacobian_j 0 1 = 0
      ∧ (CAvgGrad_TurbSST.ComputeResidual self out).2.val_Jacobian_j 1 0 = 0)
    ∧ ((CAvgGradCorrected_TurbSST.ComputeResidual self out).2.val_Jacobian_i 0 0
        = -diffKine self*edgeProj self/self.V_i (self.nDim+2)
      ∧ (CAvgGradCorrected_TurbSST.ComputeResidual self out).2.val_Jacobian_i 1 1
        = -diffOmega self*edgeProj self/self.V_i (self.nDim+2)
      ∧ (CAvgGradCorrected_TurbSST.ComputeResidual self out).2.val_Jacobian_j 0 0
        = diffKine self*edgeProj self/self.V_j (self.nDim+2)
      ∧ (CAvgGradCorrected_TurbSST.ComputeResidual self out).2.val_Jacobian_j 1 1
        = diffOmega self*edgeProj self/self.V_j (self.nDim+2)
      ∧ (CAvgGradCorrected_TurbSST.ComputeResidual self out).2.val_Jacobian_i 0 1 = 0
      ∧ (CAvgGradCorrected_TurbSST.ComputeResidual self out).2.val_Jacobian_i 1 0 = 0
      ∧ (CAvgGradCorrected_TurbSST.ComputeResidual self out).2.val_Jacobian_j 0 1 = 0
      ∧ (CAvgGradCorrected_TurbSST.ComputeResidual self out).2.val_Jacobian_j 1 0 = 0) := by
  rw [CAvgGrad_TurbSST_run, CAvgGradCorrected_TurbSST_run]
  simp only [hi, if_true]
  refine ⟨⟨?_, ?_, ?_, ?_, ?_, ?_, ?_, ?_⟩, ⟨?_, ?_, ?_, ?_, ?_, ?_, ?_, ?_⟩⟩ <;>
    simp [setAt2]

theorem scenarioSSTEdge_eval :
    diffKine scenarioSSTEdge = 1 ∧ diffOmega scenarioSSTEdge = 1
    ∧ edgeProj scenarioSSTEdge = 1
    ∧ meanGradDot scenarioSSTEdge scenarioSSTEdge.Normal 0 = 1
    ∧ meanGradDot scenarioSSTEdge scenarioSSTEdge.Normal 1 = 1
    ∧ correctedProj scenarioSSTEdge 0 = 1
    ∧ correctedProj scenarioSSTEdge 1 = 1
    ∧ scenarioSSTEdge.V_i (scenarioSSTEdge.nDim+2) = 1
    ∧ scenarioSSTEdge.V_j (scenarioSSTEdge.nDim+2) = 2 := by
  norm_num [diffKine, diffOmega, sigmaKine, sigmaOmega, edgeProj, projOf, edgeLength2, dot,
    edgeVector_def, meanGradDot, meanGrad_def, correctedProj, scenarioSSTEdge, vec, mat,
    Finset.sum_range_succ]

theorem C15_SST_viscous_jacobians_witness :
    scenarioSSTEdge.implicit = true
    ∧ (CAvgGrad_TurbSST.ComputeResidual scenarioSSTEdge staleBuffers).2.val_Jacobian_i 0 0
        = -diffKine scenarioSSTEdge*edgeProj scenarioSSTEdge
            /scenarioSSTEdge.V_i (scenarioSSTEdge.nDim+2)
    ∧ (CAvgGradCorrected_TurbSST.ComputeResidual scenarioSSTEdge staleBuffers).2.val_Jacobian_j 1 1
        = diffOmega scenarioSSTEdge*edgeProj scenarioSSTEdge
            /scenarioSSTEdge.V_j (scenarioSSTEdge.nDim+2) :=
  ⟨rfl, (C15_SST_viscous_jacobians scenarioSSTEdge staleBuffers rfl).1.1,
    (C15_SST_viscous_jacobians scenarioSSTEdge staleBuffers rfl).2.2.2.2.1⟩

/-- C15 fails as stated on a unit edge along `x` with `Normal = (1,0)`, gradients
`(1,0)`, `ρ_i = 1`, `ρ_j = 2`, `μ = 1`, `μ_t = 0`: there `P[0] = 1`, `diff_0 = 1`
and `proj = 1`, and both operators write `Jacobian_i[0][0] = −1` and
`Jacobian_j[0][0] = 1/2`, whereas `(P[0]/2 − diff_0·proj)/ρ` is `−1/2` or `−1/4`
and `(P[0]/2 + diff_0·proj)/ρ` is `3/2` or `3/4` for `ρ = ρ_i` or `ρ_j`. -/
theorem C15_jacobian_has_no_gradient_term :
    scenarioSSTEdge.implicit = true
    ∧ (CAvgGrad_TurbSST.ComputeResidual scenarioSSTEdge staleBuffers).2.val_residual 0
        = diffKine scenarioSSTEdge*meanGradDot scenarioSSTEdge scenarioSSTEdge.Normal 0
    ∧ (CAvgGrad_TurbSST.ComputeResidual scenarioSSTEdge staleBuffers).2.val_Jacobian_i 0 0 = -1
    ∧ (CAvgGrad_TurbSST.ComputeResidual scenarioSSTEdge staleBuffers).2.val_Jacobian_j 0 0 = 1/2
    ∧ (CAvgGradCorrected_TurbSST.ComputeResidual scenarioSSTEdge staleBuffers).2.val_Jacobian_i 0 0
        = -1
    ∧ (CAvgGradCorrected_TurbSST.ComputeResidual scenarioSSTEdge staleBuffers).2.val_Jacobian_j 0 0
        = 1/2
    ∧ (meanGradDot scenarioSSTEdge scenarioSSTEdge.Normal 0/2
          - diffKine scenarioSSTEdge*edgeProj scenarioSSTEdge)
        /scenarioSSTEdge.V_i (scenarioSSTEdge.nDim+2) = -1/2
    ∧ (meanGradDot scenarioSSTEdge scenarioSSTEdge.Normal 0/2
          - diffKine scenarioSSTEdge*edgeProj scenarioSSTEdge)
        /scenarioSSTEdge.V_j (scenarioSSTEdge.nDim+2) = -1/4
    ∧ (meanGradDot scenarioSSTEdge scenarioSSTEdge.Normal 0/2
          + diffKine scenarioSSTEdge*edgeProj scenarioSSTEdge)
        /scenarioSSTEdge.V_i (scenarioSSTEdge.nDim+2) = 3/2
    ∧ (meanGradDot scenarioSSTEdge scenarioSSTEdge.Normal 0/2
          + diffKine scenarioSSTEdge*edgeProj scenarioSSTEdge)
        /scenarioSSTEdge.V_j (scenarioSSTEdge.nDim+2) = 3/4 := by
  obtain ⟨h1, h2, h3, h4, h5, h6, h7, h8, h9⟩ := scenarioSSTEdge_eval
  have hi : scenarioSSTEdge.implicit = true := rfl
  have hn0 : 0 < scenarioSSTEdge.nVar := by decide
  simp only [CAvgGrad_TurbSST_run, CAvgGradCorrected_TurbSST_run, hi, hn0, if_true, setAt,
    setAt2, h1, h2, h3, h4, h5, h6, h7, h8, h9]
  norm_num

/-! ## Source operators: closed forms -/

theorem tiny_lit : (1.0e-10 : α) = 1e-10 := by norm_num

theorem ten_lit : (10.0 : α) = 10 := by norm_num

theorem six_lit : (6.0 : α) = 6 := by norm_num

theorem three_lit : (3.0 : α) = 3 := by norm_num

theorem two_lit : (2.0 : α) = 2 := by norm_num

theorem forLoop_sourceSA_gradBody (n : Nat) (s : CSourcePieceWise_TurbSA α) :
    forLoop n sourceSA_gradBody s = { s with
      norm2_Grad := s.norm2_Grad
        + ∑ d in Finset.range n, s.TurbVar_Grad_i 0 d*s.TurbVar_Grad_i 0 d } := by
  induction n with
  | zero => cases s; simp [forLoop]
  | succ n ih =>
    rw [forLoop_succ, ih]
    simp [sourceSA_gradBody, Finset.sum_range_succ, add_assoc]

theorem sourceSA_reset_run (self : CSourcePieceWise_TurbSA α) (out : Buffers α) :
    sourceSA_reset self out
      = (saStateReset self,
          { out with
            val_residual := setAt out.val_residual 0 0
            val_Jacobian_i := setAt2 out.val_Jacobian_i 0 0 0 }) := by
  simp only [sourceSA_reset, saStateReset, zero_lit]

theorem sourceSA_vorticity_run (sqrt : α → α) (self : CSourcePieceWise_TurbSA α) :
    sourceSA_vorticity sqrt (saStateReset self) = saStateVorticity sqrt self := by
  by_cases h3 : self.nDim = 3 <;>
    simp [sourceSA_vorticity, saVorticity, saStateVorticity, saStateReset, h3]

theorem sourceSA_production_run (sqrt : α → α) (self : CSourcePieceWise_TurbSA α)
    (ht : self.transition = false) :
    sourceSA_production (sourceSA_fv (saStateVorticity sqrt self))
      = saStateProduction sqrt self := by
  simp only [sourceSA_production, sourceSA_fv, saStateProduction, saStateVorticity, saStateReset,
    ht, one_lit, tiny_lit]
  rfl

theorem sourceSA_residual_run (sqrt : α → α) (pow : α → α → α)
    (self : CSourcePieceWise_TurbSA α) (ht : self.transition = false) :
    sourceSA_diffusion (sourceSA_destruction pow (saStateProduction sqrt self))
      = saStateResidual sqrt pow self := by
  simp only [sourceSA_diffusion, sourceSA_destruction, forLoop_sourceSA_gradBody,
    saStateResidual, saStateProduction, saStateVorticity, saStateReset,
    ht, one_lit, ten_lit, six_lit, zero_lit, zero_add, Bool.not_false, if_true]
  simp only [saR, saG, saG6, saGlim, saFw, saDestruction, saCrossProduction, saNorm2Grad]

theorem setAt2_setAt2 {β : Type} (m : Nat → Nat → β) (i j : Nat) (a b : β) :
    setAt2 (setAt2 m i j a) i j b = setAt2 m i j b := by
  funext r c
  unfold setAt2
  split_ifs <;> rfl

theorem setAt_setAt {β : Type} (m : Nat → β) (i : Nat) (a b : β) :
    setAt (setAt m i a) i b = setAt m i b := by
  funext k
  unfold setAt
  split_ifs <;> rfl

theorem setAt2_same {β : Type} (m : Nat → Nat → β) (i j : Nat) (a : β) :
    setAt2 m i j a i j = a := by
  simp [setAt2]

theorem sourceSA_jacobianProduction_run (sqrt : α → α) (pow : α → α → α)
    (self : CSourcePieceWise_TurbSA α) (out : Buffers α) :
    sourceSA_jacobianProduction (saStateResidual sqrt pow self) out
      = ({ saStateResidual sqrt pow self with
            dfv1 := saDfv1 self
            dfv2 := saDfv2 self
            dShat := saDShat sqrt self },
          { out with
            val_Jacobian_i := setAt2 out.val_Jacobian_i 0 0
              (out.val_Jacobian_i 0 0
                + self.cb1*(self.TurbVar_i 0*saDShat sqrt self + saShat sqrt self)*self.Volume) })
    := by
  by_cases h : saShat sqrt self ≤ 1e-10 <;>
    simp only [sourceSA_jacobianProduction, saStateResidual, saStateProduction, saStateVorticity,
      saStateReset, one_lit, three_lit, zero_lit, tiny_lit, h, if_true, if_false, saDShat,
      saDfv1, saDfv2, saJ3]

theorem sourceSA_jacobianDestruction_run (sqrt : α → α) (pow : α → α → α)
    (self : CSourcePieceWise_TurbSA α) (out : Buffers α) :
    sourceSA_jacobianDestruction
        { saStateResidual sqrt pow self with
            dfv1 := saDfv1 self
            dfv2 := saDfv2 self
            dShat := saDShat sqrt self } out
      = (saStateFinal sqrt pow self,
          { out with
            val_Jacobian_i := setAt2 out.val_Jacobian_i 0 0
              (out.val_Jacobian_i 0 0
                - self.cw1*(saDfw sqrt pow self*self.TurbVar_i 0 + 2*saFw sqrt pow self)
                    *self.TurbVar_i 0/(self.dist_i*self.dist_i)*self.Volume) }) := by
  by_cases h : saR sqrt self = 10 <;>
    simp only [sourceSA_jacobianDestruction, saStateFinal, saStateResidual, saStateProduction,
      saStateVorticity, saStateReset, one_lit, two_lit, six_lit, ten_lit, zero_lit, h, if_true,
      if_false, saDfw, saDg, saDr, zero_mul, mul_zero]

/-- Closed form of `CSourcePieceWise_TurbSA::ComputeResidual` away from the wall
with the transition model disabled. -/
theorem CSourcePieceWise_TurbSA_run (sqrt : α → α) (pow : α → α → α)
    (self : CSourcePieceWise_TurbSA α) (out : Buffers α)
    (h : 1e-10 < self.dist_i) (ht : self.transition = false) :
    CSourcePieceWise_TurbSA.ComputeResidual sqrt pow self out
      = (saStateFinal sqrt pow self,
          { out with
            val_residual := setAt out.val_residual 0
              (saProduction sqrt self - saDestruction sqrt pow self + saCrossProduction self)
            val_Jacobian_i := setAt2 out.val_Jacobian_i 0 0 (saJacobian sqrt pow self) }) := by
  have hd : (saStateVorticity sqrt self).dist_i = self.dist_i := rfl
  unfold CSourcePieceWise_TurbSA.ComputeResidual
  simp only [sourceSA_reset_run, sourceSA_vorticity_run, hd, gt_iff_lt, h, if_true,
    sourceSA_production_run sqrt self ht, sourceSA_residual_run sqrt pow self ht,
    sourceSA_jacobianProduction_run, sourceSA_jacobianDestruction_run]
  have hp : (saStateProduction sqrt self).Production = saProduction sqrt self := rfl
  simp only [setAt2_setAt2, setAt2_same, setAt_setAt, zero_add, saJacobian, saStateResidual, hp]

/-- Closed form of `CSourcePieceWise_TurbSA::ComputeResidual` at the wall. -/
theorem CSourcePieceWise_TurbSA_wall (sqrt : α → α) (pow : α → α → α)
    (self : CSourcePieceWise_TurbSA α) (out : Buffers α) (h : self.dist_i ≤ 1e-10) :
    CSourcePieceWise_TurbSA.ComputeResidual sqrt pow self out
      = (saStateVorticity sqrt self,
          { out with
            val_residual := setAt out.val_residual 0 0
            val_Jacobian_i := setAt2 out.val_Jacobian_i 0 0 0 }) := by
  have hd : (saStateVorticity sqrt self).dist_i = self.dist_i := rfl
  unfold CSourcePieceWise_TurbSA.ComputeResidual
  simp only [sourceSA_reset_run, sourceSA_vorticity_run, hd, gt_iff_lt, not_lt.mpr h, if_false]

theorem twenty_lit : (20.0 : α) = 20 := by norm_num

theorem CSourcePieceWise_TurbSA_ctor_run (self : CSourcePieceWise_TurbSA α)
    (val_nDim val_nVar : Nat) :
    CSourcePieceWise_TurbSA.CSourcePieceWise_TurbSA_ctor self val_nDim val_nVar
      = { self with
          nDim := val_nDim, nVar := val_nVar, transition := false
          cv1_3 := 357.911, k2 := 0.1681, cb1 := 0.1355, cw2 := 0.3, cw3_6 := 64
          sigma := 2/3, cb2 := 0.622, cb2_sigma := 0.622/(2/3)
          cw1 := 0.1355/0.1681 + (1 + 0.622)/(2/3)
          beta := 0.5, s1 := 2, nResidual := 4, nJacobian := 1 } := by
  have h64 : (64.0 : α) = 64 := by norm_num
  simp only [CSourcePieceWise_TurbSA.CSourcePieceWise_TurbSA_ctor, sourceSA_closureConstants,
    two_lit, three_lit, h64]

theorem CSourcePieceWise_TurbSST_ctor_run (self : CSourcePieceWise_TurbSST α)
    (val_nDim val_nVar : Nat) (constants : Nat → α) :
    CSourcePieceWise_TurbSST.CSourcePieceWise_TurbSST_ctor self val_nDim val_nVar constants
      = { self with
          nDim := val_nDim, nVar := val_nVar
          beta_star := constants 6, sigma_omega_1 := constants 2, sigma_omega_2 := constants 3
          beta_1 := constants 4, beta_2 := constants 5, alfa_1 := constants 8
          alfa_2 := constants 9, a1 := constants 7 } := rfl

theorem sourceSST_reset_run (self : CSourcePieceWise_TurbSST α) (out : Buffers α) :
    sourceSST_reset self out
      = (sstStateReset self,
          { out with
            val_residual := setAt (setAt out.val_residual 0 0) 1 0
            val_Jacobian_i :=
              setAt2 (setAt2 (setAt2 (setAt2 out.val_Jacobian_i 0 0 0) 0 1 0) 1 0 0) 1 1 0 }) := by
  simp only [sourceSST_reset, sstStateReset, zero_lit]

/-- Closed form of `CSourcePieceWise_TurbSST::ComputeResidual` at the wall. -/
theorem CSourcePieceWise_TurbSST_wall (self : CSourcePieceWise_TurbSST α) (out : Buffers α)
    (h : self.dist_i ≤ 1e-10) :
    CSourcePieceWise_TurbSST.ComputeResidual self out
      = (sstStateReset self,
          { out with
            val_residual := setAt (setAt out.val_residual 0 0) 1 0
            val_Jacobian_i :=
              setAt2 (setAt2 (setAt2 (setAt2 out.val_Jacobian_i 0 0 0) 0 1 0) 1 0 0) 1 1 0 }) := by
  have hd : (sstStateReset self).dist_i = self.dist_i := rfl
  unfold CSourcePieceWise_TurbSST.ComputeResidual
  simp only [sourceSST_reset_run, hd, gt_iff_lt, not_lt.mpr h, if_false]

theorem sourceSST_pk_run (self : CSourcePieceWise_TurbSST α) :
    sourceSST_pk (sstStateReset self)
        (sumTo (sstStateReset self).nDim (fun iDim => (sstStateReset self).PrimVar_Grad_i (iDim+1) iDim))
      = sstPk self := by
  have h23 : (2.0 : α)/3.0 = 2/3 := by norm_num
  simp only [sourceSST_pk, sstPk, sstPkRaw, sstCap, sstDiverg, sstStateReset, sumTo_eq_sum,
    h23, twenty_lit, zero_lit]

/-- The first residual entry of `CSourcePieceWise_TurbSST::ComputeResidual` away
from the wall. -/
theorem CSourcePieceWise_TurbSST_residual0 (self : CSourcePieceWise_TurbSST α) (out : Buffers α)
    (h : 1e-10 < self.dist_i) :
    (CSourcePieceWise_TurbSST.ComputeResidual self out).1 = sstStateReset self
    ∧ (CSourcePieceWise_TurbSST.ComputeResidual self out).2.val_residual 0
      = sstPk self*self.Volume
        - self.beta_star*self.V_i (self.nDim+2)*self.TurbVar_i 1*self.TurbVar_i 0*self.Volume := by
  have hd : (sstStateReset self).dist_i = self.dist_i := rfl
  have hv : (sstStateReset self).Volume = self.Volume := rfl
  have hb : (sstStateReset self).beta_star = self.beta_star := rfl
  have ht : (sstStateReset self).TurbVar_i = self.TurbVar_i := rfl
  have hr : (sstStateReset self).Density_i = self.V_i (self.nDim+2) := rfl
  unfold CSourcePieceWise_TurbSST.ComputeResidual
  simp only [sourceSST_reset_run, hd, gt_iff_lt, h, if_true, sourceSST_pk_run]
  refine ⟨trivial, ?_⟩
  simp [sourceSST_jacobian, sourceSST_residual, setAt, hv, hb, ht, hr]

/-! ## Source terms: the claims -/

/-- C16.  For every input with `dist_i ≤ 1e-10`, whatever the output buffers and
the scratch members held before the call, `CSourcePieceWise_TurbSA` leaves
`Production = Destruction = CrossProduction = 0`, `residual[0] = 0` and
`Jacobian_i[0][0] = 0`, and `CSourcePieceWise_TurbSST` leaves `residual = (0,0)`
and all four entries of `Jacobian_i` equal to 0. -/
theorem C16_source_wall_singularity (sqrt : α → α) (pow : α → α → α)
    (sa : CSourcePieceWise_TurbSA α) (sst : CSourcePieceWise_TurbSST α) (out : Buffers α)
    (hsa : sa.dist_i ≤ 1e-10) (hsst : sst.dist_i ≤ 1e-10) :
    ((CSourcePieceWise_TurbSA.ComputeResidual sqrt pow sa out).1.Production = 0
      ∧ (CSourcePieceWise_TurbSA.ComputeResidual sqrt pow sa out).1.Destruction = 0
      ∧ (CSourcePieceWise_TurbSA.ComputeResidual sqrt pow sa out).1.CrossProduction = 0
      ∧ (CSourcePieceWise_TurbSA.ComputeResidual sqrt pow sa out).2.val_residual 0 = 0
      ∧ (CSourcePieceWise_TurbSA.ComputeResidual sqrt pow sa out).2.val_Jacobian_i 0 0 = 0)
    ∧ ((CSourcePieceWise_TurbSST.ComputeResidual sst out).2.val_residual 0 = 0
      ∧ (CSourcePieceWise_TurbSST.ComputeResidual sst out).2.val_residual 1 = 0
      ∧ (CSourcePieceWise_TurbSST.ComputeResidual sst out).2.val_Jacobian_i 0 0 = 0
      ∧ (CSourcePieceWise_TurbSST.ComputeResidual sst out).2.val_Jacobian_i 0 1 = 0
      ∧ (CSourcePieceWise_TurbSST.ComputeResidual sst out).2.val_Jacobian_i 1 0 = 0
      ∧ (CSourcePieceWise_TurbSST.ComputeResidual sst out).2.val_Jacobian_i 1 1 = 0) := by
  rw [CSourcePieceWise_TurbSA_wall sqrt pow sa out hsa, CSourcePieceWise_TurbSST_wall sst out hsst]
  refine ⟨⟨rfl, rfl, rfl, ?_, ?_⟩, ?_, ?_, ?_, ?_, ?_, ?_⟩ <;> simp [setAt, setAt2]

theorem C16_source_wall_singularity_witness :
    (scenarioWallSA ℝ).dist_i ≤ 1e-10 ∧ (scenarioWallSST ℝ).dist_i ≤ 1e-10
    ∧ (scenarioWallSA ℝ).Production = 3
    ∧ (CSourcePieceWise_TurbSA.ComputeResidual Real.sqrt (fun x y => x ^ y) (scenarioWallSA ℝ)
        (staleOutputs ℝ)).1.Production = 0
    ∧ (CSourcePieceWise_TurbSST.ComputeResidual (scenarioWallSST ℝ)
        (staleOutputs ℝ)).2.val_Jacobian_i 1 1 = 0 :=
  ⟨by show (0 : ℝ) ≤ 1e-10; norm_num, by show (0 : ℝ) ≤ 1e-10; norm_num, rfl,
    (C16_source_wall_singularity Real.sqrt (fun x y => x ^ y) (scenarioWallSA ℝ)
      (scenarioWallSST ℝ) (staleOutputs ℝ) (by show (0 : ℝ) ≤ 1e-10; norm_num)
      (by show (0 : ℝ) ≤ 1e-10; norm_num)).1.1,
    (C16_source_wall_singularity Real.sqrt (fun x y => x ^ y) (scenarioWallSA ℝ)
      (scenarioWallSST ℝ) (staleOutputs ℝ) (by show (0 : ℝ) ≤ 1e-10; norm_num)
      (by show (0 : ℝ) ≤ 1e-10; norm_num)).2.2.2.2.2.2⟩

/-- C17, as amended.  For every input of `CSourcePieceWise_TurbSA` as constructed
(transition disabled) with `dist_i > 1e-10`, the production term is
`c_b1·Ŝ·turb·Volume` with the modified strain `Ŝ = S + turb·fv2/(κ²d²)` itself,
not floored; `S` is the vorticity magnitude, `fv2 = 1 − J/(1 + J·fv1)`,
`fv1 = J³/(J³ + c_v1³)`, `J = turb/ν`, `c_b1 = 0.1355`, `κ² = 0.1681`,
`c_v1³ = 357.911`.  It equals `c_b1·max(Ŝ, 1e-10)·turb·Volume` whenever
`Ŝ ≥ 1e-10`. -/
theorem C17_SA_production (sqrt : α → α) (pow : α → α → α)
    (self0 self : CSourcePieceWise_TurbSA α) (out : Buffers α) (val_nDim val_nVar : Nat)
    (hc : self = CSourcePieceWise_TurbSA.CSourcePieceWise_TurbSA_ctor self0 val_nDim val_nVar)
    (hd : 1e-10 < self.dist_i) :
    self.transition = false
    ∧ (CSourcePieceWise_TurbSA.ComputeResidual sqrt pow self out).1.Production
        = 0.1355*saShat sqrt self*self.TurbVar_i 0*self.Volume
    ∧ saShat sqrt self
        = sqrt (saVorticity self)
          + self.TurbVar_i 0*saFv2 self/(0.1681*self.dist_i^2)
    ∧ saFv2 self = 1 - saJ self/(1 + saJ self*saFv1 self)
    ∧ saFv1 self = saJ self^3/(saJ self^3 + 357.911)
    ∧ saJ self = self.TurbVar_i 0/(self.V_i (self.nDim+5)/self.V_i (self.nDim+2))
    ∧ (1e-10 ≤ saShat sqrt self →
        (CSourcePieceWise_TurbSA.ComputeResidual sqrt pow self out).1.Production
          = 0.1355*max (saShat sqrt self) 1e-10*self.TurbVar_i 0*self.Volume) := by
  have ht : self.transition = false := by rw [hc, CSourcePieceWise_TurbSA_ctor_run]
  have hcb1 : self.cb1 = 0.1355 := by rw [hc, CSourcePieceWise_TurbSA_ctor_run]
  have hk2 : self.k2 = 0.1681 := by rw [hc, CSourcePieceWise_TurbSA_ctor_run]
  have hcv : self.cv1_3 = 357.911 := by rw [hc, CSourcePieceWise_TurbSA_ctor_run]
  have hP : (CSourcePieceWise_TurbSA.ComputeResidual sqrt pow self out).1.Production
      = 0.1355*saShat sqrt self*self.TurbVar_i 0*self.Volume := by
    rw [CSourcePieceWise_TurbSA_run sqrt pow self out hd ht]
    show saProduction sqrt self = _
    rw [saProduction, hcb1]
  refine ⟨ht, hP, ?_, rfl, ?_, rfl, ?_⟩
  · rw [saShat, saInvK2D2, hk2]; ring
  · rw [saFv1, saJ3, hcv]; ring
  · intro h
    rw [hP, max_eq_left h]

theorem pow6 (x : α) : x*x*x*x*x*x = x^6 := by ring

theorem scenarioSource_eval :
    (CSourcePieceWise_TurbSA.CSourcePieceWise_TurbSA_ctor (scenarioSource ℝ) 2 1).transition
      = false
    ∧ (CSourcePieceWise_TurbSA.CSourcePieceWise_TurbSA_ctor (scenarioSource ℝ) 2 1).dist_i = 1
    ∧ (CSourcePieceWise_TurbSA.CSourcePieceWise_TurbSA_ctor (scenarioSource ℝ) 2 1).cb1 = 0.1355
    ∧ (CSourcePieceWise_TurbSA.CSourcePieceWise_TurbSA_ctor (scenarioSource ℝ) 2 1).TurbVar_i 0
      = 10
    ∧ (CSourcePieceWise_TurbSA.CSourcePieceWise_TurbSA_ctor (scenarioSource ℝ) 2 1).Volume = 1
    ∧ saShat Real.sqrt (CSourcePieceWise_TurbSA.CSourcePieceWise_TurbSA_ctor (scenarioSource ℝ) 2 1)
      < -23/2 := by
  refine ⟨rfl, rfl, ?_, ?_, rfl, ?_⟩
  · simp only [scenarioSource, CSourcePieceWise_TurbSA_ctor_run]
  · simp [scenarioSource, CSourcePieceWise_TurbSA_ctor_run, vec]
  · simp only [scenarioSource, CSourcePieceWise_TurbSA_ctor_run, saShat, saVorticity, saFv2, saFv1,
      saJ3, saJ, saNu, saInvK2D2]
    norm_num [vec]

/-- C17 fails as stated at a point with `ρ = μ = 1`, `turb = 10`, `d = 1`,
`Volume = 1` and no vorticity: the modified strain is below `−23/2`, the routine
stores a production below `−15`, and the claimed `c_b1·max(Ŝ, 1e-10)·turb·Volume`
is `1.355e-10`. -/
theorem C17_production_uses_unfloored_strain :
    (1e-10 : ℝ)
      < (CSourcePieceWise_TurbSA.CSourcePieceWise_TurbSA_ctor (scenarioSource ℝ) 2 1).dist_i
    ∧ (CSourcePieceWise_TurbSA.CSourcePieceWise_TurbSA_ctor (scenarioSource ℝ) 2 1).transition
      = false
    ∧ saShat Real.sqrt (CSourcePieceWise_TurbSA.CSourcePieceWise_TurbSA_ctor (scenarioSource ℝ) 2 1)
      < -23/2
    ∧ (CSourcePieceWise_TurbSA.ComputeResidual Real.sqrt (fun x y => x ^ y)
        (CSourcePieceWise_TurbSA.CSourcePieceWise_TurbSA_ctor (scenarioSource ℝ) 2 1)
        (staleOutputs ℝ)).1.Production < -15
    ∧ 0.1355*max (saShat Real.sqrt
          (CSourcePieceWise_TurbSA.CSourcePieceWise_TurbSA_ctor (scenarioSource ℝ) 2 1)) 1e-10
        *(CSourcePieceWise_TurbSA.CSourcePieceWise_TurbSA_ctor (scenarioSource ℝ) 2 1).TurbVar_i 0
        *(CSourcePieceWise_TurbSA.CSourcePieceWise_TurbSA_ctor (scenarioSource ℝ) 2 1).Volume
      = 1.355e-10 := by
  obtain ⟨h1, h2, h3, h4, h5, h6⟩ := scenarioSource_eval
  have hd : (1e-10 : ℝ)
      < (CSourcePieceWise_TurbSA.CSourcePieceWise_TurbSA_ctor (scenarioSource ℝ) 2 1).dist_i := by
    rw [h2]; norm_num
  refine ⟨hd, h1, h6, ?_, ?_⟩
  · rw [CSourcePieceWise_TurbSA_run Real.sqrt _ _ _ hd h1]
    show saProduction Real.sqrt _ < -15
    rw [saProduction, h3, h4, h5]
    norm_num
    linarith
  · rw [h4, h5, max_eq_right (by linarith)]
    norm_num

theorem C17_SA_production_witness :
    CSourcePieceWise_TurbSA.CSourcePieceWise_TurbSA_ctor (scenarioShear ℝ) 2 1
      = CSourcePieceWise_TurbSA.CSourcePieceWise_TurbSA_ctor (scenarioShear ℝ) 2 1
    ∧ 1e-10 < (CSourcePieceWise_TurbSA.CSourcePieceWise_TurbSA_ctor (scenarioShear ℝ) 2 1).dist_i
    ∧ (CSourcePieceWise_TurbSA.ComputeResidual Real.sqrt (fun x y => x ^ y)
          (CSourcePieceWise_TurbSA.CSourcePieceWise_TurbSA_ctor (scenarioShear ℝ) 2 1)
          (staleOutputs ℝ)).1.Production
        = 0.1355*saShat Real.sqrt
              (CSourcePieceWise_TurbSA.CSourcePieceWise_TurbSA_ctor (scenarioShear ℝ) 2 1)
            *(CSourcePieceWise_TurbSA.CSourcePieceWise_TurbSA_ctor (scenarioShear ℝ) 2 1).TurbVar_i 0
            *(CSourcePieceWise_TurbSA.CSourcePieceWise_TurbSA_ctor (scenarioShear ℝ) 2 1).Volume :=
  ⟨rfl, by show (1e-10 : ℝ) < 1; norm_num,
    (C17_SA_production Real.sqrt (fun x y => x ^ y) (scenarioShear ℝ) _ (staleOutputs ℝ) 2 1 rfl
      (by show (1e-10 : ℝ) < 1; norm_num)).2.1⟩

/-- C18.  For every input of `CSourcePieceWise_TurbSA` as constructed
(transition disabled) with `dist_i > 1e-10`, `residual[0] = Production −
Destruction + CrossProduction`, with `Destruction = c_w1·fw·turb²/d²·Volume`,
`fw = g·((1 + c_w3⁶)/(g⁶ + c_w3⁶))^(1/6)`, `g = r + c_w2·(r⁶ − r)`,
`r = min(turb/(max(Ŝ, 1e-10)·κ²d²), 10)`, hence `r ≤ 10`, and
`CrossProduction = (c_b2/σ)·|∇turb|²·Volume`; the constants are `c_w2 = 0.3`,
`c_w3⁶ = 64`, `c_b2 = 0.622`, `σ = 2/3` and `c_w1 = c_b1/κ² + (1 + c_b2)/σ`. -/
theorem C18_SA_residual (sqrt : α → α) (pow : α → α → α)
    (self0 self : CSourcePieceWise_TurbSA α) (out : Buffers α) (val_nDim val_nVar : Nat)
    (hc : self = CSourcePieceWise_TurbSA.CSourcePieceWise_TurbSA_ctor self0 val_nDim val_nVar)
    (hd : 1e-10 < self.dist_i) :
    (CSourcePieceWise_TurbSA.ComputeResidual sqrt pow self out).2.val_residual 0
        = (CSourcePieceWise_TurbSA.ComputeResidual sqrt pow self out).1.Production
          - (CSourcePieceWise_TurbSA.ComputeResidual sqrt pow self out).1.Destruction
          + (CSourcePieceWise_TurbSA.ComputeResidual sqrt pow self out).1.CrossProduction
    ∧ (CSourcePieceWise_TurbSA.ComputeResidual sqrt pow self out).1.Destruction
        = self.cw1*(CSourcePieceWise_TurbSA.ComputeResidual sqrt pow self out).1.fw
            *self.TurbVar_i 0^2/self.dist_i^2*self.Volume
    ∧ (CSourcePieceWise_TurbSA.ComputeResidual sqrt pow self out).1.fw
        = (CSourcePieceWise_TurbSA.ComputeResidual sqrt pow self out).1.g
          *pow ((1 + 64)
              /((CSourcePieceWise_TurbSA.ComputeResidual sqrt pow self out).1.g^6 + 64)) (1/6)
    ∧ (CSourcePieceWise_TurbSA.ComputeResidual sqrt pow self out).1.g
        = (CSourcePieceWise_TurbSA.ComputeResidual sqrt pow self out).1.r
          + 0.3*((CSourcePieceWise_TurbSA.ComputeResidual sqrt pow self out).1.r^6
            - (CSourcePieceWise_TurbSA.ComputeResidual sqrt pow self out).1.r)
    ∧ (CSourcePieceWise_TurbSA.ComputeResidual sqrt pow self out).1.r
        = min (self.TurbVar_i 0/(max (saShat sqrt self) 1e-10*(0.1681*self.dist_i^2))) 10
    ∧ (CSourcePieceWise_TurbSA.ComputeResidual sqrt pow self out).1.r ≤ 10
    ∧ (CSourcePieceWise_TurbSA.ComputeResidual sqrt pow self out).1.CrossProduction
        = 0.622/(2/3)*(∑ d in Finset.range self.nDim, self.TurbVar_Grad_i 0 d^2)*self.Volume
    ∧ self.cw1 = 0.1355/0.1681 + (1 + 0.622)/(2/3)
    ∧ self.cw1 = self.cb1/self.k2 + (1 + self.cb2)/self.sigma
    ∧ self.cw2 = 0.3 ∧ self.cw3_6 = 64 ∧ self.cb2 = 0.622 ∧ self.sigma = 2/3 := by
  have ht : self.transition = false := by rw [hc, CSourcePieceWise_TurbSA_ctor_run]
  have hk2 : self.k2 = 0.1681 := by rw [hc, CSourcePieceWise_TurbSA_ctor_run]
  have hcb1 : self.cb1 = 0.1355 := by rw [hc, CSourcePieceWise_TurbSA_ctor_run]
  have hcw1 : self.cw1 = 0.1355/0.1681 + (1 + 0.622)/(2/3) := by
    rw [hc, CSourcePieceWise_TurbSA_ctor_run]
  have hcw2 : self.cw2 = 0.3 := by rw [hc, CSourcePieceWise_TurbSA_ctor_run]
  have hcw3 : self.cw3_6 = 64 := by rw [hc, CSourcePieceWise_TurbSA_ctor_run]
  have hcb2 : self.cb2 = 0.622 := by rw [hc, CSourcePieceWise_TurbSA_ctor_run]
  have hsig : self.sigma = 2/3 := by rw [hc, CSourcePieceWise_TurbSA_ctor_run]
  have hcbs : self.cb2_sigma = 0.622/(2/3) := by rw [hc, CSourcePieceWise_TurbSA_ctor_run]
  rw [CSourcePieceWise_TurbSA_run sqrt pow self out hd ht]
  refine ⟨?_, ?_, ?_, ?_, ?_, ?_, ?_, hcw1, ?_, hcw2, hcw3, hcb2, hsig⟩
  · simp only [setAt_same]
    rfl
  · show saDestruction sqrt pow self = self.cw1*saFw sqrt pow self*_^2/_^2*_
    rw [saDestruction]; ring
  · show saFw sqrt pow self = saG sqrt self*pow ((1 + 64)/(saG sqrt self^6 + 64)) (1/6)
    rw [saFw, saGlim, saG6, hcw3, pow6]
  · show saG sqrt self = saR sqrt self + 0.3*(saR sqrt self^6 - saR sqrt self)
    rw [saG, hcw2, pow6]
  · show saR sqrt self = _
    rw [saR, saInvShat, saInvK2D2, hk2]
    congr 1
    ring
  · show saR sqrt self ≤ 10
    exact min_le_right _ _
  · show saCrossProduction self = _
    rw [saCrossProduction, saNorm2Grad, hcbs]
    congr 2
    exact Finset.sum_congr rfl (fun d _ => (sq _).symm)
  · rw [hcw1, hcb1, hk2, hcb2, hsig]

theorem C18_SA_residual_witness :
    CSourcePieceWise_TurbSA.CSourcePieceWise_TurbSA_ctor (scenarioShear ℝ) 2 1
      = CSourcePieceWise_TurbSA.CSourcePieceWise_TurbSA_ctor (scenarioShear ℝ) 2 1
    ∧ 1e-10 < (CSourcePieceWise_TurbSA.CSourcePieceWise_TurbSA_ctor (scenarioShear ℝ) 2 1).dist_i
    ∧ (CSourcePieceWise_TurbSA.ComputeResidual Real.sqrt (fun x y => x ^ y)
          (CSourcePieceWise_TurbSA.CSourcePieceWise_TurbSA_ctor (scenarioShear ℝ) 2 1)
          (staleOutputs ℝ)).1.r ≤ 10 :=
  ⟨rfl, by show (1e-10 : ℝ) < 1; norm_num,
    (C18_SA_residual Real.sqrt (fun x y => x ^ y) (scenarioShear ℝ) _ (staleOutputs ℝ) 2 1 rfl
      (by show (1e-10 : ℝ) < 1; norm_num)).2.2.2.2.2.1⟩

/-! ## The one-equation source Jacobian as a derivative -/

theorem withTurb_self {α : Type} [LinearOrderedField α] (self : CSourcePieceWise_TurbSA α) :
    withTurb self (self.TurbVar_i 0) = self := by
  have h : setAt self.TurbVar_i 0 (self.TurbVar_i 0) = self.TurbVar_i := by
    funext k
    unfold setAt
    split_ifs with hk
    · rw [hk]
    · rfl
  unfold withTurb
  rw [h]

theorem saJ_hasDerivAt (self : CSourcePieceWise_TurbSA ℝ) :
    HasDerivAt (fun t => saJ (withTurb self t)) (1/saNu self) (self.TurbVar_i 0) := by
  have e : (fun t => saJ (withTurb self t)) = fun t => t/saNu self := by
    funext t
    simp [saJ, saNu, withTurb, setAt]
  rw [e]
  simpa using (hasDerivAt_id (self.TurbVar_i 0)).div_const (saNu self)

theorem saJ3_hasDerivAt (self : CSourcePieceWise_TurbSA ℝ) :
    HasDerivAt (fun t => saJ3 (withTurb self t)) (3*(saJ self*saJ self)/saNu self)
      (self.TurbVar_i 0) := by
  have h := ((saJ_hasDerivAt self).mul (saJ_hasDerivAt self)).mul (saJ_hasDerivAt self)
  simp only [withTurb_self] at h
  refine h.congr_deriv ?_
  ring

theorem saJ3_nonneg (self : CSourcePieceWise_TurbSA ℝ) (hν : 0 < saNu self)
    (ht : 0 ≤ self.TurbVar_i 0) : 0 ≤ saJ self ∧ 0 ≤ saJ3 self := by
  have hJ : 0 ≤ saJ self := div_nonneg ht hν.le
  exact ⟨hJ, mul_nonneg (mul_nonneg hJ hJ) hJ⟩

theorem saFv1_hasDerivAt (self : CSourcePieceWise_TurbSA ℝ) (hν : 0 < saNu self)
    (hc : 0 < self.cv1_3) (ht : 0 ≤ self.TurbVar_i 0) :
    HasDerivAt (fun t => saFv1 (withTurb self t)) (saDfv1 self) (self.TurbVar_i 0) := by
  have h3 := (saJ3_nonneg self hν ht).2
  have hne : saJ3 self + self.cv1_3 ≠ 0 := by positivity
  have h := (saJ3_hasDerivAt self).div ((saJ3_hasDerivAt self).add_const self.cv1_3)
    (by simpa only [withTurb_self] using hne)
  simp only [withTurb_self] at h
  refine h.congr_deriv ?_
  unfold saDfv1
  have hν' : saNu self ≠ 0 := hν.ne'
  field_simp
  ring

theorem saFv2_hasDerivAt (self : CSourcePieceWise_TurbSA ℝ) (hν : 0 < saNu self)
    (hc : 0 < self.cv1_3) (ht : 0 ≤ self.TurbVar_i 0) :
    HasDerivAt (fun t => saFv2 (withTurb self t)) (saDfv2 self) (self.TurbVar_i 0) := by
  obtain ⟨hJ, h3⟩ := saJ3_nonneg self hν ht
  have hf : 0 ≤ saFv1 self := div_nonneg h3 (by positivity)
  have hne : 1 + saJ self*saFv1 self ≠ 0 := by positivity
  have h := ((saJ_hasDerivAt self).div
    (((saJ_hasDerivAt self).mul (saFv1_hasDerivAt self hν hc ht)).const_add 1)
    (by simpa only [withTurb_self] using hne)).const_sub 1
  simp only [withTurb_self] at h
  refine h.congr_deriv ?_
  unfold saDfv2
  have hν' : saNu self ≠ 0 := hν.ne'
  field_simp
  ring

theorem saShat_hasDerivAt (self : CSourcePieceWise_TurbSA ℝ) (hν : 0 < saNu self)
    (hc : 0 < self.cv1_3) (ht : 0 ≤ self.TurbVar_i 0) :
    HasDerivAt (fun t => saShat Real.sqrt (withTurb self t))
      ((saFv2 self + self.TurbVar_i 0*saDfv2 self)*saInvK2D2 self) (self.TurbVar_i 0) := by
  have e : (fun t => saShat Real.sqrt (withTurb self t))
      = fun t => Real.sqrt (saVorticity self) + t*saFv2 (withTurb self t)*saInvK2D2 self := by
    funext t
    simp [saShat, saVorticity, saInvK2D2, withTurb, setAt]
  rw [e]
  have h := (((hasDerivAt_id (self.TurbVar_i 0)).mul (saFv2_hasDerivAt self hν hc ht)).mul_const
    (saInvK2D2 self)).const_add (Real.sqrt (saVorticity self))
  simp only [withTurb_self, id] at h
  refine h.congr_deriv ?_
  ring

theorem saProduction_hasDerivAt (self : CSourcePieceWise_TurbSA ℝ) (hν : 0 < saNu self)
    (hc : 0 < self.cv1_3) (ht : 0 ≤ self.TurbVar_i 0) (hS : 1e-10 < saShat Real.sqrt self) :
    HasDerivAt (fun t => saProduction Real.sqrt (withTurb self t))
      (self.cb1*(self.TurbVar_i 0*saDShat Real.sqrt self + saShat Real.sqrt self)*self.Volume)
      (self.TurbVar_i 0) := by
  have e : (fun t => saProduction Real.sqrt (withTurb self t))
      = fun t => self.cb1*saShat Real.sqrt (withTurb self t)*t*self.Volume := by
    funext t
    simp [saProduction, withTurb, setAt]
  rw [e]
  have h := ((((saShat_hasDerivAt self hν hc ht).const_mul self.cb1).mul
    (hasDerivAt_id (self.TurbVar_i 0))).mul_const self.Volume)
  simp only [withTurb_self, id] at h
  refine h.congr_deriv ?_
  rw [saDShat, if_neg (not_le.mpr hS)]
  ring

theorem saInvShat_hasDerivAt (self : CSourcePieceWise_TurbSA ℝ) (hν : 0 < saNu self)
    (hc : 0 < self.cv1_3) (ht : 0 ≤ self.TurbVar_i 0) (hS : 1e-10 < saShat Real.sqrt self) :
    HasDerivAt (fun t => saInvShat Real.sqrt (withTurb self t))
      (-saDShat Real.sqrt self*saInvShat Real.sqrt self*saInvShat Real.sqrt self)
      (self.TurbVar_i 0) := by
  have hpos : (0 : ℝ) < 1e-10 := by norm_num
  have hS0 : saShat Real.sqrt self ≠ 0 := (hpos.trans hS).ne'
  have hSh := saShat_hasDerivAt self hν hc ht
  have hev : ∀ᶠ t in nhds (self.TurbVar_i 0), 1e-10 < saShat Real.sqrt (withTurb self t) := by
    refine hSh.continuousAt.eventually (lt_mem_nhds ?_)
    simpa only [withTurb_self] using hS
  have heq : (fun t => saInvShat Real.sqrt (withTurb self t))
      =ᶠ[nhds (self.TurbVar_i 0)] fun t => (saShat Real.sqrt (withTurb self t))⁻¹ := by
    filter_upwards [hev] with t ht'
    rw [saInvShat, max_eq_left ht'.le, one_div]
  have h := hSh.inv (by simpa only [withTurb_self] using hS0)
  simp only [withTurb_self] at h
  refine (h.congr_deriv ?_).congr_of_eventuallyEq heq
  rw [saInvShat, max_eq_left hS.le, saDShat, if_neg (not_le.mpr hS)]
  ring

theorem saR_hasDerivAt (self : CSourcePieceWise_TurbSA ℝ) (hν : 0 < saNu self)
    (hc : 0 < self.cv1_3) (ht : 0 ≤ self.TurbVar_i 0) (hS : 1e-10 < saShat Real.sqrt self)
    (hr : self.TurbVar_i 0*saInvShat Real.sqrt self*saInvK2D2 self ≠ 10) :
    HasDerivAt (fun t => saR Real.sqrt (withTurb self t)) (saDr Real.sqrt self)
      (self.TurbVar_i 0) := by
  have hpos : (0 : ℝ) < 1e-10 := by norm_num
  have hS0 : saShat Real.sqrt self ≠ 0 := (hpos.trans hS).ne'
  have e : (fun t => saR Real.sqrt (withTurb self t))
      = fun t => min (t*saInvShat Real.sqrt (withTurb self t)*saInvK2D2 self) 10 := by
    funext t
    simp [saR, saInvK2D2, withTurb, setAt]
  have h := ((hasDerivAt_id (self.TurbVar_i 0)).mul (saInvShat_hasDerivAt self hν hc ht hS)).mul_const
    (saInvK2D2 self)
  simp only [withTurb_self, id] at h
  rw [e]
  rcases lt_or_gt_of_ne hr with hlt | hgt
  · have hev : ∀ᶠ t in nhds (self.TurbVar_i 0),
        t*saInvShat Real.sqrt (withTurb self t)*saInvK2D2 self < 10 := by
      refine h.continuousAt.eventually (gt_mem_nhds ?_)
      simpa only [withTurb_self] using hlt
    have heq : (fun t => min (t*saInvShat Real.sqrt (withTurb self t)*saInvK2D2 self) 10)
        =ᶠ[nhds (self.TurbVar_i 0)]
          fun t => t*saInvShat Real.sqrt (withTurb self t)*saInvK2D2 self := by
      filter_upwards [hev] with t ht'
      exact min_eq_left ht'.le
    refine (h.congr_deriv ?_).congr_of_eventuallyEq heq
    have hR : saR Real.sqrt self ≠ 10 := by
      rw [saR, min_eq_left hlt.le]; exact hr
    have hinv : saShat Real.sqrt self*saInvShat Real.sqrt self = 1 := by
      rw [saInvShat, max_eq_left hS.le]
      field_simp
    rw [saDr, if_neg hR]
    linear_combination
      (-(saInvShat Real.sqrt self*saInvK2D2 self))*hinv
  · have hev : ∀ᶠ t in nhds (self.TurbVar_i 0),
        10 < t*saInvShat Real.sqrt (withTurb self t)*saInvK2D2 self := by
      refine h.continuousAt.eventually (lt_mem_nhds ?_)
      simpa only [withTurb_self] using hgt
    have heq : (fun t => min (t*saInvShat Real.sqrt (withTurb self t)*saInvK2D2 self) 10)
        =ᶠ[nhds (self.TurbVar_i 0)] fun _ => (10 : ℝ) := by
      filter_upwards [hev] with t ht'
      exact min_eq_right ht'.le
    have hR : saR Real.sqrt self = 10 := by
      rw [saR, min_eq_right hgt.le]
    rw [saDr, if_pos hR]
    exact (hasDerivAt_const (self.TurbVar_i 0) (10 : ℝ)).congr_of_eventuallyEq heq

theorem saG_hasDerivAt (self : CSourcePieceWise_TurbSA ℝ)
    (hR : HasDerivAt (fun t => saR Real.sqrt (withTurb self t)) (saDr Real.sqrt self)
      (self.TurbVar_i 0)) :
    HasDerivAt (fun t => saG Real.sqrt (withTurb self t)) (saDg Real.sqrt self)
      (self.TurbVar_i 0) := by
  have e : (fun t => saG Real.sqrt (withTurb self t))
      = fun t => saR Real.sqrt (withTurb self t)
          + self.cw2*(saR Real.sqrt (withTurb self t)^6 - saR Real.sqrt (withTurb self t)) := by
    funext t
    rw [saG, pow6]
    rfl
  rw [e]
  have h := hR.add (((hR.pow 6).sub hR).const_mul self.cw2)
  simp only [withTurb_self] at h
  refine h.congr_deriv ?_
  rw [saDg]
  push_cast
  ring

theorem saG6_hasDerivAt (self : CSourcePieceWise_TurbSA ℝ)
    (hG : HasDerivAt (fun t => saG Real.sqrt (withTurb self t)) (saDg Real.sqrt self)
      (self.TurbVar_i 0)) :
    HasDerivAt (fun t => saG6 Real.sqrt (withTurb self t))
      (6*saG Real.sqrt self^5*saDg Real.sqrt self) (self.TurbVar_i 0) := by
  have e : (fun t => saG6 Real.sqrt (withTurb self t))
      = fun t => saG Real.sqrt (withTurb self t)^6 := by
    funext t
    rw [saG6, pow6]
  rw [e]
  have h := hG.pow 6
  simp only [withTurb_self] at h
  refine h.congr_deriv ?_
  push_cast
  ring

theorem saG6_nonneg (self : CSourcePieceWise_TurbSA ℝ) : 0 ≤ saG6 Real.sqrt self := by
  rw [saG6, pow6]
  positivity

theorem saFw_hasDerivAt (self : CSourcePieceWise_TurbSA ℝ) (h3 : 0 < self.cw3_6)
    (hG : HasDerivAt (fun t => saG Real.sqrt (withTurb self t)) (saDg Real.sqrt self)
      (self.TurbVar_i 0)) :
    HasDerivAt (fun t => saFw Real.sqrt (fun x y => x ^ y) (withTurb self t))
      (saDfw Real.sqrt (fun x y => x ^ y) self) (self.TurbVar_i 0) := by
  have h6 := saG6_nonneg self
  have hden : saG6 Real.sqrt self + self.cw3_6 ≠ 0 := by positivity
  have hbase : (1 + self.cw3_6)/(saG6 Real.sqrt self + self.cw3_6) ≠ 0 := by positivity
  have e : (fun t => saFw Real.sqrt (fun x y => x ^ y) (withTurb self t))
      = fun t => saG Real.sqrt (withTurb self t)
          *((1 + self.cw3_6)/(saG6 Real.sqrt (withTurb self t) + self.cw3_6))^((1:ℝ)/6) := by
    funext t
    rfl
  rw [e]
  have hb := (hasDerivAt_const (self.TurbVar_i 0) (1 + self.cw3_6)).div
    ((saG6_hasDerivAt self hG).add_const self.cw3_6)
    (by simpa only [withTurb_self] using hden)
  have hp := hb.rpow_const (p := (1:ℝ)/6) (Or.inl (by simpa only [withTurb_self] using hbase))
  have h := hG.mul hp
  simp only [withTurb_self] at h
  refine h.congr_deriv ?_
  have hsub : ((1 + self.cw3_6)/(saG6 Real.sqrt self + self.cw3_6))^((1:ℝ)/6 - 1)
      = ((1 + self.cw3_6)/(saG6 Real.sqrt self + self.cw3_6))^((1:ℝ)/6)
        /((1 + self.cw3_6)/(saG6 Real.sqrt self + self.cw3_6)) := Real.rpow_sub_one hbase _
  have hg6 : saG6 Real.sqrt self = saG Real.sqrt self^6 := by rw [saG6, pow6]
  have h1 : (1 + self.cw3_6) ≠ 0 := by positivity
  rw [hsub, saDfw]
  show _ = saDg Real.sqrt self
    *((1 + self.cw3_6)/(saG6 Real.sqrt self + self.cw3_6))^((1:ℝ)/6)
    *(1 - saG6 Real.sqrt self/(saG6 Real.sqrt self + self.cw3_6))
  generalize ((1 + self.cw3_6)/(saG6 Real.sqrt self + self.cw3_6))^((1:ℝ)/6) = L
  rw [hg6] at hden ⊢
  field_simp
  ring

theorem saDestruction_hasDerivAt (self : CSourcePieceWise_TurbSA ℝ)
    (hF : HasDerivAt (fun t => saFw Real.sqrt (fun x y => x ^ y) (withTurb self t))
      (saDfw Real.sqrt (fun x y => x ^ y) self) (self.TurbVar_i 0)) :
    HasDerivAt (fun t => saDestruction Real.sqrt (fun x y => x ^ y) (withTurb self t))
      (self.cw1*(saDfw Real.sqrt (fun x y => x ^ y) self*self.TurbVar_i 0
          + 2*saFw Real.sqrt (fun x y => x ^ y) self)*self.TurbVar_i 0
        /(self.dist_i*self.dist_i)*self.Volume) (self.TurbVar_i 0) := by
  have e : (fun t => saDestruction Real.sqrt (fun x y => x ^ y) (withTurb self t))
      = fun t => self.cw1*saFw Real.sqrt (fun x y => x ^ y) (withTurb self t)*t*t
          /(self.dist_i*self.dist_i)*self.Volume := by
    funext t
    simp [saDestruction, withTurb, setAt]
  rw [e]
  have h := (((((hF.const_mul self.cw1).mul (hasDerivAt_id (self.TurbVar_i 0))).mul
    (hasDerivAt_id (self.TurbVar_i 0))).div_const (self.dist_i*self.dist_i)).mul_const
    self.Volume)
  simp only [withTurb_self, id] at h
  refine h.congr_deriv ?_
  ring

/-- The value accumulated in `val_Jacobian_i[0][0]` is the derivative of
production minus destruction with respect to the turbulence variable. -/
theorem saJacobian_hasDerivAt (self : CSourcePieceWise_TurbSA ℝ) (hν : 0 < saNu self)
    (hc : 0 < self.cv1_3) (h3 : 0 < self.cw3_6) (ht : 0 ≤ self.TurbVar_i 0)
    (hS : 1e-10 < saShat Real.sqrt self)
    (hr : self.TurbVar_i 0*saInvShat Real.sqrt self*saInvK2D2 self ≠ 10) :
    HasDerivAt
      (fun t => saProduction Real.sqrt (withTurb self t)
        - saDestruction Real.sqrt (fun x y => x ^ y) (withTurb self t))
      (saJacobian Real.sqrt (fun x y => x ^ y) self) (self.TurbVar_i 0) :=
  (saProduction_hasDerivAt self hν hc ht hS).sub
    (saDestruction_hasDerivAt self
      (saFw_hasDerivAt self h3 (saG_hasDerivAt self (saR_hasDerivAt self hν hc ht hS hr))))

theorem scenarioShear_eval :
    (CSourcePieceWise_TurbSA.CSourcePieceWise_TurbSA_ctor (scenarioShear ℝ) 2 1).dist_i = 1
    ∧ (CSourcePieceWise_TurbSA.CSourcePieceWise_TurbSA_ctor (scenarioShear ℝ) 2 1).V_i
        ((CSourcePieceWise_TurbSA.CSourcePieceWise_TurbSA_ctor (scenarioShear ℝ) 2 1).nDim+2) = 1
    ∧ (CSourcePieceWise_TurbSA.CSourcePieceWise_TurbSA_ctor (scenarioShear ℝ) 2 1).V_i
        ((CSourcePieceWise_TurbSA.CSourcePieceWise_TurbSA_ctor (scenarioShear ℝ) 2 1).nDim+5) = 1
    ∧ (CSourcePieceWise_TurbSA.CSourcePieceWise_TurbSA_ctor (scenarioShear ℝ) 2 1).TurbVar_i 0 = 0
    ∧ saShat Real.sqrt (CSourcePieceWise_TurbSA.CSourcePieceWise_TurbSA_ctor (scenarioShear ℝ) 2 1)
        = 1 := by
  refine ⟨rfl, ?_, ?_, ?_, ?_⟩
  · simp [scenarioShear, CSourcePieceWise_TurbSA_ctor_run, vec]
  · simp [scenarioShear, CSourcePieceWise_TurbSA_ctor_run, vec]
  · simp [scenarioShear, CSourcePieceWise_TurbSA_ctor_run, vec]
  · simp [scenarioShear, CSourcePieceWise_TurbSA_ctor_run, saShat, saVorticity, vec, mat]

/-- C19.  For every input of `CSourcePieceWise_TurbSA` as constructed with
`dist_i > 1e-10`, `ρ > 0`, `μ_lam > 0`, `turb ≥ 0`, `Ŝ > 1e-10` and
`turb/(Ŝ·κ²d²) ≠ 10`, the value written to `Jacobian_i[0][0]` is the derivative
with respect to `turb` of `Production(turb) − Destruction(turb)`, every other
input (vorticity, wall distance, density, viscosity, volume, gradient of `turb`)
held fixed; the cross-diffusion term does not depend on `turb`, so the same value
is the derivative of `residual[0]`.  Real arithmetic, with the real square root
and real power for `sqrt` and `pow`. -/
theorem C19_SA_jacobian_is_derivative (self0 self : CSourcePieceWise_TurbSA ℝ) (out : Buffers ℝ)
    (val_nDim val_nVar : Nat)
    (hc : self = CSourcePieceWise_TurbSA.CSourcePieceWise_TurbSA_ctor self0 val_nDim val_nVar)
    (hd : 1e-10 < self.dist_i)
    (hrho : 0 < self.V_i (self.nDim+2)) (hmu : 0 < self.V_i (self.nDim+5))
    (ht : 0 ≤ self.TurbVar_i 0)
    (hS : 1e-10 < saShat Real.sqrt self)
    (hr : self.TurbVar_i 0/(saShat Real.sqrt self*(self.k2*self.dist_i^2)) ≠ 10) :
    HasDerivAt
        (fun t =>
          (CSourcePieceWise_TurbSA.ComputeResidual Real.sqrt (fun x y => x ^ y)
              (withTurb self t) out).1.Production
            - (CSourcePieceWise_TurbSA.ComputeResidual Real.sqrt (fun x y => x ^ y)
              (withTurb self t) out).1.Destruction)
        ((CSourcePieceWise_TurbSA.ComputeResidual Real.sqrt (fun x y => x ^ y)
          self out).2.val_Jacobian_i 0 0)
        (self.TurbVar_i 0)
    ∧ (∀ t,
        (CSourcePieceWise_TurbSA.ComputeResidual Real.sqrt (fun x y => x ^ y)
            (withTurb self t) out).1.CrossProduction
          = (CSourcePieceWise_TurbSA.ComputeResidual Real.sqrt (fun x y => x ^ y)
            self out).1.CrossProduction)
    ∧ HasDerivAt
        (fun t =>
          (CSourcePieceWise_TurbSA.ComputeResidual Real.sqrt (fun x y => x ^ y)
              (withTurb self t) out).2.val_residual 0)
        ((CSourcePieceWise_TurbSA.ComputeResidual Real.sqrt (fun x y => x ^ y)
          self out).2.val_Jacobian_i 0 0)
        (self.TurbVar_i 0) := by
  have htr : self.transition = false := by rw [hc, CSourcePieceWise_TurbSA_ctor_run]
  have hcv : self.cv1_3 = 357.911 := by rw [hc, CSourcePieceWise_TurbSA_ctor_run]
  have hcw3 : self.cw3_6 = 64 := by rw [hc, CSourcePieceWise_TurbSA_ctor_run]
  have hcv0 : 0 < self.cv1_3 := by rw [hcv]; norm_num
  have hcw0 : 0 < self.cw3_6 := by rw [hcw3]; norm_num
  have hν : 0 < saNu self := div_pos hmu hrho
  have hr' : self.TurbVar_i 0*saInvShat Real.sqrt self*saInvK2D2 self ≠ 10 := by
    intro h
    apply hr
    rw [← h, saInvShat, max_eq_left hS.le, saInvK2D2]
    ring
  have hrun : ∀ t, CSourcePieceWise_TurbSA.ComputeResidual Real.sqrt (fun x y => x ^ y)
      (withTurb self t) out
      = (saStateFinal Real.sqrt (fun x y => x ^ y) (withTurb self t),
          { out with
            val_residual := setAt out.val_residual 0
              (saProduction Real.sqrt (withTurb self t)
                - saDestruction Real.sqrt (fun x y => x ^ y) (withTurb self t)
                + saCrossProduction (withTurb self t))
            val_Jacobian_i := setAt2 out.val_Jacobian_i 0 0
              (saJacobian Real.sqrt (fun x y => x ^ y) (withTurb self t)) }) :=
    fun t => CSourcePieceWise_TurbSA_run Real.sqrt _ (withTurb self t) out hd htr
  have hrun0 := CSourcePieceWise_TurbSA_run Real.sqrt (fun x y => x ^ y) self out hd htr
  have hJ := saJacobian_hasDerivAt self hν hcv0 hcw0 ht hS hr'
  have hcross : ∀ t, saCrossProduction (withTurb self t) = saCrossProduction self := fun _ => rfl
  simp only [hrun, hrun0, setAt_same, setAt2_same, hcross]
  refine ⟨hJ, fun _ => rfl, hJ.add_const _⟩

theorem C19_SA_jacobian_is_derivative_witness :
    CSourcePieceWise_TurbSA.CSourcePieceWise_TurbSA_ctor (scenarioShear ℝ) 2 1
      = CSourcePieceWise_TurbSA.CSourcePieceWise_TurbSA_ctor (scenarioShear ℝ) 2 1
    ∧ 1e-10 < (CSourcePieceWise_TurbSA.CSourcePieceWise_TurbSA_ctor (scenarioShear ℝ) 2 1).dist_i
    ∧ 1e-10 < saShat Real.sqrt
        (CSourcePieceWise_TurbSA.CSourcePieceWise_TurbSA_ctor (scenarioShear ℝ) 2 1)
    ∧ HasDerivAt
        (fun t =>
          (CSourcePieceWise_TurbSA.ComputeResidual Real.sqrt (fun x y => x ^ y)
              (withTurb (CSourcePieceWise_TurbSA.CSourcePieceWise_TurbSA_ctor (scenarioShear ℝ) 2 1)
                t) (staleOutputs ℝ)).2.val_residual 0)
        ((CSourcePieceWise_TurbSA.ComputeResidual Real.sqrt (fun x y => x ^ y)
          (CSourcePieceWise_TurbSA.CSourcePieceWise_TurbSA_ctor (scenarioShear ℝ) 2 1)
          (staleOutputs ℝ)).2.val_Jacobian_i 0 0)
        ((CSourcePieceWise_TurbSA.CSourcePieceWise_TurbSA_ctor (scenarioShear ℝ) 2 1).TurbVar_i 0) :=
  ⟨rfl, by rw [scenarioShear_eval.1]; norm_num,
    by rw [scenarioShear_eval.2.2.2.2]; norm_num,
    (C19_SA_jacobian_is_derivative (scenarioShear ℝ) _ (staleOutputs ℝ) 2 1 rfl
      (by rw [scenarioShear_eval.1]; norm_num)
      (by rw [scenarioShear_eval.2.1]; norm_num)
      (by rw [scenarioShear_eval.2.2.1]; norm_num)
      (by rw [scenarioShear_eval.2.2.2.1])
      (by rw [scenarioShear_eval.2.2.2.2]; norm_num)
      (by rw [scenarioShear_eval.2.2.2.1]; norm_num)).2.2⟩

/-- C20, as amended.  For every input of `CSourcePieceWise_TurbSST` with
`dist_i > 1e-10`, the production term `pk` that enters `residual[0]` is
`max(min(raw, 20·β*·ρ·ω·k), 0)`; it satisfies `0 ≤ pk` and
`pk ≤ max(20·β*·ρ·ω·k, 0)`, and `pk ≤ 20·β*·ρ·ω·k` whenever that cap is not
negative. -/
theorem C20_SST_production_clip (self : CSourcePieceWise_TurbSST α) (out : Buffers α)
    (hd : 1e-10 < self.dist_i) :
    (CSourcePieceWise_TurbSST.ComputeResidual self out).2.val_residual 0
        = sourceSST_pk (CSourcePieceWise_TurbSST.ComputeResidual self out).1
              (sumTo self.nDim (fun iDim => self.PrimVar_Grad_i (iDim+1) iDim))*self.Volume
          - self.beta_star*self.V_i (self.nDim+2)*self.TurbVar_i 1*self.TurbVar_i 0*self.Volume
    ∧ sourceSST_pk (CSourcePieceWise_TurbSST.ComputeResidual self out).1
          (sumTo self.nDim (fun iDim => self.PrimVar_Grad_i (iDim+1) iDim))
        = max (min (self.V_i (self.nDim+6)*self.StrainMag*self.StrainMag
                - 2/3*self.V_i (self.nDim+2)*self.TurbVar_i 0
                  *∑ d in Finset.range self.nDim, self.PrimVar_Grad_i (d+1) d)
              (20*self.beta_star*self.V_i (self.nDim+2)*self.TurbVar_i 1*self.TurbVar_i 0)) 0
    ∧ 0 ≤ sourceSST_pk (CSourcePieceWise_TurbSST.ComputeResidual self out).1
          (sumTo self.nDim (fun iDim => self.PrimVar_Grad_i (iDim+1) iDim))
    ∧ sourceSST_pk (CSourcePieceWise_TurbSST.ComputeResidual self out).1
          (sumTo self.nDim (fun iDim => self.PrimVar_Grad_i (iDim+1) iDim))
        ≤ max (20*self.beta_star*self.V_i (self.nDim+2)*self.TurbVar_i 1*self.TurbVar_i 0) 0
    ∧ (0 ≤ 20*self.beta_star*self.V_i (self.nDim+2)*self.TurbVar_i 1*self.TurbVar_i 0 →
        sourceSST_pk (CSourcePieceWise_TurbSST.ComputeResidual self out).1
            (sumTo self.nDim (fun iDim => self.PrimVar_Grad_i (iDim+1) iDim))
          ≤ 20*self.beta_star*self.V_i (self.nDim+2)*self.TurbVar_i 1*self.TurbVar_i 0) := by
  obtain ⟨h1, h2⟩ := CSourcePieceWise_TurbSST_residual0 self out hd
  have hpk : sourceSST_pk (CSourcePieceWise_TurbSST.ComputeResidual self out).1
      (sumTo self.nDim (fun iDim => self.PrimVar_Grad_i (iDim+1) iDim)) = sstPk self := by
    rw [h1]; exact sourceSST_pk_run self
  rw [hpk, h2]
  refine ⟨rfl, rfl, le_max_right _ _, ?_, ?_⟩
  · exact max_le_max (min_le_right _ _) (le_refl 0)
  · intro h
    exact max_le ((min_le_right _ _).trans (le_refl _)) h

theorem scenarioStrain_eval :
    sstPk (CSourcePieceWise_TurbSST.CSourcePieceWise_TurbSST_ctor (scenarioStrain ℚ) 2 2
        (scenarioConstants ℚ)) = 1
    ∧ sstCap (CSourcePieceWise_TurbSST.CSourcePieceWise_TurbSST_ctor (scenarioStrain ℚ) 2 2
        (scenarioConstants ℚ)) = 9/5 := by
  constructor <;>
    norm_num [sstPk, sstPkRaw, sstCap, sstDiverg, scenarioStrain, scenarioConstants,
      CSourcePieceWise_TurbSST_ctor_run, vec, Finset.sum_range_succ]

theorem scenarioNegativeK_eval :
    sstPk (CSourcePieceWise_TurbSST.CSourcePieceWise_TurbSST_ctor (scenarioNegativeK ℚ) 2 2
        (scenarioConstants ℚ)) = 0
    ∧ sstCap (CSourcePieceWise_TurbSST.CSourcePieceWise_TurbSST_ctor (scenarioNegativeK ℚ) 2 2
        (scenarioConstants ℚ)) = -(9/5) := by
  constructor <;>
    norm_num [sstPk, sstPkRaw, sstCap, sstDiverg, scenarioNegativeK, scenarioConstants,
      CSourcePieceWise_TurbSST_ctor_run, vec, Finset.sum_range_succ]

theorem C20_SST_production_clip_witness :
    1e-10 < (CSourcePieceWise_TurbSST.CSourcePieceWise_TurbSST_ctor (scenarioStrain ℚ) 2 2
        (scenarioConstants ℚ)).dist_i
    ∧ 0 ≤ sourceSST_pk (CSourcePieceWise_TurbSST.ComputeResidual
          (CSourcePieceWise_TurbSST.CSourcePieceWise_TurbSST_ctor (scenarioStrain ℚ) 2 2
            (scenarioConstants ℚ)) (staleOutputs ℚ)).1
        (sumTo 2 (fun iDim => (scenarioStrain ℚ).PrimVar_Grad_i (iDim+1) iDim)) :=
  ⟨by show (1e-10 : ℚ) < 1; norm_num,
    (C20_SST_production_clip
      (CSourcePieceWise_TurbSST.CSourcePieceWise_TurbSST_ctor (scenarioStrain ℚ) 2 2
        (scenarioConstants ℚ)) (staleOutputs ℚ) (by show (1e-10 : ℚ) < 1; norm_num)).2.2.1⟩

/-- C20 fails as stated at a point with `k = −1`, `ω = 1`, `ρ = 1`, `β* = 9/100`
and no strain: the cap `20·β*·ρ·ω·k` is `−9/5`, the production `pk` entering
`residual[0]` is 0, and `pk ≤ 20·β*·ρ·ω·k` is false. -/
theorem C20_negative_cap :
    1e-10 < (CSourcePieceWise_TurbSST.CSourcePieceWise_TurbSST_ctor (scenarioNegativeK ℚ) 2 2
        (scenarioConstants ℚ)).dist_i
    ∧ (CSourcePieceWise_TurbSST.ComputeResidual
          (CSourcePieceWise_TurbSST.CSourcePieceWise_TurbSST_ctor (scenarioNegativeK ℚ) 2 2
            (scenarioConstants ℚ)) (staleOutputs ℚ)).2.val_residual 0
        = sourceSST_pk (CSourcePieceWise_TurbSST.ComputeResidual
              (CSourcePieceWise_TurbSST.CSourcePieceWise_TurbSST_ctor (scenarioNegativeK ℚ) 2 2
                (scenarioConstants ℚ)) (staleOutputs ℚ)).1
            (sumTo 2 (fun iDim => (scenarioNegativeK ℚ).PrimVar_Grad_i (iDim+1) iDim))*1
          - 9/100*1*1*(-1)*1
    ∧ sourceSST_pk (CSourcePieceWise_TurbSST.ComputeResidual
          (CSourcePieceWise_TurbSST.CSourcePieceWise_TurbSST_ctor (scenarioNegativeK ℚ) 2 2
            (scenarioConstants ℚ)) (staleOutputs ℚ)).1
        (sumTo 2 (fun iDim => (scenarioNegativeK ℚ).PrimVar_Grad_i (iDim+1) iDim)) = 0
    ∧ 20*(9/100 : ℚ)*1*1*(-1) = -(9/5)
    ∧ ¬ (sourceSST_pk (CSourcePieceWise_TurbSST.ComputeResidual
          (CSourcePieceWise_TurbSST.CSourcePieceWise_TurbSST_ctor (scenarioNegativeK ℚ) 2 2
            (scenarioConstants ℚ)) (staleOutputs ℚ)).1
        (sumTo 2 (fun iDim => (scenarioNegativeK ℚ).PrimVar_Grad_i (iDim+1) iDim))
      ≤ 20*(CSourcePieceWise_TurbSST.CSourcePieceWise_TurbSST_ctor (scenarioNegativeK ℚ) 2 2
            (scenarioConstants ℚ)).beta_star
          *(CSourcePieceWise_TurbSST.CSourcePieceWise_TurbSST_ctor (scenarioNegativeK ℚ) 2 2
            (scenarioConstants ℚ)).V_i (2+2)
          *(CSourcePieceWise_TurbSST.CSourcePieceWise_TurbSST_ctor (scenarioNegativeK ℚ) 2 2
            (scenarioConstants ℚ)).TurbVar_i 1
          *(CSourcePieceWise_TurbSST.CSourcePieceWise_TurbSST_ctor (scenarioNegativeK ℚ) 2 2
            (scenarioConstants ℚ)).TurbVar_i 0) := by
  have hd : 1e-10 < (CSourcePieceWise_TurbSST.CSourcePieceWise_TurbSST_ctor
      (scenarioNegativeK ℚ) 2 2 (scenarioConstants ℚ)).dist_i := by
    show (1e-10 : ℚ) < 1; norm_num
  obtain ⟨h1, h2⟩ := CSourcePieceWise_TurbSST_residual0 _ (staleOutputs ℚ) hd
  obtain ⟨e1, e2⟩ := scenarioNegativeK_eval
  have hpk : sourceSST_pk (CSourcePieceWise_TurbSST.ComputeResidual
      (CSourcePieceWise_TurbSST.CSourcePieceWise_TurbSST_ctor (scenarioNegativeK ℚ) 2 2
        (scenarioConstants ℚ)) (staleOutputs ℚ)).1
      (sumTo 2 (fun iDim => (scenarioNegativeK ℚ).PrimVar_Grad_i (iDim+1) iDim)) = 0 := by
    rw [h1, ← e1]; exact sourceSST_pk_run _
  refine ⟨hd, ?_, hpk, by norm_num, ?_⟩
  · rw [hpk, h2, e1]
    norm_num [scenarioNegativeK, scenarioConstants, CSourcePieceWise_TurbSST_ctor_run, vec]
  · rw [hpk]
    norm_num [scenarioNegativeK, scenarioConstants, CSourcePieceWise_TurbSST_ctor_run, vec]

/-! ## Two-equation source terms: closed form and claims -/

theorem sourceSST_pw_run (self : CSourcePieceWise_TurbSST α) :
    sourceSST_pw (sstStateReset self)
        (sumTo (sstStateReset self).nDim
          (fun iDim => (sstStateReset self).PrimVar_Grad_i (iDim+1) iDim))
      = sstPw self := by
  have h23 : (2.0 : α)/3.0 = 2/3 := by norm_num
  simp only [sourceSST_pw, sstPw, sstZeta, sstDiverg, sstStateReset, sumTo_eq_sum, h23, zero_lit]

/-- Closed form of `CSourcePieceWise_TurbSST::ComputeResidual` away from the
wall. -/
theorem CSourcePieceWise_TurbSST_run (self : CSourcePieceWise_TurbSST α) (out : Buffers α)
    (h : 1e-10 < self.dist_i) :
    CSourcePieceWise_TurbSST.ComputeResidual self out
      = (sstStateReset self,
          { out with
            val_residual := setAt (setAt out.val_residual 0
              (sstPk self*self.Volume
                - self.beta_star*self.V_i (self.nDim+2)*self.TurbVar_i 1*self.TurbVar_i 0
                  *self.Volume)) 1
              (sstAlfaBlended self*self.V_i (self.nDim+2)*sstPw self*self.Volume
                - sstBetaBlended self*self.V_i (self.nDim+2)*self.TurbVar_i 1*self.TurbVar_i 1
                  *self.Volume
                + (1 - self.F1_i)*self.CDkw*self.Volume)
            val_Jacobian_i :=
              setAt2 (setAt2 (setAt2 (setAt2 out.val_Jacobian_i 0 0
                (-self.beta_star*self.TurbVar_i 1*self.Volume)) 0 1 0) 1 0 0) 1 1
                (-2*sstBetaBlended self*self.TurbVar_i 1*self.Volume) }) := by
  have hd : (sstStateReset self).dist_i = self.dist_i := rfl
  unfold CSourcePieceWise_TurbSST.ComputeResidual
  simp only [sourceSST_reset_run, hd, gt_iff_lt, h, if_true, sourceSST_pk_run, sourceSST_pw_run]
  simp only [sourceSST_jacobian, sourceSST_residual, sstStateReset, sstAlfaBlended,
    sstBetaBlended, one_lit, two_lit, zero_lit]
  congr 1
  ext k
  · simp only [setAt]
    by_cases h1 : k = 1
    · subst h1; simp
    · by_cases h0 : k = 0
      · subst h0; simp
      · simp [h1, h0]
  · rename_i c
    simp only [setAt2]
    by_cases h11 : k = 1 ∧ c = 1
    · simp [h11]
    · by_cases h10 : k = 1 ∧ c = 0
      · simp [h10]
      · by_cases h01 : k = 0 ∧ c = 1
        · simp [h01]
        · by_cases h00 : k = 0 ∧ c = 0
          · simp [h00]
          · simp [h11, h10, h01, h00]
  · rfl

/-- C21.  For every input of `CSourcePieceWise_TurbSST` with `dist_i > 1e-10`,
`residual[0] = (pk − β*·ρ·ω·k)·Volume` with
`pk = max(min(μ_t·S² − ⅔·ρ·k·div, 20·β*·ρ·ω·k), 0)`, and
`residual[1] = (α_b·ρ·pw − β_b·ρ·ω² + (1 − F1)·CDkw)·Volume` with
`pw = max(S² − ⅔·ζ·div, 0)`, `ζ = max(ω, S·F2/a1)`,
`α_b = F1·α_1 + (1 − F1)·α_2`, `β_b = F1·β_1 + (1 − F1)·β_2`; `S` is `StrainMag` and
`div` the sum of the entries `PrimVar_Grad[d+1][d]`. -/
theorem C21_SST_source_residual (self : CSourcePieceWise_TurbSST α) (out : Buffers α)
    (hd : 1e-10 < self.dist_i) :
    (CSourcePieceWise_TurbSST.ComputeResidual self out).2.val_residual 0
        = (sstPk self
            - self.beta_star*self.V_i (self.nDim+2)*self.TurbVar_i 1*self.TurbVar_i 0)*self.Volume
    ∧ sstPk self
        = max (min (self.V_i (self.nDim+6)*self.StrainMag^2
                - 2/3*self.V_i (self.nDim+2)*self.TurbVar_i 0
                  *∑ d in Finset.range self.nDim, self.PrimVar_Grad_i (d+1) d)
              (20*self.beta_star*self.V_i (self.nDim+2)*self.TurbVar_i 1*self.TurbVar_i 0)) 0
    ∧ (CSourcePieceWise_TurbSST.ComputeResidual self out).2.val_residual 1
        = ((self.F1_i*self.alfa_1 + (1 - self.F1_i)*self.alfa_2)*self.V_i (self.nDim+2)
              *sstPw self
            - (self.F1_i*self.beta_1 + (1 - self.F1_i)*self.beta_2)*self.V_i (self.nDim+2)
              *self.TurbVar_i 1^2
            + (1 - self.F1_i)*self.CDkw)*self.Volume
    ∧ sstPw self
        = max (self.StrainMag^2
            - 2/3*max (self.TurbVar_i 1) (self.StrainMag*self.F2_i/self.a1)
              *∑ d in Finset.range self.nDim, self.PrimVar_Grad_i (d+1) d) 0 := by
  rw [CSourcePieceWise_TurbSST_run self out hd]
  refine ⟨?_, ?_, ?_, ?_⟩
  · simp only [setAt, if_true, Nat.zero_ne_one, if_false]
    ring
  · simp only [sstPk, sstPkRaw, sstCap, sstDiverg, sq, mul_assoc]
  · simp only [setAt, if_true, sstAlfaBlended, sstBetaBlended]
    ring
  · simp only [sstPw, sstZeta, sstDiverg, sq]

theorem C21_SST_source_residual_witness :
    1e-10 < (CSourcePieceWise_TurbSST.CSourcePieceWise_TurbSST_ctor (scenarioStrain ℚ) 2 2
        (scenarioConstants ℚ)).dist_i
    ∧ (CSourcePieceWise_TurbSST.ComputeResidual
        (CSourcePieceWise_TurbSST.CSourcePieceWise_TurbSST_ctor (scenarioStrain ℚ) 2 2
          (scenarioConstants ℚ)) (staleOutputs ℚ)).2.val_residual 0
      = (sstPk (CSourcePieceWise_TurbSST.CSourcePieceWise_TurbSST_ctor (scenarioStrain ℚ) 2 2
            (scenarioConstants ℚ))
          - (CSourcePieceWise_TurbSST.CSourcePieceWise_TurbSST_ctor (scenarioStrain ℚ) 2 2
              (scenarioConstants ℚ)).beta_star
            *(CSourcePieceWise_TurbSST.CSourcePieceWise_TurbSST_ctor (scenarioStrain ℚ) 2 2
              (scenarioConstants ℚ)).V_i
              ((CSourcePieceWise_TurbSST.CSourcePieceWise_TurbSST_ctor (scenarioStrain ℚ) 2 2
                (scenarioConstants ℚ)).nDim+2)
            *(CSourcePieceWise_TurbSST.CSourcePieceWise_TurbSST_ctor (scenarioStrain ℚ) 2 2
              (scenarioConstants ℚ)).TurbVar_i 1
            *(CSourcePieceWise_TurbSST.CSourcePieceWise_TurbSST_ctor (scenarioStrain ℚ) 2 2
              (scenarioConstants ℚ)).TurbVar_i 0)
        *(CSourcePieceWise_TurbSST.CSourcePieceWise_TurbSST_ctor (scenarioStrain ℚ) 2 2
          (scenarioConstants ℚ)).Volume :=
  ⟨by show (1e-10 : ℚ) < 1; norm_num,
    (C21_SST_source_residual
      (CSourcePieceWise_TurbSST.CSourcePieceWise_TurbSST_ctor (scenarioStrain ℚ) 2 2
        (scenarioConstants ℚ)) (staleOutputs ℚ) (by show (1e-10 : ℚ) < 1; norm_num)).1⟩

/-- C22.  Every off-diagonal Jacobian entry written by a two-equation operator
is 0: `CUpwSca_TurbSST`, `CAvgGrad_TurbSST` and `CAvgGradCorrected_TurbSST` with
the implicit flag set, and `CSourcePieceWise_TurbSST` always, write
`[0][1] = [1][0] = 0` in each block they emit.  For `dist_i > 1e-10` the source
block is `diag(−β*·ω·Volume, −2·β_b·ω·Volume)`, the same whatever the strain
magnitude, the velocity gradient, the primitives and the cross-diffusion term
are. -/
theorem C22_SST_offdiagonal_zero (self : CNumerics α) (src : CSourcePieceWise_TurbSST α)
    (out : Buffers α) (hi : self.implicit = true) :
    ((CUpwSca_TurbSST.ComputeResidual self out).2.val_Jacobian_i 0 1 = 0
      ∧ (CUpwSca_TurbSST.ComputeResidual self out).2.val_Jacobian_i 1 0 = 0
      ∧ (CUpwSca_TurbSST.ComputeResidual self out).2.val_Jacobian_j 0 1 = 0
      ∧ (CUpwSca_TurbSST.ComputeResidual self out).2.val_Jacobian_j 1 0 = 0)
    ∧ ((CAvgGrad_TurbSST.ComputeResidual self out).2.val_Jacobian_i 0 1 = 0
      ∧ (CAvgGrad_TurbSST.ComputeResidual self out).2.val_Jacobian_i 1 0 = 0
      ∧ (CAvgGrad_TurbSST.ComputeResidual self out).2.val_Jacobian_j 0 1 = 0
      ∧ (CAvgGrad_TurbSST.ComputeResidual self out).2.val_Jacobian_j 1 0 = 0)
    ∧ ((CAvgGradCorrected_TurbSST.ComputeResidual self out).2.val_Jacobian_i 0 1 = 0
      ∧ (CAvgGradCorrected_TurbSST.ComputeResidual self out).2.val_Jacobian_i 1 0 = 0
      ∧ (CAvgGradCorrected_TurbSST.ComputeResidual self out).2.val_Jacobian_j 0 1 = 0
      ∧ (CAvgGradCorrected_TurbSST.ComputeResidual self out).2.val_Jacobian_j 1 0 = 0)
    ∧ ((CSourcePieceWise_TurbSST.ComputeResidual src out).2.val_Jacobian_i 0 1 = 0
      ∧ (CSourcePieceWise_TurbSST.ComputeResidual src out).2.val_Jacobian_i 1 0 = 0)
    ∧ (1e-10 < src.dist_i →
        (CSourcePieceWise_TurbSST.ComputeResidual src out).2.val_Jacobian_i 0 0
          = -src.beta_star*src.TurbVar_i 1*src.Volume
        ∧ (CSourcePieceWise_TurbSST.ComputeResidual src out).2.val_Jacobian_i 1 1
          = -2*(src.F1_i*src.beta_1 + (1 - src.F1_i)*src.beta_2)*src.TurbVar_i 1*src.Volume
        ∧ ∀ (S C : α) (G : Nat → Nat → α) (V : Nat → α),
            (CSourcePieceWise_TurbSST.ComputeResidual
                { src with StrainMag := S, CDkw := C, PrimVar_Grad_i := G, V_i := V }
                out).2.val_Jacobian_i
              = (CSourcePieceWise_TurbSST.ComputeResidual src out).2.val_Jacobian_i) := by
  refine ⟨?_, ?_, ?_, ?_, ?_⟩
  · rw [CUpwSca_TurbSST_run]
    simp only [hi, if_true]
    refine ⟨?_, ?_, ?_, ?_⟩ <;> simp [setAt2]
  · rw [CAvgGrad_TurbSST_run]
    simp only [hi, if_true]
    refine ⟨?_, ?_, ?_, ?_⟩ <;> simp [setAt2]
  · rw [CAvgGradCorrected_TurbSST_run]
    simp only [hi, if_true]
    refine ⟨?_, ?_, ?_, ?_⟩ <;> simp [setAt2]
  · rcases lt_or_le (1e-10 : α) src.dist_i with h | h
    · rw [CSourcePieceWise_TurbSST_run src out h]
      constructor <;> simp [setAt2]
    · rw [CSourcePieceWise_TurbSST_wall src out h]
      constructor <;> simp [setAt2]
  · intro h
    refine ⟨?_, ?_, ?_⟩
    · rw [CSourcePieceWise_TurbSST_run src out h]
      simp [setAt2]
    · rw [CSourcePieceWise_TurbSST_run src out h]
      simp [setAt2, sstBetaBlended]
    · intro S C G V
      rw [CSourcePieceWise_TurbSST_run src out h,
        CSourcePieceWise_TurbSST_run
          { src with StrainMag := S, CDkw := C, PrimVar_Grad_i := G, V_i := V } out h]
      rfl

theorem C22_SST_offdiagonal_zero_witness :
    scenarioSSTEdge.implicit = true
    ∧ (CAvgGradCorrected_TurbSST.ComputeResidual scenarioSSTEdge staleBuffers).2.val_Jacobian_i 0 1
        = 0
    ∧ (CSourcePieceWise_TurbSST.ComputeResidual (scenarioStrain ℚ) staleBuffers).2.val_Jacobian_i
        1 0 = 0 :=
  ⟨rfl, (C22_SST_offdiagonal_zero scenarioSSTEdge (scenarioStrain ℚ) staleBuffers rfl).2.2.1.1,
    (C22_SST_offdiagonal_zero scenarioSSTEdge (scenarioStrain ℚ) staleBuffers rfl).2.2.2.1.2⟩

/-! ## Moving grids -/

/-- The flux speed of the fixed-grid object equals that of the moving-grid object
when both grid velocities vanish on the `nDim` components. -/
theorem fluxSpeed_still_grid (self : CNumerics α)
    (h0 : ∀ d, d < self.nDim → self.GridVel_i d = 0 ∧ self.GridVel_j d = 0) :
    fluxSpeed { self with grid_movement := false } = fluxSpeed self := by
  unfold fluxSpeed relVelocity_i relVelocity_j
  refine Finset.sum_congr rfl (fun d hd => ?_)
  obtain ⟨hi, hj⟩ := h0 d (Finset.mem_range.mp hd)
  cases hg : self.grid_movement <;> simp [hi, hj]

/-- The flux speed vanishes when the grid moves with the fluid at both endpoints. -/
theorem fluxSpeed_comoving (self : CNumerics α) (hg : self.grid_movement = true)
    (h : ∀ d, d < self.nDim →
      self.GridVel_i d = self.V_i (d+1) ∧ self.GridVel_j d = self.V_j (d+1)) :
    fluxSpeed self = 0 := by
  unfold fluxSpeed relVelocity_i relVelocity_j
  refine Finset.sum_eq_zero (fun d hd => ?_)
  obtain ⟨hi, hj⟩ := h d (Finset.mem_range.mp hd)
  simp [hg, hi, hj]

/-- C25.  With `grid_movement` set, both convective operators compute the flux
speed from relative velocities, `q = Σ_d ((u_i[d] − w_i[d]) + (u_j[d] −
w_j[d]))/2·Normal[d]` with `w` the grid velocities; the outputs equal those of
the fixed-grid branch when both grid velocities are zero, and `q = 0` with a zero
residual when each endpoint's grid velocity equals its fluid velocity. -/
theorem C25_moving_grid_flux (self : CNumerics α) (out : Buffers α)
    (hg : self.grid_movement = true) :
    ((CUpwSca_TurbSA.ComputeResidual self out).1.q_ij
        = ∑ d in Finset.range self.nDim,
            ((self.V_i (d+1) - self.GridVel_i d) + (self.V_j (d+1) - self.GridVel_j d))/2
              *self.Normal d
      ∧ (CUpwSca_TurbSST.ComputeResidual self out).1.q_ij
        = ∑ d in Finset.range self.nDim,
            ((self.V_i (d+1) - self.GridVel_i d) + (self.V_j (d+1) - self.GridVel_j d))/2
              *self.Normal d)
    ∧ ((∀ d, d < self.nDim → self.GridVel_i d = 0 ∧ self.GridVel_j d = 0) →
        (CUpwSca_TurbSA.ComputeResidual self out).2
          = (CUpwSca_TurbSA.ComputeResidual { self with grid_movement := false } out).2
        ∧ (CUpwSca_TurbSST.ComputeResidual self out).2
          = (CUpwSca_TurbSST.ComputeResidual { self with grid_movement := false } out).2)
    ∧ ((∀ d, d < self.nDim →
          self.GridVel_i d = self.V_i (d+1) ∧ self.GridVel_j d = self.V_j (d+1)) →
        (CUpwSca_TurbSA.ComputeResidual self out).1.q_ij = 0
        ∧ (CUpwSca_TurbSA.ComputeResidual self out).2.val_residual 0 = 0
        ∧ (CUpwSca_TurbSST.ComputeResidual self out).1.q_ij = 0
        ∧ (CUpwSca_TurbSST.ComputeResidual self out).2.val_residual 0 = 0
        ∧ (CUpwSca_TurbSST.ComputeResidual self out).2.val_residual 1 = 0) := by
  have hq : fluxSpeed self = ∑ d in Finset.range self.nDim,
      ((self.V_i (d+1) - self.GridVel_i d) + (self.V_j (d+1) - self.GridVel_j d))/2
        *self.Normal d := by
    simp only [fluxSpeed, relVelocity_i, relVelocity_j, hg, if_true]
  refine ⟨?_, ?_, ?_⟩
  · rw [CUpwSca_TurbSA_run, CUpwSca_TurbSST_run]
    exact ⟨hq, hq⟩
  · intro h0
    have hf := fluxSpeed_still_grid self h0
    rw [CUpwSca_TurbSA_run, CUpwSca_TurbSST_run, CUpwSca_TurbSA_run, CUpwSca_TurbSST_run]
    simp only [hf]
    exact ⟨trivial, trivial⟩
  · intro h
    have hf := fluxSpeed_comoving self hg h
    rw [CUpwSca_TurbSA_run, CUpwSca_TurbSST_run]
    simp [hf, setAt]

theorem C25_moving_grid_flux_witness :
    scenarioComoving.grid_movement = true
    ∧ (∀ d, d < scenarioComoving.nDim →
        scenarioComoving.GridVel_i d = scenarioComoving.V_i (d+1)
        ∧ scenarioComoving.GridVel_j d = scenarioComoving.V_j (d+1))
    ∧ (CUpwSca_TurbSA.ComputeResidual scenarioComoving staleBuffers).1.q_ij = 0
    ∧ (CUpwSca_TurbSST.ComputeResidual scenarioComoving staleBuffers).2.val_residual 1 = 0 :=
  ⟨rfl, fun d hd => by
      have h2 : d < 2 := hd
      interval_cases d <;> exact ⟨by decide, by decide⟩,
    ((C25_moving_grid_flux scenarioComoving staleBuffers rfl).2.2 (fun d hd => by
      have h2 : d < 2 := hd
      interval_cases d <;> exact ⟨by decide, by decide⟩)).1,
    ((C25_moving_grid_flux scenarioComoving staleBuffers rfl).2.2 (fun d hd => by
      have h2 : d < 2 := hd
      interval_cases d <;> exact ⟨by decide, by decide⟩)).2.2.2.2⟩

/-! ## Conservation: the edge seen from the other side -/

theorem fluxSpeed_swap (self : CNumerics α) :
    fluxSpeed (swapEndpoints self) = -fluxSpeed self := by
  unfold fluxSpeed relVelocity_i relVelocity_j swapEndpoints
  rw [← Finset.sum_neg_distrib]
  refine Finset.sum_congr rfl (fun d _ => ?_)
  cases hg : self.grid_movement <;> simp only [Bool.false_eq_true, if_false, if_true] <;> ring

theorem edgeVector_swap (self : CNumerics α) :
    edgeVector (swapEndpoints self) = fun d => -edgeVector self d := by
  funext d
  simp only [edgeVector, swapEndpoints]
  ring

theorem dot_neg_left (n : Nat) (f g : Nat → α) : dot n (fun d => -f d) g = -dot n f g := by
  unfold dot
  rw [← Finset.sum_neg_distrib]
  exact Finset.sum_congr rfl (fun d _ => by ring)

theorem dot_neg_right (n : Nat) (f g : Nat → α) : dot n f (fun d => -g d) = -dot n f g := by
  unfold dot
  rw [← Finset.sum_neg_distrib]
  exact Finset.sum_congr rfl (fun d _ => by ring)

theorem edgeLength2_swap (self : CNumerics α) :
    edgeLength2 (swapEndpoints self) = edgeLength2 self := by
  have hn : (swapEndpoints self).nDim = self.nDim := rfl
  rw [edgeLength2, edgeVector_swap, hn, dot_neg_left, dot_neg_right, neg_neg]
  rfl

theorem edgeProj_swap (self : CNumerics α) :
    edgeProj (swapEndpoints self) = edgeProj self := by
  have hn : (swapEndpoints self).nDim = self.nDim := rfl
  have hN : (swapEndpoints self).Normal = fun d => -self.Normal d := rfl
  rw [edgeProj, edgeLength2_swap, edgeVector_swap, hn, hN, dot_neg_left, dot_neg_right, neg_neg]
  rfl

theorem meanGrad_swap (self : CNumerics α) (k : Nat) :
    meanGrad (swapEndpoints self) k = meanGrad self k := by
  funext d
  simp only [meanGrad, swapEndpoints]
  ring

theorem correctedProj_swap (self : CNumerics α) (k : Nat) :
    correctedProj (swapEndpoints self) k = -correctedProj self k := by
  have hn : (swapEndpoints self).nDim = self.nDim := rfl
  have hN : (swapEndpoints self).Normal = fun d => -self.Normal d := rfl
  have hi : (swapEndpoints self).TurbVar_i = self.TurbVar_j := rfl
  have hj : (swapEndpoints self).TurbVar_j = self.TurbVar_i := rfl
  simp only [correctedProj, meanGradDot, edgeProj_swap, edgeVector_swap, meanGrad_swap, hn, hN,
    hi, hj, dot_neg_right]
  ring

theorem nuE_swap (self : CNumerics α) : nuE (swapEndpoints self) = nuE self := by
  simp only [nuE, swapEndpoints]
  ring

theorem diffKine_swap (self : CNumerics α) : diffKine (swapEndpoints self) = diffKine self := by
  simp only [diffKine, sigmaKine, swapEndpoints]
  ring

theorem diffOmega_swap (self : CNumerics α) :
    diffOmega (swapEndpoints self) = diffOmega self := by
  simp only [diffOmega, sigmaOmega, swapEndpoints]
  ring

/-- C28.  Edge fluxes are conservative: evaluating an edge operator with the two
endpoints exchanged and the normal negated gives the negated residual, for
`CUpwSca_TurbSA`, `CUpwSca_TurbSST`, `CAvgGradCorrected_TurbSA` (one variable
stored) and `CAvgGradCorrected_TurbSST` (two variables stored); for the
convective operators with the implicit flag set the Jacobian blocks are
exchanged and negated, `Jacobian_i' = −Jacobian_j` and
`Jacobian_j' = −Jacobian_i`. -/
theorem C28_edge_flux_conservative (self : CNumerics α) (out : Buffers α) :
    ((CUpwSca_TurbSA.ComputeResidual (swapEndpoints self) out).2.val_residual 0
        = -(CUpwSca_TurbSA.ComputeResidual self out).2.val_residual 0
      ∧ (self.implicit = true →
          (CUpwSca_TurbSA.ComputeResidual (swapEndpoints self) out).2.val_Jacobian_i 0 0
            = -(CUpwSca_TurbSA.ComputeResidual self out).2.val_Jacobian_j 0 0
          ∧ (CUpwSca_TurbSA.ComputeResidual (swapEndpoints self) out).2.val_Jacobian_j 0 0
            = -(CUpwSca_TurbSA.ComputeResidual self out).2.val_Jacobian_i 0 0))
    ∧ ((∀ k, k < 2 →
          (CUpwSca_TurbSST.ComputeResidual (swapEndpoints self) out).2.val_residual k
            = -(CUpwSca_TurbSST.ComputeResidual self out).2.val_residual k)
      ∧ (self.implicit = true → ∀ r c, r < 2 → c < 2 →
          (CUpwSca_TurbSST.ComputeResidual (swapEndpoints self) out).2.val_Jacobian_i r c
            = -(CUpwSca_TurbSST.ComputeResidual self out).2.val_Jacobian_j r c
          ∧ (CUpwSca_TurbSST.ComputeResidual (swapEndpoints self) out).2.val_Jacobian_j r c
            = -(CUpwSca_TurbSST.ComputeResidual self out).2.val_Jacobian_i r c))
    ∧ (1 ≤ self.nVar →
        (CAvgGradCorrected_TurbSA.ComputeResidual (swapEndpoints self) out).2.val_residual 0
          = -(CAvgGradCorrected_TurbSA.ComputeResidual self out).2.val_residual 0)
    ∧ (2 ≤ self.nVar → ∀ k, k < 2 →
        (CAvgGradCorrected_TurbSST.ComputeResidual (swapEndpoints self) out).2.val_residual k
          = -(CAvgGradCorrected_TurbSST.ComputeResidual self out).2.val_residual k) := by
  have hnV : (swapEndpoints self).nVar = self.nVar := rfl
  have hnD : (swapEndpoints self).nDim = self.nDim := rfl
  have him : (swapEndpoints self).implicit = self.implicit := rfl
  have hTi : (swapEndpoints self).TurbVar_i = self.TurbVar_j := rfl
  have hTj : (swapEndpoints self).TurbVar_j = self.TurbVar_i := rfl
  have hVi : (swapEndpoints self).V_i = self.V_j := rfl
  have hVj : (swapEndpoints self).V_j = self.V_i := rfl
  have hsig : (swapEndpoints self).sigma = self.sigma := rfl
  simp only [CUpwSca_TurbSA_run, CUpwSca_TurbSST_run, CAvgGradCorrected_TurbSA_run,
    CAvgGradCorrected_TurbSST_run, fluxSpeed_swap, nuE_swap, diffKine_swap, diffOmega_swap,
    correctedProj_swap, hnV, hnD, him, hTi, hTj, hVi, hVj, hsig, abs_neg]
  refine ⟨⟨?_, ?_⟩, ⟨?_, ?_⟩, ?_, ?_⟩
  · simp only [setAt_same]; ring
  · intro hi
    simp only [hi, if_true, setAt2_same]
    constructor <;> ring
  · intro k hk
    interval_cases k
    · simp only [setAt, if_true, Nat.zero_ne_one, if_false]; ring
    · simp only [setAt, if_true]; ring
  · intro hi r c hr hc
    simp only [hi, if_true]
    interval_cases r <;> interval_cases c <;> constructor <;>
      first
      | (norm_num [setAt2]; done)
      | (norm_num [setAt2]; ring1)
  · intro h1
    have h0 : 0 < self.nVar := h1
    simp only [h0, if_true, setAt_same]
    ring
  · intro h2 k hk
    have h0 : 0 < self.nVar := by omega
    have h1 : 1 < self.nVar := h2
    interval_cases k
    · simp only [setAt, h0, h1, if_true, Nat.zero_ne_one, if_false]; ring
    · simp only [setAt, h0, h1, if_true]; ring

theorem C28_edge_flux_conservative_witness :
    (scenarioSkew ℚ).implicit = true ∧ 2 ≤ (scenarioSkew ℚ).nVar
    ∧ (CUpwSca_TurbSST.ComputeResidual (swapEndpoints (scenarioSkew ℚ)) staleBuffers).2.val_Jacobian_i
          1 1
        = -(CUpwSca_TurbSST.ComputeResidual (scenarioSkew ℚ) staleBuffers).2.val_Jacobian_j 1 1
    ∧ (CAvgGradCorrected_TurbSA.ComputeResidual (swapEndpoints (scenarioSkew ℚ))
          staleBuffers).2.val_residual 0
        = -(CAvgGradCorrected_TurbSA.ComputeResidual (scenarioSkew ℚ) staleBuffers).2.val_residual 0
    ∧ (CAvgGradCorrected_TurbSST.ComputeResidual (swapEndpoints (scenarioSkew ℚ))
          staleBuffers).2.val_residual 1
        = -(CAvgGradCorrected_TurbSST.ComputeResidual (scenarioSkew ℚ) staleBuffers).2.val_residual
            1 :=
  ⟨rfl, by decide,
    ((C28_edge_flux_conservative (scenarioSkew ℚ) staleBuffers).2.1.2 rfl 1 1 (by decide)
      (by decide)).1,
    (C28_edge_flux_conservative (scenarioSkew ℚ) staleBuffers).2.2.1 (by decide),
    (C28_edge_flux_conservative (scenarioSkew ℚ) staleBuffers).2.2.2 (by decide) 1 (by decide)⟩

/-! ## The corrected viscous Jacobians as derivatives -/

theorem nuE_withTurbVar_i (self : CNumerics α) (t : α) :
    nuE (withTurbVar_i self 0 t) = nuE self + (t - self.TurbVar_i 0)/2 := by
  simp only [nuE, withTurbVar_i, setAt, if_true]
  ring

theorem nuE_withTurbVar_j (self : CNumerics α) (t : α) :
    nuE (withTurbVar_j self 0 t) = nuE self + (t - self.TurbVar_j 0)/2 := by
  simp only [nuE, withTurbVar_j, setAt, if_true]
  ring

theorem correctedProj_withTurbVar_i (self : CNumerics α) (k : Nat) (t : α) :
    correctedProj (withTurbVar_i self k t) k
      = correctedProj self k - edgeProj self*(t - self.TurbVar_i k) := by
  have h1 : meanGradDot (withTurbVar_i self k t) (withTurbVar_i self k t).Normal k
      = meanGradDot self self.Normal k := rfl
  have h2 : meanGradDot (withTurbVar_i self k t) (edgeVector (withTurbVar_i self k t)) k
      = meanGradDot self (edgeVector self) k := rfl
  have h3 : edgeProj (withTurbVar_i self k t) = edgeProj self := rfl
  have h4 : (withTurbVar_i self k t).TurbVar_j = self.TurbVar_j := rfl
  have h5 : (withTurbVar_i self k t).TurbVar_i k = t := by simp [withTurbVar_i, setAt]
  simp only [correctedProj, h1, h2, h3, h4, h5]
  ring

theorem correctedProj_withTurbVar_j (self : CNumerics α) (k : Nat) (t : α) :
    correctedProj (withTurbVar_j self k t) k
      = correctedProj self k + edgeProj self*(t - self.TurbVar_j k) := by
  have h1 : meanGradDot (withTurbVar_j self k t) (withTurbVar_j self k t).Normal k
      = meanGradDot self self.Normal k := rfl
  have h2 : meanGradDot (withTurbVar_j self k t) (edgeVector (withTurbVar_j self k t)) k
      = meanGradDot self (edgeVector self) k := rfl
  have h3 : edgeProj (withTurbVar_j self k t) = edgeProj self := rfl
  have h4 : (withTurbVar_j self k t).TurbVar_i = self.TurbVar_i := rfl
  have h5 : (withTurbVar_j self k t).TurbVar_j k = t := by simp [withTurbVar_j, setAt]
  simp only [correctedProj, h1, h2, h3, h4, h5]
  ring

/-- The residual of `CAvgGradCorrected_TurbSA` as a function of `turb_i`. -/
theorem correctedSA_residual_i (self : CNumerics α) (out : Buffers α) (hn : 1 ≤ self.nVar)
    (t : α) :
    (CAvgGradCorrected_TurbSA.ComputeResidual (withTurbVar_i self 0 t) out).2.val_residual 0
      = (nuE self + (t - self.TurbVar_i 0)/2)
          *(correctedProj self 0 - edgeProj self*(t - self.TurbVar_i 0))/self.sigma := by
  have h0 : 0 < (withTurbVar_i self 0 t).nVar := hn
  have hs : (withTurbVar_i self 0 t).sigma = self.sigma := rfl
  rw [CAvgGradCorrected_TurbSA_run]
  simp only [setAt_same, h0, if_true, nuE_withTurbVar_i, correctedProj_withTurbVar_i, hs]

/-- The residual of `CAvgGradCorrected_TurbSA` as a function of `turb_j`. -/
theorem correctedSA_residual_j (self : CNumerics α) (out : Buffers α) (hn : 1 ≤ self.nVar)
    (t : α) :
    (CAvgGradCorrected_TurbSA.ComputeResidual (withTurbVar_j self 0 t) out).2.val_residual 0
      = (nuE self + (t - self.TurbVar_j 0)/2)
          *(correctedProj self 0 + edgeProj self*(t - self.TurbVar_j 0))/self.sigma := by
  have h0 : 0 < (withTurbVar_j self 0 t).nVar := hn
  have hs : (withTurbVar_j self 0 t).sigma = self.sigma := rfl
  rw [CAvgGradCorrected_TurbSA_run]
  simp only [setAt_same, h0, if_true, nuE_withTurbVar_j, correctedProj_withTurbVar_j, hs]

/-- Residual `k` of `CAvgGradCorrected_TurbSST` as a function of `turb_i[k]`. -/
theorem correctedSST_residual_i (self : CNumerics α) (out : Buffers α) (hn : 2 ≤ self.nVar)
    (k : Nat) (hk : k < 2) (t : α) :
    (CAvgGradCorrected_TurbSST.ComputeResidual (withTurbVar_i self k t) out).2.val_residual k
      = diffOf self k*(correctedProj self k - edgeProj self*(t - self.TurbVar_i k)) := by
  have h0 : 0 < (withTurbVar_i self k t).nVar := by show 0 < self.nVar; omega
  have h1 : 1 < (withTurbVar_i self k t).nVar := hn
  have hd : diffKine (withTurbVar_i self k t) = diffKine self := rfl
  have ho : diffOmega (withTurbVar_i self k t) = diffOmega self := rfl
  rw [CAvgGradCorrected_TurbSST_run]
  interval_cases k
  · simp only [setAt, h0, if_true, Nat.zero_ne_one, if_false, hd, diffOf]
    rw [correctedProj_withTurbVar_i]
  · simp only [setAt, h1, if_true, ho, diffOf, Nat.one_ne_zero, if_false]
    rw [correctedProj_withTurbVar_i]

/-- Residual `k` of `CAvgGradCorrected_TurbSST` as a function of `turb_j[k]`. -/
theorem correctedSST_residual_j (self : CNumerics α) (out : Buffers α) (hn : 2 ≤ self.nVar)
    (k : Nat) (hk : k < 2) (t : α) :
    (CAvgGradCorrected_TurbSST.ComputeResidual (withTurbVar_j self k t) out).2.val_residual k
      = diffOf self k*(correctedProj self k + edgeProj self*(t - self.TurbVar_j k)) := by
  have h0 : 0 < (withTurbVar_j self k t).nVar := by show 0 < self.nVar; omega
  have h1 : 1 < (withTurbVar_j self k t).nVar := hn
  have hd : diffKine (withTurbVar_j self k t) = diffKine self := rfl
  have ho : diffOmega (withTurbVar_j self k t) = diffOmega self := rfl
  rw [CAvgGradCorrected_TurbSST_run]
  interval_cases k
  · simp only [setAt, h0, if_true, Nat.zero_ne_one, if_false, hd, diffOf]
    rw [correctedProj_withTurbVar_j]
  · simp only [setAt, h1, if_true, ho, diffOf, Nat.one_ne_zero, if_false]
    rw [correctedProj_withTurbVar_j]

/-- The diagonal Jacobian entries of `CAvgGradCorrected_TurbSST`. -/
theorem correctedSST_jacobian_diag (self : CNumerics α) (out : Buffers α)
    (hi : self.implicit = true) (k : Nat) (hk : k < 2) :
    (CAvgGradCorrected_TurbSST.ComputeResidual self out).2.val_Jacobian_i k k
        = -diffOf self k*edgeProj self/self.V_i (self.nDim+2)
    ∧ (CAvgGradCorrected_TurbSST.ComputeResidual self out).2.val_Jacobian_j k k
        = diffOf self k*edgeProj self/self.V_j (self.nDim+2) := by
  rw [CAvgGradCorrected_TurbSST_run]
  simp only [hi, if_true]
  interval_cases k <;> constructor <;> simp [setAt2, diffOf]

theorem setAt_self {β : Type} (f : Nat → β) (k : Nat) : setAt f k (f k) = f := by
  funext d
  unfold setAt
  split_ifs with h
  · rw [h]
  · rfl

theorem withTurbVar_i_self {α : Type} [LinearOrderedField α] (self : CNumerics α) (k : Nat) :
    withTurbVar_i self k (self.TurbVar_i k) = self := by
  unfold withTurbVar_i
  rw [setAt_self]

theorem withTurbVar_j_self {α : Type} [LinearOrderedField α] (self : CNumerics α) (k : Nat) :
    withTurbVar_j self k (self.TurbVar_j k) = self := by
  unfold withTurbVar_j
  rw [setAt_self]

theorem hasDerivAt_shift (t0 c : ℝ) : HasDerivAt (fun t => c*(t - t0)) c t0 := by
  simpa using ((hasDerivAt_id t0).sub_const t0).const_mul c

/-- C29.  For the corrected viscous operators with the implicit flag set, the
Jacobians are the exact partial derivatives of the residual with the endpoint
gradients, primitives and geometry held fixed: for `CAvgGradCorrected_TurbSA`
(one variable stored), `Jacobian_i[0][0] = ∂residual/∂turb_i` and
`Jacobian_j[0][0] = ∂residual/∂turb_j`; for `CAvgGradCorrected_TurbSST` (two
variables stored) and each `k`, `Jacobian_i[k][k] = ∂residual[k]/∂(ρ_i·turb_i[k])`
and `Jacobian_j[k][k] = ∂residual[k]/∂(ρ_j·turb_j[k])` at fixed non-zero
densities, the derivative being taken at the state of the call.  Real
arithmetic. -/
theorem C29_corrected_jacobians_are_derivatives (self : CNumerics ℝ) (out : Buffers ℝ)
    (hi : self.implicit = true) :
    (1 ≤ self.nVar →
      HasDerivAt
          (fun t => (CAvgGradCorrected_TurbSA.ComputeResidual (withTurbVar_i self 0 t)
            out).2.val_residual 0)
          ((CAvgGradCorrected_TurbSA.ComputeResidual self out).2.val_Jacobian_i 0 0)
          (self.TurbVar_i 0)
      ∧ HasDerivAt
          (fun t => (CAvgGradCorrected_TurbSA.ComputeResidual (withTurbVar_j self 0 t)
            out).2.val_residual 0)
          ((CAvgGradCorrected_TurbSA.ComputeResidual self out).2.val_Jacobian_j 0 0)
          (self.TurbVar_j 0))
    ∧ (2 ≤ self.nVar → self.V_i (self.nDim+2) ≠ 0 → self.V_j (self.nDim+2) ≠ 0 →
      ∀ k, k < 2 →
        withTurbVar_i self k (self.V_i (self.nDim+2)*self.TurbVar_i k/self.V_i (self.nDim+2))
          = self
        ∧ withTurbVar_j self k (self.V_j (self.nDim+2)*self.TurbVar_j k/self.V_j (self.nDim+2))
          = self
        ∧ HasDerivAt
            (fun U => (CAvgGradCorrected_TurbSST.ComputeResidual
              (withTurbVar_i self k (U/self.V_i (self.nDim+2))) out).2.val_residual k)
            ((CAvgGradCorrected_TurbSST.ComputeResidual self out).2.val_Jacobian_i k k)
            (self.V_i (self.nDim+2)*self.TurbVar_i k)
        ∧ HasDerivAt
            (fun U => (CAvgGradCorrected_TurbSST.ComputeResidual
              (withTurbVar_j self k (U/self.V_j (self.nDim+2))) out).2.val_residual k)
            ((CAvgGradCorrected_TurbSST.ComputeResidual self out).2.val_Jacobian_j k k)
            (self.V_j (self.nDim+2)*self.TurbVar_j k)) := by
  constructor
  · intro hn
    have h0 : 0 < self.nVar := hn
    have hJ : (CAvgGradCorrected_TurbSA.ComputeResidual self out).2.val_Jacobian_i 0 0
          = (correctedProj self 0/2 - nuE self*edgeProj self)/self.sigma
        ∧ (CAvgGradCorrected_TurbSA.ComputeResidual self out).2.val_Jacobian_j 0 0
          = (correctedProj self 0/2 + nuE self*edgeProj self)/self.sigma := by
      rw [CAvgGradCorrected_TurbSA_run]
      simp only [hi, if_true, setAt2_same, h0, half_lit]
      constructor <;> ring
    rw [hJ.1, hJ.2]
    simp only [correctedSA_residual_i self out hn, correctedSA_residual_j self out hn]
    constructor
    · have ha := ((hasDerivAt_shift (self.TurbVar_i 0) (1/2)).const_add (nuE self))
      have hb := ((hasDerivAt_shift (self.TurbVar_i 0) (edgeProj self)).const_sub
        (correctedProj self 0))
      have h := (ha.mul hb).div_const self.sigma
      simp only [sub_self, mul_zero, add_zero, sub_zero] at h
      refine (h.congr_deriv (by ring)).congr_of_eventuallyEq ?_
      exact Filter.Eventually.of_forall (fun t => by ring)
    · have ha := ((hasDerivAt_shift (self.TurbVar_j 0) (1/2)).const_add (nuE self))
      have hb := ((hasDerivAt_shift (self.TurbVar_j 0) (edgeProj self)).const_add
        (correctedProj self 0))
      have h := (ha.mul hb).div_const self.sigma
      simp only [sub_self, mul_zero, add_zero] at h
      refine (h.congr_deriv (by ring)).congr_of_eventuallyEq ?_
      exact Filter.Eventually.of_forall (fun t => by ring)
  · intro hn hri hrj k hk
    obtain ⟨hJi, hJj⟩ := correctedSST_jacobian_diag self out hi k hk
    rw [hJi, hJj]
    simp only [correctedSST_residual_i self out hn k hk, correctedSST_residual_j self out hn k hk]
    refine ⟨?_, ?_, ?_, ?_⟩
    · rw [mul_div_cancel_left₀ _ hri, withTurbVar_i_self]
    · rw [mul_div_cancel_left₀ _ hrj, withTurbVar_j_self]
    · have hu := ((hasDerivAt_id (self.V_i (self.nDim+2)*self.TurbVar_i k)).div_const
        (self.V_i (self.nDim+2))).sub_const (self.TurbVar_i k)
      have h := ((hu.const_mul (edgeProj self)).const_sub (correctedProj self k)).const_mul
        (diffOf self k)
      refine h.congr_deriv ?_
      ring
    · have hu := ((hasDerivAt_id (self.V_j (self.nDim+2)*self.TurbVar_j k)).div_const
        (self.V_j (self.nDim+2))).sub_const (self.TurbVar_j k)
      have h := ((hu.const_mul (edgeProj self)).const_add (correctedProj self k)).const_mul
        (diffOf self k)
      refine h.congr_deriv ?_
      ring

theorem C29_corrected_jacobians_are_derivatives_witness :
    (scenarioSkew ℝ).implicit = true ∧ 2 ≤ (scenarioSkew ℝ).nVar
    ∧ (scenarioSkew ℝ).V_i ((scenarioSkew ℝ).nDim+2) ≠ 0
    ∧ (scenarioSkew ℝ).V_j ((scenarioSkew ℝ).nDim+2) ≠ 0
    ∧ HasDerivAt
        (fun t => (CAvgGradCorrected_TurbSA.ComputeResidual (withTurbVar_i (scenarioSkew ℝ) 0 t)
          (staleOutputs ℝ)).2.val_residual 0)
        ((CAvgGradCorrected_TurbSA.ComputeResidual (scenarioSkew ℝ)
          (staleOutputs ℝ)).2.val_Jacobian_i 0 0)
        ((scenarioSkew ℝ).TurbVar_i 0)
    ∧ HasDerivAt
        (fun U => (CAvgGradCorrected_TurbSST.ComputeResidual
          (withTurbVar_j (scenarioSkew ℝ) 1 (U/(scenarioSkew ℝ).V_j ((scenarioSkew ℝ).nDim+2)))
          (staleOutputs ℝ)).2.val_residual 1)
        ((CAvgGradCorrected_TurbSST.ComputeResidual (scenarioSkew ℝ)
          (staleOutputs ℝ)).2.val_Jacobian_j 1 1)
        ((scenarioSkew ℝ).V_j ((scenarioSkew ℝ).nDim+2)*(scenarioSkew ℝ).TurbVar_j 1) :=
  ⟨rfl, le_refl 2, by norm_num [scenarioSkew, vec], by norm_num [scenarioSkew, vec],
    ((C29_corrected_jacobians_are_derivatives (scenarioSkew ℝ) (staleOutputs ℝ) rfl).1
      (by show 1 ≤ 2; decide)).1,
    ((C29_corrected_jacobians_are_derivatives (scenarioSkew ℝ) (staleOutputs ℝ) rfl).2
      (le_refl 2) (by norm_num [scenarioSkew, vec]) (by norm_num [scenarioSkew, vec]) 1
      (by decide)).2.2.2⟩

/-! ## One-equation source terms: closed form for either transition setting -/

theorem tenth_lit : (0.1 : α) = 1/10 := by norm_num

theorem sourceSA_production_runT (sqrt : α → α) (self : CSourcePieceWise_TurbSA α) :
    sourceSA_production (sourceSA_fv (saStateVorticity sqrt self))
      = { saStateProduction sqrt self with Production := saProductionT sqrt self } := by
  cases ht : self.transition
  · rw [sourceSA_production_run sqrt self ht]
    simp only [saProductionT, ht, Bool.false_eq_true, if_false]
    rfl
  · simp only [sourceSA_production, sourceSA_fv, saStateProduction, saStateVorticity, saStateReset,
      ht, one_lit, tiny_lit, saProductionT, Bool.not_true, Bool.false_eq_true, if_false, if_true]
    rfl

theorem sourceSA_residual_runT (sqrt : α → α) (pow : α → α → α)
    (self : CSourcePieceWise_TurbSA α) :
    sourceSA_diffusion (sourceSA_destruction pow
        { saStateProduction sqrt self with Production := saProductionT sqrt self })
      = { saStateResidual sqrt pow self with
          Production := saProductionT sqrt self
          Destruction := saDestructionT sqrt pow self } := by
  cases ht : self.transition <;>
  · simp only [sourceSA_diffusion, sourceSA_destruction, forLoop_sourceSA_gradBody,
      saStateResidual, saStateProduction, saStateVorticity, saStateReset,
      ht, one_lit, ten_lit, six_lit, zero_lit, tenth_lit, zero_add, Bool.not_false, Bool.not_true,
      Bool.false_eq_true, if_true, if_false, saDestructionT]
    simp only [saR, saG, saG6, saGlim, saFw, saDestruction, saCrossProduction, saNorm2Grad]

theorem sourceSA_jacobian_runT (sqrt : α → α) (pow : α → α → α)
    (self : CSourcePieceWise_TurbSA α) (out : Buffers α) :
    sourceSA_jacobianDestruction
        (sourceSA_jacobianProduction
          { saStateResidual sqrt pow self with
            Production := saProductionT sqrt self
            Destruction := saDestructionT sqrt pow self } out).1
        (sourceSA_jacobianProduction
          { saStateResidual sqrt pow self with
            Production := saProductionT sqrt self
            Destruction := saDestructionT sqrt pow self } out).2
      = (saStateFinalT sqrt pow self,
          { out with
            val_Jacobian_i := setAt2 out.val_Jacobian_i 0 0
              (out.val_Jacobian_i 0 0 + saJacobian sqrt pow self) }) := by
  by_cases h : saShat sqrt self ≤ 1e-10 <;> by_cases h' : saR sqrt self = 10 <;>
    simp only [sourceSA_jacobianDestruction, sourceSA_jacobianProduction, saStateFinalT,
      saStateFinal, saStateResidual, saStateProduction, saStateVorticity, saStateReset,
      one_lit, two_lit, three_lit, six_lit, ten_lit, zero_lit, tiny_lit, h, h', if_true,
      if_false, saDfw, saDg, saDr, saDShat, saDfv1, saDfv2, saJ3, saJacobian, zero_mul, mul_zero,
      setAt2_setAt2, setAt2_same, add_sub_assoc]

/-- Closed form of `CSourcePieceWise_TurbSA::ComputeResidual` away from the wall,
in either setting of the transition flag. -/
theorem CSourcePieceWise_TurbSA_runT (sqrt : α → α) (pow : α → α → α)
    (self : CSourcePieceWise_TurbSA α) (out : Buffers α) (h : 1e-10 < self.dist_i) :
    CSourcePieceWise_TurbSA.ComputeResidual sqrt pow self out
      = (saStateFinalT sqrt pow self,
          { out with
            val_residual := setAt out.val_residual 0
              (saProductionT sqrt self - saDestructionT sqrt pow self + saCrossProduction self)
            val_Jacobian_i := setAt2 out.val_Jacobian_i 0 0 (saJacobian sqrt pow self) }) := by
  have hd : (saStateVorticity sqrt self).dist_i = self.dist_i := rfl
  unfold CSourcePieceWise_TurbSA.ComputeResidual
  simp only [sourceSA_reset_run, sourceSA_vorticity_run, hd, gt_iff_lt, h, if_true,
    sourceSA_production_runT, sourceSA_residual_runT]
  have hj := sourceSA_jacobian_runT sqrt pow self
    { val_residual := setAt (setAt out.val_residual 0 0) 0
        (saProductionT sqrt self - saDestructionT sqrt pow self + saCrossProduction self)
      val_Jacobian_i := setAt2 out.val_Jacobian_i 0 0 0
      val_Jacobian_j := out.val_Jacobian_j }
  simp only [setAt2_setAt2, setAt2_same, setAt_setAt, zero_add] at hj
  have hc : (saStateResidual sqrt pow self).CrossProduction = saCrossProduction self := rfl
  simp only [setAt_setAt, hc]
  exact hj

/-! ## Outputs as functions of the inputs -/

theorem congr_edge_inputs {β : Type} (F : CNumerics α → β)
    (hF : ∀ s, F s = F (CNumerics.ofInputs s.toCNumericsInputs)) (e1 e2 : CNumerics α)
    (he : e1.toCNumericsInputs = e2.toCNumericsInputs) : F e1 = F e2 := by
  rw [hF e1, hF e2, he]

theorem congr_source_inputs {β : Type} (F : CSourcePieceWise_TurbSA α → β)
    (hF : ∀ s, F s = F (CSourcePieceWise_TurbSA.ofInputs s.toCSourceSAConstants))
    (a1 a2 : CSourcePieceWise_TurbSA α)
    (ha : a1.toCSourceSAConstants = a2.toCSourceSAConstants) : F a1 = F a2 := by
  rw [hF a1, hF a2, ha]

/-- The written outputs of the one-equation source routine are functions of the
inputs and constants. -/
theorem sourceSA_outputs_congr (sqrt : α → α) (pow : α → α → α)
    (a1 a2 : CSourcePieceWise_TurbSA α) (out1 out2 : Buffers α)
    (ha : a1.toCSourceSAConstants = a2.toCSourceSAConstants) :
    (CSourcePieceWise_TurbSA.ComputeResidual sqrt pow a1 out1).2.val_residual 0
        = (CSourcePieceWise_TurbSA.ComputeResidual sqrt pow a2 out2).2.val_residual 0
    ∧ (CSourcePieceWise_TurbSA.ComputeResidual sqrt pow a1 out1).2.val_Jacobian_i 0 0
        = (CSourcePieceWise_TurbSA.ComputeResidual sqrt pow a2 out2).2.val_Jacobian_i 0 0 := by
  have hd : a1.dist_i = a2.dist_i :=
    congr_source_inputs (fun s => s.dist_i) (fun _ => rfl) a1 a2 ha
  rcases lt_or_le (1e-10 : α) a1.dist_i with h | h
  · rw [CSourcePieceWise_TurbSA_runT sqrt pow a1 out1 h,
      CSourcePieceWise_TurbSA_runT sqrt pow a2 out2 (hd ▸ h)]
    simp only [setAt_same, setAt2_same]
    constructor
    · exact congr_source_inputs
        (fun s => saProductionT sqrt s - saDestructionT sqrt pow s + saCrossProduction s)
        (fun _ => rfl) a1 a2 ha
    · exact congr_source_inputs (fun s => saJacobian sqrt pow s) (fun _ => rfl) a1 a2 ha
  · rw [CSourcePieceWise_TurbSA_wall sqrt pow a1 out1 h,
      CSourcePieceWise_TurbSA_wall sqrt pow a2 out2 (hd ▸ h)]
    simp only [setAt_same, setAt2_same, and_self]

/-- The outputs of the two-equation source routine do not depend on the scratch
members. -/
theorem sourceSST_outputs_congr (t : CSourcePieceWise_TurbSST α) (density laminar eddy : α)
    (out1 out2 : Buffers α) (k r c : Nat) (hk : k < 2) (hr : r < 2) (hc : c < 2) :
    (CSourcePieceWise_TurbSST.ComputeResidual
        (CSourcePieceWise_TurbSST.withScratch t density laminar eddy) out1).2.val_residual k
      = (CSourcePieceWise_TurbSST.ComputeResidual t out2).2.val_residual k
    ∧ (CSourcePieceWise_TurbSST.ComputeResidual
        (CSourcePieceWise_TurbSST.withScratch t density laminar eddy) out1).2.val_Jacobian_i r c
      = (CSourcePieceWise_TurbSST.ComputeResidual t out2).2.val_Jacobian_i r c := by
  rcases lt_or_le (1e-10 : α) t.dist_i with h | h
  · rw [CSourcePieceWise_TurbSST_run t out2 h,
      CSourcePieceWise_TurbSST_run (CSourcePieceWise_TurbSST.withScratch t density laminar eddy)
        out1 h]
    have e1 : sstPk (CSourcePieceWise_TurbSST.withScratch t density laminar eddy) = sstPk t := rfl
    have e2 : sstPw (CSourcePieceWise_TurbSST.withScratch t density laminar eddy) = sstPw t := rfl
    have e3 : sstAlfaBlended (CSourcePieceWise_TurbSST.withScratch t density laminar eddy)
        = sstAlfaBlended t := rfl
    have e4 : sstBetaBlended (CSourcePieceWise_TurbSST.withScratch t density laminar eddy)
        = sstBetaBlended t := rfl
    have hV : (CSourcePieceWise_TurbSST.withScratch t density laminar eddy).Volume = t.Volume :=
      rfl
    have hb : (CSourcePieceWise_TurbSST.withScratch t density laminar eddy).beta_star
        = t.beta_star := rfl
    have hVi : (CSourcePieceWise_TurbSST.withScratch t density laminar eddy).V_i = t.V_i := rfl
    have hnD : (CSourcePieceWise_TurbSST.withScratch t density laminar eddy).nDim = t.nDim := rfl
    have hT : (CSourcePieceWise_TurbSST.withScratch t density laminar eddy).TurbVar_i
        = t.TurbVar_i := rfl
    have hF : (CSourcePieceWise_TurbSST.withScratch t density laminar eddy).F1_i = t.F1_i := rfl
    have hC : (CSourcePieceWise_TurbSST.withScratch t density laminar eddy).CDkw = t.CDkw := rfl
    simp only [e1, e2, e3, e4, hV, hb, hVi, hnD, hT, hF, hC]
    constructor
    · interval_cases k <;> simp [setAt]
    · interval_cases r <;> interval_cases c <;> simp [setAt2]
  · rw [CSourcePieceWise_TurbSST_wall t out2 h,
      CSourcePieceWise_TurbSST_wall (CSourcePieceWise_TurbSST.withScratch t density laminar eddy)
        out1 h]
    constructor
    · interval_cases k <;> simp [setAt]
    · interval_cases r <;> interval_cases c <;> simp [setAt2]

/-- The written outputs of the six edge operators are functions of the inputs. -/
theorem edge_outputs_congr (e1 e2 : CNumerics α)
    (he : e1.toCNumericsInputs = e2.toCNumericsInputs) :
    fluxSpeed e1 = fluxSpeed e2 ∧ nuE e1 = nuE e2 ∧ edgeProj e1 = edgeProj e2
    ∧ diffKine e1 = diffKine e2 ∧ diffOmega e1 = diffOmega e2
    ∧ (∀ k, meanGradDot e1 e1.Normal k = meanGradDot e2 e2.Normal k)
    ∧ (∀ k, correctedProj e1 k = correctedProj e2 k)
    ∧ e1.implicit = e2.implicit ∧ e1.nVar = e2.nVar ∧ e1.nDim = e2.nDim
    ∧ e1.sigma = e2.sigma ∧ e1.TurbVar_i = e2.TurbVar_i ∧ e1.TurbVar_j = e2.TurbVar_j
    ∧ e1.V_i = e2.V_i ∧ e1.V_j = e2.V_j :=
  ⟨congr_edge_inputs fluxSpeed (fun _ => rfl) e1 e2 he,
    congr_edge_inputs nuE (fun _ => rfl) e1 e2 he,
    congr_edge_inputs edgeProj (fun _ => rfl) e1 e2 he,
    congr_edge_inputs diffKine (fun _ => rfl) e1 e2 he,
    congr_edge_inputs diffOmega (fun _ => rfl) e1 e2 he,
    fun k => congr_edge_inputs (fun s => meanGradDot s s.Normal k) (fun _ => rfl) e1 e2 he,
    fun k => congr_edge_inputs (fun s => correctedProj s k) (fun _ => rfl) e1 e2 he,
    congr_edge_inputs (fun s => s.implicit) (fun _ => rfl) e1 e2 he,
    congr_edge_inputs (fun s => s.nVar) (fun _ => rfl) e1 e2 he,
    congr_edge_inputs (fun s => s.nDim) (fun _ => rfl) e1 e2 he,
    congr_edge_inputs (fun s => s.sigma) (fun _ => rfl) e1 e2 he,
    congr_edge_inputs (fun s => s.TurbVar_i) (fun _ => rfl) e1 e2 he,
    congr_edge_inputs (fun s => s.TurbVar_j) (fun _ => rfl) e1 e2 he,
    congr_edge_inputs (fun s => s.V_i) (fun _ => rfl) e1 e2 he,
    congr_edge_inputs (fun s => s.V_j) (fun _ => rfl) e1 e2 he⟩

/-- C26.  For every operator and every pair of calls with equal inputs
(endpoint primitives, turbulence values and gradients, geometry, flags,
constants), the residual entries written are the same, and so are the Jacobian
entries written (for the edge operators, with the implicit flag set), whatever
the scratch members of the object and the output buffers held before each call.
The viscous operators are taken with the number of variables they index (one for
the one-equation, two for the two-equation operators). -/
theorem C26_outputs_depend_on_inputs_only (sqrt : α → α) (pow : α → α → α)
    (e1 e2 : CNumerics α) (a1 a2 : CSourcePieceWise_TurbSA α) (t : CSourcePieceWise_TurbSST α)
    (density laminar eddy : α) (out1 out2 : Buffers α)
    (he : e1.toCNumericsInputs = e2.toCNumericsInputs)
    (ha : a1.toCSourceSAConstants = a2.toCSourceSAConstants) :
    ((CUpwSca_TurbSA.ComputeResidual e1 out1).2.val_residual 0
        = (CUpwSca_TurbSA.ComputeResidual e2 out2).2.val_residual 0
      ∧ (e1.implicit = true →
          (CUpwSca_TurbSA.ComputeResidual e1 out1).2.val_Jacobian_i 0 0
            = (CUpwSca_TurbSA.ComputeResidual e2 out2).2.val_Jacobian_i 0 0
          ∧ (CUpwSca_TurbSA.ComputeResidual e1 out1).2.val_Jacobian_j 0 0
            = (CUpwSca_TurbSA.ComputeResidual e2 out2).2.val_Jacobian_j 0 0))
    ∧ (∀ k r c, k < 2 → r < 2 → c < 2 →
        (CUpwSca_TurbSST.ComputeResidual e1 out1).2.val_residual k
          = (CUpwSca_TurbSST.ComputeResidual e2 out2).2.val_residual k
        ∧ (e1.implicit = true →
          (CUpwSca_TurbSST.ComputeResidual e1 out1).2.val_Jacobian_i r c
            = (CUpwSca_TurbSST.ComputeResidual e2 out2).2.val_Jacobian_i r c
          ∧ (CUpwSca_TurbSST.ComputeResidual e1 out1).2.val_Jacobian_j r c
            = (CUpwSca_TurbSST.ComputeResidual e2 out2).2.val_Jacobian_j r c))
    ∧ (1 ≤ e1.nVar →
        ((CAvgGrad_TurbSA.ComputeResidual e1 out1).2.val_residual 0
          = (CAvgGrad_TurbSA.ComputeResidual e2 out2).2.val_residual 0
        ∧ (CAvgGradCorrected_TurbSA.ComputeResidual e1 out1).2.val_residual 0
          = (CAvgGradCorrected_TurbSA.ComputeResidual e2 out2).2.val_residual 0)
        ∧ (e1.implicit = true →
          (CAvgGrad_TurbSA.ComputeResidual e1 out1).2.val_Jacobian_i 0 0
            = (CAvgGrad_TurbSA.ComputeResidual e2 out2).2.val_Jacobian_i 0 0
          ∧ (CAvgGrad_TurbSA.ComputeResidual e1 out1).2.val_Jacobian_j 0 0
            = (CAvgGrad_TurbSA.ComputeResidual e2 out2).2.val_Jacobian_j 0 0
          ∧ (CAvgGradCorrected_TurbSA.ComputeResidual e1 out1).2.val_Jacobian_i 0 0
            = (CAvgGradCorrected_TurbSA.ComputeResidual e2 out2).2.val_Jacobian_i 0 0
          ∧ (CAvgGradCorrected_TurbSA.ComputeResidual e1 out1).2.val_Jacobian_j 0 0
            = (CAvgGradCorrected_TurbSA.ComputeResidual e2 out2).2.val_Jacobian_j 0 0))
    ∧ (2 ≤ e1.nVar → ∀ k r c, k < 2 → r < 2 → c < 2 →
        ((CAvgGrad_TurbSST.ComputeResidual e1 out1).2.val_residual k
          = (CAvgGrad_TurbSST.ComputeResidual e2 out2).2.val_residual k
        ∧ (CAvgGradCorrected_TurbSST.ComputeResidual e1 out1).2.val_residual k
          = (CAvgGradCorrected_TurbSST.ComputeResidual e2 out2).2.val_residual k)
        ∧ (e1.implicit = true →
          (CAvgGrad_TurbSST.ComputeResidual e1 out1).2.val_Jacobian_i r c
            = (CAvgGrad_TurbSST.ComputeResidual e2 out2).2.val_Jacobian_i r c
          ∧ (CAvgGrad_TurbSST.ComputeResidual e1 out1).2.val_Jacobian_j r c
            = (CAvgGrad_TurbSST.ComputeResidual e2 out2).2.val_Jacobian_j r c
          ∧ (CAvgGradCorrected_TurbSST.ComputeResidual e1 out1).2.val_Jacobian_i r c
            = (CAvgGradCorrected_TurbSST.ComputeResidual e2 out2).2.val_Jacobian_i r c
          ∧ (CAvgGradCorrected_TurbSST.ComputeResidual e1 out1).2.val_Jacobian_j r c
            = (CAvgGradCorrected_TurbSST.ComputeResidual e2 out2).2.val_Jacobian_j r c))
    ∧ ((CSourcePieceWise_TurbSA.ComputeResidual sqrt pow a1 out1).2.val_residual 0
        = (CSourcePieceWise_TurbSA.ComputeResidual sqrt pow a2 out2).2.val_residual 0
      ∧ (CSourcePieceWise_TurbSA.ComputeResidual sqrt pow a1 out1).2.val_Jacobian_i 0 0
        = (CSourcePieceWise_TurbSA.ComputeResidual sqrt pow a2 out2).2.val_Jacobian_i 0 0)
    ∧ (∀ k r c, k < 2 → r < 2 → c < 2 →
        (CSourcePieceWise_TurbSST.ComputeResidual
            (CSourcePieceWise_TurbSST.withScratch t density laminar eddy) out1).2.val_residual k
          = (CSourcePieceWise_TurbSST.ComputeResidual t out2).2.val_residual k
        ∧ (CSourcePieceWise_TurbSST.ComputeResidual
            (CSourcePieceWise_TurbSST.withScratch t density laminar eddy) out1).2.val_Jacobian_i
              r c
          = (CSourcePieceWise_TurbSST.ComputeResidual t out2).2.val_Jacobian_i r c) := by
  obtain ⟨hq, hnu, hpr, hdk, hdo, hK, hP, him, hnV, hnD, hsig, hTi, hTj, hVi, hVj⟩ :=
    edge_outputs_congr e1 e2 he
  simp only [CUpwSca_TurbSA_run, CUpwSca_TurbSST_run, CAvgGrad_TurbSA_run,
    CAvgGradCorrected_TurbSA_run, CAvgGrad_TurbSST_run, CAvgGradCorrected_TurbSST_run,
    hq, hnu, hpr, hdk, hdo, hK, hP, him, hnV, hnD, hsig, hTi, hTj, hVi, hVj]
  refine ⟨⟨?_, ?_⟩, ?_, ?_, ?_, sourceSA_outputs_congr sqrt pow a1 a2 out1 out2 ha,
    fun k r c hk hr hc => sourceSST_outputs_congr t density laminar eddy out1 out2 k r c hk hr hc⟩
  · simp only [setAt_same]
  · intro hi
    simp only [hi, if_true, setAt2_same, and_self]
  · intro k r c hk hr hc
    refine ⟨?_, fun hi => ?_⟩
    · interval_cases k <;> simp [setAt]
    · simp only [hi, if_true]
      interval_cases r <;> interval_cases c <;> simp [setAt2]
  · intro h1
    have h0 : 0 < e2.nVar := h1
    refine ⟨?_, fun hi => ?_⟩
    · simp only [setAt_same, h0, if_true, and_self]
    · simp only [hi, if_true, setAt2_same, h0, and_self]
  · intro h2 k r c hk hr hc
    have h0 : 0 < e2.nVar := by omega
    have h1 : 1 < e2.nVar := h2
    refine ⟨?_, fun hi => ?_⟩
    · interval_cases k <;> simp [setAt, h0, h1]
    · simp only [hi, if_true]
      interval_cases r <;> interval_cases c <;> simp [setAt2]

theorem C26_outputs_depend_on_inputs_only_witness :
    (scenarioSkew ℝ).toCNumericsInputs = (scenarioSkewStale ℝ).toCNumericsInputs
    ∧ (scenarioWallSA ℝ).toCSourceSAConstants
        = (CSourcePieceWise_TurbSA.ofInputs (scenarioWallSA ℝ).toCSourceSAConstants
          ).toCSourceSAConstants
    ∧ (scenarioSkewStale ℝ).Proj_Mean_GradTurbVar_Corrected 0 = 11
    ∧ (CAvgGradCorrected_TurbSA.ComputeResidual (scenarioSkew ℝ)
          (staleOutputs ℝ)).2.val_residual 0
        = (CAvgGradCorrected_TurbSA.ComputeResidual (scenarioSkewStale ℝ)
          { val_residual := fun _ => 1 }).2.val_residual 0
    ∧ (CSourcePieceWise_TurbSA.ComputeResidual Real.sqrt (fun x y => x ^ y) (scenarioWallSA ℝ)
          (staleOutputs ℝ)).2.val_Jacobian_i 0 0
        = (CSourcePieceWise_TurbSA.ComputeResidual Real.sqrt (fun x y => x ^ y)
          (CSourcePieceWise_TurbSA.ofInputs (scenarioWallSA ℝ).toCSourceSAConstants)
          { val_residual := fun _ => 1 }).2.val_Jacobian_i 0 0 :=
  ⟨rfl, rfl, rfl,
    ((C26_outputs_depend_on_inputs_only Real.sqrt (fun x y => x ^ y) (scenarioSkew ℝ)
      (scenarioSkewStale ℝ) (scenarioWallSA ℝ)
      (CSourcePieceWise_TurbSA.ofInputs (scenarioWallSA ℝ).toCSourceSAConstants)
      (scenarioStrain ℝ) 1 2 3 (staleOutputs ℝ) { val_residual := fun _ => 1 } rfl rfl).2.2.1
        (by show 1 ≤ 2; decide)).1.2,
    (C26_outputs_depend_on_inputs_only Real.sqrt (fun x y => x ^ y) (scenarioSkew ℝ)
      (scenarioSkewStale ℝ) (scenarioWallSA ℝ)
      (CSourcePieceWise_TurbSA.ofInputs (scenarioWallSA ℝ).toCSourceSAConstants)
      (scenarioStrain ℝ) 1 2 3 (staleOutputs ℝ) { val_residual := fun _ => 1 } rfl
      rfl).2.2.2.2.1.2⟩

/-! ## Idempotence of the primitive reconstruction -/

theorem primitiveOf_setAt_fixed (sqrt : α → α) (nDim : Nat) (Gamma R p v : α)
    (sol prim : Nat → α) :
    setAt (primitiveOf sqrt nDim Gamma R p sol
        (setAt (primitiveOf sqrt nDim Gamma R p sol prim) (nDim+3) v)) (nDim+3) v
      = setAt (primitiveOf sqrt nDim Gamma R p sol prim) (nDim+3) v := by
  funext k
  by_cases hk : k = nDim+3
  · simp [setAt, hk]
  · simp only [primitiveOf, setAt, hk, if_false]
    split_ifs <;> rfl

theorem eulerState_fixed (sqrt : α → α) (s : CVariable α) (config : CConfig α)
    (sol : Nat → α) :
    eulerState sqrt (eulerState sqrt s config sol) config sol = eulerState sqrt s config sol := by
  unfold eulerState
  simp only [primitiveOf_setAt_fixed]

theorem CEulerVariable_checksFail_congr (sqrt : α → α) (s s2 : CVariable α) (config : CConfig α)
    (hd : s2.nDim = s.nDim) (hv : s2.nVar = s.nVar) (hs : s2.Solution = s.Solution) :
    CEulerVariable.checksFail sqrt s2 config = CEulerVariable.checksFail sqrt s config := by
  simp only [CEulerVariable_checksFail_run, hd, hv, hs]

theorem rolledBack_eulerState (sqrt : α → α) (s : CVariable α) (config : CConfig α) :
    rolledBack (eulerState sqrt s config (rolledBack s)) = rolledBack s := by
  funext k
  simp only [rolledBack, eulerState]
  split_ifs <;> rfl

theorem CEulerVariable_SetPrimVar_twice (sqrt : α → α) (s : CVariable α) (config : CConfig α) :
    (CEulerVariable.SetPrimVar_Compressible sqrt
        (CEulerVariable.SetPrimVar_Compressible sqrt s config).1 config).1
      = (CEulerVariable.SetPrimVar_Compressible sqrt s config).1 := by
  rw [CEulerVariable_SetPrimVar_run sqrt s config]
  by_cases hf : CEulerVariable.checksFail sqrt s config = true
  · simp only [hf, if_true]
    rw [CEulerVariable_SetPrimVar_run]
    have hs : (eulerState sqrt s config (rolledBack s)).Solution = rolledBack s := rfl
    split_ifs
    · simp only [rolledBack_eulerState, eulerState_fixed]
    · simp only [hs, eulerState_fixed]
  · rw [if_neg hf]
    rw [CEulerVariable_SetPrimVar_run]
    have hc := CEulerVariable_checksFail_congr sqrt s (eulerState sqrt s config s.Solution)
      config rfl rfl rfl
    have hs : (eulerState sqrt s config s.Solution).Solution = s.Solution := rfl
    rw [hc, if_neg hf, hs, eulerState_fixed]

theorem primitiveOf_setAt3_fixed (sqrt : α → α) (nDim : Nat) (Gamma R p v w e : α)
    (sol prim : Nat → α) :
    setAt (setAt (setAt (primitiveOf sqrt nDim Gamma R p sol
        (setAt (setAt (setAt (primitiveOf sqrt nDim Gamma R p sol prim) (nDim+3) v)
          (nDim+5) w) (nDim+6) e)) (nDim+3) v) (nDim+5) w) (nDim+6) e
      = setAt (setAt (setAt (primitiveOf sqrt nDim Gamma R p sol prim) (nDim+3) v)
          (nDim+5) w) (nDim+6) e := by
  funext k
  by_cases h6 : k = nDim+6
  · simp [setAt, h6]
  · by_cases h5 : k = nDim+5
    · simp [setAt, h5]
    · by_cases h3 : k = nDim+3
      · simp [setAt, h3]
      · simp only [primitiveOf, setAt, h6, h5, h3, if_false]
        split_ifs <;> rfl

theorem nsState_fixed (sqrt : α → α) (s : CVariable α) (eddy_visc turb_ke : α)
    (config : CConfig α) (sol : Nat → α) :
    nsState sqrt (nsState sqrt s eddy_visc turb_ke config sol) eddy_visc turb_ke config sol
      = nsState sqrt s eddy_visc turb_ke config sol := by
  unfold nsState
  simp only [primitiveOf_setAt3_fixed]

theorem CNSVariable_checksFail_congr (sqrt : α → α) (s s2 : CVariable α) (turb_ke : α)
    (config : CConfig α) (hd : s2.nDim = s.nDim) (hv : s2.nVar = s.nVar)
    (hs : s2.Solution = s.Solution) :
    CNSVariable.checksFail sqrt s2 turb_ke config
      = CNSVariable.checksFail sqrt s turb_ke config := by
  simp only [CNSVariable_checksFail_run, hd, hv, hs]

theorem rolledBack_nsState (sqrt : α → α) (s : CVariable α) (eddy_visc turb_ke : α)
    (config : CConfig α) :
    rolledBack (nsState sqrt s eddy_visc turb_ke config (rolledBack s)) = rolledBack s := by
  funext k
  simp only [rolledBack, nsState]
  split_ifs <;> rfl

theorem CNSVariable_SetPrimVar_twice (sqrt : α → α) (s : CVariable α) (eddy_visc turb_ke : α)
    (config : CConfig α) :
    (CNSVariable.SetPrimVar_Compressible sqrt
        (CNSVariable.SetPrimVar_Compressible sqrt s eddy_visc turb_ke config).1
        eddy_visc turb_ke config).1
      = (CNSVariable.SetPrimVar_Compressible sqrt s eddy_visc turb_ke config).1 := by
  rw [CNSVariable_SetPrimVar_run sqrt s eddy_visc turb_ke config]
  by_cases hf : CNSVariable.checksFail sqrt s turb_ke config = true
  · simp only [hf, if_true]
    rw [CNSVariable_SetPrimVar_run]
    have hs : (nsState sqrt s eddy_visc turb_ke config (rolledBack s)).Solution
        = rolledBack s := rfl
    split_ifs
    · simp only [rolledBack_nsState, nsState_fixed]
    · simp only [hs, nsState_fixed]
  · rw [if_neg hf]
    rw [CNSVariable_SetPrimVar_run]
    have hc := CNSVariable_checksFail_congr sqrt s
      (nsState sqrt s eddy_visc turb_ke config s.Solution) turb_ke config rfl rfl rfl
    have hs : (nsState sqrt s eddy_visc turb_ke config s.Solution).Solution = s.Solution := rfl
    rw [hc, if_neg hf, hs, nsState_fixed]

theorem scenarioC_second_call_passes :
    CEulerVariable.checksFail Rat.sqrt
      (CEulerVariable.SetPrimVar_Compressible Rat.sqrt scenarioC scenarioConfig).1
      scenarioConfig = false := by
  rw [CEulerVariable_SetPrimVar_run, scenarioC_fails, if_pos rfl, CEulerVariable_checksFail_run]
  norm_num [eulerState, rolledBack, pressureOf, velocity2Of, radicandOf, temperatureOf,
    scenarioC, scenarioConfig, vec, Finset.sum_range_succ]

/-- C30 (idempotence of the reconstruction). A second call of
`SetPrimVar_Compressible` with the same arguments, right after a first one, leaves
the same `Solution`, `Solution_Old` and primitive vector as the first call left,
and in fact the same object, in the Euler and in the Navier-Stokes variant.  The
returned flag is not part of this: on the point of scenario C the first call
returns `false` and the second `true`. -/
theorem C30_SetPrimVar_idempotent (sqrt : α → α) (self : CVariable α) (eddy_visc turb_ke : α)
    (config : CConfig α) :
    let e1 := CEulerVariable.SetPrimVar_Compressible sqrt self config
    let e2 := CEulerVariable.SetPrimVar_Compressible sqrt e1.1 config
    let n1 := CNSVariable.SetPrimVar_Compressible sqrt self eddy_visc turb_ke config
    let n2 := CNSVariable.SetPrimVar_Compressible sqrt n1.1 eddy_visc turb_ke config
    (e2.1.Solution = e1.1.Solution ∧ e2.1.Solution_Old = e1.1.Solution_Old
      ∧ e2.1.Primitive = e1.1.Primitive ∧ e2.1 = e1.1)
    ∧ (n2.1.Solution = n1.1.Solution ∧ n2.1.Solution_Old = n1.1.Solution_Old
      ∧ n2.1.Primitive = n1.1.Primitive ∧ n2.1 = n1.1)
    ∧ (CEulerVariable.SetPrimVar_Compressible Rat.sqrt scenarioC scenarioConfig).2 = false
    ∧ (CEulerVariable.SetPrimVar_Compressible Rat.sqrt
        (CEulerVariable.SetPrimVar_Compressible Rat.sqrt scenarioC scenarioConfig).1
        scenarioConfig).2 = true := by
  intro e1 e2 n1 n2
  have he : e2.1 = e1.1 := CEulerVariable_SetPrimVar_twice sqrt self config
  have hn : n2.1 = n1.1 := CNSVariable_SetPrimVar_twice sqrt self eddy_visc turb_ke config
  refine ⟨⟨by rw [he], by rw [he], by rw [he], he⟩, ⟨by rw [hn], by rw [hn], by rw [hn], hn⟩,
    ?_, ?_⟩
  · rw [CEulerVariable_SetPrimVar_run, scenarioC_fails, if_pos rfl]
  · rw [CEulerVariable_SetPrimVar_run
      Rat.sqrt (CEulerVariable.SetPrimVar_Compressible Rat.sqrt scenarioC scenarioConfig).1,
      scenarioC_second_call_passes]
    rfl

/-! ## Vorticity of the point and of the source term -/

theorem CNSVariable_SetVorticity_run (s : CVariable α) :
    CNSVariable.SetVorticity s = { s with
      Vorticity := setAt (setAt (setAt s.Vorticity 0
          ((if s.nDim = 3 then s.Gradient_Primitive 3 1 else 0)
            - (if s.nDim = 3 then s.Gradient_Primitive 2 2 else 0)))
        1 (-((if s.nDim = 3 then s.Gradient_Primitive 3 0 else 0)
            - (if s.nDim = 3 then s.Gradient_Primitive 1 2 else 0))))
        2 (s.Gradient_Primitive 2 0 - s.Gradient_Primitive 1 1) } := by
  simp only [CNSVariable.SetVorticity, zero_lit]

theorem sourceSA_vorticity_of_run (sqrt : α → α) (pow : α → α → α)
    (self : CSourcePieceWise_TurbSA α) (out : Buffers α) :
    (CSourcePieceWise_TurbSA.ComputeResidual sqrt pow self out).1.Vorticity = saVorticity self
    ∧ (CSourcePieceWise_TurbSA.ComputeResidual sqrt pow self out).1.Omega
        = sqrt (saVorticity self) := by
  by_cases h : 1e-10 < self.dist_i
  · rw [CSourcePieceWise_TurbSA_runT sqrt pow self out h]
    exact ⟨rfl, rfl⟩
  · rw [CSourcePieceWise_TurbSA_wall sqrt pow self out (not_lt.mp h)]
    exact ⟨rfl, rfl⟩

theorem saVorticity_nonneg (self : CSourcePieceWise_TurbSA α) : 0 ≤ saVorticity self := by
  unfold saVorticity
  split_ifs
  · exact add_nonneg (mul_self_nonneg _) (add_nonneg (mul_self_nonneg _) (mul_self_nonneg _))
  · exact add_nonneg (mul_self_nonneg _) le_rfl

/-- C24 (vorticity). `CNSVariable::SetVorticity` stores the curl of the velocity
read from rows 1 to 3 of `Gradient_Primitive`: `(w_y − v_z, u_z − w_x, v_x − u_y)` in
three dimensions, and `(0, 0, v_x − u_y)` otherwise.  When the one-equation
source term is given the same gradient and dimension, the squared vorticity
magnitude it computes (its member `Vorticity`, whose root is `Omega`) is the
squared norm of that vector; `Omega²` is that number as well when `sqrt` squares
back to its argument on non-negative numbers. -/
theorem C24_vorticity_is_curl (sqrt : α → α) (pow : α → α → α) (self : CVariable α)
    (src : CSourcePieceWise_TurbSA α) (out : Buffers α)
    (hg : src.PrimVar_Grad_i = self.Gradient_Primitive) (hn : src.nDim = self.nDim) :
    let v := (CNSVariable.SetVorticity self).Vorticity
    let r := CSourcePieceWise_TurbSA.ComputeResidual sqrt pow src out
    (self.nDim = 3 →
      v 0 = self.Gradient_Primitive 3 1 - self.Gradient_Primitive 2 2
      ∧ v 1 = self.Gradient_Primitive 1 2 - self.Gradient_Primitive 3 0
      ∧ v 2 = self.Gradient_Primitive 2 0 - self.Gradient_Primitive 1 1)
    ∧ (self.nDim ≠ 3 →
      v 0 = 0 ∧ v 1 = 0 ∧ v 2 = self.Gradient_Primitive 2 0 - self.Gradient_Primitive 1 1)
    ∧ r.1.Vorticity = v 0*v 0 + v 1*v 1 + v 2*v 2
    ∧ ((∀ x : α, 0 ≤ x → sqrt x*sqrt x = x) →
        r.1.Omega*r.1.Omega = v 0*v 0 + v 1*v 1 + v 2*v 2) := by
  intro v r
  have hv0 : v 0 = (if self.nDim = 3 then self.Gradient_Primitive 3 1 else 0)
      - (if self.nDim = 3 then self.Gradient_Primitive 2 2 else 0) := by
    simp [v, CNSVariable_SetVorticity_run, setAt]
  have hv1 : v 1 = -((if self.nDim = 3 then self.Gradient_Primitive 3 0 else 0)
      - (if self.nDim = 3 then self.Gradient_Primitive 1 2 else 0)) := by
    simp [v, CNSVariable_SetVorticity_run, setAt]
  have hv2 : v 2 = self.Gradient_Primitive 2 0 - self.Gradient_Primitive 1 1 := by
    simp [v, CNSVariable_SetVorticity_run, setAt]
  have hr := sourceSA_vorticity_of_run sqrt pow src out
  have hs : saVorticity src = v 0*v 0 + v 1*v 1 + v 2*v 2 := by
    rw [hv0, hv1, hv2]
    unfold saVorticity
    rw [hg, hn]
    split_ifs <;> ring
  refine ⟨?_, ?_, ?_, ?_⟩
  · intro h3
    rw [hv0, hv1, hv2]
    rw [if_pos h3, if_pos h3, if_pos h3, if_pos h3]
    exact ⟨rfl, by ring, rfl⟩
  · intro h3
    rw [hv0, hv1, hv2]
    rw [if_neg h3, if_neg h3, if_neg h3, if_neg h3]
    exact ⟨by ring, by ring, rfl⟩
  · rw [← hs]; exact hr.1
  · intro hsq
    rw [← hs]
    show (CSourcePieceWise_TurbSA.ComputeResidual sqrt pow src out).1.Omega
      * (CSourcePieceWise_TurbSA.ComputeResidual sqrt pow src out).1.Omega = _
    rw [hr.2]
    exact hsq _ (saVorticity_nonneg src)

theorem C24_vorticity_is_curl_witness :
    (scenarioCurlSource ℝ).PrimVar_Grad_i = (scenarioCurl ℝ).Gradient_Primitive
    ∧ (scenarioCurlSource ℝ).nDim = (scenarioCurl ℝ).nDim
    ∧ (scenarioCurl ℝ).nDim = 3
    ∧ (∀ x : ℝ, 0 ≤ x → Real.sqrt x*Real.sqrt x = x)
    ∧ (CNSVariable.SetVorticity (scenarioCurl ℝ)).Vorticity 0 = 2
    ∧ (CNSVariable.SetVorticity (scenarioCurl ℝ)).Vorticity 1 = -4
    ∧ (CNSVariable.SetVorticity (scenarioCurl ℝ)).Vorticity 2 = 2
    ∧ (CSourcePieceWise_TurbSA.ComputeResidual Real.sqrt (fun x y => x ^ y)
        (scenarioCurlSource ℝ) (staleOutputs ℝ)).1.Vorticity = 24
    ∧ (CSourcePieceWise_TurbSA.ComputeResidual Real.sqrt (fun x y => x ^ y)
        (scenarioCurlSource ℝ) (staleOutputs ℝ)).1.Omega
      * (CSourcePieceWise_TurbSA.ComputeResidual Real.sqrt (fun x y => x ^ y)
        (scenarioCurlSource ℝ) (staleOutputs ℝ)).1.Omega = 24 := by
  have h := C24_vorticity_is_curl Real.sqrt (fun x y => x ^ y) (scenarioCurl ℝ)
    (scenarioCurlSource ℝ) (staleOutputs ℝ) rfl rfl
  have hsq : ∀ x : ℝ, 0 ≤ x → Real.sqrt x*Real.sqrt x = x := fun x hx => Real.mul_self_sqrt hx
  obtain ⟨h3, -, hv, ho⟩ := h
  obtain ⟨h0, h1, h2⟩ := h3 rfl
  have e0 : (CNSVariable.SetVorticity (scenarioCurl ℝ)).Vorticity 0 = 2 := by
    rw [h0]; norm_num [scenarioCurl, mat]
  have e1 : (CNSVariable.SetVorticity (scenarioCurl ℝ)).Vorticity 1 = -4 := by
    rw [h1]; norm_num [scenarioCurl, mat]
  have e2 : (CNSVariable.SetVorticity (scenarioCurl ℝ)).Vorticity 2 = 2 := by
    rw [h2]; norm_num [scenarioCurl, mat]
  refine ⟨rfl, rfl, rfl, hsq, e0, e1, e2, ?_, ?_⟩
  · rw [hv, e0, e1, e2]; norm_num
  · rw [ho hsq, e0, e1, e2]; norm_num

/-! ## Zero-filled primitive storage -/

theorem forLoop_zeroGradientRow (iVar n : Nat) (s : CVariable α) :
    forLoop n (fun iDim (self : CVariable α) =>
        { self with Gradient_Primitive := setAt2 self.Gradient_Primitive iVar iDim 0.0 }) s
      = { s with
          Gradient_Primitive := fun r c =>
            if r = iVar ∧ c < n then 0 else s.Gradient_Primitive r c } := by
  induction n with
  | zero => simp
  | succ n ih =>
    rw [forLoop_succ, ih]
    ext <;> simp [setAt2]
    exact ite_last2 _ _ iVar n (fun _ => (0 : α)) _

theorem forLoop_zeroGradientRows (m : Nat) (s : CVariable α) :
    forLoop m (fun iVar (self : CVariable α) =>
        forLoop self.nDim (fun iDim (self : CVariable α) =>
          { self with Gradient_Primitive := setAt2 self.Gradient_Primitive iVar iDim 0.0 }) self)
        s
      = { s with
          Gradient_Primitive := fun r c =>
            if r < m ∧ c < s.nDim then 0 else s.Gradient_Primitive r c } := by
  induction m with
  | zero => simp
  | succ m ih =>
    rw [forLoop_succ, ih]
    simp only [forLoop_zeroGradientRow]
    ext <;> simp
    split_ifs <;> first | rfl | (exfalso; omega)

theorem forLoop_zeroPrimitive (n : Nat) (s : CVariable α) :
    forLoop n (fun iVar (self : CVariable α) =>
        { self with Primitive := setAt self.Primitive iVar 0.0 }) s
      = { s with Primitive := fun k => if k < n then 0 else s.Primitive k } := by
  induction n with
  | zero => simp
  | succ n ih =>
    rw [forLoop_succ, ih]
    ext <;> simp [setAt]
    exact ite_last _ n (fun _ => (0 : α)) _

theorem forLoop_zeroSource (n : Nat) (s : CVariable α) :
    forLoop n (fun iVar (self : CVariable α) =>
        { self with TS_Source := setAt self.TS_Source iVar 0.0 }) s
      = { s with TS_Source := fun k => if k < n then 0 else s.TS_Source k } := by
  induction n with
  | zero => simp
  | succ n ih =>
    rw [forLoop_succ, ih]
    ext <;> simp [setAt]
    exact ite_last _ n (fun _ => (0 : α)) _

/-- Closed form of the closing statements of the value constructors. -/
theorem zeroPrimitives_run (s : CVariable α) (config : CConfig α) :
    zeroPrimitives s config = { s with
      TS_Source := fun k =>
        if config.Unsteady_Simulation = Unsteady.TIME_SPECTRAL ∧ k < s.nVar then 0
        else s.TS_Source k
      Primitive := fun k => if k < s.nPrimVar then 0 else s.Primitive k
      Gradient_Primitive := fun r c =>
        if r < s.nPrimVarGrad ∧ c < s.nDim then 0 else s.Gradient_Primitive r c } := by
  unfold zeroPrimitives
  simp only [forLoop_zeroSource, forLoop_zeroPrimitive, forLoop_zeroGradientRows]
  by_cases h : config.Unsteady_Simulation = Unsteady.TIME_SPECTRAL <;> simp [h]

theorem zeroPrimitives_entries (s : CVariable α) (config : CConfig α) :
    (∀ k, k < (zeroPrimitives s config).nPrimVar → (zeroPrimitives s config).Primitive k = 0)
    ∧ (∀ r c, r < (zeroPrimitives s config).nPrimVarGrad → c < (zeroPrimitives s config).nDim →
        (zeroPrimitives s config).Gradient_Primitive r c = 0) := by
  rw [zeroPrimitives_run]
  constructor
  · intro k hk
    have hk2 : k < s.nPrimVar := hk
    simp [hk2]
  · intro r c hr hc
    have hr2 : r < s.nPrimVarGrad := hr
    have hc2 : c < s.nDim := hc
    simp [hr2, hc2]

theorem CEulerVariable_values_zero (self : CVariable α) (val_density : α)
    (val_velocity : Nat → α) (val_energy : α) (val_nDim val_nvar : Nat) (config : CConfig α) :
    ZeroPrimitiveStorage (CEulerVariable.CEulerVariable_values self val_density val_velocity
      val_energy val_nDim val_nvar config) :=
  zeroPrimitives_entries _ config

theorem CEulerVariable_solution_zero (self : CVariable α) (val_solution : Nat → α)
    (val_nDim val_nvar : Nat) (config : CConfig α) :
    ZeroPrimitiveStorage (CEulerVariable.CEulerVariable_solution self val_solution
      val_nDim val_nvar config) :=
  zeroPrimitives_entries _ config

theorem setReferenceValues_zero (s : CVariable α) (config : CConfig α)
    (h : ZeroPrimitiveStorage s) : ZeroPrimitiveStorage (setReferenceValues s config) := h

theorem CEulerVariable_SetGradient_PrimitiveZero_run (s : CVariable α) (m : Nat) :
    CEulerVariable.SetGradient_PrimitiveZero s m = { s with
      Gradient_Primitive := fun r c =>
        if r < m ∧ c < s.nDim then 0 else s.Gradient_Primitive r c } :=
  forLoop_zeroGradientRows m s

/-- C27 (zero-initialised primitive storage). After either value constructor of
`CEulerVariable`, and so of `CNSVariable`, for every configuration and so in
every regime, every entry of `Primitive` (`nPrimVar` entries) and of
`Gradient_Primitive` (`nPrimVarGrad` rows of `nDim` entries) is 0, whatever the
storage held before.  `SetGradient_PrimitiveZero(m)` with `m ≤ nPrimVarGrad` sets
the `nDim` entries of rows `0 .. m-1`, which then are rows of the array, to 0 and
leaves the rows from `m` on and every other field of the point unchanged. -/
theorem C27_zero_primitive_storage (self p : CVariable α) (val_density : α)
    (val_velocity : Nat → α) (val_energy : α) (val_solution : Nat → α)
    (val_nDim val_nvar : Nat) (config : CConfig α) (m : Nat) (hm : m ≤ p.nPrimVarGrad) :
    (∀ obj : CVariable α,
      obj = CEulerVariable.CEulerVariable_values self val_density val_velocity val_energy
          val_nDim val_nvar config
      ∨ obj = CEulerVariable.CEulerVariable_solution self val_solution val_nDim val_nvar config
      ∨ obj = CNSVariable.CNSVariable_values self val_density val_velocity val_energy
          val_nDim val_nvar config
      ∨ obj = CNSVariable.CNSVariable_solution self val_solution val_nDim val_nvar config →
      (∀ k, k < obj.nPrimVar → obj.Primitive k = 0)
      ∧ (∀ r c, r < obj.nPrimVarGrad → c < obj.nDim → obj.Gradient_Primitive r c = 0))
    ∧ (∀ r c, r < m → r < p.nPrimVarGrad ∧ (c < p.nDim →
        (CEulerVariable.SetGradient_PrimitiveZero p m).Gradient_Primitive r c = 0))
    ∧ (∀ r c, m ≤ r →
        (CEulerVariable.SetGradient_PrimitiveZero p m).Gradient_Primitive r c
          = p.Gradient_Primitive r c)
    ∧ CEulerVariable.SetGradient_PrimitiveZero p m
        = { p with
            Gradient_Primitive :=
              (CEulerVariable.SetGradient_PrimitiveZero p m).Gradient_Primitive } := by
  refine ⟨?_, ?_, ?_, ?_⟩
  · rintro obj (h | h | h | h) <;> rw [h]
    · exact CEulerVariable_values_zero self val_density val_velocity val_energy val_nDim
        val_nvar config
    · exact CEulerVariable_solution_zero self val_solution val_nDim val_nvar config
    · exact setReferenceValues_zero _ config
        (CEulerVariable_values_zero self val_density val_velocity val_energy val_nDim
          val_nvar config)
    · exact setReferenceValues_zero _ config
        (CEulerVariable_solution_zero self val_solution val_nDim val_nvar config)
  · intro r c hr
    refine ⟨lt_of_lt_of_le hr hm, fun hc => ?_⟩
    rw [CEulerVariable_SetGradient_PrimitiveZero_run]
    simp [hr, hc]
  · intro r c hr
    rw [CEulerVariable_SetGradient_PrimitiveZero_run]
    simp [not_lt.mpr hr]
  · rw [CEulerVariable_SetGradient_PrimitiveZero_run]

theorem C27_zero_primitive_storage_witness :
    2 ≤ stalePoint.nPrimVarGrad
    ∧ stalePoint.Primitive 8 = 1
    ∧ 8 < (CNSVariable.CNSVariable_solution stalePoint (vec [1, 0, 0, 1]) 2 4
        scenarioConfig).nPrimVar
    ∧ (CNSVariable.CNSVariable_solution stalePoint (vec [1, 0, 0, 1]) 2 4
        scenarioConfig).Primitive 8 = 0
    ∧ (CEulerVariable.CEulerVariable_values stalePoint 1 (vec [0, 0]) 1 2 4
        scenarioConfig).Gradient_Primitive 5 1 = 0
    ∧ (CEulerVariable.SetGradient_PrimitiveZero stalePoint 2).Gradient_Primitive 1 1 = 0
    ∧ (CEulerVariable.SetGradient_PrimitiveZero stalePoint 2).Gradient_Primitive 2 1 = 1 :=
  ⟨by decide, rfl, by decide,
    ((C27_zero_primitive_storage stalePoint stalePoint 1 (vec [0, 0]) 1 (vec [1, 0, 0, 1]) 2 4
      scenarioConfig 2 (by decide)).1 _ (Or.inr (Or.inr (Or.inr rfl)))).1 8 (by decide),
    ((C27_zero_primitive_storage stalePoint stalePoint 1 (vec [0, 0]) 1 (vec [1, 0, 0, 1]) 2 4
      scenarioConfig 2 (by decide)).1 _ (Or.inl rfl)).2 5 1 (by decide) (by decide),
    ((C27_zero_primitive_storage stalePoint stalePoint 1 (vec [0, 0]) 1 (vec [1, 0, 0, 1]) 2 4
      scenarioConfig 2 (by decide)).2.1 1 1 (by decide)).2 (by decide),
    (C27_zero_primitive_storage stalePoint stalePoint 1 (vec [0, 0]) 1 (vec [1, 0, 0, 1]) 2 4
      scenarioConfig 2 (by decide)).2.2.1 2 1 (by decide)⟩

/-! ## Divisions of the one-equation source term -/

theorem checkedDiv_ne (a : α) {b : α} (h : b ≠ 0) : checkedDiv a b = some (a/b) :=
  if_neg h

theorem checkedDiv_zero (a : α) : checkedDiv a 0 = none :=
  if_pos rfl

theorem sourceSA_fv_checked_run (s : CSourcePieceWise_TurbSA α)
    (h1 : s.Density_i ≠ 0) (h2 : (sourceSA_fv s).nu ≠ 0)
    (h3 : (sourceSA_fv s).Ji_3 + (sourceSA_fv s).cv1_3 ≠ 0)
    (h4 : 1.0 + (sourceSA_fv s).Ji*(sourceSA_fv s).fv1 ≠ 0) :
    sourceSA_fv_checked s = some (sourceSA_fv s) := by
  unfold sourceSA_fv_checked
  simp only [sourceSA_fv] at h2 h3 h4
  simp only [checkedDiv_ne _ h1, checkedDiv_ne _ h2, checkedDiv_ne _ h3, checkedDiv_ne _ h4,
    Option.bind_eq_bind, Option.some_bind, Option.pure_def]
  rfl

theorem sixth_power_nonneg (g : α) : 0 ≤ g*g*g*g*g*g := by
  have h : g*g*g*g*g*g = (g*g*g)*(g*g*g) := by ring
  rw [h]
  exact mul_self_nonneg _

theorem max_floor_ne_zero (x : α) : max x 1.0e-10 ≠ 0 := by
  have h : (0 : α) < 1.0e-10 := by norm_num
  exact (lt_of_lt_of_le h (le_max_right x _)).ne'

theorem sourceSA_production_checked_run (s : CSourcePieceWise_TurbSA α)
    (h1 : s.k2*s.dist_i_2 ≠ 0) :
    sourceSA_production_checked s = some (sourceSA_production s) := by
  unfold sourceSA_production_checked sourceSA_production
  simp only [checkedDiv_ne _ h1, checkedDiv_ne _ (max_floor_ne_zero _),
    Option.bind_eq_bind, Option.some_bind, Option.pure_def]
  cases s.transition <;> rfl

theorem sourceSA_destruction_checked_run (pow : α → α → α) (s : CSourcePieceWise_TurbSA α)
    (h1 : 0 < s.cw3_6) (h2 : s.dist_i_2 ≠ 0) :
    sourceSA_destruction_checked pow s = some (sourceSA_destruction pow s) := by
  have h6 : (6.0 : α) ≠ 0 := by norm_num
  have hg : ∀ g : α, g*g*g*g*g*g + s.cw3_6 ≠ 0 := fun g =>
    (add_pos_of_nonneg_of_pos (sixth_power_nonneg g) h1).ne'
  unfold sourceSA_destruction_checked sourceSA_destruction
  simp only [checkedDiv_ne _ (hg _), checkedDiv_ne _ h6, checkedDiv_ne _ h2,
    Option.bind_eq_bind, Option.some_bind, Option.pure_def]
  cases s.transition <;> rfl

theorem sourceSA_jacobianProduction_checked_run (s : CSourcePieceWise_TurbSA α)
    (out : Buffers α) (h1 : s.nu ≠ 0) (h2 : s.Ji_3 + s.cv1_3 ≠ 0)
    (h3 : 1.0 + s.Ji*s.fv1 ≠ 0) :
    sourceSA_jacobianProduction_checked s out = some (sourceSA_jacobianProduction s out) := by
  have h4 : s.nu*(s.Ji_3 + s.cv1_3)*(s.Ji_3 + s.cv1_3) ≠ 0 :=
    mul_ne_zero (mul_ne_zero h1 h2) h2
  have h5 : (1.0 + s.Ji*s.fv1)*(1.0 + s.Ji*s.fv1) ≠ 0 := mul_ne_zero h3 h3
  unfold sourceSA_jacobianProduction_checked sourceSA_jacobianProduction
  simp only [checkedDiv_ne _ h1, checkedDiv_ne _ h4, checkedDiv_ne _ h5,
    Option.bind_eq_bind, Option.some_bind, Option.pure_def]

theorem sourceSA_jacobianDestruction_checked_run (s : CSourcePieceWise_TurbSA α)
    (out : Buffers α) (h1 : s.g_6 + s.cw3_6 ≠ 0) (h2 : s.dist_i_2 ≠ 0) :
    sourceSA_jacobianDestruction_checked s out
      = some (sourceSA_jacobianDestruction s out) := by
  unfold sourceSA_jacobianDestruction_checked sourceSA_jacobianDestruction
  by_cases hr : s.r = 10.0
  · simp only [hr, if_true, checkedDiv_ne _ h1, checkedDiv_ne _ h2,
      Option.bind_eq_bind, Option.some_bind, Option.pure_def]
  · simp only [hr, if_false, checkedDiv_ne _ h1, checkedDiv_ne _ h2,
      Option.bind_eq_bind, Option.some_bind, Option.pure_def]

theorem sourceSA_jacobianProduction_frame (s : CSourcePieceWise_TurbSA α) (out : Buffers α) :
    (sourceSA_jacobianProduction s out).1.g_6 = s.g_6
    ∧ (sourceSA_jacobianProduction s out).1.cw3_6 = s.cw3_6
    ∧ (sourceSA_jacobianProduction s out).1.dist_i_2 = s.dist_i_2 := by
  unfold sourceSA_jacobianProduction
  refine ⟨?_, ?_, ?_⟩ <;> (simp only []; split_ifs <;> rfl)

theorem sourceSA_jacobian_checked_run (s : CSourcePieceWise_TurbSA α) (out : Buffers α)
    (h1 : s.g_6 + s.cw3_6 ≠ 0) (h2 : s.dist_i_2 ≠ 0) :
    sourceSA_jacobianDestruction_checked (sourceSA_jacobianProduction s out).1
        (sourceSA_jacobianProduction s out).2
      = some (sourceSA_jacobianDestruction (sourceSA_jacobianProduction s out).1
          (sourceSA_jacobianProduction s out).2) := by
  have hf := sourceSA_jacobianProduction_frame s out
  exact sourceSA_jacobianDestruction_checked_run _ _ (by rw [hf.1, hf.2.1]; exact h1)
    (by rw [hf.2.2]; exact h2)

theorem saNu_pos (self : CSourcePieceWise_TurbSA α) (hrho : 0 < self.V_i (self.nDim+2))
    (hmu : 0 < self.V_i (self.nDim+5)) : 0 < saNu self :=
  div_pos hmu hrho

theorem saJ_nonneg (self : CSourcePieceWise_TurbSA α) (hν : 0 < saNu self)
    (ht : 0 ≤ self.TurbVar_i 0) : 0 ≤ saJ self :=
  div_nonneg ht hν.le

theorem saJ3_nonneg_of (self : CSourcePieceWise_TurbSA α) (hJ : 0 ≤ saJ self) :
    0 ≤ saJ3 self :=
  mul_nonneg (mul_nonneg hJ hJ) hJ

theorem saFv1_nonneg (self : CSourcePieceWise_TurbSA α) (hJ : 0 ≤ saJ self)
    (hc : 0 < self.cv1_3) : 0 ≤ saFv1 self :=
  div_nonneg (saJ3_nonneg_of self hJ) (add_pos_of_nonneg_of_pos (saJ3_nonneg_of self hJ) hc).le

/-- The checked routine returns the result of the unchecked one when the
denominators that depend on the inputs are nonzero. -/
theorem CSourcePieceWise_TurbSA_checked_run (sqrt : α → α) (pow : α → α → α)
    (self : CSourcePieceWise_TurbSA α) (out : Buffers α)
    (hd : 1e-10 < self.dist_i) (hrho : self.V_i (self.nDim+2) ≠ 0) (hν : saNu self ≠ 0)
    (h3 : saJ3 self + self.cv1_3 ≠ 0) (h4 : 1 + saJ self*saFv1 self ≠ 0)
    (hk : self.k2*(self.dist_i*self.dist_i) ≠ 0) (hw : 0 < self.cw3_6) :
    CSourcePieceWise_TurbSA.ComputeResidual_checked sqrt pow self out
      = some (CSourcePieceWise_TurbSA.ComputeResidual sqrt pow self out) := by
  have hd2 : self.dist_i*self.dist_i ≠ 0 := right_ne_zero_of_mul hk
  have hdv : (saStateVorticity sqrt self).dist_i = self.dist_i := rfl
  have h4b : (1.0 : α) + saJ self*saFv1 self ≠ 0 := by rw [one_lit]; exact h4
  have hg6 : saG6 sqrt self + self.cw3_6 ≠ 0 :=
    (add_pos_of_nonneg_of_pos (sixth_power_nonneg _) hw).ne'
  unfold CSourcePieceWise_TurbSA.ComputeResidual_checked CSourcePieceWise_TurbSA.ComputeResidual
  simp only [sourceSA_reset_run, sourceSA_vorticity_run, hdv, gt_iff_lt, hd, if_true]
  rw [sourceSA_fv_checked_run (saStateVorticity sqrt self) hrho hν h3 h4b]
  simp only [Option.bind_eq_bind, Option.some_bind]
  rw [sourceSA_production_checked_run _ hk]
  simp only [Option.some_bind]
  rw [sourceSA_production_runT]
  rw [sourceSA_destruction_checked_run pow
    { saStateProduction sqrt self with Production := saProductionT sqrt self } hw hd2]
  simp only [Option.some_bind]
  rw [sourceSA_residual_runT]
  rw [sourceSA_jacobianProduction_checked_run
    { saStateResidual sqrt pow self with
      Production := saProductionT sqrt self
      Destruction := saDestructionT sqrt pow self } _ hν h3 h4b]
  simp only [Option.some_bind]
  rw [sourceSA_jacobian_checked_run
    { saStateResidual sqrt pow self with
      Production := saProductionT sqrt self
      Destruction := saDestructionT sqrt pow self } _ hg6 hd2]

theorem scenarioVacuum_checked :
    CSourcePieceWise_TurbSA.ComputeResidual_checked Real.sqrt (fun x y => x ^ y)
      (CSourcePieceWise_TurbSA.CSourcePieceWise_TurbSA_ctor (scenarioVacuum ℝ) 2 1)
      (staleOutputs ℝ) = none := by
  have hd : (1e-10 : ℝ) < 1 := by norm_num
  have hdv : ∀ s : CSourcePieceWise_TurbSA ℝ,
      (saStateVorticity Real.sqrt s).dist_i = s.dist_i := fun _ => rfl
  have h0 : (saStateVorticity Real.sqrt
      (CSourcePieceWise_TurbSA.CSourcePieceWise_TurbSA_ctor (scenarioVacuum ℝ) 2 1)).Density_i
      = 0 := by
    simp [saStateVorticity, saStateReset, scenarioVacuum, CSourcePieceWise_TurbSA_ctor_run, vec]
  have hdist : (CSourcePieceWise_TurbSA.CSourcePieceWise_TurbSA_ctor (scenarioVacuum ℝ) 2 1).dist_i
      = 1 := rfl
  unfold CSourcePieceWise_TurbSA.ComputeResidual_checked
  simp only [sourceSA_reset_run, sourceSA_vorticity_run, hdv, hdist, gt_iff_lt, hd, if_true]
  unfold sourceSA_fv_checked
  simp only [h0, checkedDiv_zero, Option.bind_eq_bind, Option.none_bind]

/-- C23 (divisions of the one-equation source term). For every input of
`CSourcePieceWise_TurbSA::ComputeResidual` on an object as constructed, with
`dist_i > 1e-10`, `ρ > 0`, `μ_lam > 0` and `turb ≥ 0`, every denominator of the
routine is nonzero: `ρ`, `ν`, `J³ + c_v1³`, `1 + J·fv1`, `κ²d²`, `max(Ŝ, 1e-10)`,
`g⁶ + c_w3⁶`, `d²`, `ν·(J³ + c_v1³)²` and `(1 + J·fv1)²`, read from the object on
return; and the routine with every division checked returns the result of the
routine, so its error branch is not reached. -/
theorem C23_SA_source_divisions_safe (sqrt : α → α) (pow : α → α → α)
    (self0 self : CSourcePieceWise_TurbSA α) (out : Buffers α) (val_nDim val_nVar : Nat)
    (hc : self = CSourcePieceWise_TurbSA.CSourcePieceWise_TurbSA_ctor self0 val_nDim val_nVar)
    (hd : 1e-10 < self.dist_i)
    (hrho : 0 < self.V_i (self.nDim+2)) (hmu : 0 < self.V_i (self.nDim+5))
    (ht : 0 ≤ self.TurbVar_i 0) :
    let r := CSourcePieceWise_TurbSA.ComputeResidual sqrt pow self out
    r.1.Density_i ≠ 0 ∧ r.1.nu ≠ 0 ∧ r.1.Ji_3 + r.1.cv1_3 ≠ 0 ∧ 1 + r.1.Ji*r.1.fv1 ≠ 0
    ∧ r.1.k2*r.1.dist_i_2 ≠ 0 ∧ max r.1.Shat 1e-10 ≠ 0 ∧ r.1.g_6 + r.1.cw3_6 ≠ 0
    ∧ r.1.dist_i_2 ≠ 0
    ∧ r.1.nu*(r.1.Ji_3 + r.1.cv1_3)*(r.1.Ji_3 + r.1.cv1_3) ≠ 0
    ∧ (1 + r.1.Ji*r.1.fv1)*(1 + r.1.Ji*r.1.fv1) ≠ 0
    ∧ CSourcePieceWise_TurbSA.ComputeResidual_checked sqrt pow self out = some r := by
  intro r
  have hcv : self.cv1_3 = 357.911 := by rw [hc, CSourcePieceWise_TurbSA_ctor_run]
  have hcw3 : self.cw3_6 = 64 := by rw [hc, CSourcePieceWise_TurbSA_ctor_run]
  have hk2 : self.k2 = 0.1681 := by rw [hc, CSourcePieceWise_TurbSA_ctor_run]
  have hcv0 : 0 < self.cv1_3 := by rw [hcv]; norm_num
  have hcw0 : 0 < self.cw3_6 := by rw [hcw3]; norm_num
  have hk0 : 0 < self.k2 := by rw [hk2]; norm_num
  have htiny : (0 : α) < 1e-10 := by norm_num
  have hdist : 0 < self.dist_i := htiny.trans hd
  have hν : 0 < saNu self := saNu_pos self hrho hmu
  have hJ : 0 ≤ saJ self := saJ_nonneg self hν ht
  have h3 : 0 < saJ3 self + self.cv1_3 :=
    add_pos_of_nonneg_of_pos (saJ3_nonneg_of self hJ) hcv0
  have h4 : 0 < 1 + saJ self*saFv1 self :=
    add_pos_of_pos_of_nonneg one_pos (mul_nonneg hJ (saFv1_nonneg self hJ hcv0))
  have hk : 0 < self.k2*(self.dist_i*self.dist_i) := mul_pos hk0 (mul_pos hdist hdist)
  have hg6 : 0 < saG6 sqrt self + self.cw3_6 :=
    add_pos_of_nonneg_of_pos (sixth_power_nonneg _) hcw0
  have hrun : r = _ := CSourcePieceWise_TurbSA_runT sqrt pow self out hd
  have e1 : r.1.Density_i = self.V_i (self.nDim+2) := by rw [hrun]; rfl
  have e2 : r.1.nu = saNu self := by rw [hrun]; rfl
  have e3 : r.1.Ji_3 = saJ3 self := by rw [hrun]; rfl
  have e4 : r.1.Ji = saJ self := by rw [hrun]; rfl
  have e5 : r.1.fv1 = saFv1 self := by rw [hrun]; rfl
  have e6 : r.1.dist_i_2 = self.dist_i*self.dist_i := by rw [hrun]; rfl
  have e7 : r.1.g_6 = saG6 sqrt self := by rw [hrun]; rfl
  have e8 : r.1.cv1_3 = self.cv1_3 := by rw [hrun]; rfl
  have e9 : r.1.cw3_6 = self.cw3_6 := by rw [hrun]; rfl
  have e10 : r.1.k2 = self.k2 := by rw [hrun]; rfl
  rw [e1, e2, e3, e4, e5, e6, e7, e8, e9, e10]
  refine ⟨hrho.ne', hν.ne', h3.ne', h4.ne', hk.ne', ?_, hg6.ne', (mul_pos hdist hdist).ne',
    (mul_pos (mul_pos hν h3) h3).ne', (mul_pos h4 h4).ne', ?_⟩
  · exact (lt_of_lt_of_le htiny (le_max_right _ _)).ne'
  · exact CSourcePieceWise_TurbSA_checked_run sqrt pow self out hd hrho.ne' hν.ne' h3.ne' h4.ne'
      hk.ne' hcw0

theorem scenarioSource_inputs :
    (CSourcePieceWise_TurbSA.CSourcePieceWise_TurbSA_ctor (scenarioSource ℝ) 2 1).dist_i = 1
    ∧ (CSourcePieceWise_TurbSA.CSourcePieceWise_TurbSA_ctor (scenarioSource ℝ) 2 1).V_i
        ((CSourcePieceWise_TurbSA.CSourcePieceWise_TurbSA_ctor (scenarioSource ℝ) 2 1).nDim+2) = 1
    ∧ (CSourcePieceWise_TurbSA.CSourcePieceWise_TurbSA_ctor (scenarioSource ℝ) 2 1).V_i
        ((CSourcePieceWise_TurbSA.CSourcePieceWise_TurbSA_ctor (scenarioSource ℝ) 2 1).nDim+5) = 1
    ∧ (CSourcePieceWise_TurbSA.CSourcePieceWise_TurbSA_ctor (scenarioSource ℝ) 2 1).TurbVar_i 0
        = 10 := by
  refine ⟨rfl, ?_, ?_, ?_⟩
  · simp [scenarioSource, CSourcePieceWise_TurbSA_ctor_run, vec]
  · simp [scenarioSource, CSourcePieceWise_TurbSA_ctor_run, vec]
  · simp [scenarioSource, CSourcePieceWise_TurbSA_ctor_run, vec]

theorem C23_SA_source_divisions_safe_witness :
    1e-10 < (CSourcePieceWise_TurbSA.CSourcePieceWise_TurbSA_ctor (scenarioSource ℝ) 2 1).dist_i
    ∧ 0 < (CSourcePieceWise_TurbSA.CSourcePieceWise_TurbSA_ctor (scenarioSource ℝ) 2 1).V_i
        ((CSourcePieceWise_TurbSA.CSourcePieceWise_TurbSA_ctor (scenarioSource ℝ) 2 1).nDim+2)
    ∧ 0 < (CSourcePieceWise_TurbSA.CSourcePieceWise_TurbSA_ctor (scenarioSource ℝ) 2 1).V_i
        ((CSourcePieceWise_TurbSA.CSourcePieceWise_TurbSA_ctor (scenarioSource ℝ) 2 1).nDim+5)
    ∧ 0 ≤ (CSourcePieceWise_TurbSA.CSourcePieceWise_TurbSA_ctor (scenarioSource ℝ) 2 1).TurbVar_i 0
    ∧ CSourcePieceWise_TurbSA.ComputeResidual_checked Real.sqrt (fun x y => x ^ y)
        (CSourcePieceWise_TurbSA.CSourcePieceWise_TurbSA_ctor (scenarioSource ℝ) 2 1)
        (staleOutputs ℝ)
      = some (CSourcePieceWise_TurbSA.ComputeResidual Real.sqrt (fun x y => x ^ y)
        (CSourcePieceWise_TurbSA.CSourcePieceWise_TurbSA_ctor (scenarioSource ℝ) 2 1)
        (staleOutputs ℝ)) :=
  ⟨by rw [scenarioSource_inputs.1]; norm_num,
    by rw [scenarioSource_inputs.2.1]; norm_num,
    by rw [scenarioSource_inputs.2.2.1]; norm_num,
    by rw [scenarioSource_inputs.2.2.2]; norm_num,
    (C23_SA_source_divisions_safe Real.sqrt (fun x y => x ^ y) (scenarioSource ℝ) _
      (staleOutputs ℝ) 2 1 rfl
      (by rw [scenarioSource_inputs.1]; norm_num)
      (by rw [scenarioSource_inputs.2.1]; norm_num)
      (by rw [scenarioSource_inputs.2.2.1]; norm_num)
      (by rw [scenarioSource_inputs.2.2.2]; norm_num)).2.2.2.2.2.2.2.2.2.2⟩

/-! ## Sizes set by the constructors -/

theorem forLoop_invariant {σ β : Type} (f : σ → β) (body : Nat → σ → σ)
    (h : ∀ i s, f (body i s) = f s) (n : Nat) (s : σ) : f (forLoop n body s) = f s := by
  induction n with
  | zero => rfl
  | succ n ih => rw [forLoop_succ, h, ih]

theorem zeroLimiters_extent (s : CVariable α) :
    storageExtent (zeroLimiters s) = storageExtent s := by
  unfold zeroLimiters
  simp only []
  rw [forLoop_invariant storageExtent, forLoop_invariant storageExtent,
    forLoop_invariant storageExtent, forLoop_invariant storageExtent]
  all_goals first | rfl | (intro _ _; rfl)

theorem setPrimVarSizes_extent (s : CVariable α) (config : CConfig α) :
    storageExtent (setPrimVarSizes s config)
      = (s.nDim,
          match config.Kind_Regime with
          | Regime.COMPRESSIBLE => (s.nDim+7, s.nDim+4)
          | Regime.INCOMPRESSIBLE => (s.nDim+5, s.nDim+3)
          | Regime.FREESURFACE => (s.nDim+7, s.nDim+6)) := by
  unfold setPrimVarSizes
  cases config.Kind_Regime <;> rfl

theorem initSolutionCompressible_extent (s : CVariable α) (d : α) (v : Nat → α) (e : α) :
    storageExtent (initSolutionCompressible s d v e) = storageExtent s := by
  unfold initSolutionCompressible
  show storageExtent (forLoop _ _ _) = _
  rw [forLoop_invariant storageExtent]
  all_goals first | rfl | (intro _ _; rfl)

theorem initSolutionIncompressible_extent (s : CVariable α) (v : Nat → α) (config : CConfig α) :
    storageExtent (initSolutionIncompressible s v config) = storageExtent s := by
  unfold initSolutionIncompressible
  show storageExtent (forLoop _ _ _) = _
  rw [forLoop_invariant storageExtent]
  all_goals first | rfl | (intro _ _; rfl)

theorem initDualTimeCompressible_extent (s : CVariable α) (d : α) (v : Nat → α) (e : α) :
    storageExtent (initDualTimeCompressible s d v e) = storageExtent s := by
  unfold initDualTimeCompressible
  show storageExtent (forLoop _ _ _) = _
  rw [forLoop_invariant storageExtent]
  all_goals first | rfl | (intro _ _; rfl)

theorem initDualTimeIncompressible_extent (s : CVariable α) (v : Nat → α)
    (config : CConfig α) :
    storageExtent (initDualTimeIncompressible s v config) = storageExtent s := by
  unfold initDualTimeIncompressible
  show storageExtent (forLoop _ _ _) = _
  rw [forLoop_invariant storageExtent]
  all_goals first | rfl | (intro _ _; rfl)

theorem zeroPrimitives_extent (s : CVariable α) (config : CConfig α) :
    storageExtent (zeroPrimitives s config) = storageExtent s := by
  rw [zeroPrimitives_run]
  rfl

theorem ite_extent (c : Bool) (a b : CVariable α)
    (h : storageExtent a = storageExtent b) :
    storageExtent (if c then a else b) = storageExtent b := by
  cases c
  · rfl
  · exact h

theorem CEulerVariable_values_extent (self : CVariable α) (val_density : α)
    (val_velocity : Nat → α) (val_energy : α) (val_nDim val_nvar : Nat) (config : CConfig α) :
    storageExtent (CEulerVariable.CEulerVariable_values self val_density val_velocity
        val_energy val_nDim val_nvar config)
      = (val_nDim,
          match config.Kind_Regime with
          | Regime.COMPRESSIBLE => (val_nDim+7, val_nDim+4)
          | Regime.INCOMPRESSIBLE => (val_nDim+5, val_nDim+3)
          | Regime.FREESURFACE => (val_nDim+7, val_nDim+6)) := by
  unfold CEulerVariable.CEulerVariable_values
  simp only []
  rw [zeroPrimitives_extent]
  split_ifs <;>
    (simp only [initDualTimeCompressible_extent, initDualTimeIncompressible_extent,
      initSolutionCompressible_extent, initSolutionIncompressible_extent, zeroLimiters_extent,
      setPrimVarSizes_extent])

theorem CEulerVariable_solution_extent (self : CVariable α) (val_solution : Nat → α)
    (val_nDim val_nvar : Nat) (config : CConfig α) :
    storageExtent (CEulerVariable.CEulerVariable_solution self val_solution val_nDim val_nvar
        config)
      = (val_nDim,
          match config.Kind_Regime with
          | Regime.COMPRESSIBLE => (val_nDim+7, val_nDim+4)
          | Regime.INCOMPRESSIBLE => (val_nDim+5, val_nDim+3)
          | Regime.FREESURFACE => (val_nDim+7, val_nDim+6)) := by
  unfold CEulerVariable.CEulerVariable_solution
  simp only []
  rw [zeroPrimitives_extent]
  split_ifs
  · rw [forLoop_invariant storageExtent, forLoop_invariant storageExtent]
    · simp only [zeroLimiters_extent, setPrimVarSizes_extent]
    all_goals (intro _ _; rfl)
  · rw [forLoop_invariant storageExtent]
    · simp only [zeroLimiters_extent, setPrimVarSizes_extent]
    all_goals (intro _ _; rfl)

theorem setReferenceValues_extent (s : CVariable α) (config : CConfig α) :
    storageExtent (setReferenceValues s config) = storageExtent s := rfl

theorem CSourcePieceWise_TurbSST_loads (t : CSourcePieceWise_TurbSST α) (out : Buffers α) :
    (CSourcePieceWise_TurbSST.ComputeResidual t out).1 = sstStateReset t := by
  by_cases h : 1e-10 < t.dist_i
  · rw [CSourcePieceWise_TurbSST_run t out h]
  · rw [CSourcePieceWise_TurbSST_wall t out (not_lt.mp h)]

theorem valueConstructors_extent (self : CVariable α) (val_density : α)
    (val_velocity : Nat → α) (val_energy : α) (val_solution : Nat → α)
    (val_nDim val_nvar : Nat) (config : CConfig α) (obj : CVariable α)
    (h : obj = CEulerVariable.CEulerVariable_values self val_density val_velocity val_energy
          val_nDim val_nvar config
      ∨ obj = CEulerVariable.CEulerVariable_solution self val_solution val_nDim val_nvar config
      ∨ obj = CNSVariable.CNSVariable_values self val_density val_velocity val_energy
          val_nDim val_nvar config
      ∨ obj = CNSVariable.CNSVariable_solution self val_solution val_nDim val_nvar config) :
    storageExtent obj
      = (val_nDim,
          match config.Kind_Regime with
          | Regime.COMPRESSIBLE => (val_nDim+7, val_nDim+4)
          | Regime.INCOMPRESSIBLE => (val_nDim+5, val_nDim+3)
          | Regime.FREESURFACE => (val_nDim+7, val_nDim+6)) := by
  rcases h with h | h | h | h <;> rw [h]
  · exact CEulerVariable_values_extent self val_density val_velocity val_energy val_nDim
      val_nvar config
  · exact CEulerVariable_solution_extent self val_solution val_nDim val_nvar config
  · exact (setReferenceValues_extent _ config).trans
      (CEulerVariable_values_extent self val_density val_velocity val_energy val_nDim
        val_nvar config)
  · exact (setReferenceValues_extent _ config).trans
      (CEulerVariable_solution_extent self val_solution val_nDim val_nvar config)

/-- C32, as amended.  After any value constructor of `CEulerVariable` or
`CNSVariable` the point has `nPrimVar = nDim+7` in the compressible and the
free-surface regime and `nPrimVar = nDim+5` in the incompressible regime, and
`nPrimVarGrad` is `nDim+4`, `nDim+3` and `nDim+6` in the compressible,
incompressible and free-surface regime.  The turbulence operators load the
density from `V_i[nDim+2]`, the laminar viscosity from `V_i[nDim+5]` and the eddy
viscosity from `V_i[nDim+6]` (shown on the two-equation source term), and the
velocities from entries `1 .. nDim`.  In the compressible and the free-surface
regime each of these indices is below `nPrimVar`; in the incompressible regime
the velocity and density indices are below `nPrimVar`, and the two viscosity
indices `nDim+5` and `nDim+6` are not.  In every regime the gradient rows
`1 .. nDim` are below `nPrimVarGrad`. -/
theorem C32_primitive_reads_in_range (self : CVariable α) (val_density : α)
    (val_velocity : Nat → α) (val_energy : α) (val_solution : Nat → α)
    (val_nDim val_nvar : Nat) (config : CConfig α) (t : CSourcePieceWise_TurbSST α)
    (out : Buffers α) (obj : CVariable α)
    (h : obj = CEulerVariable.CEulerVariable_values self val_density val_velocity val_energy
          val_nDim val_nvar config
      ∨ obj = CEulerVariable.CEulerVariable_solution self val_solution val_nDim val_nvar config
      ∨ obj = CNSVariable.CNSVariable_values self val_density val_velocity val_energy
          val_nDim val_nvar config
      ∨ obj = CNSVariable.CNSVariable_solution self val_solution val_nDim val_nvar config) :
    obj.nDim = val_nDim
    ∧ ((CSourcePieceWise_TurbSST.ComputeResidual t out).1.Density_i = t.V_i (t.nDim+2)
      ∧ (CSourcePieceWise_TurbSST.ComputeResidual t out).1.Laminar_Viscosity_i
          = t.V_i (t.nDim+5)
      ∧ (CSourcePieceWise_TurbSST.ComputeResidual t out).1.Eddy_Viscosity_i
          = t.V_i (t.nDim+6))
    ∧ (config.Kind_Regime = Regime.COMPRESSIBLE ∨ config.Kind_Regime = Regime.FREESURFACE →
        obj.nPrimVar = obj.nDim+7
        ∧ (∀ iDim, iDim < obj.nDim → iDim+1 < obj.nPrimVar)
        ∧ obj.nDim+2 < obj.nPrimVar ∧ obj.nDim+5 < obj.nPrimVar
        ∧ obj.nDim+6 < obj.nPrimVar)
    ∧ (config.Kind_Regime = Regime.INCOMPRESSIBLE →
        obj.nPrimVar = obj.nDim+5
        ∧ (∀ iDim, iDim < obj.nDim → iDim+1 < obj.nPrimVar)
        ∧ obj.nDim+2 < obj.nPrimVar ∧ ¬ obj.nDim+5 < obj.nPrimVar
        ∧ ¬ obj.nDim+6 < obj.nPrimVar)
    ∧ (obj.nPrimVarGrad
        = match config.Kind_Regime with
          | Regime.COMPRESSIBLE => obj.nDim+4
          | Regime.INCOMPRESSIBLE => obj.nDim+3
          | Regime.FREESURFACE => obj.nDim+6)
    ∧ (∀ iDim, iDim < obj.nDim → iDim+1 < obj.nPrimVarGrad) := by
  have he := valueConstructors_extent self val_density val_velocity val_energy val_solution
    val_nDim val_nvar config obj h
  have hd : obj.nDim = val_nDim := congrArg Prod.fst he
  have hp : (obj.nPrimVar, obj.nPrimVarGrad)
      = match config.Kind_Regime with
        | Regime.COMPRESSIBLE => (val_nDim+7, val_nDim+4)
        | Regime.INCOMPRESSIBLE => (val_nDim+5, val_nDim+3)
        | Regime.FREESURFACE => (val_nDim+7, val_nDim+6) := congrArg Prod.snd he
  rw [CSourcePieceWise_TurbSST_loads t out, hd]
  refine ⟨rfl, ⟨rfl, rfl, rfl⟩, ?_, ?_, ?_, ?_⟩
  · intro hr
    have hv : obj.nPrimVar = val_nDim+7 := by
      rcases hr with hr | hr <;> · rw [hr] at hp; exact congrArg Prod.fst hp
    rw [hv]
    exact ⟨rfl, fun _ _ => by omega, by omega, by omega, by omega⟩
  · intro hr
    have hv : obj.nPrimVar = val_nDim+5 := by
      rw [hr] at hp; exact congrArg Prod.fst hp
    rw [hv]
    exact ⟨rfl, fun _ _ => by omega, by omega, by omega, by omega⟩
  · cases hr : config.Kind_Regime <;> · rw [hr] at hp; exact congrArg Prod.snd hp
  · intro iDim hi
    cases hr : config.Kind_Regime <;>
    · rw [hr] at hp
      have hg : obj.nPrimVarGrad = _ := congrArg Prod.snd hp
      rw [hg]
      show iDim + 1 < val_nDim + _
      omega

theorem C32_primitive_reads_in_range_witness :
    scenarioConfig.Kind_Regime = Regime.COMPRESSIBLE
    ∧ (CNSVariable.CNSVariable_values stalePoint 1 (vec [0, 0]) 1 2 4 scenarioConfig).nPrimVar
        = (CNSVariable.CNSVariable_values stalePoint 1 (vec [0, 0]) 1 2 4 scenarioConfig).nDim+7
    ∧ (CNSVariable.CNSVariable_values stalePoint 1 (vec [0, 0]) 1 2 4 scenarioConfig).nDim+6
        < (CNSVariable.CNSVariable_values stalePoint 1 (vec [0, 0]) 1 2 4 scenarioConfig).nPrimVar
    ∧ (CSourcePieceWise_TurbSST.ComputeResidual (scenarioStrain ℚ)
        (staleOutputs ℚ)).1.Eddy_Viscosity_i
        = (scenarioStrain ℚ).V_i ((scenarioStrain ℚ).nDim+6) :=
  ⟨rfl,
    ((C32_primitive_reads_in_range stalePoint 1 (vec [0, 0]) 1 (vec [1, 0, 0, 1]) 2 4
      scenarioConfig (scenarioStrain ℚ) (staleOutputs ℚ) _
      (Or.inr (Or.inr (Or.inl rfl)))).2.2.1 (Or.inl rfl)).1,
    ((C32_primitive_reads_in_range stalePoint 1 (vec [0, 0]) 1 (vec [1, 0, 0, 1]) 2 4
      scenarioConfig (scenarioStrain ℚ) (staleOutputs ℚ) _
      (Or.inr (Or.inr (Or.inl rfl)))).2.2.1 (Or.inl rfl)).2.2.2.2,
    (C32_primitive_reads_in_range stalePoint 1 (vec [0, 0]) 1 (vec [1, 0, 0, 1]) 2 4
      scenarioConfig (scenarioStrain ℚ) (staleOutputs ℚ) _
      (Or.inr (Or.inr (Or.inl rfl)))).2.1.2.2⟩

/-- The primitive vector of a point built in the incompressible regime in two
dimensions has `nPrimVar = 7` entries, while the two-equation source term loads
the laminar viscosity from entry `nDim+5 = 7` and the eddy viscosity from entry
`nDim+6 = 8` of the vector it is handed. -/
theorem C32_incompressible_viscosity_index :
    scenarioIncompressible.Kind_Regime = Regime.INCOMPRESSIBLE
    ∧ (CEulerVariable.CEulerVariable_values stalePoint 1 (vec [0, 0]) 1 2 4
        scenarioIncompressible).nDim = 2
    ∧ (CEulerVariable.CEulerVariable_values stalePoint 1 (vec [0, 0]) 1 2 4
        scenarioIncompressible).nPrimVar = 7
    ∧ (scenarioStrain ℚ).nDim = 2
    ∧ (CSourcePieceWise_TurbSST.ComputeResidual (scenarioStrain ℚ)
        (staleOutputs ℚ)).1.Laminar_Viscosity_i = (scenarioStrain ℚ).V_i 7
    ∧ (CSourcePieceWise_TurbSST.ComputeResidual (scenarioStrain ℚ)
        (staleOutputs ℚ)).1.Eddy_Viscosity_i = (scenarioStrain ℚ).V_i 8
    ∧ ¬ (CEulerVariable.CEulerVariable_values stalePoint 1 (vec [0, 0]) 1 2 4
          scenarioIncompressible).nDim+5
        < (CEulerVariable.CEulerVariable_values stalePoint 1 (vec [0, 0]) 1 2 4
          scenarioIncompressible).nPrimVar := by
  have he := CEulerVariable_values_extent stalePoint (1 : ℚ) (vec [0, 0]) 1 2 4
    scenarioIncompressible
  have hd : (CEulerVariable.CEulerVariable_values stalePoint 1 (vec [0, 0]) 1 2 4
      scenarioIncompressible).nDim = 2 := congrArg Prod.fst he
  have hp : (CEulerVariable.CEulerVariable_values stalePoint 1 (vec [0, 0]) 1 2 4
      scenarioIncompressible).nPrimVar = 7 := congrArg (fun x => x.2.1) he
  have hl := CSourcePieceWise_TurbSST_loads (scenarioStrain ℚ) (staleOutputs ℚ)
  refine ⟨rfl, hd, hp, rfl, ?_, ?_, ?_⟩
  · rw [hl]; rfl
  · rw [hl]; rfl
  · rw [hd, hp]; decide

/-! ## Strain-rate magnitude: the two branches -/

/-- Closed form of the `nDim == 2` branch of `CNSVariable::SetStrainMag`. -/
theorem CNSVariable_SetStrainMag_nDim2 (sqrt : α → α) (s : CVariable α) (h : s.nDim = 2) :
    (CNSVariable.SetStrainMag sqrt s).StrainMag
      = sqrt (2*((s.Gradient_Primitive 1 0
                - (s.Gradient_Primitive 1 0 + s.Gradient_Primitive 2 1)/3)
              *(s.Gradient_Primitive 1 0
                - (s.Gradient_Primitive 1 0 + s.Gradient_Primitive 2 1)/3)
            + (s.Gradient_Primitive 2 1
                - (s.Gradient_Primitive 1 0 + s.Gradient_Primitive 2 1)/3)
              *(s.Gradient_Primitive 2 1
                - (s.Gradient_Primitive 1 0 + s.Gradient_Primitive 2 1)/3)
            + 2*(s.Gradient_Primitive 1 1 + s.Gradient_Primitive 2 0)
              *(s.Gradient_Primitive 1 1 + s.Gradient_Primitive 2 0))) := by
  unfold CNSVariable.SetStrainMag
  rw [if_pos h]
  simp only [strainMag_nDim2, one_lit, two_lit, three_lit, zero_lit]
  congr 1
  ring

/-- Closed form of the `else` branch of `CNSVariable::SetStrainMag`. -/
theorem CNSVariable_SetStrainMag_else (sqrt : α → α) (s : CVariable α) (h : s.nDim ≠ 2) :
    (CNSVariable.SetStrainMag sqrt s).StrainMag
      = sqrt (2*((s.Gradient_Primitive 1 0
                - (s.Gradient_Primitive 1 0 + s.Gradient_Primitive 2 1
                    + s.Gradient_Primitive 3 2)/3)
              *(s.Gradient_Primitive 1 0
                - (s.Gradient_Primitive 1 0 + s.Gradient_Primitive 2 1
                    + s.Gradient_Primitive 3 2)/3)
            + (s.Gradient_Primitive 2 1
                - (s.Gradient_Primitive 1 0 + s.Gradient_Primitive 2 1
                    + s.Gradient_Primitive 3 2)/3)
              *(s.Gradient_Primitive 2 1
                - (s.Gradient_Primitive 1 0 + s.Gradient_Primitive 2 1
                    + s.Gradient_Primitive 3 2)/3)
            + (s.Gradient_Primitive 3 2
                - (s.Gradient_Primitive 1 0 + s.Gradient_Primitive 2 1
                    + s.Gradient_Primitive 3 2)/3)
              *(s.Gradient_Primitive 3 2
                - (s.Gradient_Primitive 1 0 + s.Gradient_Primitive 2 1
                    + s.Gradient_Primitive 3 2)/3)
            + (s.Gradient_Primitive 1 1 + s.Gradient_Primitive 2 0)
              *(s.Gradient_Primitive 1 1 + s.Gradient_Primitive 2 0)/2
            + (s.Gradient_Primitive 1 2 + s.Gradient_Primitive 3 0)
              *(s.Gradient_Primitive 1 2 + s.Gradient_Primitive 3 0)/2
            + (s.Gradient_Primitive 2 2 + s.Gradient_Primitive 3 1)
              *(s.Gradient_Primitive 2 2 + s.Gradient_Primitive 3 1)/2)) := by
  unfold CNSVariable.SetStrainMag
  rw [if_neg h]
  simp only [strainMag_offDiagonal, strainMag_diagonal, one_lit, two_lit, three_lit, zero_lit,
    half_lit]
  congr 1
  ring

/-- In three dimensions the routine computes the magnitude of the
specification. -/
theorem CNSVariable_SetStrainMag_spatial (sqrt : α → α) (s : CVariable α) (h : s.nDim = 3) :
    (CNSVariable.SetStrainMag sqrt s).StrainMag = specStrainMag sqrt 3 3 s.Gradient_Primitive := by
  rw [CNSVariable_SetStrainMag_else sqrt s (by omega)]
  unfold specStrainMag
  congr 1
  simp [Finset.sum_range_succ, specDeviatoricStrain, specVelocityGradient]
  ring

/-- The magnitude of the specification for a planar gradient, over the tensor of
the two dimensions and over the tensor of the planar field seen in space. -/
theorem specStrainMag_planar (sqrt : α → α) (G : Nat → Nat → α) :
    specStrainMag sqrt 2 2 G
        = sqrt (2*((G 1 0 - (G 1 0 + G 2 1)/3)*(G 1 0 - (G 1 0 + G 2 1)/3)
            + (G 2 1 - (G 1 0 + G 2 1)/3)*(G 2 1 - (G 1 0 + G 2 1)/3)
            + (G 1 1 + G 2 0)*(G 1 1 + G 2 0)/2))
    ∧ specStrainMag sqrt 2 3 G
        = sqrt (2*((G 1 0 - (G 1 0 + G 2 1)/3)*(G 1 0 - (G 1 0 + G 2 1)/3)
            + (G 2 1 - (G 1 0 + G 2 1)/3)*(G 2 1 - (G 1 0 + G 2 1)/3)
            + (G 1 0 + G 2 1)/3*((G 1 0 + G 2 1)/3)
            + (G 1 1 + G 2 0)*(G 1 1 + G 2 0)/2)) := by
  unfold specStrainMag
  constructor
  · congr 1
    simp [Finset.sum_range_succ, specDeviatoricStrain, specVelocityGradient]
    ring
  · congr 1
    simp [Finset.sum_range_succ, specDeviatoricStrain, specVelocityGradient]
    ring

/-- A rigid-body rotation, whose velocity gradient is antisymmetric, has the
strain-rate magnitude `sqrt 0` in both branches. -/
theorem CNSVariable_SetStrainMag_rigid (sqrt : α → α) (s : CVariable α)
    (hd : s.nDim = 2 ∨ s.nDim = 3)
    (ha : ∀ i j, i < s.nDim → j < s.nDim →
      s.Gradient_Primitive (i+1) j = -s.Gradient_Primitive (j+1) i) :
    (CNSVariable.SetStrainMag sqrt s).StrainMag = sqrt 0 := by
  have hz : ∀ x : α, x = -x → x = 0 := fun x hx => by linarith
  rcases hd with hd | hd
  · rw [CNSVariable_SetStrainMag_nDim2 sqrt s hd]
    rw [hd] at ha
    have h00 := hz _ (ha 0 0 (by decide) (by decide))
    have h11 := hz _ (ha 1 1 (by decide) (by decide))
    have h01 := ha 0 1 (by decide) (by decide)
    simp only [zero_add] at h00 h11 h01
    rw [h00, h11, h01]
    congr 1
    ring
  · rw [CNSVariable_SetStrainMag_else sqrt s (by omega)]
    rw [hd] at ha
    have h00 := hz _ (ha 0 0 (by decide) (by decide))
    have h11 := hz _ (ha 1 1 (by decide) (by decide))
    have h22 := hz _ (ha 2 2 (by decide) (by decide))
    have h01 := ha 0 1 (by decide) (by decide)
    have h02 := ha 0 2 (by decide) (by decide)
    have h12 := ha 1 2 (by decide) (by decide)
    simp only [zero_add] at h00 h11 h22 h01 h02 h12
    rw [h00, h11, h22, h01, h02, h12]
    congr 1
    ring

/-- C31 (strain-rate magnitude): the `nDim == 2` branch of
`CNSVariable::SetStrainMag` does not compute `sqrt(2·Σ D_ij²)`.  In a pure shear
`∂u/∂y = 1` in two dimensions the routine stores 2, while the formula gives 1, over
the tensor of the two dimensions and over that of the planar field seen in space,
and the three-dimensional branch stores 1 for the same gradient.  In a pure
dilatation `∂u/∂x = 3` the two-dimensional branch stores `sqrt 10` and the
three-dimensional branch `sqrt 12` for the same gradient.  Real arithmetic with the
real square root. -/
theorem C31_strain_magnitude_nDim2_diverges :
    (scenarioPlanarShear ℝ).nDim = 2
    ∧ (CNSVariable.SetStrainMag Real.sqrt (scenarioPlanarShear ℝ)).StrainMag = 2
    ∧ specStrainMag Real.sqrt 2 2 (scenarioPlanarShear ℝ).Gradient_Primitive = 1
    ∧ specStrainMag Real.sqrt 2 3 (scenarioPlanarShear ℝ).Gradient_Primitive = 1
    ∧ (inSpace (scenarioPlanarShear ℝ)).Gradient_Primitive
        = (scenarioPlanarShear ℝ).Gradient_Primitive
    ∧ (CNSVariable.SetStrainMag Real.sqrt (inSpace (scenarioPlanarShear ℝ))).StrainMag = 1
    ∧ (CNSVariable.SetStrainMag Real.sqrt (scenarioDilatation ℝ)).StrainMag = Real.sqrt 10
    ∧ (CNSVariable.SetStrainMag Real.sqrt (inSpace (scenarioDilatation ℝ))).StrainMag
        = Real.sqrt 12
    ∧ Real.sqrt 10 ≠ Real.sqrt 12 := by
  have h4 : Real.sqrt 4 = 2 := by
    rw [show (4 : ℝ) = 2^2 by norm_num, Real.sqrt_sq (by norm_num)]
  refine ⟨rfl, ?_, ?_, ?_, rfl, ?_, ?_, ?_, ?_⟩
  · rw [CNSVariable_SetStrainMag_nDim2 Real.sqrt _ rfl]
    norm_num [scenarioPlanarShear, mat]
    exact h4
  · rw [(specStrainMag_planar Real.sqrt _).1]
    norm_num [scenarioPlanarShear, mat]
  · rw [(specStrainMag_planar Real.sqrt _).2]
    norm_num [scenarioPlanarShear, mat]
  · rw [CNSVariable_SetStrainMag_else Real.sqrt _ (by decide)]
    norm_num [scenarioPlanarShear, inSpace, mat]
  · rw [CNSVariable_SetStrainMag_nDim2 Real.sqrt _ rfl]
    norm_num [scenarioDilatation, mat]
  · rw [CNSVariable_SetStrainMag_else Real.sqrt _ (by decide)]
    norm_num [scenarioDilatation, inSpace, mat]
  · rw [Ne, Real.sqrt_inj (by norm_num) (by norm_num)]
    norm_num

end SU2
